import Mathlib

/-!
# libSNAP frame engine (snap.c / snap.h): shallow embedding

Bytes, 16-bit and 32-bit machine integers are natural numbers; every place where the
C code truncates (a cast, an assignment to a narrower variable, unsigned wrap-around)
carries an explicit `%`.  The target is AVR (8-bit `uint_fast8_t`, 16-bit
`uint_fast16_t` and `unsigned int`).

The frame record owns the contents of the buffer it points to: `buffer` is the list of
bytes of the caller's array (its length is the physical length of the array).  A write
`buffer[i] = v` is `List.set`; a read `buffer[i]` is `List.getD _ i 0`.
-/

namespace Snap

/-! ## Constants of snap.h -/

def SNAP_ERROR_NULL_FRAME : Int := -1
def SNAP_ERROR_NULL_BUFFER : Int := -2
def SNAP_ERROR_SHORT_BUFFER : Int := -3
def SNAP_ERROR_UNKNOWN_FORMAT : Int := -4
def SNAP_ERROR_FRAME_FORMAT : Int := -5
def SNAP_ERROR_SHORT_FRAME : Int := -6
def SNAP_ERROR_FIELD_TYPE : Int := -7

def SNAP_HDB2_DAB_MASK : Nat := 0x03
def SNAP_HDB2_DAB_POS : Nat := 6
def SNAP_HDB2_SAB_MASK : Nat := 0x03
def SNAP_HDB2_SAB_POS : Nat := 4
def SNAP_HDB2_PFB_MASK : Nat := 0x03
def SNAP_HDB2_PFB_POS : Nat := 2
def SNAP_HDB2_ACK_MASK : Nat := 0x03
def SNAP_HDB2_ACK_POS : Nat := 0
def SNAP_HDB1_CMD_MASK : Nat := 0x01
def SNAP_HDB1_CMD_POS : Nat := 7
def SNAP_HDB1_EDM_MASK : Nat := 0x07
def SNAP_HDB1_EDM_POS : Nat := 4
def SNAP_HDB1_NDB_MASK : Nat := 0x0F
def SNAP_HDB1_NDB_POS : Nat := 0

def SNAP_SIZE_SYNC : Nat := 1
def SNAP_SIZE_HDB2 : Nat := 1
def SNAP_SIZE_HDB1 : Nat := 1
def SNAP_SIZE_HEADER : Nat := SNAP_SIZE_HDB2 + SNAP_SIZE_HDB1
def SNAP_MIN_SIZE_FRAME : Nat := SNAP_SIZE_SYNC + SNAP_SIZE_HEADER
def SNAP_MAX_SIZE_FRAME : Nat := 528

def SNAP_INDEX_SYNC : Nat := 0
def SNAP_INDEX_HDB2 : Nat := 1
def SNAP_INDEX_HDB1 : Nat := 2
def SNAP_INDEX_DAB : Nat := 3

def SNAP_SYNC : Nat := 0x54
def SNAP_PADDING : Nat := 0x00

def SNAP_FIELD_HEADER : Nat := 0
def SNAP_FIELD_DEST_ADDRESS : Nat := 1
def SNAP_FIELD_SOURCE_ADDRESS : Nat := 2
def SNAP_FIELD_PROTOCOL_FLAGS : Nat := 3
def SNAP_FIELD_DATA : Nat := 4
def SNAP_FIELD_HASH : Nat := 5

def SNAP_HDB1_EDM_8BIT_CHECKSUM : Nat := 2
def SNAP_HDB1_EDM_8BIT_CRC : Nat := 3
def SNAP_HDB1_EDM_16BIT_CRC : Nat := 4
def SNAP_HDB1_EDM_32BIT_CRC : Nat := 5
def SNAP_HDB1_EDM_USER_SPECIFIED : Nat := 7

def SNAP_STATUS_IDLE : Int := 0
def SNAP_STATUS_INCOMPLETE : Int := 1
def SNAP_STATUS_VALID : Int := 2
def SNAP_STATUS_ERROR_HASH : Int := -1
def SNAP_STATUS_ERROR_OVERFLOW : Int := -2

/-- Build-time choices of the integrator: the compile-time constant
`SNAP_SIZE_USER_HASH` (0 to 4, enforced by an `#error` in snap.h) and the body that
overrides the weak function `snap_calculateUserHash`.  The hook receives the `size`
bytes at `data`, the only memory its contract lets it read. -/
structure snap_build_t where
  SNAP_SIZE_USER_HASH : Nat
  snap_calculateUserHash : List Nat → Nat

/-- The build used when nothing is overridden: `SNAP_SIZE_USER_HASH` is `0U` and the
weak `snap_calculateUserHash` returns 0. -/
def snap_build_default : snap_build_t :=
  { SNAP_SIZE_USER_HASH := 0, snap_calculateUserHash := fun _ => 0 }

/-! ## Types of snap.h -/

/-- Record `snap_header_t`.  In C the members are bit-fields of 2, 2, 2, 2, 1, 3 and 4
bits; `snap_header_ok` states those ranges. -/
structure snap_header_t where
  dab : Nat
  sab : Nat
  pfb : Nat
  ack : Nat
  cmd : Nat
  edm : Nat
  ndb : Nat
  deriving DecidableEq, Repr

/-- The ranges that the C bit-field widths impose on a header record. -/
def snap_header_ok (h : snap_header_t) : Prop :=
  h.dab < 4 ∧ h.sab < 4 ∧ h.pfb < 4 ∧ h.ack < 4 ∧ h.cmd < 2 ∧ h.edm < 8 ∧ h.ndb < 16

instance (h : snap_header_t) : Decidable (snap_header_ok h) := by
  unfold snap_header_ok; infer_instance

/-- The pointer `fields->data`: `NULL`, an array of its own, or a pointer into the
frame buffer at the given offset (the source documents that data and buffer may be
the same array). -/
inductive snap_data_t where
  | null
  | array (bytes : List Nat)
  | inBuffer (offset : Nat)
  deriving DecidableEq, Repr

/-- Record `snap_fields_t`. -/
structure snap_fields_t where
  data : snap_data_t
  destAddress : Nat
  sourceAddress : Nat
  protocolFlags : Nat
  header : snap_header_t
  dataSize : Nat
  paddingAfter : Bool
  deriving DecidableEq, Repr

/-- Record `snap_frame_t`; `buffer` holds the bytes of the array the C pointer refers
to. -/
structure snap_frame_t where
  buffer : List Nat
  maxSize : Nat
  size : Nat
  status : Int
  deriving DecidableEq, Repr

/-- The object behind the `void *fieldContent` argument of `snap_getField`: a
`snap_header_t`, a `uint32_t`, or an array of `uint8_t`. -/
inductive snap_content_t where
  | header (h : snap_header_t)
  | word (v : Nat)
  | bytes (bs : List Nat)
  deriving DecidableEq, Repr

/-! ## Macros of snap.h -/

def SNAP_GET_BITS (integer mask pos : Nat) : Nat := (integer >>> pos) &&& mask

def SNAP_HDB2 (pByteArray : List Nat) : Nat := pByteArray.getD SNAP_INDEX_HDB2 0
def SNAP_HDB1 (pByteArray : List Nat) : Nat := pByteArray.getD SNAP_INDEX_HDB1 0

def SNAP_HDB2_DAB (p : List Nat) : Nat := SNAP_GET_BITS (SNAP_HDB2 p) SNAP_HDB2_DAB_MASK SNAP_HDB2_DAB_POS
def SNAP_HDB2_SAB (p : List Nat) : Nat := SNAP_GET_BITS (SNAP_HDB2 p) SNAP_HDB2_SAB_MASK SNAP_HDB2_SAB_POS
def SNAP_HDB2_PFB (p : List Nat) : Nat := SNAP_GET_BITS (SNAP_HDB2 p) SNAP_HDB2_PFB_MASK SNAP_HDB2_PFB_POS
def SNAP_HDB2_ACK (p : List Nat) : Nat := SNAP_GET_BITS (SNAP_HDB2 p) SNAP_HDB2_ACK_MASK SNAP_HDB2_ACK_POS
def SNAP_HDB1_CMD (p : List Nat) : Nat := SNAP_GET_BITS (SNAP_HDB1 p) SNAP_HDB1_CMD_MASK SNAP_HDB1_CMD_POS
def SNAP_HDB1_EDM (p : List Nat) : Nat := SNAP_GET_BITS (SNAP_HDB1 p) SNAP_HDB1_EDM_MASK SNAP_HDB1_EDM_POS
def SNAP_HDB1_NDB (p : List Nat) : Nat := SNAP_GET_BITS (SNAP_HDB1 p) SNAP_HDB1_NDB_MASK SNAP_HDB1_NDB_POS

/-! ## Size tables -/

/-- Function `snap_getNdbFromDataSize` (argument `uint16_t`, result `uint8_t`). -/
def snap_getNdbFromDataSize (dataSize : Nat) : Nat :=
  if dataSize ≤ 8 then dataSize % 256
  else if dataSize ≤ 16 then 9
  else if dataSize ≤ 32 then 10
  else if dataSize ≤ 64 then 11
  else if dataSize ≤ 128 then 12
  else if dataSize ≤ 256 then 13
  else if dataSize ≤ 512 then 14
  else 0

/-- Function `snap_getDataSizeFromNdb` (argument `uint8_t`, result `uint16_t`). -/
def snap_getDataSizeFromNdb (ndb : Nat) : Nat :=
  if ndb ≤ 8 then ndb
  else if ndb ≤ 14 then (1 <<< (ndb - 5)) % 65536
  else 0

/-- Function `snap_getHashSizeFromEdm`: the static table indexed by the three low bits
of `edm`. -/
def snap_getHashSizeFromEdm (cfg : snap_build_t) (edm : Nat) : Nat :=
  [0, 0, 1, 1, 2, 4, 0, cfg.SNAP_SIZE_USER_HASH].getD (edm &&& SNAP_HDB1_EDM_MASK) 0

def SNAP_SIZE_DATA (p : List Nat) : Nat := snap_getDataSizeFromNdb (SNAP_HDB1_NDB p)
def SNAP_SIZE_HASH (cfg : snap_build_t) (p : List Nat) : Nat :=
  snap_getHashSizeFromEdm cfg (SNAP_HDB1_EDM p)

def SNAP_INDEX_SAB (p : List Nat) : Nat := SNAP_INDEX_DAB + SNAP_HDB2_DAB p
def SNAP_INDEX_PFB (p : List Nat) : Nat := SNAP_INDEX_SAB p + SNAP_HDB2_SAB p
def SNAP_INDEX_DATA (p : List Nat) : Nat := SNAP_INDEX_PFB p + SNAP_HDB2_PFB p
def SNAP_INDEX_HASH (p : List Nat) : Nat := SNAP_INDEX_DATA p + SNAP_SIZE_DATA p

/-! ## Hash engine

Each function receives the memory starting at the `data` pointer and the `size`
argument; the loop `for (i = 0; i < size; i++)` visits `data.take size` in order. -/

/-- Function `snap_calculateChecksum8`. -/
def snap_calculateChecksum8 (data : List Nat) (size : Nat) : Nat :=
  (data.take size).foldl (fun checksum b => (checksum + b) % 256) 0

/-- One pass of the inner loop of the bit-serial `snap_calculateCrc8`. -/
def crc8_bit (crc : Nat) : Nat :=
  if crc &&& 1 ≠ 0 then ((crc >>> 1) ^^^ 0x8C) % 256 else (crc >>> 1) % 256

/-- Body of the outer loop of `snap_calculateCrc8` for one data byte. -/
def crc8_byte (crc b : Nat) : Nat := crc8_bit^[8] ((crc ^^^ b) % 256)

/-- Function `snap_calculateCrc8` (bit-serial variant, `SNAP_CRC8_TABLE` not defined). -/
def snap_calculateCrc8 (data : List Nat) (size : Nat) : Nat :=
  (data.take size).foldl crc8_byte 0

/-- One pass of the inner loop of the bit-serial `snap_calculateCrc16`. -/
def crc16_bit (crc : Nat) : Nat :=
  if crc &&& 0x8000 ≠ 0 then ((crc <<< 1) ^^^ 0x1021) % 65536 else (crc <<< 1) % 65536

/-- Body of the outer loop of `snap_calculateCrc16` for one data byte. -/
def crc16_byte (crc b : Nat) : Nat := crc16_bit^[8] ((crc ^^^ ((b <<< 8) % 65536)) % 65536)

/-- Function `snap_calculateCrc16` (bit-serial variant). -/
def snap_calculateCrc16 (data : List Nat) (size : Nat) : Nat :=
  (data.take size).foldl crc16_byte 0

/-- One pass of the inner loop of the bit-serial `snap_calculateCrc32`. -/
def crc32_bit (crc : Nat) : Nat :=
  if crc &&& 1 ≠ 0 then ((crc >>> 1) ^^^ 0xEDB88320) % 4294967296 else (crc >>> 1) % 4294967296

/-- Body of the outer loop of `snap_calculateCrc32` for one data byte. -/
def crc32_byte (crc b : Nat) : Nat := crc32_bit^[8] ((crc ^^^ b) % 4294967296)

/-- Function `snap_calculateCrc32` (bit-serial variant); the result is `~crc` on 32
bits. -/
def snap_calculateCrc32 (data : List Nat) (size : Nat) : Nat :=
  0xFFFFFFFF - (data.take size).foldl crc32_byte 0xFFFFFFFF

/-- Function `snap_calculateHash`: the `int8_t` result and the new value of `*hash`
(unchanged when an error is returned). -/
def snap_calculateHash (cfg : snap_build_t) (frame : snap_frame_t) (hash : Nat) : Int × Nat :=
  if frame.size < SNAP_MIN_SIZE_FRAME then (SNAP_ERROR_UNKNOWN_FORMAT, hash)
  else if SNAP_SIZE_HASH cfg frame.buffer = 0 then (SNAP_ERROR_FRAME_FORMAT, hash)
  else
    let frameSize := SNAP_INDEX_HASH frame.buffer % 65536
    if frame.size < frameSize then (SNAP_ERROR_SHORT_FRAME, hash)
    else
      let frameSize := (frameSize + 65535) % 65536
      let data := frame.buffer.drop SNAP_INDEX_HDB2
      let edm := SNAP_HDB1_EDM frame.buffer
      if edm = SNAP_HDB1_EDM_8BIT_CHECKSUM then (1, snap_calculateChecksum8 data frameSize)
      else if edm = SNAP_HDB1_EDM_8BIT_CRC then (1, snap_calculateCrc8 data frameSize)
      else if edm = SNAP_HDB1_EDM_16BIT_CRC then (2, snap_calculateCrc16 data frameSize)
      else if edm = SNAP_HDB1_EDM_32BIT_CRC then (4, snap_calculateCrc32 data frameSize)
      else if edm = SNAP_HDB1_EDM_USER_SPECIFIED then
        (Int.ofNat cfg.SNAP_SIZE_USER_HASH,
          cfg.snap_calculateUserHash (data.take frameSize) % 4294967296)
      else (SNAP_ERROR_FRAME_FORMAT, hash)

/-! ## Frame lifecycle -/

/-- Function `snap_init`.  A `NULL` frame or buffer pointer is `none`; the result is
the `int16_t` return value and the frame record after the call. -/
def snap_init (frame : Option snap_frame_t) (buffer : Option (List Nat)) (maxSize : Nat) :
    Int × Option snap_frame_t :=
  match frame with
  | none => (SNAP_ERROR_NULL_FRAME, frame)
  | some f =>
    match buffer with
    | none => (SNAP_ERROR_NULL_BUFFER, frame)
    | some b =>
      if maxSize < SNAP_MIN_SIZE_FRAME then (SNAP_ERROR_SHORT_BUFFER, frame)
      else
        let f := { f with maxSize := if maxSize > SNAP_MAX_SIZE_FRAME then SNAP_MAX_SIZE_FRAME else maxSize }
        let f := { f with buffer := b }
        let f := { f with status := SNAP_STATUS_IDLE }
        let f := { f with size := 0 }
        (Int.ofNat f.maxSize, some f)

/-- Function `snap_reset`. -/
def snap_reset (frame : snap_frame_t) : snap_frame_t :=
  let frame := { frame with size := 0 }
  { frame with status := SNAP_STATUS_IDLE }

/-! ## Field accessor -/

/-- The loop `for (i = fieldIndex; i < frameSize; i++) v = (v << 8) | buffer[i]` of
`snap_getField` on a `uint32_t`; the first argument counts the remaining passes. -/
def snap_getField_word (buffer : List Nat) : Nat → Nat → Nat → Nat
  | 0, _, v => v
  | n + 1, i, v => snap_getField_word buffer n (i + 1) (((v <<< 8) ||| buffer.getD i 0) % 4294967296)

/-- The loop `for (i = 0; i < fieldSize; i++) out[i] = buffer[fieldIndex + i]` of
`snap_getField`; the first argument counts the remaining passes. -/
def snap_getField_copy (buffer : List Nat) (fieldIndex : Nat) : Nat → Nat → List Nat → List Nat
  | 0, _, out => out
  | n + 1, i, out => snap_getField_copy buffer fieldIndex n (i + 1) (out.set i (buffer.getD (fieldIndex + i) 0))

/-- Function `snap_getField`: the `int16_t` result and the object behind `fieldContent`
after the call.  For the data field the destination array is the one passed in (an
object of another kind is taken as an array of length 0). -/
def snap_getField (cfg : snap_build_t) (frame : snap_frame_t) (fieldContent : snap_content_t)
    (fieldType : Nat) : Int × snap_content_t :=
  if frame.size < SNAP_MIN_SIZE_FRAME then (SNAP_ERROR_UNKNOWN_FORMAT, fieldContent)
  else if fieldType = SNAP_FIELD_HEADER then
    (Int.ofNat SNAP_SIZE_HEADER,
      .header { dab := SNAP_HDB2_DAB frame.buffer, sab := SNAP_HDB2_SAB frame.buffer,
                pfb := SNAP_HDB2_PFB frame.buffer, ack := SNAP_HDB2_ACK frame.buffer,
                cmd := SNAP_HDB1_CMD frame.buffer, edm := SNAP_HDB1_EDM frame.buffer,
                ndb := SNAP_HDB1_NDB frame.buffer })
  else
    let sel : Option (Nat × Nat) :=
      if fieldType = SNAP_FIELD_DEST_ADDRESS then
        some (SNAP_INDEX_DAB, SNAP_HDB2_DAB frame.buffer)
      else if fieldType = SNAP_FIELD_SOURCE_ADDRESS then
        some (SNAP_INDEX_SAB frame.buffer % 65536, SNAP_HDB2_SAB frame.buffer)
      else if fieldType = SNAP_FIELD_DATA then
        some (SNAP_INDEX_DATA frame.buffer % 65536, SNAP_SIZE_DATA frame.buffer)
      else if fieldType = SNAP_FIELD_HASH then
        some (SNAP_INDEX_HASH frame.buffer % 65536, SNAP_SIZE_HASH cfg frame.buffer)
      else if fieldType = SNAP_FIELD_PROTOCOL_FLAGS then
        some (SNAP_INDEX_PFB frame.buffer % 65536, SNAP_HDB2_PFB frame.buffer)
      else none
    match sel with
    | none => (SNAP_ERROR_FIELD_TYPE, fieldContent)
    | some (fieldIndex, fieldSize) =>
      if fieldSize = 0 then (SNAP_ERROR_FRAME_FORMAT, fieldContent)
      else
        let frameSize := (fieldIndex + fieldSize) % 65536
        if frame.size < frameSize then (SNAP_ERROR_SHORT_FRAME, fieldContent)
        else if fieldType = SNAP_FIELD_DATA then
          let out := match fieldContent with
            | .bytes bs => bs
            | _ => []
          (Int.ofNat fieldSize, .bytes (snap_getField_copy frame.buffer fieldIndex fieldSize 0 out))
        else
          (Int.ofNat fieldSize,
            .word (snap_getField_word frame.buffer (frameSize - fieldIndex) fieldIndex 0))

/-! ## Frame decoder -/

/-- Function `snap_decode`: the `int8_t` result and the frame after the call.  The
locals `expectedHash` and `actualHash` are uninitialised in C; both calls that fill
them succeed on this path, and the model starts them at 0. -/
def snap_decode (cfg : snap_build_t) (frame : snap_frame_t) (newByte : Nat) : Int × snap_frame_t :=
  if frame.status = SNAP_STATUS_IDLE then
    if newByte = SNAP_SYNC then
      let frame := { frame with buffer := frame.buffer.set SNAP_INDEX_SYNC newByte }
      let frame := { frame with size := 1 }
      let frame := { frame with status := SNAP_STATUS_INCOMPLETE }
      (frame.status, frame)
    else (frame.status, frame)
  else if frame.status = SNAP_STATUS_INCOMPLETE then
    let frame := { frame with buffer := frame.buffer.set frame.size newByte,
                              size := (frame.size + 1) % 65536 }
    if frame.size ≥ SNAP_MIN_SIZE_FRAME then
      let hashSize := SNAP_SIZE_HASH cfg frame.buffer
      let fullFrameSize := (SNAP_INDEX_HASH frame.buffer + hashSize) % 65536
      if frame.maxSize < fullFrameSize then
        let frame := { frame with status := SNAP_STATUS_ERROR_OVERFLOW }
        (frame.status, frame)
      else if frame.size ≥ fullFrameSize then
        if hashSize ≠ 0 then
          let expectedHash := (snap_calculateHash cfg frame 0).2
          let actualHash :=
            match (snap_getField cfg frame (.word 0) SNAP_FIELD_HASH).2 with
            | .word v => v
            | _ => 0
          let frame := { frame with status :=
            if actualHash = expectedHash then SNAP_STATUS_VALID else SNAP_STATUS_ERROR_HASH }
          (frame.status, frame)
        else
          let frame := { frame with status := SNAP_STATUS_VALID }
          (frame.status, frame)
      else (frame.status, frame)
    else (frame.status, frame)
  else (frame.status, frame)

/-- Feeding a sequence of bytes to `snap_decode`, one call per byte, in order: the
list of returned statuses and the frame after the last call. -/
def snap_decode_bytes (cfg : snap_build_t) (frame : snap_frame_t) : List Nat → List Int × snap_frame_t
  | [] => ([], frame)
  | b :: bs =>
    let r := snap_decode cfg frame b
    let rs := snap_decode_bytes cfg r.2 bs
    (r.1 :: rs.1, rs.2)

/-! ## Frame encoder -/

/-- The byte `fields->data[k]`, read in the current state of the frame buffer. -/
def snap_data_read (data : snap_data_t) (buffer : List Nat) (k : Nat) : Nat :=
  match data with
  | .null => 0
  | .array bytes => bytes.getD k 0
  | .inBuffer offset => buffer.getD (offset + k) 0

/-- The copy loop of `snap_encapsulate`,
`for (i = dataIndex + dataSize - 1; i >= dataIndex; i--) buffer[i] = data[i - dataIndex]`,
entered with the counter at `i`.  With `dataIndex = 0` the C loop would not end; the
encoder never reaches that case (`dataIndex` is never 0 there), and the model stops
after index 0.  A store at an index past the end of the list is dropped, where the C code
writes outside the array: the model is exact on inputs that keep every store inside the
buffer, and the theorems about this loop assume such inputs. -/
def snap_encapsulate_copy (data : snap_data_t) (dataIndex : Nat) : Nat → List Nat → List Nat
  | 0, buffer =>
    if 0 ≥ dataIndex then buffer.set 0 (snap_data_read data buffer (0 - dataIndex)) else buffer
  | i + 1, buffer =>
    if i + 1 ≥ dataIndex then
      snap_encapsulate_copy data dataIndex i
        (buffer.set (i + 1) (snap_data_read data buffer (i + 1 - dataIndex)))
    else buffer

/-- The padding loop of `snap_encapsulate`,
`for (i = paddingIndex; i < bound; i++) buffer[i] = SNAP_PADDING`; the first argument
counts the remaining passes (`bound - i`).  As in the copy loop, a store past the end of
the list is dropped, so the model is exact on inputs that keep every store inside the
buffer. -/
def snap_encapsulate_pad : Nat → Nat → List Nat → List Nat
  | 0, _, buffer => buffer
  | n + 1, i, buffer => snap_encapsulate_pad n (i + 1) (buffer.set i SNAP_PADDING)

/-- The loop `for (i = count; i != 0; i--) buffer[size++] = (value >> ((i - 1) * 8)) & 0xFF`
that `snap_encapsulate` runs for the destination address, the source address, the
protocol flags and the hash value. -/
def snap_encapsulate_put (value : Nat) : Nat → snap_frame_t → snap_frame_t
  | 0, frame => frame
  | i + 1, frame =>
    snap_encapsulate_put value i
      { frame with buffer := frame.buffer.set frame.size ((value >>> (i * 8)) &&& 0xFF),
                   size := (frame.size + 1) % 65536 }

/-- Function `snap_encapsulate`: the `int8_t` result, the frame after the call and the
descriptor after the call (the function updates `dataSize` and `header.ndb`). -/
def snap_encapsulate (cfg : snap_build_t) (frame : snap_frame_t) (fields : snap_fields_t) :
    Int × snap_frame_t × snap_fields_t :=
  let fields := match fields.data with
    | .null => { fields with dataSize := 0 }
    | _ => fields
  let fields := { fields with header :=
    { fields.header with ndb := snap_getNdbFromDataSize fields.dataSize &&& SNAP_HDB1_NDB_MASK } }
  let payloadSize := snap_getDataSizeFromNdb fields.header.ndb
  let hashSize := snap_getHashSizeFromEdm cfg fields.header.edm
  let payloadIndex := (SNAP_INDEX_DAB + fields.header.dab + fields.header.sab + fields.header.pfb) % 256
  if frame.maxSize < payloadIndex + payloadSize + hashSize then
    let frame := { frame with size := 0 }
    let frame := { frame with status := SNAP_STATUS_ERROR_OVERFLOW }
    (frame.status, frame, fields)
  else
    let paddingSize := (payloadSize + 65536 - fields.dataSize) % 65536
    let dataIndex := if fields.paddingAfter then payloadIndex else (payloadIndex + paddingSize) % 65536
    let paddingIndex :=
      if fields.paddingAfter then (payloadIndex + fields.dataSize) % 65536 else payloadIndex
    let buffer := snap_encapsulate_copy fields.data dataIndex
      ((dataIndex + fields.dataSize + 65535) % 65536) frame.buffer
    let buffer := snap_encapsulate_pad ((paddingIndex + paddingSize) % 65536 - paddingIndex)
      paddingIndex buffer
    let buffer := buffer.set SNAP_INDEX_SYNC SNAP_SYNC
    let buffer := buffer.set SNAP_INDEX_HDB2
      (((fields.header.dab <<< SNAP_HDB2_DAB_POS) ||| (fields.header.sab <<< SNAP_HDB2_SAB_POS) |||
        (fields.header.pfb <<< SNAP_HDB2_PFB_POS) ||| (fields.header.ack <<< SNAP_HDB2_ACK_POS)) % 256)
    let buffer := buffer.set SNAP_INDEX_HDB1
      (((fields.header.cmd <<< SNAP_HDB1_CMD_POS) ||| (fields.header.edm <<< SNAP_HDB1_EDM_POS) |||
        (fields.header.ndb <<< SNAP_HDB1_NDB_POS)) % 256)
    let frame := { frame with buffer := buffer, size := SNAP_INDEX_DAB }
    let frame := snap_encapsulate_put fields.destAddress fields.header.dab frame
    let frame := snap_encapsulate_put fields.sourceAddress fields.header.sab frame
    let frame := snap_encapsulate_put fields.protocolFlags fields.header.pfb frame
    let frame := { frame with size := (frame.size + payloadSize) % 65536 }
    let frame :=
      if hashSize ≠ 0 then
        let hashValue := (snap_calculateHash cfg frame 0).2
        snap_encapsulate_put hashValue hashSize frame
      else frame
    let frame := { frame with status := SNAP_STATUS_VALID }
    (frame.status, frame, fields)

/-! ## Stages of snap_encapsulate

The names below cut the body of `snap_encapsulate` into its successive stages;
`snap_encapsulate_eq` shows that the function is exactly their composition. -/

/-- The data length the encoder works with: 0 when the data pointer is `NULL`. -/
def enc_dataSize (fields : snap_fields_t) : Nat :=
  match fields.data with
  | .null => 0
  | _ => fields.dataSize

/-- The descriptor as `snap_encapsulate` leaves it. -/
def enc_fields (fields : snap_fields_t) : snap_fields_t :=
  { data := fields.data, destAddress := fields.destAddress, sourceAddress := fields.sourceAddress,
    protocolFlags := fields.protocolFlags,
    header := { fields.header with
      ndb := snap_getNdbFromDataSize (enc_dataSize fields) &&& SNAP_HDB1_NDB_MASK },
    dataSize := enc_dataSize fields, paddingAfter := fields.paddingAfter }

/-- Local `payloadSize` of `snap_encapsulate`. -/
def enc_payloadSize (fields : snap_fields_t) : Nat :=
  snap_getDataSizeFromNdb (enc_fields fields).header.ndb

/-- Local `payloadIndex` of `snap_encapsulate`. -/
def enc_payloadIndex (fields : snap_fields_t) : Nat :=
  (SNAP_INDEX_DAB + fields.header.dab + fields.header.sab + fields.header.pfb) % 256

/-- Local `paddingSize` of `snap_encapsulate`. -/
def enc_paddingSize (fields : snap_fields_t) : Nat :=
  (enc_payloadSize fields + 65536 - enc_dataSize fields) % 65536

/-- Local `dataIndex` of `snap_encapsulate`. -/
def enc_dataIndex (fields : snap_fields_t) : Nat :=
  if fields.paddingAfter then enc_payloadIndex fields
  else (enc_payloadIndex fields + enc_paddingSize fields) % 65536

/-- Local `paddingIndex` of `snap_encapsulate`. -/
def enc_paddingIndex (fields : snap_fields_t) : Nat :=
  if fields.paddingAfter then (enc_payloadIndex fields + enc_dataSize fields) % 65536
  else enc_payloadIndex fields

/-- The byte written at `SNAP_INDEX_HDB2`. -/
def enc_hdb2 (h : snap_header_t) : Nat :=
  ((h.dab <<< SNAP_HDB2_DAB_POS) ||| (h.sab <<< SNAP_HDB2_SAB_POS) |||
    (h.pfb <<< SNAP_HDB2_PFB_POS) ||| (h.ack <<< SNAP_HDB2_ACK_POS)) % 256

/-- The byte written at `SNAP_INDEX_HDB1`. -/
def enc_hdb1 (h : snap_header_t) : Nat :=
  ((h.cmd <<< SNAP_HDB1_CMD_POS) ||| (h.edm <<< SNAP_HDB1_EDM_POS) |||
    (h.ndb <<< SNAP_HDB1_NDB_POS)) % 256

/-- The buffer after the copy loop and the padding loop. -/
def enc_payloadBuffer (frame : snap_frame_t) (fields : snap_fields_t) : List Nat :=
  snap_encapsulate_pad
    ((enc_paddingIndex fields + enc_paddingSize fields) % 65536 - enc_paddingIndex fields)
    (enc_paddingIndex fields)
    (snap_encapsulate_copy fields.data (enc_dataIndex fields)
      ((enc_dataIndex fields + enc_dataSize fields + 65535) % 65536) frame.buffer)

/-- The frame once payload, sync byte and header bytes are in place (`size = 3`). -/
def enc_base (frame : snap_frame_t) (fields : snap_fields_t) : snap_frame_t :=
  { frame with
    buffer := (((enc_payloadBuffer frame fields).set SNAP_INDEX_SYNC SNAP_SYNC).set SNAP_INDEX_HDB2
      (enc_hdb2 (enc_fields fields).header)).set SNAP_INDEX_HDB1 (enc_hdb1 (enc_fields fields).header),
    size := SNAP_INDEX_DAB }

/-- The frame after the three address and flag loops and `size += payloadSize`. -/
def enc_body (frame : snap_frame_t) (fields : snap_fields_t) : snap_frame_t :=
  let f := snap_encapsulate_put fields.destAddress fields.header.dab (enc_base frame fields)
  let f := snap_encapsulate_put fields.sourceAddress fields.header.sab f
  let f := snap_encapsulate_put fields.protocolFlags fields.header.pfb f
  { f with size := (f.size + enc_payloadSize fields) % 65536 }

/-- The frame after the hash bytes are appended. -/
def enc_hashed (cfg : snap_build_t) (frame : snap_frame_t) (fields : snap_fields_t) : snap_frame_t :=
  if snap_getHashSizeFromEdm cfg fields.header.edm ≠ 0 then
    snap_encapsulate_put (snap_calculateHash cfg (enc_body frame fields) 0).2
      (snap_getHashSizeFromEdm cfg fields.header.edm) (enc_body frame fields)
  else enc_body frame fields

/-- The frame size `snap_encapsulate` compares with `maxSize`, written as in the claims:
`3 + dab + sab + pfb + payload bytes + hash bytes`. -/
def enc_total (cfg : snap_build_t) (fields : snap_fields_t) : Nat :=
  3 + fields.header.dab + fields.header.sab + fields.header.pfb +
    snap_getDataSizeFromNdb (snap_getNdbFromDataSize (enc_dataSize fields)) +
    snap_getHashSizeFromEdm cfg fields.header.edm

/-! ## The decoder's view of a buffer -/

/-- Local `fullFrameSize` of `snap_decode`, as computed from the header bytes held in a
buffer. -/
def dec_fullSize (cfg : snap_build_t) (buffer : List Nat) : Nat :=
  (SNAP_INDEX_HASH buffer + SNAP_SIZE_HASH cfg buffer) % 65536

/-- The status `snap_decode` assigns once `size` has reached `fullFrameSize`. -/
def dec_verdict (cfg : snap_build_t) (frame : snap_frame_t) : Int :=
  if SNAP_SIZE_HASH cfg frame.buffer ≠ 0 then
    if (match (snap_getField cfg frame (.word 0) SNAP_FIELD_HASH).2 with
        | .word v => v
        | _ => 0) = (snap_calculateHash cfg frame 0).2
    then SNAP_STATUS_VALID else SNAP_STATUS_ERROR_HASH
  else SNAP_STATUS_VALID

/-- The value the selected hash algorithm gives on a byte sequence (the bytes after the
sync byte, up to the hash field), for the four built-in methods. -/
def hash_of (edm : Nat) (bytes : List Nat) : Nat :=
  if edm = SNAP_HDB1_EDM_8BIT_CHECKSUM then snap_calculateChecksum8 bytes bytes.length
  else if edm = SNAP_HDB1_EDM_8BIT_CRC then snap_calculateCrc8 bytes bytes.length
  else if edm = SNAP_HDB1_EDM_16BIT_CRC then snap_calculateCrc16 bytes bytes.length
  else if edm = SNAP_HDB1_EDM_32BIT_CRC then snap_calculateCrc32 bytes bytes.length
  else 0

/-! ## Concrete inputs -/

/-- The descriptor of the concrete scenario of the specification: data `[0xAA, 0xBB]`,
destination address 0x05 on one byte, no source address, no flags, CRC-8, no
acknowledgement requested, command mode disabled. -/
def scenario_fields : snap_fields_t :=
  { data := .array [0xAA, 0xBB], destAddress := 0x05, sourceAddress := 0, protocolFlags := 0,
    header := { dab := 1, sab := 0, pfb := 0, ack := 0, cmd := 0, edm := SNAP_HDB1_EDM_8BIT_CRC,
                ndb := 0 },
    dataSize := 2, paddingAfter := true }

/-- A frame record of capacity 16 over a zeroed buffer, as `snap_init` leaves it. -/
def scenario_frame : snap_frame_t :=
  { buffer := List.replicate 16 0, maxSize := 16, size := 0, status := SNAP_STATUS_IDLE }

/-- A descriptor whose destination address does not fit its single address byte and
whose source address has no byte at all. -/
def wide_fields : snap_fields_t :=
  { data := .array [0xAA, 0xBB], destAddress := 0x1234, sourceAddress := 7, protocolFlags := 0,
    header := { dab := 1, sab := 0, pfb := 0, ack := 0, cmd := 0, edm := SNAP_HDB1_EDM_8BIT_CRC,
                ndb := 0 },
    dataSize := 2, paddingAfter := true }

/-- A descriptor with an empty data array. -/
def empty_fields : snap_fields_t :=
  { data := .array [], destAddress := 0x05, sourceAddress := 0, protocolFlags := 0,
    header := { dab := 1, sab := 0, pfb := 0, ack := 0, cmd := 0, edm := SNAP_HDB1_EDM_8BIT_CRC,
                ndb := 0 },
    dataSize := 0, paddingAfter := true }

/-! ## Tables and sums named by the specification -/

/-- The table of payload lengths of the size classes 0 to 14. -/
def size_table : List Nat := [0, 1, 2, 3, 4, 5, 6, 7, 8, 16, 32, 64, 128, 256, 512]

/-- The big-endian value of a byte sequence (most significant byte first). -/
def be_value (bytes : List Nat) : Nat := bytes.foldl (fun v b => v * 256 + b) 0

/-- The hash algorithm selected by an EDM code, applied to a byte sequence: one of the
four built-in methods, or the user's hook (a `uint32_t`) for the user-specified code. -/
def hash_selected (cfg : snap_build_t) (edm : Nat) (bytes : List Nat) : Nat :=
  if edm = SNAP_HDB1_EDM_USER_SPECIFIED then cfg.snap_calculateUserHash bytes % 4294967296
  else hash_of edm bytes
/-- A decode pass that is past the header, or finished without overflow. -/
def dec_past_header (cfg : snap_build_t) (g : snap_frame_t) : Prop :=
  (g.status = SNAP_STATUS_VALID ∨ g.status = SNAP_STATUS_ERROR_HASH) ∨
  (g.status = SNAP_STATUS_INCOMPLETE ∧ 3 ≤ g.size ∧ g.size < dec_fullSize cfg g.buffer ∧
    dec_fullSize cfg g.buffer ≤ g.maxSize)

/-- The full frame size that two header bytes announce, as the specification spells it:
`3 + DAB + SAB + PFB + snap_getDataSizeFromNdb(NDB) + snap_getHashSizeFromEdm(EDM)`. -/
def full_frame_size (cfg : snap_build_t) (hdb2 hdb1 : Nat) : Nat :=
  3 + SNAP_GET_BITS hdb2 SNAP_HDB2_DAB_MASK SNAP_HDB2_DAB_POS +
    SNAP_GET_BITS hdb2 SNAP_HDB2_SAB_MASK SNAP_HDB2_SAB_POS +
    SNAP_GET_BITS hdb2 SNAP_HDB2_PFB_MASK SNAP_HDB2_PFB_POS +
    snap_getDataSizeFromNdb (SNAP_GET_BITS hdb1 SNAP_HDB1_NDB_MASK SNAP_HDB1_NDB_POS) +
    snap_getHashSizeFromEdm cfg (SNAP_GET_BITS hdb1 SNAP_HDB1_EDM_MASK SNAP_HDB1_EDM_POS)

/-! ## The Rocksoft model of a CRC algorithm

The parameterised reference model that the documentation of the CRC functions names
(width, poly, init, refin, refot, xorot), processing a message byte by byte. -/

/-- The parameters of a Rocksoft-model CRC algorithm. -/
structure rocksoft_t where
  width : Nat
  poly : Nat
  init : Nat
  refin : Bool
  refot : Bool
  xorot : Nat
  deriving DecidableEq, Repr

/-- The bottom `b` bits of `v`, reflected about their centre: bit `i` of the result is
bit `b - 1 - i` of `v`. -/
def rocksoft_reflect : Nat → Nat → Nat
  | _, 0 => 0
  | v, b + 1 => (v % 2) * 2 ^ b + rocksoft_reflect (v / 2) b

/-- One shift of the model's register: when the top bit is set the register is shifted
left and the poly is xored in, otherwise it is only shifted; the result is masked to the
width. -/
def rocksoft_bit (cm : rocksoft_t) (reg : Nat) : Nat :=
  (if reg &&& 2 ^ (cm.width - 1) ≠ 0 then (reg <<< 1) ^^^ cm.poly else reg <<< 1) &&&
    (2 ^ cm.width - 1)

/-- The model's register after one more message byte: the byte (reflected when `refin`
is set) is xored into the top eight bits and the register is shifted eight times. -/
def rocksoft_next (cm : rocksoft_t) (reg ch : Nat) : Nat :=
  (rocksoft_bit cm)^[8]
    (reg ^^^ ((if cm.refin then rocksoft_reflect ch 8 else ch) <<< (cm.width - 8)))

/-- The CRC of a message in the model: the register starts at `init`, takes the bytes in
order, is reflected when `refot` is set, and is xored with `xorot`. -/
def rocksoft_crc (cm : rocksoft_t) (bytes : List Nat) : Nat :=
  cm.xorot ^^^
    (if cm.refot then rocksoft_reflect (bytes.foldl (rocksoft_next cm) cm.init) cm.width
     else bytes.foldl (rocksoft_next cm) cm.init)

/-- CRC-8/MAXIM-DOW: width 8, poly 0x31, init 0x00, refin and refot true, xorot 0x00. -/
def crc8_maxim_dow : rocksoft_t :=
  { width := 8, poly := 0x31, init := 0x00, refin := true, refot := true, xorot := 0x00 }

/-- CRC-16/XMODEM: width 16, poly 0x1021, init 0x0000, refin and refot false, xorot
0x0000. -/
def crc16_xmodem : rocksoft_t :=
  { width := 16, poly := 0x1021, init := 0x0000, refin := false, refot := false,
    xorot := 0x0000 }

/-- The nine ASCII bytes of "123456789", the message of the catalogued check values. -/
def check_message : List Nat := [0x31, 0x32, 0x33, 0x34, 0x35, 0x36, 0x37, 0x38, 0x39]

/-- CRC-32/ISO-HDLC: width 32, poly 0x04C11DB7, init 0xFFFFFFFF, refin and refot true,
xorot 0xFFFFFFFF. -/
def crc32_iso_hdlc : rocksoft_t :=
  { width := 32, poly := 0x04C11DB7, init := 0xFFFFFFFF, refin := true, refot := true,
    xorot := 0xFFFFFFFF }

/-- Local `fieldIndex` of `snap_getField` once the `switch` has run, for the five field
types that have one (destination address, source address, protocol flags, data, hash). -/
def getField_fieldIndex (buffer : List Nat) (fieldType : Nat) : Nat :=
  if fieldType = SNAP_FIELD_DEST_ADDRESS then SNAP_INDEX_DAB
  else if fieldType = SNAP_FIELD_SOURCE_ADDRESS then SNAP_INDEX_SAB buffer
  else if fieldType = SNAP_FIELD_PROTOCOL_FLAGS then SNAP_INDEX_PFB buffer
  else if fieldType = SNAP_FIELD_DATA then SNAP_INDEX_DATA buffer
  else SNAP_INDEX_HASH buffer

/-- Local `fieldSize` of `snap_getField` once the `switch` has run, for the same five
field types. -/
def getField_fieldSize (cfg : snap_build_t) (buffer : List Nat) (fieldType : Nat) : Nat :=
  if fieldType = SNAP_FIELD_DEST_ADDRESS then SNAP_HDB2_DAB buffer
  else if fieldType = SNAP_FIELD_SOURCE_ADDRESS then SNAP_HDB2_SAB buffer
  else if fieldType = SNAP_FIELD_PROTOCOL_FLAGS then SNAP_HDB2_PFB buffer
  else if fieldType = SNAP_FIELD_DATA then SNAP_SIZE_DATA buffer
  else SNAP_SIZE_HASH cfg buffer

/-! ## Sequences of calls on one frame -/

/-- One call of the library on a frame that `snap_init` has set up. -/
inductive snap_call_t where
  | reset
  | decode (newByte : Nat)
  | encapsulate (fields : snap_fields_t)
  deriving DecidableEq, Repr

/-- The frame after one call. -/
def snap_call (cfg : snap_build_t) (frame : snap_frame_t) : snap_call_t → snap_frame_t
  | .reset => snap_reset frame
  | .decode newByte => (snap_decode cfg frame newByte).2
  | .encapsulate fields => (snap_encapsulate cfg frame fields).2.1

/-- The frame after a sequence of calls, in order. -/
def snap_run (cfg : snap_build_t) (frame : snap_frame_t) (calls : List snap_call_t) :
    snap_frame_t :=
  calls.foldl (snap_call cfg) frame

/-- The descriptors a call of `snap_encapsulate` can receive: header members within their
bit-field widths and a data length of at most 512. -/
def snap_call_ok : snap_call_t → Prop
  | .encapsulate fields => snap_header_ok fields.header ∧ enc_dataSize fields ≤ 512
  | _ => True

instance (c : snap_call_t) : Decidable (snap_call_ok c) := by
  cases c <;> (unfold snap_call_ok; infer_instance)

/-- What holds of a frame after `snap_init` and any sequence of calls. -/
def run_inv (cfg : snap_build_t) (f : snap_frame_t) : Prop :=
  3 ≤ f.maxSize ∧ f.size ≤ f.maxSize ∧
  (3 ≤ f.buffer.length → 1 ≤ f.size → f.buffer[0]? = some SNAP_SYNC) ∧
  (f.status = SNAP_STATUS_IDLE ∨
   (f.status = SNAP_STATUS_INCOMPLETE ∧ 1 ≤ f.size ∧ f.size < f.maxSize ∧
     (3 ≤ f.size → f.size < dec_fullSize cfg f.buffer ∧ dec_fullSize cfg f.buffer ≤ f.maxSize)) ∨
   (f.status = SNAP_STATUS_VALID ∧ 1 ≤ f.size) ∨
   (f.status = SNAP_STATUS_ERROR_HASH ∧ dec_fullSize cfg f.buffer ≤ f.size ∧ 1 ≤ f.size) ∨
   (f.status = SNAP_STATUS_ERROR_OVERFLOW ∧ f.size ≤ 3))

/-- The frame record a successful `snap_init` leaves: the buffer stored, `maxSize` limited
to 528, `size = 0` and `status = Idle`. -/
def init_frame (buffer : List Nat) (maxSize : Nat) : snap_frame_t :=
  { buffer := buffer, maxSize := min maxSize 528, size := 0, status := SNAP_STATUS_IDLE }

/-! ## Padding removal

`snap_removePaddingBytes` works on the caller's array.  Here the array is the list
`data`, every access is checked against its extent, and an access outside it gives
`none`; so does running out of the fuel that bounds the counting loop. -/

/-- The loop `while((data[size - 1] == SNAP_PADDING) && (--size != 0));` of
`snap_removePaddingBytes`, from the current value of `size`; the result is `size` when
the loop ends. -/
def removePadding_after (data : List Nat) : Nat → Option Nat
  | 0 => some 0
  | size + 1 =>
    match data[size]? with
    | none => none
    | some x =>
      if x = SNAP_PADDING then
        if size ≠ 0 then removePadding_after data size else some size
      else some (size + 1)

/-- The loop `while((data[paddingSize] == SNAP_PADDING) && (++paddingSize < size));` of
`snap_removePaddingBytes`, from the current value of `paddingSize`; the first argument is
fuel, one unit per pass. -/
def removePadding_count (data : List Nat) (size : Nat) : Nat → Nat → Option Nat
  | 0, _ => none
  | fuel + 1, paddingSize =>
    match data[paddingSize]? with
    | none => none
    | some x =>
      if x = SNAP_PADDING then
        if paddingSize + 1 < size then removePadding_count data size fuel (paddingSize + 1)
        else some (paddingSize + 1)
      else some paddingSize

/-- The loop `for(i = 0; i < size; i++) data[i] = data[paddingSize + i];` of
`snap_removePaddingBytes`; the first argument counts the remaining passes. -/
def removePadding_shift (paddingSize : Nat) : Nat → Nat → List Nat → Option (List Nat)
  | 0, _, data => some data
  | n + 1, i, data =>
    match data[paddingSize + i]? with
    | none => none
    | some x =>
      if i < data.length then removePadding_shift paddingSize n (i + 1) (data.set i x)
      else none

/-- Function `snap_removePaddingBytes`: the returned `uint16_t` and the array after the
call, or `none` when the call accesses the array outside its extent. -/
def snap_removePaddingBytes (data : List Nat) (size : Nat) (paddingAfter : Bool) :
    Option (Nat × List Nat) :=
  if size < 9 then some (size, data)
  else if paddingAfter then
    match removePadding_after data size with
    | none => none
    | some size => some (size, data)
  else
    match removePadding_count data size size 0 with
    | none => none
    | some paddingSize =>
      let size := (size + 65536 - paddingSize) % 65536
      match removePadding_shift paddingSize size 0 data with
      | none => none
      | some data => some (size, data)

/-- Two frames that differ at most in the buffer bytes at and beyond `size`. -/
def dec_same (f1 f2 : snap_frame_t) : Prop :=
  f1.maxSize = f2.maxSize ∧ f1.size = f2.size ∧ f1.status = f2.status ∧
  ∀ j, j < f1.size → f1.buffer[j]? = f2.buffer[j]?

/-- Lookup table `tableCrc8` of `snap_calculateCrc8` (`SNAP_CRC8_TABLE` defined). -/
def tableCrc8 : List Nat :=
  [0x00, 0x5E, 0xBC, 0xE2, 0x61, 0x3F, 0xDD, 0x83, 0xC2, 0x9C, 0x7E, 0x20,
   0xA3, 0xFD, 0x1F, 0x41, 0x9D, 0xC3, 0x21, 0x7F, 0xFC, 0xA2, 0x40, 0x1E,
   0x5F, 0x01, 0xE3, 0xBD, 0x3E, 0x60, 0x82, 0xDC, 0x23, 0x7D, 0x9F, 0xC1,
   0x42, 0x1C, 0xFE, 0xA0, 0xE1, 0xBF, 0x5D, 0x03, 0x80, 0xDE, 0x3C, 0x62,
   0xBE, 0xE0, 0x02, 0x5C, 0xDF, 0x81, 0x63, 0x3D, 0x7C, 0x22, 0xC0, 0x9E,
   0x1D, 0x43, 0xA1, 0xFF, 0x46, 0x18, 0xFA, 0xA4, 0x27, 0x79, 0x9B, 0xC5,
   0x84, 0xDA, 0x38, 0x66, 0xE5, 0xBB, 0x59, 0x07, 0xDB, 0x85, 0x67, 0x39,
   0xBA, 0xE4, 0x06, 0x58, 0x19, 0x47, 0xA5, 0xFB, 0x78, 0x26, 0xC4, 0x9A,
   0x65, 0x3B, 0xD9, 0x87, 0x04, 0x5A, 0xB8, 0xE6, 0xA7, 0xF9, 0x1B, 0x45,
   0xC6, 0x98, 0x7A, 0x24, 0xF8, 0xA6, 0x44, 0x1A, 0x99, 0xC7, 0x25, 0x7B,
   0x3A, 0x64, 0x86, 0xD8, 0x5B, 0x05, 0xE7, 0xB9, 0x8C, 0xD2, 0x30, 0x6E,
   0xED, 0xB3, 0x51, 0x0F, 0x4E, 0x10, 0xF2, 0xAC, 0x2F, 0x71, 0x93, 0xCD,
   0x11, 0x4F, 0xAD, 0xF3, 0x70, 0x2E, 0xCC, 0x92, 0xD3, 0x8D, 0x6F, 0x31,
   0xB2, 0xEC, 0x0E, 0x50, 0xAF, 0xF1, 0x13, 0x4D, 0xCE, 0x90, 0x72, 0x2C,
   0x6D, 0x33, 0xD1, 0x8F, 0x0C, 0x52, 0xB0, 0xEE, 0x32, 0x6C, 0x8E, 0xD0,
   0x53, 0x0D, 0xEF, 0xB1, 0xF0, 0xAE, 0x4C, 0x12, 0x91, 0xCF, 0x2D, 0x73,
   0xCA, 0x94, 0x76, 0x28, 0xAB, 0xF5, 0x17, 0x49, 0x08, 0x56, 0xB4, 0xEA,
   0x69, 0x37, 0xD5, 0x8B, 0x57, 0x09, 0xEB, 0xB5, 0x36, 0x68, 0x8A, 0xD4,
   0x95, 0xCB, 0x29, 0x77, 0xF4, 0xAA, 0x48, 0x16, 0xE9, 0xB7, 0x55, 0x0B,
   0x88, 0xD6, 0x34, 0x6A, 0x2B, 0x75, 0x97, 0xC9, 0x4A, 0x14, 0xF6, 0xA8,
   0x74, 0x2A, 0xC8, 0x96, 0x15, 0x4B, 0xA9, 0xF7, 0xB6, 0xE8, 0x0A, 0x54,
   0xD7, 0x89, 0x6B, 0x35]

/-- Lookup table `tableCrc16` of `snap_calculateCrc16` (`SNAP_CRC16_TABLE` defined). -/
def tableCrc16 : List Nat :=
  [0x0000, 0x1021, 0x2042, 0x3063, 0x4084, 0x50A5, 0x60C6, 0x70E7, 0x8108,
   0x9129, 0xA14A, 0xB16B, 0xC18C, 0xD1AD, 0xE1CE, 0xF1EF, 0x1231, 0x0210,
   0x3273, 0x2252, 0x52B5, 0x4294, 0x72F7, 0x62D6, 0x9339, 0x8318, 0xB37B,
   0xA35A, 0xD3BD, 0xC39C, 0xF3FF, 0xE3DE, 0x2462, 0x3443, 0x0420, 0x1401,
   0x64E6, 0x74C7, 0x44A4, 0x5485, 0xA56A, 0xB54B, 0x8528, 0x9509, 0xE5EE,
   0xF5CF, 0xC5AC, 0xD58D, 0x3653, 0x2672, 0x1611, 0x0630, 0x76D7, 0x66F6,
   0x5695, 0x46B4, 0xB75B, 0xA77A, 0x9719, 0x8738, 0xF7DF, 0xE7FE, 0xD79D,
   0xC7BC, 0x48C4, 0x58E5, 0x6886, 0x78A7, 0x0840, 0x1861, 0x2802, 0x3823,
   0xC9CC, 0xD9ED, 0xE98E, 0xF9AF, 0x8948, 0x9969, 0xA90A, 0xB92B, 0x5AF5,
   0x4AD4, 0x7AB7, 0x6A96, 0x1A71, 0x0A50, 0x3A33, 0x2A12, 0xDBFD, 0xCBDC,
   0xFBBF, 0xEB9E, 0x9B79, 0x8B58, 0xBB3B, 0xAB1A, 0x6CA6, 0x7C87, 0x4CE4,
   0x5CC5, 0x2C22, 0x3C03, 0x0C60, 0x1C41, 0xEDAE, 0xFD8F, 0xCDEC, 0xDDCD,
   0xAD2A, 0xBD0B, 0x8D68, 0x9D49, 0x7E97, 0x6EB6, 0x5ED5, 0x4EF4, 0x3E13,
   0x2E32, 0x1E51, 0x0E70, 0xFF9F, 0xEFBE, 0xDFDD, 0xCFFC, 0xBF1B, 0xAF3A,
   0x9F59, 0x8F78, 0x9188, 0x81A9, 0xB1CA, 0xA1EB, 0xD10C, 0xC12D, 0xF14E,
   0xE16F, 0x1080, 0x00A1, 0x30C2, 0x20E3, 0x5004, 0x4025, 0x7046, 0x6067,
   0x83B9, 0x9398, 0xA3FB, 0xB3DA, 0xC33D, 0xD31C, 0xE37F, 0xF35E, 0x02B1,
   0x1290, 0x22F3, 0x32D2, 0x4235, 0x5214, 0x6277, 0x7256, 0xB5EA, 0xA5CB,
   0x95A8, 0x8589, 0xF56E, 0xE54F, 0xD52C, 0xC50D, 0x34E2, 0x24C3, 0x14A0,
   0x0481, 0x7466, 0x6447, 0x5424, 0x4405, 0xA7DB, 0xB7FA, 0x8799, 0x97B8,
   0xE75F, 0xF77E, 0xC71D, 0xD73C, 0x26D3, 0x36F2, 0x0691, 0x16B0, 0x6657,
   0x7676, 0x4615, 0x5634, 0xD94C, 0xC96D, 0xF90E, 0xE92F, 0x99C8, 0x89E9,
   0xB98A, 0xA9AB, 0x5844, 0x4865, 0x7806, 0x6827, 0x18C0, 0x08E1, 0x3882,
   0x28A3, 0xCB7D, 0xDB5C, 0xEB3F, 0xFB1E, 0x8BF9, 0x9BD8, 0xABBB, 0xBB9A,
   0x4A75, 0x5A54, 0x6A37, 0x7A16, 0x0AF1, 0x1AD0, 0x2AB3, 0x3A92, 0xFD2E,
   0xED0F, 0xDD6C, 0xCD4D, 0xBDAA, 0xAD8B, 0x9DE8, 0x8DC9, 0x7C26, 0x6C07,
   0x5C64, 0x4C45, 0x3CA2, 0x2C83, 0x1CE0, 0x0CC1, 0xEF1F, 0xFF3E, 0xCF5D,
   0xDF7C, 0xAF9B, 0xBFBA, 0x8FD9, 0x9FF8, 0x6E17, 0x7E36, 0x4E55, 0x5E74,
   0x2E93, 0x3EB2, 0x0ED1, 0x1EF0]

/-- Lookup table `tableCrc32` of `snap_calculateCrc32` (`SNAP_CRC32_TABLE` defined). -/
def tableCrc32 : List Nat :=
  [0x00000000, 0x77073096, 0xEE0E612C, 0x990951BA, 0x076DC419, 0x706AF48F,
   0xE963A535, 0x9E6495A3, 0x0EDB8832, 0x79DCB8A4, 0xE0D5E91E, 0x97D2D988,
   0x09B64C2B, 0x7EB17CBD, 0xE7B82D07, 0x90BF1D91, 0x1DB71064, 0x6AB020F2,
   0xF3B97148, 0x84BE41DE, 0x1ADAD47D, 0x6DDDE4EB, 0xF4D4B551, 0x83D385C7,
   0x136C9856, 0x646BA8C0, 0xFD62F97A, 0x8A65C9EC, 0x14015C4F, 0x63066CD9,
   0xFA0F3D63, 0x8D080DF5, 0x3B6E20C8, 0x4C69105E, 0xD56041E4, 0xA2677172,
   0x3C03E4D1, 0x4B04D447, 0xD20D85FD, 0xA50AB56B, 0x35B5A8FA, 0x42B2986C,
   0xDBBBC9D6, 0xACBCF940, 0x32D86CE3, 0x45DF5C75, 0xDCD60DCF, 0xABD13D59,
   0x26D930AC, 0x51DE003A, 0xC8D75180, 0xBFD06116, 0x21B4F4B5, 0x56B3C423,
   0xCFBA9599, 0xB8BDA50F, 0x2802B89E, 0x5F058808, 0xC60CD9B2, 0xB10BE924,
   0x2F6F7C87, 0x58684C11, 0xC1611DAB, 0xB6662D3D, 0x76DC4190, 0x01DB7106,
   0x98D220BC, 0xEFD5102A, 0x71B18589, 0x06B6B51F, 0x9FBFE4A5, 0xE8B8D433,
   0x7807C9A2, 0x0F00F934, 0x9609A88E, 0xE10E9818, 0x7F6A0DBB, 0x086D3D2D,
   0x91646C97, 0xE6635C01, 0x6B6B51F4, 0x1C6C6162, 0x856530D8, 0xF262004E,
   0x6C0695ED, 0x1B01A57B, 0x8208F4C1, 0xF50FC457, 0x65B0D9C6, 0x12B7E950,
   0x8BBEB8EA, 0xFCB9887C, 0x62DD1DDF, 0x15DA2D49, 0x8CD37CF3, 0xFBD44C65,
   0x4DB26158, 0x3AB551CE, 0xA3BC0074, 0xD4BB30E2, 0x4ADFA541, 0x3DD895D7,
   0xA4D1C46D, 0xD3D6F4FB, 0x4369E96A, 0x346ED9FC, 0xAD678846, 0xDA60B8D0,
   0x44042D73, 0x33031DE5, 0xAA0A4C5F, 0xDD0D7CC9, 0x5005713C, 0x270241AA,
   0xBE0B1010, 0xC90C2086, 0x5768B525, 0x206F85B3, 0xB966D409, 0xCE61E49F,
   0x5EDEF90E, 0x29D9C998, 0xB0D09822, 0xC7D7A8B4, 0x59B33D17, 0x2EB40D81,
   0xB7BD5C3B, 0xC0BA6CAD, 0xEDB88320, 0x9ABFB3B6, 0x03B6E20C, 0x74B1D29A,
   0xEAD54739, 0x9DD277AF, 0x04DB2615, 0x73DC1683, 0xE3630B12, 0x94643B84,
   0x0D6D6A3E, 0x7A6A5AA8, 0xE40ECF0B, 0x9309FF9D, 0x0A00AE27, 0x7D079EB1,
   0xF00F9344, 0x8708A3D2, 0x1E01F268, 0x6906C2FE, 0xF762575D, 0x806567CB,
   0x196C3671, 0x6E6B06E7, 0xFED41B76, 0x89D32BE0, 0x10DA7A5A, 0x67DD4ACC,
   0xF9B9DF6F, 0x8EBEEFF9, 0x17B7BE43, 0x60B08ED5, 0xD6D6A3E8, 0xA1D1937E,
   0x38D8C2C4, 0x4FDFF252, 0xD1BB67F1, 0xA6BC5767, 0x3FB506DD, 0x48B2364B,
   0xD80D2BDA, 0xAF0A1B4C, 0x36034AF6, 0x41047A60, 0xDF60EFC3, 0xA867DF55,
   0x316E8EEF, 0x4669BE79, 0xCB61B38C, 0xBC66831A, 0x256FD2A0, 0x5268E236,
   0xCC0C7795, 0xBB0B4703, 0x220216B9, 0x5505262F, 0xC5BA3BBE, 0xB2BD0B28,
   0x2BB45A92, 0x5CB36A04, 0xC2D7FFA7, 0xB5D0CF31, 0x2CD99E8B, 0x5BDEAE1D,
   0x9B64C2B0, 0xEC63F226, 0x756AA39C, 0x026D930A, 0x9C0906A9, 0xEB0E363F,
   0x72076785, 0x05005713, 0x95BF4A82, 0xE2B87A14, 0x7BB12BAE, 0x0CB61B38,
   0x92D28E9B, 0xE5D5BE0D, 0x7CDCEFB7, 0x0BDBDF21, 0x86D3D2D4, 0xF1D4E242,
   0x68DDB3F8, 0x1FDA836E, 0x81BE16CD, 0xF6B9265B, 0x6FB077E1, 0x18B74777,
   0x88085AE6, 0xFF0F6A70, 0x66063BCA, 0x11010B5C, 0x8F659EFF, 0xF862AE69,
   0x616BFFD3, 0x166CCF45, 0xA00AE278, 0xD70DD2EE, 0x4E048354, 0x3903B3C2,
   0xA7672661, 0xD06016F7, 0x4969474D, 0x3E6E77DB, 0xAED16A4A, 0xD9D65ADC,
   0x40DF0B66, 0x37D83BF0, 0xA9BCAE53, 0xDEBB9EC5, 0x47B2CF7F, 0x30B5FFE9,
   0xBDBDF21C, 0xCABAC28A, 0x53B39330, 0x24B4A3A6, 0xBAD03605, 0xCDD70693,
   0x54DE5729, 0x23D967BF, 0xB3667A2E, 0xC4614AB8, 0x5D681B02, 0x2A6F2B94,
   0xB40BBE37, 0xC30C8EA1, 0x5A05DF1B, 0x2D02EF8D]

/-- Body of the loop of the table-driven `snap_calculateCrc8`:
`crc = tableCrc8[data[i] ^ crc];`. -/
def crc8_table_byte (crc b : Nat) : Nat := tableCrc8.getD (b ^^^ crc) 0

/-- Function `snap_calculateCrc8`, table-driven variant (`SNAP_CRC8_TABLE` defined). -/
def snap_calculateCrc8_table (data : List Nat) (size : Nat) : Nat :=
  (data.take size).foldl crc8_table_byte 0

/-- Body of the loop of the table-driven `snap_calculateCrc16`:
`crc = (uint16_t)(crc << 8) ^ tableCrc16[(crc >> 8) ^ data[i]];`. -/
def crc16_table_byte (crc b : Nat) : Nat :=
  ((crc <<< 8) % 65536) ^^^ tableCrc16.getD ((crc >>> 8) ^^^ b) 0

/-- Function `snap_calculateCrc16`, table-driven variant (`SNAP_CRC16_TABLE` defined). -/
def snap_calculateCrc16_table (data : List Nat) (size : Nat) : Nat :=
  (data.take size).foldl crc16_table_byte 0

/-- Body of the loop of the table-driven `snap_calculateCrc32`:
`crc = (crc >> 8) ^ tableCrc32[(crc ^ data[i]) & 0xFF];`. -/
def crc32_table_byte (crc b : Nat) : Nat :=
  (crc >>> 8) ^^^ tableCrc32.getD ((crc ^^^ b) &&& 0xFF) 0

/-- Function `snap_calculateCrc32`, table-driven variant (`SNAP_CRC32_TABLE` defined); the
result is `~crc` on 32 bits. -/
def snap_calculateCrc32_table (data : List Nat) (size : Nat) : Nat :=
  0xFFFFFFFF - (data.take size).foldl crc32_table_byte 0xFFFFFFFF

/-- A frame record over the 8-byte buffer `00 00 00 00 AA BB 00 00`, as `snap_init` leaves
it. -/
def overlap_frame : snap_frame_t :=
  { buffer := [0, 0, 0, 0, 0xAA, 0xBB, 0, 0], maxSize := 8, size := 0,
    status := SNAP_STATUS_IDLE }

/-- A descriptor whose two data bytes are bytes 4 and 5 of the frame buffer, with no
address or flag bytes (so that the data slot starts at offset 3) and an 8-bit CRC. -/
def overlap_fields : snap_fields_t :=
  { data := .inBuffer 4, destAddress := 0, sourceAddress := 0, protocolFlags := 0,
    header := { dab := 0, sab := 0, pfb := 0, ack := 0, cmd := 0,
                edm := SNAP_HDB1_EDM_8BIT_CRC, ndb := 0 },
    dataSize := 2, paddingAfter := true }

/-- The `n` bytes `data[0 .. n-1]` can be read: the pointer is not `NULL` and the array it
points to (an array of its own, or the frame buffer from the given offset) holds at least
`n` bytes. -/
def snap_data_holds (data : snap_data_t) (buffer : List Nat) (n : Nat) : Prop :=
  match data with
  | .null => False
  | .array bytes => n ≤ bytes.length
  | .inBuffer offset => offset + n ≤ buffer.length

instance (data : snap_data_t) (buffer : List Nat) (n : Nat) :
    Decidable (snap_data_holds data buffer n) := by
  unfold snap_data_holds
  cases data <;> infer_instance

/-! # Theorems -/

theorem snap_encapsulate_eq (cfg : snap_build_t) (frame : snap_frame_t) (fields : snap_fields_t) :
    snap_encapsulate cfg frame fields =
      if frame.maxSize <
          enc_payloadIndex fields + enc_payloadSize fields + snap_getHashSizeFromEdm cfg fields.header.edm
      then (SNAP_STATUS_ERROR_OVERFLOW,
            { frame with size := 0, status := SNAP_STATUS_ERROR_OVERFLOW }, enc_fields fields)
      else (SNAP_STATUS_VALID,
            { enc_hashed cfg frame fields with status := SNAP_STATUS_VALID }, enc_fields fields) := by
  cases hd : fields.data <;>
    simp [snap_encapsulate, enc_fields, enc_dataSize, enc_payloadSize, enc_payloadIndex,
      enc_paddingSize, enc_dataIndex, enc_paddingIndex, enc_hdb2, enc_hdb1, enc_payloadBuffer,
      enc_base, enc_body, enc_hashed, hd]

/-! ## Frame lifecycle: snap_init and snap_reset -/

/-- C8: with frame and buffer present, `snap_init` returns `SNAP_ERROR_SHORT_BUFFER`
and leaves the frame record unchanged when `maxSize < 3`, and otherwise returns
`min maxSize 528` (positive), stores the buffer and `maxSize = min maxSize 528`, and
sets `size = 0`, `status = Idle`; with the buffer absent it returns
`SNAP_ERROR_NULL_BUFFER` and leaves the frame unchanged, whatever `maxSize` is. -/
theorem snap_init_outcome (f : snap_frame_t) (b : List Nat) (maxSize : Nat) :
    snap_init (some f) (some b) maxSize =
      (if maxSize < 3 then (SNAP_ERROR_SHORT_BUFFER, some f)
       else (Int.ofNat (min maxSize 528),
             some { buffer := b, maxSize := min maxSize 528, size := 0,
                    status := SNAP_STATUS_IDLE }))
    ∧ (¬ maxSize < 3 → (0 : Int) < Int.ofNat (min maxSize 528))
    ∧ snap_init (some f) none maxSize = (SNAP_ERROR_NULL_BUFFER, some f) := by
  refine ⟨?_, ?_, rfl⟩
  · simp only [snap_init, SNAP_MIN_SIZE_FRAME, SNAP_SIZE_SYNC, SNAP_SIZE_HEADER, SNAP_SIZE_HDB2,
      SNAP_SIZE_HDB1, SNAP_MAX_SIZE_FRAME]
    by_cases h : maxSize < 3
    · simp [h]
    · have h3 : ¬ maxSize < 1 + (1 + 1) := by omega
      by_cases h2 : maxSize > 528
      · have hm : min maxSize 528 = 528 := by omega
        simp [h, h3, h2, hm]
      · have hm : min maxSize 528 = maxSize := by omega
        simp [h, h3, h2, hm]
  · intro h
    have : 0 < min maxSize 528 := by omega
    exact Int.ofNat_lt.mpr this

/-- C9: from every frame state `snap_reset` sets `size = 0` and `status = Idle`, leaves
buffer contents, buffer reference and `maxSize` unchanged, and is idempotent. -/
theorem snap_reset_effect (f : snap_frame_t) :
    (snap_reset f).size = 0 ∧ (snap_reset f).status = SNAP_STATUS_IDLE ∧
    (snap_reset f).buffer = f.buffer ∧ (snap_reset f).maxSize = f.maxSize ∧
    snap_reset (snap_reset f) = snap_reset f := by
  simp [snap_reset]

/-! ## Decoder in state Idle -/

theorem snap_decode_idle_other (cfg : snap_build_t) (f : snap_frame_t) (b : Nat)
    (hs : f.status = SNAP_STATUS_IDLE) (hb : b ≠ SNAP_SYNC) :
    snap_decode cfg f b = (SNAP_STATUS_IDLE, f) := by
  simp [snap_decode, hs, hb]

theorem snap_decode_bytes_idle (cfg : snap_build_t) (f : snap_frame_t)
    (hs : f.status = SNAP_STATUS_IDLE) (bs : List Nat) (hb : ∀ b ∈ bs, b ≠ SNAP_SYNC) :
    snap_decode_bytes cfg f bs = (List.replicate bs.length SNAP_STATUS_IDLE, f) := by
  induction bs with
  | nil => rfl
  | cons b bs ih =>
    have h1 : b ≠ SNAP_SYNC := hb b (List.mem_cons_self _ _)
    have h2 : ∀ x ∈ bs, x ≠ SNAP_SYNC := fun x hx => hb x (List.mem_cons_of_mem _ hx)
    simp [snap_decode_bytes, snap_decode_idle_other cfg f b hs h1, ih h2, List.replicate_succ]

theorem snap_decode_idle_sync (cfg : snap_build_t) (f : snap_frame_t)
    (hs : f.status = SNAP_STATUS_IDLE) :
    snap_decode cfg f SNAP_SYNC =
      (SNAP_STATUS_INCOMPLETE,
        { buffer := f.buffer.set 0 SNAP_SYNC, maxSize := f.maxSize, size := 1,
          status := SNAP_STATUS_INCOMPLETE }) := by
  simp [snap_decode, hs, SNAP_INDEX_SYNC]

theorem snap_init_ok (g : snap_frame_t) (b : List Nat) (maxSize : Nat) (h : 3 ≤ maxSize) :
    (snap_init (some g) (some b) maxSize).2 =
      some { buffer := b, maxSize := min maxSize 528, size := 0, status := SNAP_STATUS_IDLE } := by
  have h3 : ¬ maxSize < 1 + (1 + 1) := by omega
  simp only [snap_init, SNAP_MIN_SIZE_FRAME, SNAP_SIZE_SYNC, SNAP_SIZE_HEADER, SNAP_SIZE_HDB2,
    SNAP_SIZE_HDB1, SNAP_MAX_SIZE_FRAME, h3, if_false]
  by_cases h2 : maxSize > 528
  · have hm : min maxSize 528 = 528 := by omega
    simp [h2, hm]
  · have hm : min maxSize 528 = maxSize := by omega
    simp [h2, hm]

/-- C10: on an Idle frame, `snap_decode` with a byte other than 0x54 returns Idle and
leaves the frame unchanged, so any finite sequence of non-SYNC bytes fed to a freshly
reset frame returns Idle each time and leaves status Idle and size 0; with the byte
0x54 it writes 0x54 at offset 0, sets `size = 1` and `status = Incomplete` (which it
returns) and changes no other buffer byte. -/
theorem snap_decode_idle (cfg : snap_build_t) (f : snap_frame_t)
    (hs : f.status = SNAP_STATUS_IDLE) :
    (∀ b, b ≠ 0x54 → snap_decode cfg f b = (SNAP_STATUS_IDLE, f)) ∧
    (∀ g : snap_frame_t, ∀ bs : List Nat, (∀ b ∈ bs, b ≠ 0x54) →
      snap_decode_bytes cfg (snap_reset g) bs
        = (List.replicate bs.length SNAP_STATUS_IDLE, snap_reset g) ∧
      (snap_decode_bytes cfg (snap_reset g) bs).2.status = SNAP_STATUS_IDLE ∧
      (snap_decode_bytes cfg (snap_reset g) bs).2.size = 0) ∧
    snap_decode cfg f 0x54 =
      (SNAP_STATUS_INCOMPLETE,
        { f with buffer := f.buffer.set 0 0x54, size := 1, status := SNAP_STATUS_INCOMPLETE }) ∧
    (0 < f.buffer.length → (snap_decode cfg f 0x54).2.buffer.getD 0 0 = 0x54) ∧
    (∀ j, j ≠ 0 → (snap_decode cfg f 0x54).2.buffer[j]? = f.buffer[j]?) ∧
    (snap_decode cfg f 0x54).2.maxSize = f.maxSize := by
  have hsync : snap_decode cfg f 0x54 =
      (SNAP_STATUS_INCOMPLETE,
        { f with buffer := f.buffer.set 0 0x54, size := 1, status := SNAP_STATUS_INCOMPLETE }) := by
    simp [snap_decode, hs, SNAP_SYNC, SNAP_INDEX_SYNC]
  refine ⟨fun b hb => snap_decode_idle_other cfg f b hs hb, ?_, hsync, ?_, ?_, ?_⟩
  · intro g bs hb
    have h := snap_decode_bytes_idle cfg (snap_reset g) (by simp [snap_reset]) bs hb
    rw [h]
    simp [snap_reset]
  · intro hl
    rw [hsync]
    simp [List.getElem?_set, hl]
  · intro j hj
    rw [hsync]
    simp only [List.getElem?_set]
    have : ¬ 0 = j := fun h => hj h.symm
    simp [this]
  · rw [hsync]

theorem snap_decode_idle_witness :
    (∀ b, b ≠ 0x54 →
      snap_decode snap_build_default
        { buffer := [1, 2, 3], maxSize := 3, size := 0, status := SNAP_STATUS_IDLE } b =
      (SNAP_STATUS_IDLE,
        { buffer := [1, 2, 3], maxSize := 3, size := 0, status := SNAP_STATUS_IDLE })) ∧
    snap_decode snap_build_default
        { buffer := [1, 2, 3], maxSize := 3, size := 0, status := SNAP_STATUS_IDLE } 0x54 =
      (SNAP_STATUS_INCOMPLETE,
        { buffer := [0x54, 2, 3], maxSize := 3, size := 1, status := SNAP_STATUS_INCOMPLETE }) :=
  ⟨(snap_decode_idle snap_build_default
      { buffer := [1, 2, 3], maxSize := 3, size := 0, status := SNAP_STATUS_IDLE } rfl).1,
   (snap_decode_idle snap_build_default
      { buffer := [1, 2, 3], maxSize := 3, size := 0, status := SNAP_STATUS_IDLE } rfl).2.2.1⟩

/-! ## Size tables and header bytes -/

theorem snap_getNdbFromDataSize_le (n : Nat) : snap_getNdbFromDataSize n ≤ 14 := by
  unfold snap_getNdbFromDataSize
  split_ifs <;> omega

theorem snap_getDataSizeFromNdb_le (ndb : Nat) : snap_getDataSizeFromNdb ndb ≤ 512 := by
  unfold snap_getDataSizeFromNdb
  split_ifs with h1 h2
  · omega
  · have h : ndb = 9 ∨ ndb = 10 ∨ ndb = 11 ∨ ndb = 12 ∨ ndb = 13 ∨ ndb = 14 := by omega
    rcases h with h | h | h | h | h | h <;> subst h <;> decide
  · omega

theorem snap_getDataSize_ge (n : Nat) (hn : n ≤ 512) :
    n ≤ snap_getDataSizeFromNdb (snap_getNdbFromDataSize n) := by
  unfold snap_getNdbFromDataSize
  split_ifs with h1 h2 h3 h4 h5 h6
  · have : n % 256 = n := by omega
    rw [this]
    unfold snap_getDataSizeFromNdb
    simp [h1]
  · exact h2
  · exact h3
  · exact h4
  · exact h5
  · exact h6
  · exact hn

theorem and_mask_ndb (n : Nat) (h : n ≤ 14) : n &&& SNAP_HDB1_NDB_MASK = n := by
  have := Nat.and_pow_two_sub_one_of_lt_two_pow (x := n) (n := 4) (by norm_num; omega)
  simpa [SNAP_HDB1_NDB_MASK] using this

theorem snap_getHashSizeFromEdm_le (cfg : snap_build_t) (h : cfg.SNAP_SIZE_USER_HASH ≤ 4)
    (edm : Nat) : snap_getHashSizeFromEdm cfg edm ≤ 4 := by
  unfold snap_getHashSizeFromEdm SNAP_HDB1_EDM_MASK
  have h7 : edm &&& 7 < 8 := by
    have := Nat.and_pow_two_sub_one_eq_mod edm 3
    norm_num at this
    omega
  generalize edm &&& 7 = k at h7
  interval_cases k <;> simp
  exact h

theorem hdb2_unpack : ∀ dab < 4, ∀ sab < 4, ∀ pfb < 4, ∀ ack < 4,
    SNAP_GET_BITS (((dab <<< 6) ||| (sab <<< 4) ||| (pfb <<< 2) ||| (ack <<< 0)) % 256) 3 6 = dab ∧
    SNAP_GET_BITS (((dab <<< 6) ||| (sab <<< 4) ||| (pfb <<< 2) ||| (ack <<< 0)) % 256) 3 4 = sab ∧
    SNAP_GET_BITS (((dab <<< 6) ||| (sab <<< 4) ||| (pfb <<< 2) ||| (ack <<< 0)) % 256) 3 2 = pfb ∧
    SNAP_GET_BITS (((dab <<< 6) ||| (sab <<< 4) ||| (pfb <<< 2) ||| (ack <<< 0)) % 256) 3 0 = ack := by
  decide

theorem hdb1_unpack : ∀ cmd < 2, ∀ edm < 8, ∀ ndb < 16,
    SNAP_GET_BITS (((cmd <<< 7) ||| (edm <<< 4) ||| (ndb <<< 0)) % 256) 1 7 = cmd ∧
    SNAP_GET_BITS (((cmd <<< 7) ||| (edm <<< 4) ||| (ndb <<< 0)) % 256) 7 4 = edm ∧
    SNAP_GET_BITS (((cmd <<< 7) ||| (edm <<< 4) ||| (ndb <<< 0)) % 256) 15 0 = ndb := by
  decide

/-! ## Buffer loops, position by position -/

theorem snap_encapsulate_pad_length (n i : Nat) (buf : List Nat) :
    (snap_encapsulate_pad n i buf).length = buf.length := by
  induction n generalizing i buf with
  | zero => rfl
  | succ n ih => simp [snap_encapsulate_pad, ih]

theorem snap_encapsulate_pad_get (n i : Nat) (buf : List Nat) (j : Nat) :
    (snap_encapsulate_pad n i buf)[j]? =
      if i ≤ j ∧ j < i + n ∧ j < buf.length then some SNAP_PADDING else buf[j]? := by
  induction n generalizing i buf with
  | zero =>
    have : ¬ (i ≤ j ∧ j < i ∧ j < buf.length) := by omega
    simp only [snap_encapsulate_pad, Nat.add_zero, if_neg this]
  | succ n ih =>
    simp only [snap_encapsulate_pad, ih, List.length_set, List.getElem?_set]
    by_cases h1 : i + 1 ≤ j ∧ j < i + 1 + n ∧ j < buf.length
    · have h2 : i ≤ j ∧ j < i + (n + 1) ∧ j < buf.length := by omega
      simp [h1, h2]
    · by_cases h3 : i = j
      · subst h3
        by_cases h4 : i < buf.length
        · have h2 : i ≤ i ∧ i < i + (n + 1) ∧ i < buf.length := by omega
          simp [h1, h2, h4]
        · have h2 : ¬ (i ≤ i ∧ i < i + (n + 1) ∧ i < buf.length) := by omega
          have h5 : buf[i]? = none := by simp; omega
          simp [h1, h2, h4, h5]
      · have h2 : ¬ (i ≤ j ∧ j < i + (n + 1) ∧ j < buf.length) := by omega
        simp [h1, h2, h3]

theorem snap_encapsulate_copy_length (data : snap_data_t) (dataIndex i : Nat) (buf : List Nat) :
    (snap_encapsulate_copy data dataIndex i buf).length = buf.length := by
  induction i generalizing buf with
  | zero =>
    simp only [snap_encapsulate_copy]
    split_ifs <;> simp
  | succ i ih =>
    simp only [snap_encapsulate_copy]
    split_ifs
    · simp [ih]
    · rfl

theorem snap_encapsulate_copy_get (bytes : List Nat) (dataIndex : Nat) (hd : 1 ≤ dataIndex)
    (i : Nat) (buf : List Nat) (j : Nat) :
    (snap_encapsulate_copy (.array bytes) dataIndex i buf)[j]? =
      if dataIndex ≤ j ∧ j ≤ i ∧ j < buf.length then some (bytes.getD (j - dataIndex) 0)
      else buf[j]? := by
  induction i generalizing buf with
  | zero =>
    have h1 : ¬ (0 ≥ dataIndex) := by omega
    have h2 : ¬ (dataIndex ≤ j ∧ j ≤ 0 ∧ j < buf.length) := by omega
    simp only [snap_encapsulate_copy, h1, h2, if_false]
  | succ i ih =>
    simp only [snap_encapsulate_copy]
    by_cases h : i + 1 ≥ dataIndex
    · simp only [h, if_true, ih, List.length_set, List.getElem?_set, snap_data_read]
      by_cases h1 : dataIndex ≤ j ∧ j ≤ i ∧ j < buf.length
      · have h2 : dataIndex ≤ j ∧ j ≤ i + 1 ∧ j < buf.length := by omega
        simp [h1, h2]
      · by_cases h3 : i + 1 = j
        · subst h3
          by_cases h4 : i + 1 < buf.length
          · have h2 : dataIndex ≤ i + 1 ∧ i + 1 ≤ i + 1 ∧ i + 1 < buf.length := by omega
            simp [h1, h2, h4]
          · have h2 : ¬ (dataIndex ≤ i + 1 ∧ i + 1 ≤ i + 1 ∧ i + 1 < buf.length) := by omega
            have h5 : buf[i + 1]? = none := by simp; omega
            simp [h1, h2, h4, h5]
        · have h2 : ¬ (dataIndex ≤ j ∧ j ≤ i + 1 ∧ j < buf.length) := by omega
          simp [h1, h2, h3]
    · have h2 : ¬ (dataIndex ≤ j ∧ j ≤ i + 1 ∧ j < buf.length) := by omega
      simp [h, h2]

theorem snap_encapsulate_put_fields (value : Nat) (n : Nat) (f : snap_frame_t)
    (hs : f.size + n < 65536) :
    (snap_encapsulate_put value n f).size = f.size + n ∧
    (snap_encapsulate_put value n f).maxSize = f.maxSize ∧
    (snap_encapsulate_put value n f).status = f.status ∧
    (snap_encapsulate_put value n f).buffer.length = f.buffer.length := by
  induction n generalizing f with
  | zero => simp [snap_encapsulate_put]
  | succ n ih =>
    have h1 : (f.size + 1) % 65536 = f.size + 1 := by omega
    simp only [snap_encapsulate_put]
    have := ih { f with buffer := f.buffer.set f.size ((value >>> (n * 8)) &&& 0xFF),
                        size := (f.size + 1) % 65536 } (by simp only [h1]; omega)
    simp only [h1, List.length_set] at this
    simp only [h1]
    refine ⟨by omega, this.2.1, this.2.2.1, this.2.2.2⟩

theorem snap_encapsulate_put_get (value : Nat) (n : Nat) (f : snap_frame_t)
    (hs : f.size + n < 65536) (j : Nat) :
    (snap_encapsulate_put value n f).buffer[j]? =
      if f.size ≤ j ∧ j < f.size + n ∧ j < f.buffer.length then
        some ((value >>> ((f.size + n - 1 - j) * 8)) &&& 0xFF)
      else f.buffer[j]? := by
  induction n generalizing f with
  | zero =>
    have : ¬ (f.size ≤ j ∧ j < f.size ∧ j < f.buffer.length) := by omega
    simp only [snap_encapsulate_put, Nat.add_zero, if_neg this]
  | succ n ih =>
    have h1 : (f.size + 1) % 65536 = f.size + 1 := by omega
    simp only [snap_encapsulate_put]
    rw [ih _ (by simp only [h1]; omega)]
    simp only [h1, List.length_set, List.getElem?_set]
    by_cases h2 : f.size + 1 ≤ j ∧ j < f.size + 1 + n ∧ j < f.buffer.length
    · have h3 : f.size ≤ j ∧ j < f.size + (n + 1) ∧ j < f.buffer.length := by omega
      have h4 : f.size + 1 + n - 1 - j = f.size + (n + 1) - 1 - j := by omega
      simp [h2, h3, h4]
    · by_cases h5 : f.size = j
      · subst h5
        by_cases h6 : f.size < f.buffer.length
        · have h3 : f.size ≤ f.size ∧ f.size < f.size + (n + 1) ∧ f.size < f.buffer.length := by
            omega
          have h4 : f.size + (n + 1) - 1 - f.size = n := by omega
          simp [h2, h3, h4, h6]
        · have h3 : ¬ (f.size ≤ f.size ∧ f.size < f.size + (n + 1) ∧ f.size < f.buffer.length) := by
            omega
          have h7 : f.buffer[f.size]? = none := by simp; omega
          simp [h2, h3, h6, h7]
      · have h3 : ¬ (f.size ≤ j ∧ j < f.size + (n + 1) ∧ j < f.buffer.length) := by omega
        simp [h2, h3, h5]

/-! ## The stages of snap_encapsulate: sizes -/

theorem enc_payloadSize_eq (fields : snap_fields_t) :
    enc_payloadSize fields =
      snap_getDataSizeFromNdb (snap_getNdbFromDataSize (enc_dataSize fields)) := by
  simp only [enc_payloadSize, enc_fields]
  rw [and_mask_ndb _ (snap_getNdbFromDataSize_le _)]

theorem enc_payloadIndex_eq (fields : snap_fields_t) (hh : snap_header_ok fields.header) :
    enc_payloadIndex fields = 3 + fields.header.dab + fields.header.sab + fields.header.pfb := by
  obtain ⟨h1, h2, h3, _⟩ := hh
  simp only [enc_payloadIndex, SNAP_INDEX_DAB]
  omega

theorem enc_base_fields (frame : snap_frame_t) (fields : snap_fields_t) :
    (enc_base frame fields).size = 3 ∧ (enc_base frame fields).maxSize = frame.maxSize ∧
    (enc_base frame fields).status = frame.status ∧
    (enc_base frame fields).buffer.length = frame.buffer.length := by
  simp [enc_base, enc_payloadBuffer, SNAP_INDEX_DAB, snap_encapsulate_pad_length,
    snap_encapsulate_copy_length]

theorem enc_body_fields (frame : snap_frame_t) (fields : snap_fields_t)
    (hh : snap_header_ok fields.header) :
    (enc_body frame fields).size = enc_payloadIndex fields + enc_payloadSize fields ∧
    (enc_body frame fields).maxSize = frame.maxSize ∧
    (enc_body frame fields).status = frame.status ∧
    (enc_body frame fields).buffer.length = frame.buffer.length := by
  have hpi := enc_payloadIndex_eq fields hh
  have hp : enc_payloadSize fields ≤ 512 := snap_getDataSizeFromNdb_le _
  obtain ⟨h1, h2, h3, _⟩ := hh
  obtain ⟨b1, b2, b3, b4⟩ := enc_base_fields frame fields
  obtain ⟨c1, c2, c3, c4⟩ := snap_encapsulate_put_fields fields.destAddress fields.header.dab
    (enc_base frame fields) (by omega)
  obtain ⟨d1, d2, d3, d4⟩ := snap_encapsulate_put_fields fields.sourceAddress fields.header.sab
    (snap_encapsulate_put fields.destAddress fields.header.dab (enc_base frame fields)) (by omega)
  obtain ⟨e1, e2, e3, e4⟩ := snap_encapsulate_put_fields fields.protocolFlags fields.header.pfb
    (snap_encapsulate_put fields.sourceAddress fields.header.sab
      (snap_encapsulate_put fields.destAddress fields.header.dab (enc_base frame fields))) (by omega)
  simp only [enc_body]
  refine ⟨?_, ?_, ?_, ?_⟩
  · rw [e1, d1, c1, b1, hpi]
    omega
  · rw [e2, d2, c2, b2]
  · rw [e3, d3, c3, b3]
  · rw [e4, d4, c4, b4]

theorem enc_hashed_fields (cfg : snap_build_t) (hcfg : cfg.SNAP_SIZE_USER_HASH ≤ 4)
    (frame : snap_frame_t) (fields : snap_fields_t) (hh : snap_header_ok fields.header) :
    (enc_hashed cfg frame fields).size =
      enc_payloadIndex fields + enc_payloadSize fields +
        snap_getHashSizeFromEdm cfg fields.header.edm ∧
    (enc_hashed cfg frame fields).maxSize = frame.maxSize ∧
    (enc_hashed cfg frame fields).status = frame.status ∧
    (enc_hashed cfg frame fields).buffer.length = frame.buffer.length := by
  have hpi := enc_payloadIndex_eq fields hh
  have hp : enc_payloadSize fields ≤ 512 := snap_getDataSizeFromNdb_le _
  have hhs := snap_getHashSizeFromEdm_le cfg hcfg fields.header.edm
  obtain ⟨b1, b2, b3, b4⟩ := enc_body_fields frame fields hh
  obtain ⟨h1, h2, h3, _⟩ := hh
  simp only [enc_hashed]
  by_cases h0 : snap_getHashSizeFromEdm cfg fields.header.edm = 0
  · simp [h0, b1, b2, b3, b4]
  · simp only [ne_eq, h0, not_false_eq_true, if_true]
    obtain ⟨c1, c2, c3, c4⟩ := snap_encapsulate_put_fields
      (snap_calculateHash cfg (enc_body frame fields) 0).2
      (snap_getHashSizeFromEdm cfg fields.header.edm) (enc_body frame fields) (by omega)
    exact ⟨by rw [c1, b1], by rw [c2, b2], by rw [c3, b3], by rw [c4, b4]⟩

theorem enc_total_eq (cfg : snap_build_t) (fields : snap_fields_t)
    (hh : snap_header_ok fields.header) :
    enc_payloadIndex fields + enc_payloadSize fields +
      snap_getHashSizeFromEdm cfg fields.header.edm = enc_total cfg fields := by
  rw [enc_payloadIndex_eq fields hh, enc_payloadSize_eq]
  rfl

/-- C7: with `T = 3 + dab + sab + pfb + payload bytes + hash bytes` (`enc_total`; the
payload bytes come from the size class of the data length, which is 0 for a `NULL`
data pointer), `snap_encapsulate` returns ErrorOverflow exactly when `T > maxSize`, and
then sets `size = 0`, `status = ErrorOverflow` and leaves the buffer as it was;
otherwise it returns Valid and sets `status = Valid` and `size = T`. -/
theorem snap_encapsulate_outcome (cfg : snap_build_t) (hcfg : cfg.SNAP_SIZE_USER_HASH ≤ 4)
    (frame : snap_frame_t) (fields : snap_fields_t) (hh : snap_header_ok fields.header)
    (_hn : enc_dataSize fields ≤ 512) :
    ((snap_encapsulate cfg frame fields).1 = SNAP_STATUS_ERROR_OVERFLOW ↔
      frame.maxSize < enc_total cfg fields) ∧
    (frame.maxSize < enc_total cfg fields →
      (snap_encapsulate cfg frame fields).2.1.size = 0 ∧
      (snap_encapsulate cfg frame fields).2.1.status = SNAP_STATUS_ERROR_OVERFLOW ∧
      (snap_encapsulate cfg frame fields).2.1.buffer = frame.buffer) ∧
    (enc_total cfg fields ≤ frame.maxSize →
      (snap_encapsulate cfg frame fields).1 = SNAP_STATUS_VALID ∧
      (snap_encapsulate cfg frame fields).2.1.status = SNAP_STATUS_VALID ∧
      (snap_encapsulate cfg frame fields).2.1.size = enc_total cfg fields) := by
  rw [snap_encapsulate_eq, enc_total_eq cfg fields hh]
  by_cases h : frame.maxSize < enc_total cfg fields
  · simp [h]
  · have hsz := (enc_hashed_fields cfg hcfg frame fields hh).1
    rw [enc_total_eq cfg fields hh] at hsz
    rw [if_neg h]
    refine ⟨⟨fun hc => ?_, fun hc => absurd hc h⟩, fun hc => absurd hc h, fun _ => ⟨rfl, rfl, hsz⟩⟩
    have hne : SNAP_STATUS_VALID ≠ SNAP_STATUS_ERROR_OVERFLOW := by decide
    exact absurd hc hne

/-! ## The stages of snap_encapsulate: buffer contents -/

theorem enc_base_get (frame : snap_frame_t) (fields : snap_fields_t)
    (hl : 3 ≤ frame.buffer.length) (j : Nat) :
    (enc_base frame fields).buffer[j]? =
      if j = 0 then some SNAP_SYNC
      else if j = 1 then some (enc_hdb2 (enc_fields fields).header)
      else if j = 2 then some (enc_hdb1 (enc_fields fields).header)
      else (enc_payloadBuffer frame fields)[j]? := by
  have hlen : (enc_payloadBuffer frame fields).length = frame.buffer.length := by
    simp [enc_payloadBuffer, snap_encapsulate_pad_length, snap_encapsulate_copy_length]
  simp only [enc_base, SNAP_INDEX_SYNC, SNAP_INDEX_HDB2, SNAP_INDEX_HDB1, List.getElem?_set,
    List.length_set, hlen]
  by_cases h0 : j = 0
  · subst h0
    have : 0 < frame.buffer.length := by omega
    simp [this]
  · by_cases h1 : j = 1
    · subst h1
      have : 1 < frame.buffer.length := by omega
      simp [this]
    · by_cases h2 : j = 2
      · subst h2
        have : 2 < frame.buffer.length := by omega
        simp [this]
      · have e0 : ¬ 0 = j := fun h => h0 h.symm
        have e1 : ¬ 1 = j := fun h => h1 h.symm
        have e2 : ¬ 2 = j := fun h => h2 h.symm
        simp [h0, h1, h2, e0, e1, e2]

theorem enc_body_get (frame : snap_frame_t) (fields : snap_fields_t)
    (hh : snap_header_ok fields.header) (j : Nat) :
    (enc_body frame fields).buffer[j]? =
      if 3 + fields.header.dab + fields.header.sab ≤ j ∧
          j < 3 + fields.header.dab + fields.header.sab + fields.header.pfb ∧
          j < frame.buffer.length then
        some ((fields.protocolFlags >>>
          ((3 + fields.header.dab + fields.header.sab + fields.header.pfb - 1 - j) * 8)) &&& 0xFF)
      else if 3 + fields.header.dab ≤ j ∧ j < 3 + fields.header.dab + fields.header.sab ∧
          j < frame.buffer.length then
        some ((fields.sourceAddress >>>
          ((3 + fields.header.dab + fields.header.sab - 1 - j) * 8)) &&& 0xFF)
      else if 3 ≤ j ∧ j < 3 + fields.header.dab ∧ j < frame.buffer.length then
        some ((fields.destAddress >>> ((3 + fields.header.dab - 1 - j) * 8)) &&& 0xFF)
      else (enc_base frame fields).buffer[j]? := by
  obtain ⟨h1, h2, h3, _⟩ := hh
  obtain ⟨b1, b2, b3, b4⟩ := enc_base_fields frame fields
  obtain ⟨c1, c2, c3, c4⟩ := snap_encapsulate_put_fields fields.destAddress fields.header.dab
    (enc_base frame fields) (by omega)
  obtain ⟨d1, d2, d3, d4⟩ := snap_encapsulate_put_fields fields.sourceAddress fields.header.sab
    (snap_encapsulate_put fields.destAddress fields.header.dab (enc_base frame fields)) (by omega)
  simp only [enc_body]
  rw [snap_encapsulate_put_get _ _ _ (by omega), snap_encapsulate_put_get _ _ _ (by omega),
    snap_encapsulate_put_get _ _ _ (by omega)]
  simp only [d1, c1, b1, d4, c4, b4]

theorem enc_hashed_get (cfg : snap_build_t) (hcfg : cfg.SNAP_SIZE_USER_HASH ≤ 4)
    (frame : snap_frame_t) (fields : snap_fields_t) (hh : snap_header_ok fields.header) (j : Nat) :
    (enc_hashed cfg frame fields).buffer[j]? =
      if enc_payloadIndex fields + enc_payloadSize fields ≤ j ∧
          j < enc_payloadIndex fields + enc_payloadSize fields +
            snap_getHashSizeFromEdm cfg fields.header.edm ∧
          j < frame.buffer.length then
        some (((snap_calculateHash cfg (enc_body frame fields) 0).2 >>>
          ((enc_payloadIndex fields + enc_payloadSize fields +
            snap_getHashSizeFromEdm cfg fields.header.edm - 1 - j) * 8)) &&& 0xFF)
      else (enc_body frame fields).buffer[j]? := by
  have hpi := enc_payloadIndex_eq fields hh
  have hp : enc_payloadSize fields ≤ 512 := snap_getDataSizeFromNdb_le _
  have hhs := snap_getHashSizeFromEdm_le cfg hcfg fields.header.edm
  obtain ⟨b1, b2, b3, b4⟩ := enc_body_fields frame fields hh
  obtain ⟨h1, h2, h3, _⟩ := hh
  simp only [enc_hashed]
  by_cases h0 : snap_getHashSizeFromEdm cfg fields.header.edm = 0
  · have : ¬ (enc_payloadIndex fields + enc_payloadSize fields ≤ j ∧
          j < enc_payloadIndex fields + enc_payloadSize fields + 0 ∧
          j < frame.buffer.length) := by omega
    simp only [h0, ne_eq, not_true_eq_false, if_false, if_neg this]
  · simp only [ne_eq, h0, not_false_eq_true, if_true]
    rw [snap_encapsulate_put_get _ _ _ (by omega)]
    simp only [b1, b4]

/-- Positions below the hash field are the same in the frame with and without the hash
bytes. -/
theorem enc_hashed_get_body (cfg : snap_build_t) (hcfg : cfg.SNAP_SIZE_USER_HASH ≤ 4)
    (frame : snap_frame_t) (fields : snap_fields_t) (hh : snap_header_ok fields.header) (j : Nat)
    (hj : j < enc_payloadIndex fields + enc_payloadSize fields) :
    (enc_hashed cfg frame fields).buffer[j]? = (enc_body frame fields).buffer[j]? := by
  rw [enc_hashed_get cfg hcfg frame fields hh j]
  have : ¬ (enc_payloadIndex fields + enc_payloadSize fields ≤ j ∧
          j < enc_payloadIndex fields + enc_payloadSize fields +
            snap_getHashSizeFromEdm cfg fields.header.edm ∧
          j < frame.buffer.length) := by omega
  rw [if_neg this]

theorem enc_body_get_low (frame : snap_frame_t) (fields : snap_fields_t)
    (hh : snap_header_ok fields.header) (j : Nat) (hj : j < 3) :
    (enc_body frame fields).buffer[j]? = (enc_base frame fields).buffer[j]? := by
  rw [enc_body_get frame fields hh, if_neg (by omega), if_neg (by omega), if_neg (by omega)]

/-- Positions from the payload on are not touched by the address and flag loops. -/
theorem enc_body_get_high (frame : snap_frame_t) (fields : snap_fields_t)
    (hh : snap_header_ok fields.header) (j : Nat)
    (hj : 3 + fields.header.dab + fields.header.sab + fields.header.pfb ≤ j) :
    (enc_body frame fields).buffer[j]? = (enc_payloadBuffer frame fields)[j]? := by
  by_cases hl : 3 ≤ frame.buffer.length
  · rw [enc_body_get frame fields hh, if_neg (by omega), if_neg (by omega), if_neg (by omega),
      enc_base_get frame fields hl, if_neg (by omega), if_neg (by omega), if_neg (by omega)]
  · have h1 := (enc_body_fields frame fields hh).2.2.2
    have h2 : (enc_payloadBuffer frame fields).length = frame.buffer.length := by
      simp [enc_payloadBuffer, snap_encapsulate_pad_length, snap_encapsulate_copy_length]
    rw [List.getElem?_eq_none (by omega), List.getElem?_eq_none (by omega)]

/-- The sync byte and the two header bytes of the encoded frame. -/
theorem enc_hashed_head (cfg : snap_build_t) (hcfg : cfg.SNAP_SIZE_USER_HASH ≤ 4)
    (frame : snap_frame_t) (fields : snap_fields_t) (hh : snap_header_ok fields.header)
    (hl : 3 ≤ frame.buffer.length) :
    (enc_hashed cfg frame fields).buffer[0]? = some SNAP_SYNC ∧
    (enc_hashed cfg frame fields).buffer[1]? = some (enc_hdb2 (enc_fields fields).header) ∧
    (enc_hashed cfg frame fields).buffer[2]? = some (enc_hdb1 (enc_fields fields).header) := by
  have hpi := enc_payloadIndex_eq fields hh
  refine ⟨?_, ?_, ?_⟩
  · rw [enc_hashed_get_body cfg hcfg frame fields hh 0 (by omega),
      enc_body_get_low frame fields hh 0 (by omega), enc_base_get frame fields hl]
    simp
  · rw [enc_hashed_get_body cfg hcfg frame fields hh 1 (by omega),
      enc_body_get_low frame fields hh 1 (by omega), enc_base_get frame fields hl]
    simp
  · rw [enc_hashed_get_body cfg hcfg frame fields hh 2 (by omega),
      enc_body_get_low frame fields hh 2 (by omega), enc_base_get frame fields hl]
    simp

/-! ## Reading the header bytes back -/

theorem header_macros (buf : List Nat) (h : snap_header_t) (hh : snap_header_ok h)
    (h1 : buf[1]? = some (enc_hdb2 h)) (h2 : buf[2]? = some (enc_hdb1 h)) :
    SNAP_HDB2_DAB buf = h.dab ∧ SNAP_HDB2_SAB buf = h.sab ∧ SNAP_HDB2_PFB buf = h.pfb ∧
    SNAP_HDB2_ACK buf = h.ack ∧ SNAP_HDB1_CMD buf = h.cmd ∧ SNAP_HDB1_EDM buf = h.edm ∧
    SNAP_HDB1_NDB buf = h.ndb := by
  obtain ⟨a1, a2, a3, a4, a5, a6, a7⟩ := hh
  have u2 := hdb2_unpack h.dab a1 h.sab a2 h.pfb a3 h.ack a4
  have u1 := hdb1_unpack h.cmd a5 h.edm a6 h.ndb a7
  simp only [SNAP_HDB2_DAB, SNAP_HDB2_SAB, SNAP_HDB2_PFB, SNAP_HDB2_ACK, SNAP_HDB1_CMD,
    SNAP_HDB1_EDM, SNAP_HDB1_NDB, SNAP_HDB2, SNAP_HDB1, SNAP_INDEX_HDB2, SNAP_INDEX_HDB1,
    List.getD_eq_getElem?_getD, h1, h2, Option.getD_some, enc_hdb2, enc_hdb1,
    SNAP_HDB2_DAB_MASK, SNAP_HDB2_DAB_POS, SNAP_HDB2_SAB_MASK, SNAP_HDB2_SAB_POS,
    SNAP_HDB2_PFB_MASK, SNAP_HDB2_PFB_POS, SNAP_HDB2_ACK_MASK, SNAP_HDB2_ACK_POS,
    SNAP_HDB1_CMD_MASK, SNAP_HDB1_CMD_POS, SNAP_HDB1_EDM_MASK, SNAP_HDB1_EDM_POS,
    SNAP_HDB1_NDB_MASK, SNAP_HDB1_NDB_POS]
  exact ⟨u2.1, u2.2.1, u2.2.2.1, u2.2.2.2, u1.1, u1.2.1, u1.2.2⟩

theorem enc_fields_header_ok (fields : snap_fields_t) (hh : snap_header_ok fields.header) :
    snap_header_ok (enc_fields fields).header := by
  obtain ⟨a1, a2, a3, a4, a5, a6, _⟩ := hh
  have := snap_getNdbFromDataSize_le (enc_dataSize fields)
  simp only [enc_fields]
  rw [and_mask_ndb _ this]
  exact ⟨a1, a2, a3, a4, a5, a6, by simp only; omega⟩

theorem enc_fields_header (fields : snap_fields_t) :
    (enc_fields fields).header =
      { fields.header with ndb := snap_getNdbFromDataSize (enc_dataSize fields) } := by
  simp only [enc_fields]
  rw [and_mask_ndb _ (snap_getNdbFromDataSize_le _)]

/-- The header macros evaluated on the encoded frame. -/
theorem enc_hashed_macros (cfg : snap_build_t) (hcfg : cfg.SNAP_SIZE_USER_HASH ≤ 4)
    (frame : snap_frame_t) (fields : snap_fields_t) (hh : snap_header_ok fields.header)
    (hl : 3 ≤ frame.buffer.length) :
    SNAP_HDB2_DAB (enc_hashed cfg frame fields).buffer = fields.header.dab ∧
    SNAP_HDB2_SAB (enc_hashed cfg frame fields).buffer = fields.header.sab ∧
    SNAP_HDB2_PFB (enc_hashed cfg frame fields).buffer = fields.header.pfb ∧
    SNAP_HDB2_ACK (enc_hashed cfg frame fields).buffer = fields.header.ack ∧
    SNAP_HDB1_CMD (enc_hashed cfg frame fields).buffer = fields.header.cmd ∧
    SNAP_HDB1_EDM (enc_hashed cfg frame fields).buffer = fields.header.edm ∧
    SNAP_HDB1_NDB (enc_hashed cfg frame fields).buffer =
      snap_getNdbFromDataSize (enc_dataSize fields) := by
  obtain ⟨_, e1, e2⟩ := enc_hashed_head cfg hcfg frame fields hh hl
  have := header_macros _ _ (enc_fields_header_ok fields hh) e1 e2
  rw [enc_fields_header] at this
  exact this

/-- C4: when the frame fits, `snap_getField` with `SNAP_FIELD_HEADER` on the frame built
by `snap_encapsulate` returns 2 and a header record whose dab, sab, pfb, ack, cmd and
edm are the descriptor's and whose ndb is `snap_getNdbFromDataSize` of the descriptor's
`dataSize` as the call leaves it (the value passed in, or 0 when the data pointer is
`NULL`), whatever ndb the descriptor carried on input. -/
theorem snap_getField_header_roundtrip (cfg : snap_build_t) (hcfg : cfg.SNAP_SIZE_USER_HASH ≤ 4)
    (frame : snap_frame_t) (fields : snap_fields_t) (content : snap_content_t)
    (hh : snap_header_ok fields.header) (hl : frame.maxSize ≤ frame.buffer.length)
    (hfit : (snap_encapsulate cfg frame fields).1 = SNAP_STATUS_VALID) :
    snap_getField cfg (snap_encapsulate cfg frame fields).2.1 content SNAP_FIELD_HEADER =
      (2, .header { dab := fields.header.dab, sab := fields.header.sab, pfb := fields.header.pfb,
                    ack := fields.header.ack, cmd := fields.header.cmd, edm := fields.header.edm,
                    ndb := snap_getNdbFromDataSize
                      (snap_encapsulate cfg frame fields).2.2.dataSize }) ∧
    (fields.data ≠ .null → (snap_encapsulate cfg frame fields).2.2.dataSize = fields.dataSize) ∧
    (fields.data = .null → (snap_encapsulate cfg frame fields).2.2.dataSize = 0) := by
  rw [snap_encapsulate_eq] at hfit ⊢
  have hpi := enc_payloadIndex_eq fields hh
  by_cases h : frame.maxSize <
      enc_payloadIndex fields + enc_payloadSize fields + snap_getHashSizeFromEdm cfg fields.header.edm
  · rw [if_pos h] at hfit
    have hne : SNAP_STATUS_ERROR_OVERFLOW ≠ SNAP_STATUS_VALID := by decide
    exact absurd hfit hne
  · rw [if_neg h]
    have hl3 : 3 ≤ frame.buffer.length := by omega
    obtain ⟨m1, m2, m3, m4, m5, m6, m7⟩ := enc_hashed_macros cfg hcfg frame fields hh hl3
    have hsz := (enc_hashed_fields cfg hcfg frame fields hh).1
    have hsz3 : ¬ (enc_hashed cfg frame fields).size < 3 := by omega
    refine ⟨?_, ?_, ?_⟩
    · simp only [snap_getField, SNAP_MIN_SIZE_FRAME, SNAP_SIZE_SYNC, SNAP_SIZE_HEADER,
        SNAP_SIZE_HDB2, SNAP_SIZE_HDB1, Nat.reduceAdd, hsz3, if_false, if_true, m1, m2, m3, m4,
        m5, m6, m7]
      rfl
    · intro hd
      cases hdata : fields.data with
      | null => exact absurd hdata hd
      | array bs => simp only [enc_fields, enc_dataSize, hdata]
      | inBuffer off => simp only [enc_fields, enc_dataSize, hdata]
    · intro hd
      simp only [enc_fields, enc_dataSize, hd]

/-! ## Big-endian fields: written by the encoder loop, read by the accessor loop -/

theorem and_255 (x : Nat) : x &&& 0xFF = x % 256 := by
  have := Nat.and_pow_two_sub_one_eq_mod x 8
  norm_num at this
  exact this

theorem shl8_or (a d : Nat) (hd : d < 256) : (a <<< 8) ||| d = a * 256 + d := by
  have := Nat.mul_add_lt_is_or (i := 8) (b := d) (by norm_num; exact hd) a
  rw [Nat.shiftLeft_eq]
  norm_num at this ⊢
  rw [Nat.mul_comm a 256, ← this]

theorem be_byte (v n : Nat) : (v >>> (n * 8)) &&& 0xFF = v / 256 ^ n % 256 := by
  rw [and_255, Nat.shiftRight_eq_div_pow, Nat.mul_comm n 8, pow_mul]
  norm_num

theorem snap_getField_word_mod (buf : List Nat) (v : Nat) (n : Nat) (i acc : Nat)
    (hb : ∀ k, k < n → buf[i + k]? = some ((v >>> ((n - 1 - k) * 8)) &&& 0xFF)) :
    snap_getField_word buf n i acc % 4294967296 = (acc * 256 ^ n + v % 256 ^ n) % 4294967296 := by
  induction n generalizing i acc with
  | zero => simp [snap_getField_word, Nat.mod_one]
  | succ n ih =>
    have h0 := hb 0 (by omega)
    simp only [Nat.add_zero, Nat.add_sub_cancel, Nat.sub_zero] at h0
    have hd : buf.getD i 0 = v / 256 ^ n % 256 := by
      rw [List.getD_eq_getElem?_getD, h0, Option.getD_some, be_byte]
    have hrest : ∀ k, k < n → buf[i + 1 + k]? = some ((v >>> ((n - 1 - k) * 8)) &&& 0xFF) := by
      intro k hk
      have := hb (k + 1) (by omega)
      have e1 : i + (k + 1) = i + 1 + k := by omega
      have e2 : n + 1 - 1 - (k + 1) = n - 1 - k := by omega
      rw [e1, e2] at this
      exact this
    simp only [snap_getField_word]
    rw [ih (i + 1) _ hrest, hd, shl8_or _ _ (Nat.mod_lt _ (by norm_num))]
    have hsplit : v % 256 ^ (n + 1) = v % 256 ^ n + 256 ^ n * (v / 256 ^ n % 256) := by
      rw [pow_succ, Nat.mod_mul]
    rw [hsplit]
    have key : (acc * 256 + v / 256 ^ n % 256) % 4294967296 * 256 ^ n + v % 256 ^ n
        ≡ (acc * 256 + v / 256 ^ n % 256) * 256 ^ n + v % 256 ^ n [MOD 4294967296] :=
      ((Nat.mod_modEq _ _).mul_right _).add_right _
    have e : (acc * 256 + v / 256 ^ n % 256) * 256 ^ n + v % 256 ^ n =
        acc * 256 ^ (n + 1) + (v % 256 ^ n + 256 ^ n * (v / 256 ^ n % 256)) := by
      ring
    rw [← e]
    exact key

theorem snap_getField_word_lt (buf : List Nat) (n i acc : Nat) (ha : acc < 4294967296) :
    snap_getField_word buf n i acc < 4294967296 := by
  induction n generalizing i acc with
  | zero => simpa [snap_getField_word] using ha
  | succ n ih =>
    simp only [snap_getField_word]
    exact ih _ _ (Nat.mod_lt _ (by norm_num))

/-- Reading `n` bytes (at most 4) that hold the big-endian low bytes of `v` gives
`v % 256 ^ n`. -/
theorem snap_getField_word_eq (buf : List Nat) (v : Nat) (n : Nat) (hn : n ≤ 4) (i : Nat)
    (hb : ∀ k, k < n → buf[i + k]? = some ((v >>> ((n - 1 - k) * 8)) &&& 0xFF)) :
    snap_getField_word buf n i 0 = v % 256 ^ n := by
  have h1 := snap_getField_word_mod buf v n i 0 hb
  have h2 := snap_getField_word_lt buf n i 0 (by norm_num)
  have h3 : v % 256 ^ n < 4294967296 := by
    have : 256 ^ n ≤ 256 ^ 4 := Nat.pow_le_pow_right (by norm_num) hn
    have : v % 256 ^ n < 256 ^ n := Nat.mod_lt _ (by positivity)
    norm_num at *
    omega
  rw [Nat.mod_eq_of_lt h2, Nat.zero_mul, Nat.zero_add, Nat.mod_eq_of_lt h3] at h1
  exact h1

/-- The word loop reads only positions `i .. i + n - 1`. -/
theorem snap_getField_word_congr (b1 b2 : List Nat) (n i acc : Nat)
    (h : ∀ k, k < n → b1[i + k]? = b2[i + k]?) :
    snap_getField_word b1 n i acc = snap_getField_word b2 n i acc := by
  induction n generalizing i acc with
  | zero => rfl
  | succ n ih =>
    have h0 := h 0 (by omega)
    simp only [Nat.add_zero] at h0
    simp only [snap_getField_word, List.getD_eq_getElem?_getD, h0]
    apply ih
    intro k hk
    have := h (k + 1) (by omega)
    have e1 : i + (k + 1) = i + 1 + k := by omega
    rw [e1] at this
    exact this

theorem snap_getField_copy_length (buf : List Nat) (idx n i : Nat) (out : List Nat) :
    (snap_getField_copy buf idx n i out).length = out.length := by
  induction n generalizing i out with
  | zero => rfl
  | succ n ih => simp [snap_getField_copy, ih]

theorem snap_getField_copy_get (buf : List Nat) (idx n i : Nat) (out : List Nat) (j : Nat) :
    (snap_getField_copy buf idx n i out)[j]? =
      if i ≤ j ∧ j < i + n ∧ j < out.length then some (buf.getD (idx + j) 0) else out[j]? := by
  induction n generalizing i out with
  | zero =>
    have : ¬ (i ≤ j ∧ j < i ∧ j < out.length) := by omega
    simp only [snap_getField_copy, Nat.add_zero, if_neg this]
  | succ n ih =>
    simp only [snap_getField_copy, ih, List.length_set, List.getElem?_set]
    by_cases h1 : i + 1 ≤ j ∧ j < i + 1 + n ∧ j < out.length
    · have h2 : i ≤ j ∧ j < i + (n + 1) ∧ j < out.length := by omega
      simp [h1, h2]
    · by_cases h3 : i = j
      · subst h3
        by_cases h4 : i < out.length
        · have h2 : i ≤ i ∧ i < i + (n + 1) ∧ i < out.length := by omega
          simp [h1, h2, h4]
        · have h2 : ¬ (i ≤ i ∧ i < i + (n + 1) ∧ i < out.length) := by omega
          have h5 : out[i]? = none := by simp; omega
          simp [h1, h2, h4, h5]
      · have h2 : ¬ (i ≤ j ∧ j < i + (n + 1) ∧ j < out.length) := by omega
        simp [h1, h2, h3]

/-! ## The decoder on a complete frame -/

theorem header_macros_congr (b1 b2 : List Nat) (h1 : b1[1]? = b2[1]?) (h2 : b1[2]? = b2[2]?) :
    SNAP_HDB2 b1 = SNAP_HDB2 b2 ∧ SNAP_HDB1 b1 = SNAP_HDB1 b2 := by
  simp [SNAP_HDB2, SNAP_HDB1, SNAP_INDEX_HDB2, SNAP_INDEX_HDB1, h1, h2]

theorem dec_fullSize_congr (cfg : snap_build_t) (b1 b2 : List Nat) (h1 : b1[1]? = b2[1]?)
    (h2 : b1[2]? = b2[2]?) :
    SNAP_INDEX_HASH b1 = SNAP_INDEX_HASH b2 ∧ SNAP_SIZE_HASH cfg b1 = SNAP_SIZE_HASH cfg b2 ∧
    dec_fullSize cfg b1 = dec_fullSize cfg b2 := by
  obtain ⟨e2, e1⟩ := header_macros_congr b1 b2 h1 h2
  simp [dec_fullSize, SNAP_INDEX_HASH, SNAP_SIZE_HASH, SNAP_INDEX_DATA, SNAP_INDEX_PFB,
    SNAP_INDEX_SAB, SNAP_SIZE_DATA, SNAP_HDB2_DAB, SNAP_HDB2_SAB, SNAP_HDB2_PFB, SNAP_HDB1_EDM,
    SNAP_HDB1_NDB, e1, e2]

theorem snap_decode_incomplete_short (cfg : snap_build_t) (buf : List Nat) (maxSize k b : Nat)
    (hk : k + 1 < 3) :
    snap_decode cfg { buffer := buf, maxSize := maxSize, size := k, status := SNAP_STATUS_INCOMPLETE } b
      = (SNAP_STATUS_INCOMPLETE,
         { buffer := buf.set k b, maxSize := maxSize, size := k + 1,
           status := SNAP_STATUS_INCOMPLETE }) := by
  have h1 : (k + 1) % 65536 = k + 1 := by omega
  have h2 : ¬ (k + 1 ≥ 3) := by omega
  have h3 : SNAP_STATUS_INCOMPLETE ≠ SNAP_STATUS_IDLE := by decide
  simp only [snap_decode, h3, if_false, if_true, h1, SNAP_MIN_SIZE_FRAME, SNAP_SIZE_SYNC,
    SNAP_SIZE_HEADER, SNAP_SIZE_HDB2, SNAP_SIZE_HDB1, Nat.reduceAdd, h2]

theorem snap_decode_incomplete_mid (cfg : snap_build_t) (buf : List Nat) (maxSize k b : Nat)
    (hk : 3 ≤ k + 1) (hfull : k + 1 < dec_fullSize cfg (buf.set k b))
    (hmax : dec_fullSize cfg (buf.set k b) ≤ maxSize) :
    snap_decode cfg { buffer := buf, maxSize := maxSize, size := k, status := SNAP_STATUS_INCOMPLETE } b
      = (SNAP_STATUS_INCOMPLETE,
         { buffer := buf.set k b, maxSize := maxSize, size := k + 1,
           status := SNAP_STATUS_INCOMPLETE }) := by
  have hlt : dec_fullSize cfg (buf.set k b) < 65536 := Nat.mod_lt _ (by norm_num)
  have h1 : (k + 1) % 65536 = k + 1 := by omega
  have h2 : k + 1 ≥ 3 := hk
  have h3 : SNAP_STATUS_INCOMPLETE ≠ SNAP_STATUS_IDLE := by decide
  have h4 : ¬ maxSize < dec_fullSize cfg (buf.set k b) := by omega
  have h5 : ¬ k + 1 ≥ dec_fullSize cfg (buf.set k b) := by omega
  simp only [dec_fullSize] at h4 h5
  simp only [snap_decode, h3, if_false, if_true, h1, SNAP_MIN_SIZE_FRAME, SNAP_SIZE_SYNC,
    SNAP_SIZE_HEADER, SNAP_SIZE_HDB2, SNAP_SIZE_HDB1, Nat.reduceAdd, h2, h4, h5]

theorem snap_decode_incomplete_last (cfg : snap_build_t) (buf : List Nat) (maxSize k b : Nat)
    (hk : 3 ≤ k + 1) (hfull : dec_fullSize cfg (buf.set k b) = k + 1) (hmax : k + 1 ≤ maxSize) :
    snap_decode cfg { buffer := buf, maxSize := maxSize, size := k, status := SNAP_STATUS_INCOMPLETE } b
      = (dec_verdict cfg { buffer := buf.set k b, maxSize := maxSize, size := k + 1,
                           status := SNAP_STATUS_INCOMPLETE },
         { buffer := buf.set k b, maxSize := maxSize, size := k + 1,
           status := dec_verdict cfg { buffer := buf.set k b, maxSize := maxSize, size := k + 1,
                                       status := SNAP_STATUS_INCOMPLETE } }) := by
  have hlt : dec_fullSize cfg (buf.set k b) < 65536 := Nat.mod_lt _ (by norm_num)
  have h1 : (k + 1) % 65536 = k + 1 := by omega
  have h2 : k + 1 ≥ 3 := hk
  have h3 : SNAP_STATUS_INCOMPLETE ≠ SNAP_STATUS_IDLE := by decide
  have h4 : ¬ maxSize < dec_fullSize cfg (buf.set k b) := by omega
  have h5 : k + 1 ≥ dec_fullSize cfg (buf.set k b) := by omega
  simp only [dec_fullSize] at h4 h5
  simp only [snap_decode, h3, if_false, if_true, h1, SNAP_MIN_SIZE_FRAME, SNAP_SIZE_SYNC,
    SNAP_SIZE_HEADER, SNAP_SIZE_HDB2, SNAP_SIZE_HDB1, Nat.reduceAdd, h2, h4, h5, dec_verdict]
  by_cases h0 : SNAP_SIZE_HASH cfg (buf.set k b) = 0
  · simp [h0]
  · simp only [ne_eq, h0, not_false_eq_true, if_true]

theorem take_set_succ (buf : List Nat) (k b : Nat) (hk : k < buf.length) :
    (buf.set k b).take (k + 1) = buf.take k ++ [b] := by
  have hself : (buf.set k b).take k = buf.take k :=
    List.ext_getElem? fun i => by
      rw [List.getElem?_take, List.getElem?_take]
      split
      · next h => rw [List.getElem?_set_ne (by omega)]
      · rfl
  rw [List.take_add_one, hself]
  simp [List.getElem?_set, hk]

theorem splice_step (buf : List Nat) (k b T : Nat) (rest : List Nat) (hk : k < buf.length)
    (hT : k < T) :
    (buf.set k b).take (k + 1) ++ rest ++ (buf.set k b).drop T =
      buf.take k ++ (b :: rest) ++ buf.drop T := by
  rw [take_set_succ buf k b hk, List.drop_set_of_lt b buf hT]
  simp

theorem splice_get_low (buf rest tl : List Nat) (k j : Nat) (hk : k ≤ buf.length) (hj : j < k) :
    (buf.take k ++ rest ++ tl)[j]? = buf[j]? := by
  rw [List.append_assoc, List.getElem?_append_left (by simp; omega), List.getElem?_take_of_lt hj]

/-- Decoding the remaining bytes of a frame whose first `k` bytes are already in the
buffer: every byte but the last returns Incomplete, the last one returns the verdict. -/
theorem snap_decode_bytes_run (cfg : snap_build_t) (maxSize T : Nat) (hT3 : 3 ≤ T)
    (hmax : T ≤ maxSize) (rest : List Nat) :
    ∀ (k : Nat) (buf : List Nat), 1 ≤ k → k + rest.length = T → rest ≠ [] → T ≤ buf.length →
      dec_fullSize cfg (buf.take k ++ rest ++ buf.drop T) = T →
      snap_decode_bytes cfg
          { buffer := buf, maxSize := maxSize, size := k, status := SNAP_STATUS_INCOMPLETE } rest =
        (List.replicate (rest.length - 1) SNAP_STATUS_INCOMPLETE ++
            [dec_verdict cfg { buffer := buf.take k ++ rest ++ buf.drop T, maxSize := maxSize,
                               size := T, status := SNAP_STATUS_INCOMPLETE }],
          { buffer := buf.take k ++ rest ++ buf.drop T, maxSize := maxSize, size := T,
            status := dec_verdict cfg { buffer := buf.take k ++ rest ++ buf.drop T,
                                        maxSize := maxSize, size := T,
                                        status := SNAP_STATUS_INCOMPLETE } }) := by
  induction rest with
  | nil => intro k buf _ _ h; exact absurd rfl h
  | cons b rest ih =>
    intro k buf hk1 hlen _ hbuf hfull
    simp only [List.length_cons] at hlen
    have hkb : k < buf.length := by omega
    have hsplice := splice_step buf k b T rest hkb (by omega)
    cases rest with
    | nil =>
      simp only [List.length_nil, Nat.zero_add] at hlen
      have hfin : buf.take k ++ [b] ++ buf.drop T = buf.set k b := by
        rw [← hsplice, ← hlen]
        simp
      rw [hfin] at hfull ⊢
      simp only [snap_decode_bytes, List.length_singleton, Nat.sub_self, List.replicate_zero,
        List.nil_append]
      rw [snap_decode_incomplete_last cfg buf maxSize k b (by omega) (by omega) (by omega), hlen]
    | cons b2 rest2 =>
      simp only [List.length_cons] at hlen
      have hstep : snap_decode cfg
          { buffer := buf, maxSize := maxSize, size := k, status := SNAP_STATUS_INCOMPLETE } b =
          (SNAP_STATUS_INCOMPLETE,
            { buffer := buf.set k b, maxSize := maxSize, size := k + 1,
              status := SNAP_STATUS_INCOMPLETE }) := by
        by_cases h3 : k + 1 < 3
        · exact snap_decode_incomplete_short cfg buf maxSize k b h3
        · have e1 : (buf.set k b)[1]? = (buf.take k ++ (b :: b2 :: rest2) ++ buf.drop T)[1]? := by
            rw [← hsplice, splice_get_low _ _ _ _ _ (by simp; omega) (by omega)]
          have e2 : (buf.set k b)[2]? = (buf.take k ++ (b :: b2 :: rest2) ++ buf.drop T)[2]? := by
            rw [← hsplice, splice_get_low _ _ _ _ _ (by simp; omega) (by omega)]
          have hf := (dec_fullSize_congr cfg _ _ e1 e2).2.2
          rw [hfull] at hf
          exact snap_decode_incomplete_mid cfg buf maxSize k b (by omega) (by omega) (by omega)
      have hih := ih (k + 1) (buf.set k b) (by omega) (by simp only [List.length_cons]; omega)
        (by simp) (by simp; omega) (by rw [hsplice]; exact hfull)
      rw [hsplice] at hih
      rw [snap_decode_bytes, hstep]
      simp only [hih, List.length_cons, Nat.add_sub_cancel]
      rfl

/-- Decoding a complete frame `bs` (sync byte first, length equal to the frame size its
header declares, which fits) from an Idle frame: Incomplete for every byte but the last,
then the verdict; the buffer then starts with `bs`. -/
theorem snap_decode_bytes_frame (cfg : snap_build_t) (f : snap_frame_t) (bs : List Nat)
    (hs : f.status = SNAP_STATUS_IDLE) (h3 : 3 ≤ bs.length) (hmax : bs.length ≤ f.maxSize)
    (hbuf : bs.length ≤ f.buffer.length) (hsync : bs[0]? = some SNAP_SYNC)
    (hfull : dec_fullSize cfg bs = bs.length) :
    snap_decode_bytes cfg f bs =
      (List.replicate (bs.length - 1) SNAP_STATUS_INCOMPLETE ++
          [dec_verdict cfg { buffer := bs ++ f.buffer.drop bs.length, maxSize := f.maxSize,
                             size := bs.length, status := SNAP_STATUS_INCOMPLETE }],
        { buffer := bs ++ f.buffer.drop bs.length, maxSize := f.maxSize, size := bs.length,
          status := dec_verdict cfg { buffer := bs ++ f.buffer.drop bs.length,
                                      maxSize := f.maxSize, size := bs.length,
                                      status := SNAP_STATUS_INCOMPLETE } }) := by
  cases bs with
  | nil => simp at h3
  | cons b rest =>
    simp only [List.getElem?_cons_zero, Option.some.injEq] at hsync
    subst hsync
    simp only [List.length_cons] at h3 hmax hbuf hfull ⊢
    have hfirst : snap_decode cfg f SNAP_SYNC =
        (SNAP_STATUS_INCOMPLETE,
          { buffer := f.buffer.set 0 SNAP_SYNC, maxSize := f.maxSize, size := 1,
            status := SNAP_STATUS_INCOMPLETE }) := snap_decode_idle_sync cfg f hs
    have hfin : (f.buffer.set 0 SNAP_SYNC).take 1 ++ rest ++ (f.buffer.set 0 SNAP_SYNC).drop (rest.length + 1)
        = SNAP_SYNC :: rest ++ f.buffer.drop (rest.length + 1) := by
      rw [take_set_succ f.buffer 0 SNAP_SYNC (by omega), List.drop_set_of_lt _ _ (by omega)]
      simp
    have hrun := snap_decode_bytes_run cfg f.maxSize (rest.length + 1) h3 hmax rest 1
      (f.buffer.set 0 SNAP_SYNC) (by omega) (by omega)
      (by intro h; rw [h] at h3; simp at h3) (by simp; omega)
      (by rw [hfin]
          have := (dec_fullSize_congr cfg (SNAP_SYNC :: rest ++ f.buffer.drop (rest.length + 1))
            (SNAP_SYNC :: rest) (by
              rw [List.getElem?_append_left (by simp only [List.length_cons]; omega)]) (by
              rw [List.getElem?_append_left (by simp only [List.length_cons]; omega)])).2.2
          rw [this]; exact hfull)
    rw [hfin] at hrun
    rw [snap_decode_bytes, hfirst]
    simp only [hrun, Nat.add_sub_cancel]
    have hr : List.replicate rest.length SNAP_STATUS_INCOMPLETE =
        SNAP_STATUS_INCOMPLETE :: List.replicate (rest.length - 1) SNAP_STATUS_INCOMPLETE := by
      have e : rest.length = (rest.length - 1) + 1 := by omega
      conv_lhs => rw [e, List.replicate_succ]
    rw [hr]
    rfl

/-! ## The accessors on a frame whose header bytes are known -/

theorem layout_macros (cfg : snap_build_t) (buf : List Nat) (h : snap_header_t)
    (hh : snap_header_ok h) (h1 : buf[1]? = some (enc_hdb2 h)) (h2 : buf[2]? = some (enc_hdb1 h)) :
    SNAP_INDEX_SAB buf = 3 + h.dab ∧ SNAP_INDEX_PFB buf = 3 + h.dab + h.sab ∧
    SNAP_INDEX_DATA buf = 3 + h.dab + h.sab + h.pfb ∧
    SNAP_SIZE_DATA buf = snap_getDataSizeFromNdb h.ndb ∧
    SNAP_INDEX_HASH buf = 3 + h.dab + h.sab + h.pfb + snap_getDataSizeFromNdb h.ndb ∧
    SNAP_SIZE_HASH cfg buf = snap_getHashSizeFromEdm cfg h.edm := by
  obtain ⟨m1, m2, m3, _, _, m6, m7⟩ := header_macros buf h hh h1 h2
  simp only [SNAP_INDEX_SAB, SNAP_INDEX_PFB, SNAP_INDEX_DATA, SNAP_INDEX_HASH, SNAP_SIZE_DATA,
    SNAP_SIZE_HASH, SNAP_INDEX_DAB, m1, m2, m3, m6, m7, and_self]

theorem snap_getHashSizeFromEdm_builtin (cfg : snap_build_t) :
    snap_getHashSizeFromEdm cfg 2 = 1 ∧ snap_getHashSizeFromEdm cfg 3 = 1 ∧
    snap_getHashSizeFromEdm cfg 4 = 2 ∧ snap_getHashSizeFromEdm cfg 5 = 4 :=
  ⟨rfl, rfl, rfl, rfl⟩

theorem snap_getHashSizeFromEdm_builtin_ne (cfg : snap_build_t) (edm : Nat)
    (hedm : edm = 2 ∨ edm = 3 ∨ edm = 4 ∨ edm = 5) : snap_getHashSizeFromEdm cfg edm ≠ 0 := by
  obtain ⟨b2, b3, b4, b5⟩ := snap_getHashSizeFromEdm_builtin cfg
  rcases hedm with e | e | e | e <;> rw [e] <;> omega

theorem snap_calculateHash_eval (cfg : snap_build_t) (F : snap_frame_t) (h : snap_header_t)
    (hh : snap_header_ok h) (h1 : F.buffer[1]? = some (enc_hdb2 h))
    (h2 : F.buffer[2]? = some (enc_hdb1 h))
    (hedm : h.edm = 2 ∨ h.edm = 3 ∨ h.edm = 4 ∨ h.edm = 5)
    (hsz : 3 + h.dab + h.sab + h.pfb + snap_getDataSizeFromNdb h.ndb ≤ F.size) (old : Nat) :
    (snap_calculateHash cfg F old).2 =
      hash_of h.edm ((F.buffer.drop 1).take
        (3 + h.dab + h.sab + h.pfb + snap_getDataSizeFromNdb h.ndb - 1)) := by
  obtain ⟨_, _, _, _, l5, l6⟩ := layout_macros cfg F.buffer h hh h1 h2
  obtain ⟨_, _, _, _, _, m6, _⟩ := header_macros F.buffer h hh h1 h2
  have hp := snap_getDataSizeFromNdb_le h.ndb
  obtain ⟨a1, a2, a3, _⟩ := hh
  have hs3 : ¬ F.size < 3 := by omega
  have hI : (3 + h.dab + h.sab + h.pfb + snap_getDataSizeFromNdb h.ndb) % 65536 =
      3 + h.dab + h.sab + h.pfb + snap_getDataSizeFromNdb h.ndb := by omega
  have hI2 : (3 + h.dab + h.sab + h.pfb + snap_getDataSizeFromNdb h.ndb + 65535) % 65536 =
      3 + h.dab + h.sab + h.pfb + snap_getDataSizeFromNdb h.ndb - 1 := by omega
  have hlt : ¬ F.size < 3 + h.dab + h.sab + h.pfb + snap_getDataSizeFromNdb h.ndb := by omega
  have hne : snap_getHashSizeFromEdm cfg h.edm ≠ 0 :=
    snap_getHashSizeFromEdm_builtin_ne cfg h.edm hedm
  simp only [snap_calculateHash, SNAP_MIN_SIZE_FRAME, SNAP_SIZE_SYNC, SNAP_SIZE_HEADER,
    SNAP_SIZE_HDB2, SNAP_SIZE_HDB1, Nat.reduceAdd, hs3, if_false, l5, l6, hne, hI, hI2, hlt, m6,
    SNAP_INDEX_HDB2, hash_of, SNAP_HDB1_EDM_8BIT_CHECKSUM, SNAP_HDB1_EDM_8BIT_CRC,
    SNAP_HDB1_EDM_16BIT_CRC, SNAP_HDB1_EDM_32BIT_CRC, snap_calculateChecksum8,
    snap_calculateCrc8, snap_calculateCrc16, snap_calculateCrc32, List.take_length]
  rcases hedm with e | e | e | e <;> simp [e]

theorem snap_getField_hash_eval (cfg : snap_build_t) (hcfg : cfg.SNAP_SIZE_USER_HASH ≤ 4)
    (F : snap_frame_t) (h : snap_header_t)
    (hh : snap_header_ok h) (h1 : F.buffer[1]? = some (enc_hdb2 h))
    (h2 : F.buffer[2]? = some (enc_hdb1 h))
    (hne : snap_getHashSizeFromEdm cfg h.edm ≠ 0)
    (hsz : 3 + h.dab + h.sab + h.pfb + snap_getDataSizeFromNdb h.ndb +
      snap_getHashSizeFromEdm cfg h.edm ≤ F.size) (c : snap_content_t) :
    snap_getField cfg F c SNAP_FIELD_HASH =
      (Int.ofNat (snap_getHashSizeFromEdm cfg h.edm),
        .word (snap_getField_word F.buffer (snap_getHashSizeFromEdm cfg h.edm)
          (3 + h.dab + h.sab + h.pfb + snap_getDataSizeFromNdb h.ndb) 0)) := by
  obtain ⟨_, _, _, _, l5, l6⟩ := layout_macros cfg F.buffer h hh h1 h2
  have hp := snap_getDataSizeFromNdb_le h.ndb
  have hhs := snap_getHashSizeFromEdm_le cfg hcfg h.edm
  obtain ⟨a1, a2, a3, _⟩ := hh
  have hs3 : ¬ F.size < 3 := by omega
  have hI : (3 + h.dab + h.sab + h.pfb + snap_getDataSizeFromNdb h.ndb) % 65536 =
      3 + h.dab + h.sab + h.pfb + snap_getDataSizeFromNdb h.ndb := by omega
  have hI2 : (3 + h.dab + h.sab + h.pfb + snap_getDataSizeFromNdb h.ndb +
      snap_getHashSizeFromEdm cfg h.edm) % 65536 =
      3 + h.dab + h.sab + h.pfb + snap_getDataSizeFromNdb h.ndb +
        snap_getHashSizeFromEdm cfg h.edm := by omega
  have hlt : ¬ F.size < 3 + h.dab + h.sab + h.pfb + snap_getDataSizeFromNdb h.ndb +
      snap_getHashSizeFromEdm cfg h.edm := by omega
  have hcnt : 3 + h.dab + h.sab + h.pfb + snap_getDataSizeFromNdb h.ndb +
      snap_getHashSizeFromEdm cfg h.edm -
      (3 + h.dab + h.sab + h.pfb + snap_getDataSizeFromNdb h.ndb) =
      snap_getHashSizeFromEdm cfg h.edm := by omega
  simp [snap_getField, SNAP_MIN_SIZE_FRAME, SNAP_SIZE_SYNC, SNAP_SIZE_HEADER,
    SNAP_SIZE_HDB2, SNAP_SIZE_HDB1, hs3, l5, l6, hne, hI, hI2, hlt, hcnt,
    SNAP_FIELD_HASH, SNAP_FIELD_HEADER, SNAP_FIELD_DEST_ADDRESS, SNAP_FIELD_SOURCE_ADDRESS,
    SNAP_FIELD_DATA, SNAP_FIELD_PROTOCOL_FLAGS]

/-! ## Hash values fit their field -/

theorem foldl_lt (f : Nat → Nat → Nat) (M : Nat) (hf : ∀ s b, f s b < M) (l : List Nat)
    (s0 : Nat) (h0 : s0 < M) : l.foldl f s0 < M := by
  induction l generalizing s0 with
  | nil => exact h0
  | cons b l ih => exact ih _ (hf _ _)

theorem crc8_bit_lt (c : Nat) : crc8_bit c < 256 := by
  unfold crc8_bit
  split_ifs <;> exact Nat.mod_lt _ (by norm_num)

theorem crc16_bit_lt (c : Nat) : crc16_bit c < 65536 := by
  unfold crc16_bit
  split_ifs <;> exact Nat.mod_lt _ (by norm_num)

theorem crc32_bit_lt (c : Nat) : crc32_bit c < 4294967296 := by
  unfold crc32_bit
  split_ifs <;> exact Nat.mod_lt _ (by norm_num)

theorem crc8_byte_lt (s b : Nat) : crc8_byte s b < 256 := by
  unfold crc8_byte
  rw [Function.iterate_succ_apply']
  exact crc8_bit_lt _

theorem crc16_byte_lt (s b : Nat) : crc16_byte s b < 65536 := by
  unfold crc16_byte
  rw [Function.iterate_succ_apply']
  exact crc16_bit_lt _

theorem crc32_byte_lt (s b : Nat) : crc32_byte s b < 4294967296 := by
  unfold crc32_byte
  rw [Function.iterate_succ_apply']
  exact crc32_bit_lt _

theorem hash_of_lt (cfg : snap_build_t) (edm : Nat)
    (hedm : edm = 2 ∨ edm = 3 ∨ edm = 4 ∨ edm = 5) (bytes : List Nat) :
    hash_of edm bytes < 256 ^ snap_getHashSizeFromEdm cfg edm := by
  obtain ⟨b2, b3, b4, b5⟩ := snap_getHashSizeFromEdm_builtin cfg
  rcases hedm with e | e | e | e <;> subst e
  · rw [b2]
    simp only [hash_of, SNAP_HDB1_EDM_8BIT_CHECKSUM, if_true, snap_calculateChecksum8]
    exact foldl_lt _ 256 (fun _ _ => Nat.mod_lt _ (by norm_num)) _ 0 (by norm_num)
  · rw [b3]
    simp only [hash_of, SNAP_HDB1_EDM_8BIT_CHECKSUM, SNAP_HDB1_EDM_8BIT_CRC, if_true,
      snap_calculateCrc8, Nat.reduceEqDiff, if_false]
    exact foldl_lt _ 256 crc8_byte_lt _ 0 (by norm_num)
  · rw [b4]
    simp only [hash_of, SNAP_HDB1_EDM_8BIT_CHECKSUM, SNAP_HDB1_EDM_8BIT_CRC,
      SNAP_HDB1_EDM_16BIT_CRC, if_true, snap_calculateCrc16, Nat.reduceEqDiff, if_false]
    exact foldl_lt _ 65536 crc16_byte_lt _ 0 (by norm_num)
  · rw [b5]
    simp only [hash_of, SNAP_HDB1_EDM_8BIT_CHECKSUM, SNAP_HDB1_EDM_8BIT_CRC,
      SNAP_HDB1_EDM_16BIT_CRC, SNAP_HDB1_EDM_32BIT_CRC, if_true, snap_calculateCrc32,
      Nat.reduceEqDiff, if_false]
    norm_num
    omega

/-! ## Frames that hold an encoded frame -/

theorem enc_body_head (frame : snap_frame_t) (fields : snap_fields_t)
    (hh : snap_header_ok fields.header) (hl : 3 ≤ frame.buffer.length) :
    (enc_body frame fields).buffer[1]? = some (enc_hdb2 (enc_fields fields).header) ∧
    (enc_body frame fields).buffer[2]? = some (enc_hdb1 (enc_fields fields).header) := by
  constructor
  · rw [enc_body_get_low frame fields hh 1 (by omega), enc_base_get frame fields hl]
    simp
  · rw [enc_body_get_low frame fields hh 2 (by omega), enc_base_get frame fields hl]
    simp

theorem enc_fields_header_sizes (cfg : snap_build_t) (fields : snap_fields_t)
    (hh : snap_header_ok fields.header) :
    3 + (enc_fields fields).header.dab + (enc_fields fields).header.sab +
      (enc_fields fields).header.pfb + snap_getDataSizeFromNdb (enc_fields fields).header.ndb =
      enc_payloadIndex fields + enc_payloadSize fields ∧
    (enc_fields fields).header.edm = fields.header.edm ∧
    enc_payloadIndex fields + enc_payloadSize fields +
      snap_getHashSizeFromEdm cfg fields.header.edm = enc_total cfg fields := by
  refine ⟨?_, rfl, enc_total_eq cfg fields hh⟩
  rw [enc_payloadIndex_eq fields hh]
  rfl

/-- The full frame size the decoder derives from a buffer that starts with the bytes
of the encoded frame. -/
theorem holder_fullSize (cfg : snap_build_t) (hcfg : cfg.SNAP_SIZE_USER_HASH ≤ 4)
    (frame : snap_frame_t) (fields : snap_fields_t) (hh : snap_header_ok fields.header)
    (hl : 3 ≤ frame.buffer.length) (buf : List Nat)
    (h1 : buf[1]? = (enc_hashed cfg frame fields).buffer[1]?)
    (h2 : buf[2]? = (enc_hashed cfg frame fields).buffer[2]?) :
    dec_fullSize cfg buf = enc_total cfg fields := by
  obtain ⟨_, e1, e2⟩ := enc_hashed_head cfg hcfg frame fields hh hl
  rw [e1] at h1
  rw [e2] at h2
  obtain ⟨_, _, _, _, l5, l6⟩ := layout_macros cfg buf _ (enc_fields_header_ok fields hh) h1 h2
  obtain ⟨s1, s2, s3⟩ := enc_fields_header_sizes cfg fields hh
  have hp : enc_payloadSize fields ≤ 512 := snap_getDataSizeFromNdb_le _
  have hhs := snap_getHashSizeFromEdm_le cfg hcfg fields.header.edm
  have hpi := enc_payloadIndex_eq fields hh
  obtain ⟨a1, a2, a3, _⟩ := hh
  have hT : enc_total cfg fields < 65536 := by rw [← s3]; omega
  simp only [dec_fullSize, l5, l6]
  rw [s1, s2, s3]
  exact Nat.mod_eq_of_lt hT

theorem slice_congr (b1 b2 : List Nat) (I : Nat) (h : ∀ j, j < I → b1[j]? = b2[j]?) :
    (b1.drop 1).take (I - 1) = (b2.drop 1).take (I - 1) :=
  List.ext_getElem? fun i => by
    rw [List.getElem?_take, List.getElem?_take]
    split
    · next hi => rw [List.getElem?_drop, List.getElem?_drop, h (1 + i) (by omega)]
    · rfl

/-- The hash the encoder stores, as a function of the bytes before the hash field. -/
theorem enc_hash_value (cfg : snap_build_t) (frame : snap_frame_t) (fields : snap_fields_t)
    (hh : snap_header_ok fields.header) (hl : 3 ≤ frame.buffer.length)
    (hedm : fields.header.edm = 2 ∨ fields.header.edm = 3 ∨ fields.header.edm = 4 ∨
      fields.header.edm = 5) :
    (snap_calculateHash cfg (enc_body frame fields) 0).2 =
      hash_of fields.header.edm (((enc_body frame fields).buffer.drop 1).take
        (enc_payloadIndex fields + enc_payloadSize fields - 1)) := by
  obtain ⟨e1, e2⟩ := enc_body_head frame fields hh hl
  obtain ⟨s1, s2, _⟩ := enc_fields_header_sizes cfg fields hh
  have hsz := (enc_body_fields frame fields hh).1
  have := snap_calculateHash_eval cfg (enc_body frame fields) _ (enc_fields_header_ok fields hh)
    e1 e2 hedm (by rw [s1, hsz]) 0
  rw [s1, s2] at this
  exact this

/-- The hash bytes of a frame that holds the encoded frame, read back by the accessor. -/
theorem holder_hash_field (cfg : snap_build_t) (hcfg : cfg.SNAP_SIZE_USER_HASH ≤ 4)
    (frame : snap_frame_t) (fields : snap_fields_t) (hh : snap_header_ok fields.header)
    (hl : enc_total cfg fields ≤ frame.buffer.length)
    (hedm : fields.header.edm = 2 ∨ fields.header.edm = 3 ∨ fields.header.edm = 4 ∨
      fields.header.edm = 5)
    (F : snap_frame_t) (hsz : F.size = enc_total cfg fields)
    (h12 : F.buffer[1]? = (enc_hashed cfg frame fields).buffer[1]? ∧
      F.buffer[2]? = (enc_hashed cfg frame fields).buffer[2]?)
    (hF : ∀ j, enc_payloadIndex fields + enc_payloadSize fields ≤ j → j < enc_total cfg fields →
      F.buffer[j]? = (enc_hashed cfg frame fields).buffer[j]?) (c : snap_content_t) :
    snap_getField cfg F c SNAP_FIELD_HASH =
      (Int.ofNat (snap_getHashSizeFromEdm cfg fields.header.edm),
        .word (snap_calculateHash cfg (enc_body frame fields) 0).2) := by
  obtain ⟨s1, s2, s3⟩ := enc_fields_header_sizes cfg fields hh
  have hpi := enc_payloadIndex_eq fields hh
  have hl3 : 3 ≤ frame.buffer.length := by rw [← s3] at hl; omega
  obtain ⟨_, e1, e2⟩ := enc_hashed_head cfg hcfg frame fields hh hl3
  have f1 := h12.1
  have f2 := h12.2
  rw [e1] at f1
  rw [e2] at f2
  have hne := snap_getHashSizeFromEdm_builtin_ne cfg fields.header.edm hedm
  have hhs := snap_getHashSizeFromEdm_le cfg hcfg fields.header.edm
  have hev := snap_getField_hash_eval cfg hcfg F _ (enc_fields_header_ok fields hh) f1 f2 hne
    (by rw [s1, s2, s3, hsz]) c
  rw [s1, s2] at hev
  rw [hev]
  have hw := snap_getField_word_eq F.buffer (snap_calculateHash cfg (enc_body frame fields) 0).2
    (snap_getHashSizeFromEdm cfg fields.header.edm) hhs
    (enc_payloadIndex fields + enc_payloadSize fields) (by
      intro k hk
      rw [hF _ (by omega) (by rw [← s3]; omega), enc_hashed_get cfg hcfg frame fields hh,
        if_pos ⟨by omega, by omega, by rw [← s3] at hl; omega⟩]
      have e : enc_payloadIndex fields + enc_payloadSize fields +
          snap_getHashSizeFromEdm cfg fields.header.edm - 1 -
          (enc_payloadIndex fields + enc_payloadSize fields + k) =
          snap_getHashSizeFromEdm cfg fields.header.edm - 1 - k := by omega
      rw [e])
  rw [hw, enc_hash_value cfg frame fields hh hl3 hedm,
    Nat.mod_eq_of_lt (hash_of_lt cfg fields.header.edm hedm _)]

/-- The hash the decoder recomputes on a frame whose header bytes are those of the
encoded frame. -/
theorem holder_hash_calc (cfg : snap_build_t) (hcfg : cfg.SNAP_SIZE_USER_HASH ≤ 4)
    (frame : snap_frame_t) (fields : snap_fields_t) (hh : snap_header_ok fields.header)
    (hl : enc_total cfg fields ≤ frame.buffer.length)
    (hedm : fields.header.edm = 2 ∨ fields.header.edm = 3 ∨ fields.header.edm = 4 ∨
      fields.header.edm = 5)
    (F : snap_frame_t) (hsz : F.size = enc_total cfg fields)
    (h12 : F.buffer[1]? = (enc_hashed cfg frame fields).buffer[1]? ∧
      F.buffer[2]? = (enc_hashed cfg frame fields).buffer[2]?) :
    (snap_calculateHash cfg F 0).2 =
      hash_of fields.header.edm ((F.buffer.drop 1).take
        (enc_payloadIndex fields + enc_payloadSize fields - 1)) := by
  obtain ⟨s1, s2, s3⟩ := enc_fields_header_sizes cfg fields hh
  have hpi := enc_payloadIndex_eq fields hh
  have hl3 : 3 ≤ frame.buffer.length := by rw [← s3] at hl; omega
  obtain ⟨_, e1, e2⟩ := enc_hashed_head cfg hcfg frame fields hh hl3
  have f1 := h12.1
  have f2 := h12.2
  rw [e1] at f1
  rw [e2] at f2
  have := snap_calculateHash_eval cfg F _ (enc_fields_header_ok fields hh) f1 f2 hedm
    (by rw [s1, hsz, ← s3]; omega) 0
  rw [s1, s2] at this
  exact this

theorem holder_size_hash (cfg : snap_build_t) (hcfg : cfg.SNAP_SIZE_USER_HASH ≤ 4)
    (frame : snap_frame_t) (fields : snap_fields_t) (hh : snap_header_ok fields.header)
    (hl : 3 ≤ frame.buffer.length) (buf : List Nat)
    (h12 : buf[1]? = (enc_hashed cfg frame fields).buffer[1]? ∧
      buf[2]? = (enc_hashed cfg frame fields).buffer[2]?) :
    SNAP_SIZE_HASH cfg buf = snap_getHashSizeFromEdm cfg fields.header.edm := by
  obtain ⟨_, e1, e2⟩ := enc_hashed_head cfg hcfg frame fields hh hl
  have f1 := h12.1
  have f2 := h12.2
  rw [e1] at f1
  rw [e2] at f2
  exact (layout_macros cfg buf _ (enc_fields_header_ok fields hh) f1 f2).2.2.2.2.2

/-- A frame record whose first bytes are the encoded frame passes the decoder's final
check. -/
theorem holder_verdict_valid (cfg : snap_build_t) (hcfg : cfg.SNAP_SIZE_USER_HASH ≤ 4)
    (frame : snap_frame_t) (fields : snap_fields_t) (hh : snap_header_ok fields.header)
    (hl : enc_total cfg fields ≤ frame.buffer.length)
    (hedm : fields.header.edm = 2 ∨ fields.header.edm = 3 ∨ fields.header.edm = 4 ∨
      fields.header.edm = 5)
    (F : snap_frame_t) (hsz : F.size = enc_total cfg fields)
    (hF : ∀ j, j < enc_total cfg fields →
      F.buffer[j]? = (enc_hashed cfg frame fields).buffer[j]?) :
    dec_verdict cfg F = SNAP_STATUS_VALID := by
  obtain ⟨s1, s2, s3⟩ := enc_fields_header_sizes cfg fields hh
  have hpi := enc_payloadIndex_eq fields hh
  have hl3 : 3 ≤ frame.buffer.length := by rw [← s3] at hl; omega
  have h12 : F.buffer[1]? = (enc_hashed cfg frame fields).buffer[1]? ∧
      F.buffer[2]? = (enc_hashed cfg frame fields).buffer[2]? :=
    ⟨hF 1 (by rw [← s3]; omega), hF 2 (by rw [← s3]; omega)⟩
  have hfield := holder_hash_field cfg hcfg frame fields hh hl hedm F hsz h12
    (fun j _ hj => hF j hj) (.word 0)
  have hcalc := holder_hash_calc cfg hcfg frame fields hh hl hedm F hsz h12
  have hslice := slice_congr F.buffer (enc_body frame fields).buffer
    (enc_payloadIndex fields + enc_payloadSize fields) (fun j hj => by
      rw [hF j (by rw [← s3]; omega), enc_hashed_get_body cfg hcfg frame fields hh j hj])
  rw [hslice, ← enc_hash_value cfg frame fields hh hl3 hedm] at hcalc
  have hne := snap_getHashSizeFromEdm_builtin_ne cfg fields.header.edm hedm
  simp only [dec_verdict, holder_size_hash cfg hcfg frame fields hh hl3 F.buffer h12, ne_eq, hne,
    not_false_eq_true, if_true, hfield, hcalc]

/-- The bytes the encoder emits, decoded from an Idle frame of sufficient capacity. -/
theorem snap_decode_encoded (cfg : snap_build_t) (hcfg : cfg.SNAP_SIZE_USER_HASH ≤ 4)
    (frame : snap_frame_t) (fields : snap_fields_t) (hh : snap_header_ok fields.header)
    (hl : enc_total cfg fields ≤ frame.buffer.length)
    (f : snap_frame_t) (hs : f.status = SNAP_STATUS_IDLE) (hmax : enc_total cfg fields ≤ f.maxSize)
    (hbuf : enc_total cfg fields ≤ f.buffer.length) :
    snap_decode_bytes cfg f ((enc_hashed cfg frame fields).buffer.take (enc_total cfg fields)) =
      (List.replicate (enc_total cfg fields - 1) SNAP_STATUS_INCOMPLETE ++
          [dec_verdict cfg
            { buffer := (enc_hashed cfg frame fields).buffer.take (enc_total cfg fields) ++
                f.buffer.drop (enc_total cfg fields),
              maxSize := f.maxSize, size := enc_total cfg fields,
              status := SNAP_STATUS_INCOMPLETE }],
        { buffer := (enc_hashed cfg frame fields).buffer.take (enc_total cfg fields) ++
            f.buffer.drop (enc_total cfg fields),
          maxSize := f.maxSize, size := enc_total cfg fields,
          status := dec_verdict cfg
            { buffer := (enc_hashed cfg frame fields).buffer.take (enc_total cfg fields) ++
                f.buffer.drop (enc_total cfg fields),
              maxSize := f.maxSize, size := enc_total cfg fields,
              status := SNAP_STATUS_INCOMPLETE } }) := by
  obtain ⟨s1, s2, s3⟩ := enc_fields_header_sizes cfg fields hh
  have hpi := enc_payloadIndex_eq fields hh
  have hT3 : 3 ≤ enc_total cfg fields := by rw [← s3]; omega
  have hl3 : 3 ≤ frame.buffer.length := by omega
  have hlenB := (enc_hashed_fields cfg hcfg frame fields hh).2.2.2
  have hlen : ((enc_hashed cfg frame fields).buffer.take (enc_total cfg fields)).length =
      enc_total cfg fields := by
    rw [List.length_take, hlenB]
    omega
  obtain ⟨e0, _, _⟩ := enc_hashed_head cfg hcfg frame fields hh hl3
  have := snap_decode_bytes_frame cfg f
    ((enc_hashed cfg frame fields).buffer.take (enc_total cfg fields)) hs (by rw [hlen]; exact hT3)
    (by rw [hlen]; exact hmax) (by rw [hlen]; exact hbuf)
    (by rw [List.getElem?_take_of_lt (by omega), e0])
    (by rw [hlen]
        exact holder_fullSize cfg hcfg frame fields hh hl3 _
          (List.getElem?_take_of_lt (by omega)) (List.getElem?_take_of_lt (by omega)))
  rw [hlen] at this
  exact this

theorem take_append_get (B tl : List Nat) (T j : Nat) (hT : T ≤ B.length) (hj : j < T) :
    (B.take T ++ tl)[j]? = B[j]? := by
  rw [List.getElem?_append_left (by rw [List.length_take]; omega), List.getElem?_take_of_lt hj]

theorem enc_total_le (cfg : snap_build_t) (hcfg : cfg.SNAP_SIZE_USER_HASH ≤ 4)
    (fields : snap_fields_t) (hh : snap_header_ok fields.header) :
    3 ≤ enc_total cfg fields ∧ enc_total cfg fields ≤ 528 := by
  have hp := snap_getDataSizeFromNdb_le (snap_getNdbFromDataSize (enc_dataSize fields))
  have hhs := snap_getHashSizeFromEdm_le cfg hcfg fields.header.edm
  obtain ⟨a1, a2, a3, _⟩ := hh
  simp only [enc_total]
  omega

/-- The outcome of `snap_encapsulate` when the frame fits. -/
theorem snap_encapsulate_fit (cfg : snap_build_t) (frame : snap_frame_t) (fields : snap_fields_t)
    (hh : snap_header_ok fields.header) (hfit : enc_total cfg fields ≤ frame.maxSize) :
    snap_encapsulate cfg frame fields =
      (SNAP_STATUS_VALID, { enc_hashed cfg frame fields with status := SNAP_STATUS_VALID },
        enc_fields fields) := by
  rw [snap_encapsulate_eq, enc_total_eq cfg fields hh, if_neg (by omega)]

/-- C1: for a descriptor with non-aliased data of length `n ≤ 512`, byte counts 0..3,
one of the four built-in hash methods and a frame that fits, `snap_encapsulate` followed
by feeding the `size` emitted bytes, in order, to `snap_decode` on a freshly initialised
frame of the same capacity returns Incomplete for every byte before the last and Valid
for the last byte. -/
theorem snap_roundtrip_status (cfg : snap_build_t) (hcfg : cfg.SNAP_SIZE_USER_HASH ≤ 4)
    (frame : snap_frame_t) (fields : snap_fields_t) (bytes : List Nat) (g : snap_frame_t)
    (buf2 : List Nat)
    (_hdata : fields.data = .array bytes) (_hsize : fields.dataSize = bytes.length)
    (_hn : bytes.length ≤ 512) (hh : snap_header_ok fields.header)
    (hedm : fields.header.edm = SNAP_HDB1_EDM_8BIT_CHECKSUM ∨
      fields.header.edm = SNAP_HDB1_EDM_8BIT_CRC ∨ fields.header.edm = SNAP_HDB1_EDM_16BIT_CRC ∨
      fields.header.edm = SNAP_HDB1_EDM_32BIT_CRC)
    (hfit : enc_total cfg fields ≤ frame.maxSize) (hl : frame.maxSize ≤ frame.buffer.length)
    (hl2 : frame.maxSize ≤ buf2.length) :
    ∃ fresh, (snap_init (some g) (some buf2) frame.maxSize).2 = some fresh ∧
      (snap_encapsulate cfg frame fields).1 = SNAP_STATUS_VALID ∧
      (snap_decode_bytes cfg fresh
          ((snap_encapsulate cfg frame fields).2.1.buffer.take
            (snap_encapsulate cfg frame fields).2.1.size)).1 =
        List.replicate ((snap_encapsulate cfg frame fields).2.1.size - 1) SNAP_STATUS_INCOMPLETE ++
          [SNAP_STATUS_VALID] ∧
      (snap_decode_bytes cfg fresh
          ((snap_encapsulate cfg frame fields).2.1.buffer.take
            (snap_encapsulate cfg frame fields).2.1.size)).2.status = SNAP_STATUS_VALID := by
  obtain ⟨hT3, hT528⟩ := enc_total_le cfg hcfg fields hh
  obtain ⟨s1, s2, s3⟩ := enc_fields_header_sizes cfg fields hh
  refine ⟨_, snap_init_ok g buf2 frame.maxSize (by omega), ?_⟩
  rw [snap_encapsulate_fit cfg frame fields hh hfit]
  have hsz := (enc_hashed_fields cfg hcfg frame fields hh).1
  rw [s3] at hsz
  have hlenB := (enc_hashed_fields cfg hcfg frame fields hh).2.2.2
  simp only [hsz]
  have hdec := snap_decode_encoded cfg hcfg frame fields hh (by omega)
    { buffer := buf2, maxSize := min frame.maxSize 528, size := 0, status := SNAP_STATUS_IDLE }
    rfl (by simp only; omega) (by simp only; omega)
  have hv := holder_verdict_valid cfg hcfg frame fields hh (by omega) hedm
    { buffer := (enc_hashed cfg frame fields).buffer.take (enc_total cfg fields) ++
        buf2.drop (enc_total cfg fields),
      maxSize := min frame.maxSize 528, size := enc_total cfg fields,
      status := SNAP_STATUS_INCOMPLETE } rfl
    (fun j hj => take_append_get _ _ _ _ (by rw [hlenB]; omega) hj)
  simp only at hdec
  rw [hv] at hdec
  rw [hdec]
  exact ⟨trivial, rfl, rfl⟩

/-! ## The payload region -/

theorem enc_array_arith (fields : snap_fields_t) (bytes : List Nat)
    (hdata : fields.data = .array bytes) (hsize : fields.dataSize = bytes.length)
    (hn : bytes.length ≤ 512) (hh : snap_header_ok fields.header) :
    enc_dataSize fields = bytes.length ∧ bytes.length ≤ enc_payloadSize fields ∧
    enc_payloadSize fields ≤ 512 ∧
    enc_paddingSize fields = enc_payloadSize fields - bytes.length ∧
    enc_dataIndex fields =
      (if fields.paddingAfter then enc_payloadIndex fields
       else enc_payloadIndex fields + (enc_payloadSize fields - bytes.length)) ∧
    enc_paddingIndex fields =
      (if fields.paddingAfter then enc_payloadIndex fields + bytes.length
       else enc_payloadIndex fields) := by
  have hds : enc_dataSize fields = bytes.length := by simp [enc_dataSize, hdata, hsize]
  have hp : enc_payloadSize fields ≤ 512 := snap_getDataSizeFromNdb_le _
  have hge : bytes.length ≤ enc_payloadSize fields := by
    rw [enc_payloadSize_eq, hds]
    exact snap_getDataSize_ge _ hn
  have hpi := enc_payloadIndex_eq fields hh
  obtain ⟨a1, a2, a3, _⟩ := hh
  have hps : enc_paddingSize fields = enc_payloadSize fields - bytes.length := by
    simp only [enc_paddingSize, hds]
    omega
  refine ⟨hds, hge, hp, hps, ?_, ?_⟩
  · simp only [enc_dataIndex, hps]
    split_ifs
    · rfl
    · omega
  · simp only [enc_paddingIndex, hds]
    split_ifs
    · omega
    · rfl

/-- The buffer after the copy and padding loops, position by position, for data held
in an array of its own. -/
theorem enc_payloadBuffer_get (frame : snap_frame_t) (fields : snap_fields_t) (bytes : List Nat)
    (hdata : fields.data = .array bytes) (hsize : fields.dataSize = bytes.length)
    (hn : bytes.length ≤ 512) (hh : snap_header_ok fields.header) (j : Nat) :
    (enc_payloadBuffer frame fields)[j]? =
      if enc_paddingIndex fields ≤ j ∧
          j < enc_paddingIndex fields + (enc_payloadSize fields - bytes.length) ∧
          j < frame.buffer.length then some SNAP_PADDING
      else if enc_dataIndex fields ≤ j ∧ j < enc_dataIndex fields + bytes.length ∧
          j < frame.buffer.length then some (bytes.getD (j - enc_dataIndex fields) 0)
      else frame.buffer[j]? := by
  obtain ⟨hds, hge, hp, hps, hdi, hpad⟩ := enc_array_arith fields bytes hdata hsize hn hh
  have hpi := enc_payloadIndex_eq fields hh
  obtain ⟨a1, a2, a3, _⟩ := hh
  have hdi3 : 3 ≤ enc_dataIndex fields ∧ enc_dataIndex fields ≤ 12 + 512 := by
    rw [hdi]; split_ifs <;> omega
  have hpad3 : enc_paddingIndex fields ≤ 12 + 512 := by
    rw [hpad]; split_ifs <;> omega
  have hcnt : (enc_paddingIndex fields + enc_paddingSize fields) % 65536 -
      enc_paddingIndex fields = enc_payloadSize fields - bytes.length := by
    rw [hps]; omega
  have hstart : (enc_dataIndex fields + enc_dataSize fields + 65535) % 65536 =
      enc_dataIndex fields + bytes.length - 1 := by
    rw [hds]; omega
  simp only [enc_payloadBuffer, hcnt, hstart, hdata]
  rw [snap_encapsulate_pad_get, snap_encapsulate_copy_length,
    snap_encapsulate_copy_get bytes _ (by omega)]
  by_cases h1 : enc_paddingIndex fields ≤ j ∧
      j < enc_paddingIndex fields + (enc_payloadSize fields - bytes.length) ∧
      j < frame.buffer.length
  · rw [if_pos h1, if_pos h1]
  · rw [if_neg h1, if_neg h1]
    by_cases h2 : enc_dataIndex fields ≤ j ∧ j < enc_dataIndex fields + bytes.length ∧
        j < frame.buffer.length
    · rw [if_pos h2, if_pos (by omega)]
    · rw [if_neg h2, if_neg (by omega)]

/-- The payload region of the encoded frame: data then padding, or padding then data. -/
theorem enc_payload_region (cfg : snap_build_t) (hcfg : cfg.SNAP_SIZE_USER_HASH ≤ 4)
    (frame : snap_frame_t) (fields : snap_fields_t) (bytes : List Nat)
    (hdata : fields.data = .array bytes) (hsize : fields.dataSize = bytes.length)
    (hn : bytes.length ≤ 512) (hh : snap_header_ok fields.header)
    (hl : enc_total cfg fields ≤ frame.buffer.length) (k : Nat)
    (hk : k < enc_payloadSize fields) :
    (enc_hashed cfg frame fields).buffer[enc_payloadIndex fields + k]? =
      (if fields.paddingAfter then
        bytes ++ List.replicate (enc_payloadSize fields - bytes.length) SNAP_PADDING
       else List.replicate (enc_payloadSize fields - bytes.length) SNAP_PADDING ++ bytes)[k]? := by
  obtain ⟨hds, hge, hp, hps, hdi, hpad⟩ := enc_array_arith fields bytes hdata hsize hn hh
  obtain ⟨s1, s2, s3⟩ := enc_fields_header_sizes cfg fields hh
  have hpi := enc_payloadIndex_eq fields hh
  rw [enc_hashed_get_body cfg hcfg frame fields hh _ (by omega),
    enc_body_get_high frame fields hh _ (by omega),
    enc_payloadBuffer_get frame fields bytes hdata hsize hn hh, hdi, hpad]
  have hlen : enc_payloadIndex fields + k < frame.buffer.length := by
    rw [← s3] at hl; omega
  by_cases hpa : fields.paddingAfter = true
  · simp only [hpa, if_true]
    by_cases hkn : k < bytes.length
    · rw [if_neg (by omega), if_pos (by omega), List.getElem?_append_left hkn]
      have e : enc_payloadIndex fields + k - enc_payloadIndex fields = k := by omega
      rw [e, List.getD_eq_getElem?_getD, List.getElem?_eq_getElem hkn]
      rfl
    · rw [if_pos (by omega), List.getElem?_append_right (by omega),
        List.getElem?_replicate, if_pos (by omega)]
  · simp only [hpa, Bool.false_eq_true, if_false]
    by_cases hkn : k < enc_payloadSize fields - bytes.length
    · rw [if_pos (by omega), List.getElem?_append_left (by simp; omega),
        List.getElem?_replicate, if_pos hkn]
    · rw [if_neg (by omega), if_pos (by omega),
        List.getElem?_append_right (by simp; omega), List.length_replicate]
      have e : enc_payloadIndex fields + k -
          (enc_payloadIndex fields + (enc_payloadSize fields - bytes.length)) =
          k - (enc_payloadSize fields - bytes.length) := by omega
      have hkk : k - (enc_payloadSize fields - bytes.length) < bytes.length := by omega
      rw [e, List.getD_eq_getElem?_getD, List.getElem?_eq_getElem hkk]
      rfl

/-! ## The accessor on the other fields -/

theorem snap_getField_copy_eq (buf : List Nat) (idx n : Nat) (out : List Nat)
    (hb : idx + n ≤ buf.length) (ho : n ≤ out.length) :
    snap_getField_copy buf idx n 0 out = (buf.drop idx).take n ++ out.drop n :=
  List.ext_getElem? fun j => by
    rw [snap_getField_copy_get]
    by_cases hj : j < n
    · rw [if_pos ⟨by omega, by omega, by omega⟩,
        List.getElem?_append_left (by rw [List.length_take, List.length_drop]; omega),
        List.getElem?_take_of_lt hj, List.getElem?_drop, List.getD_eq_getElem?_getD,
        List.getElem?_eq_getElem (by omega)]
      rfl
    · rw [if_neg (by omega),
        List.getElem?_append_right (by rw [List.length_take, List.length_drop]; omega),
        List.length_take, List.length_drop, List.getElem?_drop]
      have e : n + (j - min n (buf.length - idx)) = j := by omega
      rw [e]

theorem snap_getField_data_eval (cfg : snap_build_t) (F : snap_frame_t) (h : snap_header_t)
    (hh : snap_header_ok h) (h1 : F.buffer[1]? = some (enc_hdb2 h))
    (h2 : F.buffer[2]? = some (enc_hdb1 h)) (hs3 : 3 ≤ F.size) (c : snap_content_t) :
    snap_getField cfg F c SNAP_FIELD_DATA =
      if snap_getDataSizeFromNdb h.ndb = 0 then (SNAP_ERROR_FRAME_FORMAT, c)
      else if F.size < 3 + h.dab + h.sab + h.pfb + snap_getDataSizeFromNdb h.ndb then
        (SNAP_ERROR_SHORT_FRAME, c)
      else (Int.ofNat (snap_getDataSizeFromNdb h.ndb),
        .bytes (snap_getField_copy F.buffer (3 + h.dab + h.sab + h.pfb)
          (snap_getDataSizeFromNdb h.ndb) 0
          (match c with
            | .bytes bs => bs
            | _ => []))) := by
  obtain ⟨_, _, l3, l4, _, _⟩ := layout_macros cfg F.buffer h hh h1 h2
  have hp := snap_getDataSizeFromNdb_le h.ndb
  obtain ⟨a1, a2, a3, _⟩ := hh
  have hs : ¬ F.size < 3 := by omega
  have hI : (3 + h.dab + h.sab + h.pfb) % 65536 = 3 + h.dab + h.sab + h.pfb := by omega
  have hI2 : (3 + h.dab + h.sab + h.pfb + snap_getDataSizeFromNdb h.ndb) % 65536 =
      3 + h.dab + h.sab + h.pfb + snap_getDataSizeFromNdb h.ndb := by omega
  simp only [snap_getField, SNAP_MIN_SIZE_FRAME, SNAP_SIZE_SYNC, SNAP_SIZE_HEADER,
    SNAP_SIZE_HDB2, SNAP_SIZE_HDB1, Nat.reduceAdd, hs, if_false, l3, l4, hI, hI2,
    SNAP_FIELD_HASH, SNAP_FIELD_HEADER, SNAP_FIELD_DEST_ADDRESS, SNAP_FIELD_SOURCE_ADDRESS,
    SNAP_FIELD_DATA, SNAP_FIELD_PROTOCOL_FLAGS, Nat.reduceEqDiff, if_true]

theorem snap_getField_addr_eval (cfg : snap_build_t) (F : snap_frame_t) (h : snap_header_t)
    (hh : snap_header_ok h) (h1 : F.buffer[1]? = some (enc_hdb2 h))
    (h2 : F.buffer[2]? = some (enc_hdb1 h)) (hs3 : 3 ≤ F.size) (c : snap_content_t) :
    snap_getField cfg F c SNAP_FIELD_DEST_ADDRESS =
      (if h.dab = 0 then (SNAP_ERROR_FRAME_FORMAT, c)
       else if F.size < 3 + h.dab then (SNAP_ERROR_SHORT_FRAME, c)
       else (Int.ofNat h.dab, .word (snap_getField_word F.buffer h.dab 3 0))) ∧
    snap_getField cfg F c SNAP_FIELD_SOURCE_ADDRESS =
      (if h.sab = 0 then (SNAP_ERROR_FRAME_FORMAT, c)
       else if F.size < 3 + h.dab + h.sab then (SNAP_ERROR_SHORT_FRAME, c)
       else (Int.ofNat h.sab, .word (snap_getField_word F.buffer h.sab (3 + h.dab) 0))) ∧
    snap_getField cfg F c SNAP_FIELD_PROTOCOL_FLAGS =
      (if h.pfb = 0 then (SNAP_ERROR_FRAME_FORMAT, c)
       else if F.size < 3 + h.dab + h.sab + h.pfb then (SNAP_ERROR_SHORT_FRAME, c)
       else (Int.ofNat h.pfb,
         .word (snap_getField_word F.buffer h.pfb (3 + h.dab + h.sab) 0))) := by
  obtain ⟨l1, l2, _, _, _, _⟩ := layout_macros cfg F.buffer h hh h1 h2
  obtain ⟨m1, m2, m3, _⟩ := header_macros F.buffer h hh h1 h2
  obtain ⟨a1, a2, a3, _⟩ := hh
  have hs : ¬ F.size < 3 := by omega
  have hA : (3 + h.dab) % 65536 = 3 + h.dab := by omega
  have hB : (3 + h.dab + h.sab) % 65536 = 3 + h.dab + h.sab := by omega
  have hC : (3 + h.dab + h.sab + h.pfb) % 65536 = 3 + h.dab + h.sab + h.pfb := by omega
  have hcA : 3 + h.dab - 3 = h.dab := by omega
  have hcB : 3 + h.dab + h.sab - (3 + h.dab) = h.sab := by omega
  have hcC : 3 + h.dab + h.sab + h.pfb - (3 + h.dab + h.sab) = h.pfb := by omega
  refine ⟨?_, ?_, ?_⟩ <;>
  · simp only [snap_getField, SNAP_MIN_SIZE_FRAME, SNAP_SIZE_SYNC, SNAP_SIZE_HEADER,
      SNAP_SIZE_HDB2, SNAP_SIZE_HDB1, Nat.reduceAdd, hs, if_false, l1, l2, m1, m2, m3, hA, hB, hC,
      hcA, hcB, hcC, SNAP_INDEX_DAB,
      SNAP_FIELD_HASH, SNAP_FIELD_HEADER, SNAP_FIELD_DEST_ADDRESS, SNAP_FIELD_SOURCE_ADDRESS,
      SNAP_FIELD_DATA, SNAP_FIELD_PROTOCOL_FLAGS, Nat.reduceEqDiff, if_true]

/-- The payload of the frame built from `bytes`: `p` bytes, the data followed or preceded
by padding. -/
theorem enc_payload_list (cfg : snap_build_t) (hcfg : cfg.SNAP_SIZE_USER_HASH ≤ 4)
    (frame : snap_frame_t) (fields : snap_fields_t) (bytes : List Nat)
    (hdata : fields.data = .array bytes) (hsize : fields.dataSize = bytes.length)
    (hn : bytes.length ≤ 512) (hh : snap_header_ok fields.header)
    (hl : enc_total cfg fields ≤ frame.buffer.length) :
    ((enc_hashed cfg frame fields).buffer.drop (enc_payloadIndex fields)).take
        (enc_payloadSize fields) =
      (if fields.paddingAfter then
        bytes ++ List.replicate (enc_payloadSize fields - bytes.length) SNAP_PADDING
       else List.replicate (enc_payloadSize fields - bytes.length) SNAP_PADDING ++ bytes) :=
  List.ext_getElem? fun k => by
    obtain ⟨hds, hge, hp, hps, hdi, hpad⟩ := enc_array_arith fields bytes hdata hsize hn hh
    by_cases hk : k < enc_payloadSize fields
    · rw [List.getElem?_take_of_lt hk, List.getElem?_drop,
        enc_payload_region cfg hcfg frame fields bytes hdata hsize hn hh hl k hk]
    · rw [List.getElem?_eq_none (by rw [List.length_take]; omega)]
      symm
      apply List.getElem?_eq_none
      split_ifs <;> simp <;> omega

/-- C3 (as amended): for data of length `n ≤ 512` in an array of its own and a frame that
fits, with `p = snap_getDataSizeFromNdb (snap_getNdbFromDataSize n)`, after
`snap_encapsulate` the `p` bytes at offset `3 + dab + sab + pfb` are the data followed by
`p - n` bytes 0x00 when `paddingAfter` is true and `p - n` bytes 0x00 followed by the
data when it is false; for `n ≥ 1`, `snap_getField` with `SNAP_FIELD_DATA` returns `p`
and writes exactly those bytes to the first `p` places of the output array; for `n = 0`
it returns `SNAP_ERROR_FRAME_FORMAT` and leaves the output unchanged. -/
theorem snap_payload_layout (cfg : snap_build_t) (hcfg : cfg.SNAP_SIZE_USER_HASH ≤ 4)
    (frame : snap_frame_t) (fields : snap_fields_t) (bytes : List Nat) (out : List Nat)
    (hdata : fields.data = .array bytes) (hsize : fields.dataSize = bytes.length)
    (hn : bytes.length ≤ 512) (hh : snap_header_ok fields.header)
    (hfit : enc_total cfg fields ≤ frame.maxSize) (hl : frame.maxSize ≤ frame.buffer.length)
    (hout : snap_getDataSizeFromNdb (snap_getNdbFromDataSize bytes.length) ≤ out.length) :
    (((snap_encapsulate cfg frame fields).2.1.buffer.drop
        (3 + fields.header.dab + fields.header.sab + fields.header.pfb)).take
        (snap_getDataSizeFromNdb (snap_getNdbFromDataSize bytes.length)) =
      (if fields.paddingAfter then
        bytes ++ List.replicate
          (snap_getDataSizeFromNdb (snap_getNdbFromDataSize bytes.length) - bytes.length) 0x00
       else List.replicate
          (snap_getDataSizeFromNdb (snap_getNdbFromDataSize bytes.length) - bytes.length) 0x00
          ++ bytes)) ∧
    (1 ≤ bytes.length →
      snap_getField cfg (snap_encapsulate cfg frame fields).2.1 (.bytes out) SNAP_FIELD_DATA =
        (Int.ofNat (snap_getDataSizeFromNdb (snap_getNdbFromDataSize bytes.length)),
          .bytes ((if fields.paddingAfter then
            bytes ++ List.replicate
              (snap_getDataSizeFromNdb (snap_getNdbFromDataSize bytes.length) - bytes.length) 0x00
           else List.replicate
              (snap_getDataSizeFromNdb (snap_getNdbFromDataSize bytes.length) - bytes.length) 0x00
              ++ bytes) ++
            out.drop (snap_getDataSizeFromNdb (snap_getNdbFromDataSize bytes.length))))) ∧
    (bytes.length = 0 → ∀ c : snap_content_t,
      snap_getField cfg (snap_encapsulate cfg frame fields).2.1 c SNAP_FIELD_DATA =
        (SNAP_ERROR_FRAME_FORMAT, c)) := by
  obtain ⟨hds, hge, hp, hps, hdi, hpad⟩ := enc_array_arith fields bytes hdata hsize hn hh
  obtain ⟨s1, s2, s3⟩ := enc_fields_header_sizes cfg fields hh
  have hpi := enc_payloadIndex_eq fields hh
  have hpe : enc_payloadSize fields =
      snap_getDataSizeFromNdb (snap_getNdbFromDataSize bytes.length) := by
    rw [enc_payloadSize_eq, hds]
  have hl' : enc_total cfg fields ≤ frame.buffer.length := by omega
  have hl3 : 3 ≤ frame.buffer.length := by rw [← s3] at hl'; omega
  have hlist := enc_payload_list cfg hcfg frame fields bytes hdata hsize hn hh hl'
  rw [hpi, hpe] at hlist
  obtain ⟨_, e1, e2⟩ := enc_hashed_head cfg hcfg frame fields hh hl3
  have hsz := (enc_hashed_fields cfg hcfg frame fields hh).1
  have hlenB := (enc_hashed_fields cfg hcfg frame fields hh).2.2.2
  have hndb : snap_getDataSizeFromNdb (enc_fields fields).header.ndb =
      snap_getDataSizeFromNdb (snap_getNdbFromDataSize bytes.length) := hpe
  have hev := fun c => snap_getField_data_eval cfg
    { enc_hashed cfg frame fields with status := SNAP_STATUS_VALID } _
    (enc_fields_header_ok fields hh) e1 e2 (by simp only; rw [hsz, s3, ← s3]; omega) c
  have hd1 : (enc_fields fields).header.dab = fields.header.dab := rfl
  have hd2 : (enc_fields fields).header.sab = fields.header.sab := rfl
  have hd3 : (enc_fields fields).header.pfb = fields.header.pfb := rfl
  simp only [hndb, hd1, hd2, hd3] at hev
  simp only [SNAP_PADDING] at hlist
  rw [snap_encapsulate_fit cfg frame fields hh hfit]
  refine ⟨hlist, ?_, ?_⟩
  · intro h1
    have hnz : snap_getDataSizeFromNdb (snap_getNdbFromDataSize bytes.length) ≠ 0 := by omega
    have hnot : ¬ (enc_hashed cfg frame fields).size <
        3 + fields.header.dab + fields.header.sab + fields.header.pfb +
          snap_getDataSizeFromNdb (snap_getNdbFromDataSize bytes.length) := by
      rw [hsz, ← hpe, hpi]; omega
    have hfitb : 3 + fields.header.dab + fields.header.sab + fields.header.pfb +
        snap_getDataSizeFromNdb (snap_getNdbFromDataSize bytes.length) ≤
        (enc_hashed cfg frame fields).buffer.length := by
      rw [hlenB, ← hpe]; rw [← s3, hpi] at hl'; omega
    rw [hev, if_neg hnz, if_neg hnot]
    simp only
    rw [snap_getField_copy_eq _ _ _ _ hfitb hout, hlist]
  · intro h0 c
    have hp0 : snap_getDataSizeFromNdb (snap_getNdbFromDataSize bytes.length) = 0 := by
      rw [h0]; rfl
    rw [hev, if_pos hp0]

/-! ## Address and flag fields of the encoded frame -/

theorem enc_hashed_addr (cfg : snap_build_t) (hcfg : cfg.SNAP_SIZE_USER_HASH ≤ 4)
    (frame : snap_frame_t) (fields : snap_fields_t) (hh : snap_header_ok fields.header)
    (hl : enc_total cfg fields ≤ frame.buffer.length) :
    (∀ k, k < fields.header.dab → (enc_hashed cfg frame fields).buffer[3 + k]? =
      some ((fields.destAddress >>> ((fields.header.dab - 1 - k) * 8)) &&& 0xFF)) ∧
    (∀ k, k < fields.header.sab →
      (enc_hashed cfg frame fields).buffer[3 + fields.header.dab + k]? =
      some ((fields.sourceAddress >>> ((fields.header.sab - 1 - k) * 8)) &&& 0xFF)) ∧
    (∀ k, k < fields.header.pfb →
      (enc_hashed cfg frame fields).buffer[3 + fields.header.dab + fields.header.sab + k]? =
      some ((fields.protocolFlags >>> ((fields.header.pfb - 1 - k) * 8)) &&& 0xFF)) := by
  obtain ⟨s1, s2, s3⟩ := enc_fields_header_sizes cfg fields hh
  have hpi := enc_payloadIndex_eq fields hh
  rw [← s3, hpi] at hl
  refine ⟨?_, ?_, ?_⟩
  · intro k hk
    rw [enc_hashed_get_body cfg hcfg frame fields hh _ (by omega), enc_body_get frame fields hh,
      if_neg (by omega), if_neg (by omega), if_pos ⟨by omega, by omega, by omega⟩]
    have e : 3 + fields.header.dab - 1 - (3 + k) = fields.header.dab - 1 - k := by omega
    rw [e]
  · intro k hk
    rw [enc_hashed_get_body cfg hcfg frame fields hh _ (by omega), enc_body_get frame fields hh,
      if_neg (by omega), if_pos ⟨by omega, by omega, by omega⟩]
    have e : 3 + fields.header.dab + fields.header.sab - 1 - (3 + fields.header.dab + k) =
        fields.header.sab - 1 - k := by omega
    rw [e]
  · intro k hk
    rw [enc_hashed_get_body cfg hcfg frame fields hh _ (by omega), enc_body_get frame fields hh,
      if_pos ⟨by omega, by omega, by omega⟩]
    have e : 3 + fields.header.dab + fields.header.sab + fields.header.pfb - 1 -
        (3 + fields.header.dab + fields.header.sab + k) = fields.header.pfb - 1 - k := by omega
    rw [e]

/-- The address and flag accessors on a frame record that holds the encoded frame. -/
theorem holder_addr (cfg : snap_build_t) (hcfg : cfg.SNAP_SIZE_USER_HASH ≤ 4)
    (frame : snap_frame_t) (fields : snap_fields_t) (hh : snap_header_ok fields.header)
    (hl : enc_total cfg fields ≤ frame.buffer.length)
    (F : snap_frame_t) (hsz : F.size = enc_total cfg fields)
    (hF : ∀ j, j < enc_total cfg fields →
      F.buffer[j]? = (enc_hashed cfg frame fields).buffer[j]?) (c : snap_content_t) :
    snap_getField cfg F c SNAP_FIELD_DEST_ADDRESS =
      (if fields.header.dab = 0 then (SNAP_ERROR_FRAME_FORMAT, c)
       else (Int.ofNat fields.header.dab,
              .word (fields.destAddress % 256 ^ fields.header.dab))) ∧
    snap_getField cfg F c SNAP_FIELD_SOURCE_ADDRESS =
      (if fields.header.sab = 0 then (SNAP_ERROR_FRAME_FORMAT, c)
       else (Int.ofNat fields.header.sab,
              .word (fields.sourceAddress % 256 ^ fields.header.sab))) ∧
    snap_getField cfg F c SNAP_FIELD_PROTOCOL_FLAGS =
      (if fields.header.pfb = 0 then (SNAP_ERROR_FRAME_FORMAT, c)
       else (Int.ofNat fields.header.pfb,
              .word (fields.protocolFlags % 256 ^ fields.header.pfb))) := by
  obtain ⟨s1, s2, s3⟩ := enc_fields_header_sizes cfg fields hh
  have hpi := enc_payloadIndex_eq fields hh
  have hT : 3 + fields.header.dab + fields.header.sab + fields.header.pfb ≤ enc_total cfg fields := by
    rw [← s3, hpi]; omega
  have hl3 : 3 ≤ frame.buffer.length := by omega
  obtain ⟨_, e1, e2⟩ := enc_hashed_head cfg hcfg frame fields hh hl3
  have f1 := hF 1 (by omega)
  have f2 := hF 2 (by omega)
  rw [e1] at f1
  rw [e2] at f2
  obtain ⟨g1, g2, g3⟩ := snap_getField_addr_eval cfg F _ (enc_fields_header_ok fields hh) f1 f2
    (by omega) c
  have hd1 : (enc_fields fields).header.dab = fields.header.dab := rfl
  have hd2 : (enc_fields fields).header.sab = fields.header.sab := rfl
  have hd3 : (enc_fields fields).header.pfb = fields.header.pfb := rfl
  simp only [hd1, hd2, hd3] at g1 g2 g3
  obtain ⟨b1, b2, b3⟩ := enc_hashed_addr cfg hcfg frame fields hh hl
  obtain ⟨a1, a2, a3, _⟩ := hh
  refine ⟨?_, ?_, ?_⟩
  · rw [g1]
    by_cases h0 : fields.header.dab = 0
    · rw [if_pos h0, if_pos h0]
    · rw [if_neg h0, if_neg h0, if_neg (by omega),
        snap_getField_word_eq F.buffer fields.destAddress _ (by omega) 3
          (fun k hk => by rw [hF _ (by omega), b1 k hk])]
  · rw [g2]
    by_cases h0 : fields.header.sab = 0
    · rw [if_pos h0, if_pos h0]
    · rw [if_neg h0, if_neg h0, if_neg (by omega),
        snap_getField_word_eq F.buffer fields.sourceAddress _ (by omega) _
          (fun k hk => by rw [hF _ (by omega), b2 k hk])]
  · rw [g3]
    by_cases h0 : fields.header.pfb = 0
    · rw [if_pos h0, if_pos h0]
    · rw [if_neg h0, if_neg h0, if_neg (by omega),
        snap_getField_word_eq F.buffer fields.protocolFlags _ (by omega) _
          (fun k hk => by rw [hF _ (by omega), b3 k hk])]

/-- C2 (as amended): after `snap_encapsulate` and decoding the emitted bytes on a freshly
initialised frame, `snap_getField` for the destination address, the source address and
the protocol flags returns, for a byte count `c` in 1..3, the count `c` and the
descriptor's value modulo `256 ^ c` (the descriptor's value itself when it is below
`256 ^ c`); for a byte count 0 it returns `SNAP_ERROR_FRAME_FORMAT` and leaves the
output unchanged. -/
theorem snap_roundtrip_addresses (cfg : snap_build_t) (hcfg : cfg.SNAP_SIZE_USER_HASH ≤ 4)
    (frame : snap_frame_t) (fields : snap_fields_t) (bytes : List Nat) (g : snap_frame_t)
    (buf2 : List Nat) (c : snap_content_t)
    (_hdata : fields.data = .array bytes) (_hsize : fields.dataSize = bytes.length)
    (_hn : bytes.length ≤ 512) (hh : snap_header_ok fields.header)
    (_hedm : fields.header.edm = SNAP_HDB1_EDM_8BIT_CHECKSUM ∨
      fields.header.edm = SNAP_HDB1_EDM_8BIT_CRC ∨ fields.header.edm = SNAP_HDB1_EDM_16BIT_CRC ∨
      fields.header.edm = SNAP_HDB1_EDM_32BIT_CRC)
    (hfit : enc_total cfg fields ≤ frame.maxSize) (hl : frame.maxSize ≤ frame.buffer.length)
    (hl2 : frame.maxSize ≤ buf2.length) :
    ∃ fresh, (snap_init (some g) (some buf2) frame.maxSize).2 = some fresh ∧
      snap_getField cfg (snap_decode_bytes cfg fresh
          ((snap_encapsulate cfg frame fields).2.1.buffer.take
            (snap_encapsulate cfg frame fields).2.1.size)).2 c SNAP_FIELD_DEST_ADDRESS =
        (if fields.header.dab = 0 then (SNAP_ERROR_FRAME_FORMAT, c)
         else (Int.ofNat fields.header.dab,
                .word (fields.destAddress % 256 ^ fields.header.dab))) ∧
      snap_getField cfg (snap_decode_bytes cfg fresh
          ((snap_encapsulate cfg frame fields).2.1.buffer.take
            (snap_encapsulate cfg frame fields).2.1.size)).2 c SNAP_FIELD_SOURCE_ADDRESS =
        (if fields.header.sab = 0 then (SNAP_ERROR_FRAME_FORMAT, c)
         else (Int.ofNat fields.header.sab,
                .word (fields.sourceAddress % 256 ^ fields.header.sab))) ∧
      snap_getField cfg (snap_decode_bytes cfg fresh
          ((snap_encapsulate cfg frame fields).2.1.buffer.take
            (snap_encapsulate cfg frame fields).2.1.size)).2 c SNAP_FIELD_PROTOCOL_FLAGS =
        (if fields.header.pfb = 0 then (SNAP_ERROR_FRAME_FORMAT, c)
         else (Int.ofNat fields.header.pfb,
                .word (fields.protocolFlags % 256 ^ fields.header.pfb))) ∧
      (fields.destAddress < 256 ^ fields.header.dab →
        fields.destAddress % 256 ^ fields.header.dab = fields.destAddress) ∧
      (fields.sourceAddress < 256 ^ fields.header.sab →
        fields.sourceAddress % 256 ^ fields.header.sab = fields.sourceAddress) ∧
      (fields.protocolFlags < 256 ^ fields.header.pfb →
        fields.protocolFlags % 256 ^ fields.header.pfb = fields.protocolFlags) := by
  obtain ⟨hT3, hT528⟩ := enc_total_le cfg hcfg fields hh
  obtain ⟨s1, s2, s3⟩ := enc_fields_header_sizes cfg fields hh
  refine ⟨_, snap_init_ok g buf2 frame.maxSize (by omega), ?_⟩
  rw [snap_encapsulate_fit cfg frame fields hh hfit]
  have hsz := (enc_hashed_fields cfg hcfg frame fields hh).1
  rw [s3] at hsz
  have hlenB := (enc_hashed_fields cfg hcfg frame fields hh).2.2.2
  simp only [hsz]
  have hdec := snap_decode_encoded cfg hcfg frame fields hh (by omega)
    { buffer := buf2, maxSize := min frame.maxSize 528, size := 0, status := SNAP_STATUS_IDLE }
    rfl (by simp only; omega) (by simp only; omega)
  simp only at hdec
  rw [hdec]
  obtain ⟨r1, r2, r3⟩ := holder_addr cfg hcfg frame fields hh (by omega)
    { buffer := (enc_hashed cfg frame fields).buffer.take (enc_total cfg fields) ++
        buf2.drop (enc_total cfg fields),
      maxSize := min frame.maxSize 528, size := enc_total cfg fields,
      status := dec_verdict cfg
        { buffer := (enc_hashed cfg frame fields).buffer.take (enc_total cfg fields) ++
            buf2.drop (enc_total cfg fields),
          maxSize := min frame.maxSize 528, size := enc_total cfg fields,
          status := SNAP_STATUS_INCOMPLETE } } rfl
    (fun j hj => take_append_get _ _ _ _ (by rw [hlenB]; omega) hj) c
  exact ⟨r1, r2, r3, Nat.mod_eq_of_lt, Nat.mod_eq_of_lt, Nat.mod_eq_of_lt⟩

/-! ## The hash algorithms separate frames that differ in one byte -/

theorem iterate_inj_on (g : Nat → Nat) (M : Nat) (hlt : ∀ x, g x < M)
    (hinj : ∀ x y, x < M → y < M → g x = g y → x = y) (n : Nat) :
    ∀ x y, x < M → y < M → g^[n] x = g^[n] y → x = y := by
  induction n with
  | zero => intro x y _ _ h; exact h
  | succ n ih =>
    intro x y hx hy h
    rw [Function.iterate_succ_apply, Function.iterate_succ_apply] at h
    exact hinj x y hx hy (ih _ _ (hlt x) (hlt y) h)

theorem testBit_top (P w : Nat) (h1 : 2 ^ w ≤ P) (h2 : P < 2 ^ (w + 1)) : P.testBit w = true := by
  obtain ⟨r, hr⟩ := Nat.exists_eq_add_of_le h1
  have hr2 : r < 2 ^ w := by rw [pow_succ] at h2; omega
  rw [hr, Nat.testBit_two_pow_add_eq, Nat.testBit_lt_two_pow hr2]
  rfl

/-- One step of a reflected (right-shifting) CRC register is injective on the register
range. -/
theorem shr_step_inj (P w : Nat) (h1 : 2 ^ w ≤ P) (h2 : P < 2 ^ (w + 1)) (x y : Nat)
    (hx : x < 2 ^ (w + 1)) (hy : y < 2 ^ (w + 1))
    (h : (if x &&& 1 ≠ 0 then ((x >>> 1) ^^^ P) % 2 ^ (w + 1) else (x >>> 1) % 2 ^ (w + 1)) =
         (if y &&& 1 ≠ 0 then ((y >>> 1) ^^^ P) % 2 ^ (w + 1) else (y >>> 1) % 2 ^ (w + 1))) :
    x = y := by
  have hpow : 2 ^ (w + 1) = 2 * 2 ^ w := by rw [pow_succ]; ring
  have key : ∀ z, z < 2 ^ (w + 1) →
      z >>> 1 < 2 ^ w ∧ (z >>> 1) % 2 ^ (w + 1) = z >>> 1 ∧
      ((z >>> 1) ^^^ P) % 2 ^ (w + 1) = (z >>> 1) ^^^ P ∧ 2 ^ w ≤ (z >>> 1) ^^^ P ∧
      z = 2 * (z >>> 1) + z % 2 := by
    intro z hz
    have hq : z >>> 1 < 2 ^ w := by
      rw [Nat.shiftRight_eq_div_pow, pow_one]; omega
    have hq2 : z >>> 1 < 2 ^ (w + 1) := by omega
    refine ⟨hq, Nat.mod_eq_of_lt hq2, Nat.mod_eq_of_lt (Nat.xor_lt_two_pow hq2 h2), ?_, ?_⟩
    · apply Nat.testBit_implies_ge
      rw [Nat.testBit_xor, Nat.testBit_lt_two_pow hq, testBit_top P w h1 h2]
      rfl
    · rw [Nat.shiftRight_eq_div_pow, pow_one]; omega
  obtain ⟨x1, x2, x3, x4, x5⟩ := key x hx
  obtain ⟨y1, y2, y3, y4, y5⟩ := key y hy
  rw [Nat.and_one_is_mod, Nat.and_one_is_mod] at h
  by_cases px : x % 2 ≠ 0 <;> by_cases py : y % 2 ≠ 0
  · rw [if_pos px, if_pos py, x3, y3] at h
    have := Nat.xor_left_inj.mp h
    omega
  · rw [if_pos px, if_neg py, x3, y2] at h
    omega
  · rw [if_neg px, if_pos py, x2, y3] at h
    omega
  · rw [if_neg px, if_neg py, x2, y2] at h
    omega

theorem crc8_bit_inj (x y : Nat) (hx : x < 256) (hy : y < 256) (h : crc8_bit x = crc8_bit y) :
    x = y :=
  shr_step_inj 0x8C 7 (by norm_num) (by norm_num) x y hx hy h

theorem crc32_bit_inj (x y : Nat) (hx : x < 4294967296) (hy : y < 4294967296)
    (h : crc32_bit x = crc32_bit y) : x = y :=
  shr_step_inj 0xEDB88320 31 (by norm_num) (by norm_num) x y hx hy h

theorem and_top16 (x : Nat) (hx : x < 65536) : (x &&& 0x8000 ≠ 0) ↔ 32768 ≤ x := by
  have hbit : (x &&& 0x8000 ≠ 0) ↔ x.testBit 15 = true := by
    constructor
    · intro hne
      by_contra hb
      apply hne
      apply Nat.eq_of_testBit_eq
      intro i
      have h2 : (0x8000 : Nat) = 2 ^ 15 := by norm_num
      rw [Nat.testBit_and, h2, Nat.testBit_two_pow]
      by_cases hi : 15 = i
      · subst hi; simp at hb; simp [hb]
      · simp [hi]
    · intro hb hz
      have : (x &&& 0x8000).testBit 15 = true := by
        have h2 : (0x8000 : Nat) = 2 ^ 15 := by norm_num
        rw [Nat.testBit_and, h2, Nat.testBit_two_pow_self, hb]
        rfl
      rw [hz] at this
      simp at this
  rw [hbit]
  constructor
  · intro hb
    have := Nat.testBit_implies_ge hb
    norm_num at this
    exact this
  · intro hge
    exact testBit_top x 15 (by norm_num; exact hge) (by norm_num; exact hx)

theorem xor_mod_two_pow (a b n : Nat) : (a ^^^ b) % 2 ^ n = (a % 2 ^ n) ^^^ (b % 2 ^ n) := by
  apply Nat.eq_of_testBit_eq
  intro i
  simp only [Nat.testBit_mod_two_pow, Nat.testBit_xor]
  by_cases hi : i < n <;> simp [hi]

theorem crc16_bit_inj (x y : Nat) (hx : x < 65536) (hy : y < 65536)
    (h : crc16_bit x = crc16_bit y) : x = y := by
  have key : ∀ z, z < 65536 → 32768 ≤ z →
      ((z <<< 1) ^^^ 0x1021) % 65536 = (2 * z - 65536) ^^^ 0x1021 ∧
      ((2 * z - 65536) ^^^ 0x1021) % 2 = 1 := by
    intro z hz hge
    have e : (65536 : Nat) = 2 ^ 16 := by norm_num
    have hm : (z <<< 1) % 65536 = 2 * z - 65536 := by
      rw [Nat.shiftLeft_eq, pow_one]; omega
    refine ⟨?_, ?_⟩
    · rw [e, xor_mod_two_pow, ← e, hm]
    · rw [Nat.xor_mod_two_eq]; omega
  have low : ∀ z, z < 65536 → ¬ 32768 ≤ z → (z <<< 1) % 65536 = 2 * z := by
    intro z hz hlt
    rw [Nat.shiftLeft_eq, pow_one]; omega
  unfold crc16_bit at h
  by_cases px : 32768 ≤ x <;> by_cases py : 32768 ≤ y
  · rw [if_pos ((and_top16 x hx).mpr px), if_pos ((and_top16 y hy).mpr py), (key x hx px).1,
      (key y hy py).1] at h
    have := Nat.xor_left_inj.mp h
    omega
  · rw [if_pos ((and_top16 x hx).mpr px), if_neg (fun c => py ((and_top16 y hy).mp c)),
      (key x hx px).1, low y hy py] at h
    have := (key x hx px).2
    omega
  · rw [if_neg (fun c => px ((and_top16 x hx).mp c)), if_pos ((and_top16 y hy).mpr py),
      (key y hy py).1, low x hx px] at h
    have := (key y hy py).2
    omega
  · rw [if_neg (fun c => px ((and_top16 x hx).mp c)),
      if_neg (fun c => py ((and_top16 y hy).mp c)), low x hx px, low y hy py] at h
    omega

theorem foldl_ne (f : Nat → Nat → Nat) (M : Nat) (hf : ∀ s b, f s b < M)
    (hinj : ∀ s t b, s < M → t < M → b < 256 → f s b = f t b → s = t) (l : List Nat)
    (hl : ∀ b ∈ l, b < 256) (s t : Nat) (hs : s < M) (ht : t < M) (hne : s ≠ t) :
    l.foldl f s ≠ l.foldl f t := by
  induction l generalizing s t with
  | nil => exact hne
  | cons b l ih =>
    have hb : b < 256 := hl b (List.mem_cons_self _ _)
    have hl2 : ∀ x ∈ l, x < 256 := fun x hx => hl x (List.mem_cons_of_mem _ hx)
    simp only [List.foldl_cons]
    exact ih hl2 _ _ (hf _ _) (hf _ _) (fun h => hne (hinj s t b hs ht hb h))

theorem foldl_set_ne (f : Nat → Nat → Nat) (M : Nat) (hf : ∀ s b, f s b < M)
    (hinj : ∀ s t b, s < M → t < M → b < 256 → f s b = f t b → s = t)
    (hinjb : ∀ s a b, s < M → a < 256 → b < 256 → f s a = f s b → a = b) (l : List Nat)
    (hl : ∀ b ∈ l, b < 256) (i : Nat) (hi : i < l.length) (v : Nat) (hv : v < 256)
    (hne : l[i]? ≠ some v) (s0 : Nat) (hs : s0 < M) :
    (l.set i v).foldl f s0 ≠ l.foldl f s0 := by
  induction l generalizing i s0 with
  | nil => simp at hi
  | cons a l ih =>
    have ha : a < 256 := hl a (List.mem_cons_self _ _)
    have hl2 : ∀ x ∈ l, x < 256 := fun x hx => hl x (List.mem_cons_of_mem _ hx)
    cases i with
    | zero =>
      simp only [List.set_cons_zero, List.foldl_cons]
      simp only [List.getElem?_cons_zero, ne_eq, Option.some.injEq] at hne
      exact foldl_ne f M hf hinj l hl2 _ _ (hf _ _) (hf _ _)
        (fun h => hne (hinjb s0 v a hs hv ha h).symm)
    | succ i =>
      simp only [List.set_cons_succ, List.foldl_cons]
      simp only [List.getElem?_cons_succ] at hne
      simp only [List.length_cons] at hi
      exact ih hl2 i (by omega) hne _ (hf _ _)

theorem xor_mod_lt (s b M : Nat) (hM : ∃ w, M = 2 ^ w) (hs : s < M) (hb : b < M) :
    (s ^^^ b) % M = s ^^^ b := by
  obtain ⟨w, rfl⟩ := hM
  exact Nat.mod_eq_of_lt (Nat.xor_lt_two_pow hs hb)

theorem crc8_byte_inj :
    (∀ s t b, s < 256 → t < 256 → b < 256 → crc8_byte s b = crc8_byte t b → s = t) ∧
    (∀ s a b, s < 256 → a < 256 → b < 256 → crc8_byte s a = crc8_byte s b → a = b) := by
  have hM : ∃ w, (256 : Nat) = 2 ^ w := ⟨8, by norm_num⟩
  constructor
  · intro s t b hs ht hb h
    unfold crc8_byte at h
    have := iterate_inj_on crc8_bit 256 crc8_bit_lt crc8_bit_inj 8 _ _
      (Nat.mod_lt _ (by norm_num)) (Nat.mod_lt _ (by norm_num)) h
    rw [xor_mod_lt s b 256 hM hs hb, xor_mod_lt t b 256 hM ht hb] at this
    exact Nat.xor_left_inj.mp this
  · intro s a b hs ha hb h
    unfold crc8_byte at h
    have := iterate_inj_on crc8_bit 256 crc8_bit_lt crc8_bit_inj 8 _ _
      (Nat.mod_lt _ (by norm_num)) (Nat.mod_lt _ (by norm_num)) h
    rw [xor_mod_lt s a 256 hM hs ha, xor_mod_lt s b 256 hM hs hb] at this
    exact Nat.xor_right_inj.mp this

theorem crc16_byte_inj :
    (∀ s t b, s < 65536 → t < 65536 → b < 256 → crc16_byte s b = crc16_byte t b → s = t) ∧
    (∀ s a b, s < 65536 → a < 256 → b < 256 → crc16_byte s a = crc16_byte s b → a = b) := by
  have hM : ∃ w, (65536 : Nat) = 2 ^ w := ⟨16, by norm_num⟩
  have hsh : ∀ b, b < 256 → (b <<< 8) % 65536 = b * 256 := by
    intro b hb
    rw [Nat.shiftLeft_eq]
    norm_num
    omega
  constructor
  · intro s t b hs ht hb h
    unfold crc16_byte at h
    have := iterate_inj_on crc16_bit 65536 crc16_bit_lt crc16_bit_inj 8 _ _
      (Nat.mod_lt _ (by norm_num)) (Nat.mod_lt _ (by norm_num)) h
    rw [hsh b hb, xor_mod_lt s _ 65536 hM hs (by omega),
      xor_mod_lt t _ 65536 hM ht (by omega)] at this
    exact Nat.xor_left_inj.mp this
  · intro s a b hs ha hb h
    unfold crc16_byte at h
    have := iterate_inj_on crc16_bit 65536 crc16_bit_lt crc16_bit_inj 8 _ _
      (Nat.mod_lt _ (by norm_num)) (Nat.mod_lt _ (by norm_num)) h
    rw [hsh a ha, hsh b hb, xor_mod_lt s _ 65536 hM hs (by omega),
      xor_mod_lt s _ 65536 hM hs (by omega)] at this
    have := Nat.xor_right_inj.mp this
    omega

theorem crc32_byte_inj :
    (∀ s t b, s < 4294967296 → t < 4294967296 → b < 256 →
      crc32_byte s b = crc32_byte t b → s = t) ∧
    (∀ s a b, s < 4294967296 → a < 256 → b < 256 → crc32_byte s a = crc32_byte s b → a = b) := by
  have hM : ∃ w, (4294967296 : Nat) = 2 ^ w := ⟨32, by norm_num⟩
  constructor
  · intro s t b hs ht hb h
    unfold crc32_byte at h
    have := iterate_inj_on crc32_bit 4294967296 crc32_bit_lt crc32_bit_inj 8 _ _
      (Nat.mod_lt _ (by norm_num)) (Nat.mod_lt _ (by norm_num)) h
    rw [xor_mod_lt s b _ hM hs (by omega), xor_mod_lt t b _ hM ht (by omega)] at this
    exact Nat.xor_left_inj.mp this
  · intro s a b hs ha hb h
    unfold crc32_byte at h
    have := iterate_inj_on crc32_bit 4294967296 crc32_bit_lt crc32_bit_inj 8 _ _
      (Nat.mod_lt _ (by norm_num)) (Nat.mod_lt _ (by norm_num)) h
    rw [xor_mod_lt s a _ hM hs (by omega), xor_mod_lt s b _ hM hs (by omega)] at this
    exact Nat.xor_right_inj.mp this

/-- Replacing one byte of the hashed sequence by a different byte changes the hash, for
each of the four built-in methods. -/
theorem hash_of_set_ne (edm : Nat) (hedm : edm = 2 ∨ edm = 3 ∨ edm = 4 ∨ edm = 5)
    (l : List Nat) (hl : ∀ b ∈ l, b < 256) (i : Nat) (hi : i < l.length) (v : Nat)
    (hv : v < 256) (hne : l[i]? ≠ some v) : hash_of edm (l.set i v) ≠ hash_of edm l := by
  rcases hedm with e | e | e | e <;> subst e
  · simp only [hash_of, SNAP_HDB1_EDM_8BIT_CHECKSUM, if_true, snap_calculateChecksum8,
      List.take_length]
    exact foldl_set_ne _ 256 (fun _ _ => Nat.mod_lt _ (by norm_num))
      (fun s t b _ _ _ h => by omega) (fun s a b _ _ _ h => by omega) l hl i hi v hv hne 0
      (by norm_num)
  · simp only [hash_of, SNAP_HDB1_EDM_8BIT_CHECKSUM, SNAP_HDB1_EDM_8BIT_CRC, if_true,
      snap_calculateCrc8, Nat.reduceEqDiff, if_false, List.take_length]
    exact foldl_set_ne _ 256 crc8_byte_lt crc8_byte_inj.1 crc8_byte_inj.2 l hl i hi v hv hne 0
      (by norm_num)
  · simp only [hash_of, SNAP_HDB1_EDM_8BIT_CHECKSUM, SNAP_HDB1_EDM_8BIT_CRC,
      SNAP_HDB1_EDM_16BIT_CRC, if_true, snap_calculateCrc16, Nat.reduceEqDiff, if_false,
      List.take_length]
    exact foldl_set_ne _ 65536 crc16_byte_lt crc16_byte_inj.1 crc16_byte_inj.2 l hl i hi v hv
      hne 0 (by norm_num)
  · simp only [hash_of, SNAP_HDB1_EDM_8BIT_CHECKSUM, SNAP_HDB1_EDM_8BIT_CRC,
      SNAP_HDB1_EDM_16BIT_CRC, SNAP_HDB1_EDM_32BIT_CRC, if_true, snap_calculateCrc32,
      Nat.reduceEqDiff, if_false, List.take_length]
    have h1 := foldl_set_ne _ 4294967296 crc32_byte_lt crc32_byte_inj.1 crc32_byte_inj.2 l hl i
      hi v hv hne 0xFFFFFFFF (by norm_num)
    have h2 := foldl_lt crc32_byte 4294967296 crc32_byte_lt (l.set i v) 0xFFFFFFFF (by norm_num)
    have h3 := foldl_lt crc32_byte 4294967296 crc32_byte_lt l 0xFFFFFFFF (by norm_num)
    omega

/-- Every byte of the encoded frame before the hash field is below 256, when the data
bytes are. -/
theorem enc_hashed_byte_lt (cfg : snap_build_t) (hcfg : cfg.SNAP_SIZE_USER_HASH ≤ 4)
    (frame : snap_frame_t) (fields : snap_fields_t) (bytes : List Nat)
    (hdata : fields.data = .array bytes) (hsize : fields.dataSize = bytes.length)
    (hn : bytes.length ≤ 512) (hb : ∀ b ∈ bytes, b < 256) (hh : snap_header_ok fields.header)
    (hl : enc_total cfg fields ≤ frame.buffer.length) (j : Nat) (hj1 : 1 ≤ j)
    (hj2 : j < enc_payloadIndex fields + enc_payloadSize fields) (x : Nat)
    (hx : (enc_hashed cfg frame fields).buffer[j]? = some x) : x < 256 := by
  obtain ⟨s1, s2, s3⟩ := enc_fields_header_sizes cfg fields hh
  have hpi := enc_payloadIndex_eq fields hh
  have hl3 : 3 ≤ frame.buffer.length := by rw [← s3] at hl; omega
  by_cases hlow : j < 3
  · obtain ⟨_, e1, e2⟩ := enc_hashed_head cfg hcfg frame fields hh hl3
    have hj : j = 1 ∨ j = 2 := by omega
    rcases hj with e | e <;> subst e
    · rw [e1] at hx
      simp only [Option.some.injEq] at hx
      rw [← hx]
      exact Nat.mod_lt _ (by norm_num)
    · rw [e2] at hx
      simp only [Option.some.injEq] at hx
      rw [← hx]
      exact Nat.mod_lt _ (by norm_num)
  · by_cases hmid : j < enc_payloadIndex fields
    · rw [enc_hashed_get_body cfg hcfg frame fields hh j hj2, enc_body_get frame fields hh] at hx
      have hjl : j < frame.buffer.length := by rw [← s3] at hl; omega
      split_ifs at hx with c1 c2 c3
      · simp only [Option.some.injEq] at hx
        rw [← hx, and_255]
        exact Nat.mod_lt _ (by norm_num)
      · simp only [Option.some.injEq] at hx
        rw [← hx, and_255]
        exact Nat.mod_lt _ (by norm_num)
      · simp only [Option.some.injEq] at hx
        rw [← hx, and_255]
        exact Nat.mod_lt _ (by norm_num)
      · exfalso
        omega
    · have hk : j - enc_payloadIndex fields < enc_payloadSize fields := by omega
      have hreg := enc_payload_region cfg hcfg frame fields bytes hdata hsize hn hh hl _ hk
      have e : enc_payloadIndex fields + (j - enc_payloadIndex fields) = j := by omega
      rw [e, hx] at hreg
      have hmem := List.getElem?_mem hreg.symm
      split_ifs at hmem
      · rcases List.mem_append.mp hmem with m | m
        · exact hb x m
        · rw [(List.mem_replicate.mp m).2]; exact (by decide : SNAP_PADDING < 256)
      · rcases List.mem_append.mp hmem with m | m
        · rw [(List.mem_replicate.mp m).2]; exact (by decide : SNAP_PADDING < 256)
        · exact hb x m

theorem slice_set (B tl : List Nat) (T I m v : Nat) (hT : T ≤ B.length) (hI : I ≤ T)
    (hm1 : 1 ≤ m) :
    (((B.take T).set m v ++ tl).drop 1).take (I - 1) =
      ((B.drop 1).take (I - 1)).set (m - 1) v :=
  List.ext_getElem? fun i => by
    have hlen : ((B.take T).set m v).length = T := by
      rw [List.length_set, List.length_take]; omega
    rw [List.getElem?_set, List.length_take, List.length_drop]
    by_cases hi : i < I - 1
    · rw [List.getElem?_take_of_lt hi, List.getElem?_drop,
        List.getElem?_append_left (by rw [hlen]; omega), List.getElem?_set, List.length_take,
        List.getElem?_take_of_lt hi, List.getElem?_drop]
      by_cases he : m = 1 + i
      · have he2 : m - 1 = i := by omega
        rw [if_pos he, if_pos he2, if_pos (by omega), if_pos (by omega)]
      · have he2 : ¬ m - 1 = i := by omega
        rw [if_neg he, if_neg he2, List.getElem?_take_of_lt (by omega)]
    · rw [List.getElem?_eq_none (by rw [List.length_take]; omega)]
      by_cases he2 : m - 1 = i
      · rw [if_pos he2, if_neg (by omega)]
      · rw [if_neg he2, List.getElem?_eq_none (by rw [List.length_take]; omega)]

/-- C6: for a frame produced by `snap_encapsulate` with one of the four built-in hash
methods (each of non-zero hash length) and at least one payload byte, replacing any
single payload byte by a different byte value and feeding the resulting bytes in order
to `snap_decode` on a fresh frame returns Incomplete for every byte before the last and
ErrorHash on the last byte, and leaves status ErrorHash. -/
theorem snap_decode_hash_mismatch (cfg : snap_build_t) (hcfg : cfg.SNAP_SIZE_USER_HASH ≤ 4)
    (frame : snap_frame_t) (fields : snap_fields_t) (bytes : List Nat) (g : snap_frame_t)
    (buf2 : List Nat) (m v : Nat)
    (hdata : fields.data = .array bytes) (hsize : fields.dataSize = bytes.length)
    (hn : bytes.length ≤ 512) (hb : ∀ b ∈ bytes, b < 256) (hh : snap_header_ok fields.header)
    (hedm : fields.header.edm = SNAP_HDB1_EDM_8BIT_CHECKSUM ∨
      fields.header.edm = SNAP_HDB1_EDM_8BIT_CRC ∨ fields.header.edm = SNAP_HDB1_EDM_16BIT_CRC ∨
      fields.header.edm = SNAP_HDB1_EDM_32BIT_CRC)
    (hfit : enc_total cfg fields ≤ frame.maxSize) (hl : frame.maxSize ≤ frame.buffer.length)
    (hl2 : frame.maxSize ≤ buf2.length)
    (hm1 : 3 + fields.header.dab + fields.header.sab + fields.header.pfb ≤ m)
    (hm2 : m < 3 + fields.header.dab + fields.header.sab + fields.header.pfb +
      snap_getDataSizeFromNdb (snap_getNdbFromDataSize bytes.length))
    (hv : v < 256) (hvne : (snap_encapsulate cfg frame fields).2.1.buffer[m]? ≠ some v) :
    ∃ fresh, (snap_init (some g) (some buf2) frame.maxSize).2 = some fresh ∧
      (snap_decode_bytes cfg fresh
          (((snap_encapsulate cfg frame fields).2.1.buffer.take
            (snap_encapsulate cfg frame fields).2.1.size).set m v)).1 =
        List.replicate ((snap_encapsulate cfg frame fields).2.1.size - 1) SNAP_STATUS_INCOMPLETE ++
          [SNAP_STATUS_ERROR_HASH] ∧
      (snap_decode_bytes cfg fresh
          (((snap_encapsulate cfg frame fields).2.1.buffer.take
            (snap_encapsulate cfg frame fields).2.1.size).set m v)).2.status =
        SNAP_STATUS_ERROR_HASH := by
  obtain ⟨hT3, hT528⟩ := enc_total_le cfg hcfg fields hh
  obtain ⟨s1, s2, s3⟩ := enc_fields_header_sizes cfg fields hh
  obtain ⟨hds, hge, hp, hps, hdi, hpad⟩ := enc_array_arith fields bytes hdata hsize hn hh
  have hpi := enc_payloadIndex_eq fields hh
  have hpe : enc_payloadSize fields =
      snap_getDataSizeFromNdb (snap_getNdbFromDataSize bytes.length) := by
    rw [enc_payloadSize_eq, hds]
  rw [← hpi] at hm1
  rw [← hpi, ← hpe] at hm2
  have hTI : enc_payloadIndex fields + enc_payloadSize fields ≤ enc_total cfg fields := by
    rw [← s3]; omega
  have hpi3 : 3 ≤ enc_payloadIndex fields := by omega
  refine ⟨_, snap_init_ok g buf2 frame.maxSize (by omega), ?_⟩
  rw [snap_encapsulate_fit cfg frame fields hh hfit] at hvne ⊢
  simp only at hvne
  have hsz := (enc_hashed_fields cfg hcfg frame fields hh).1
  rw [s3] at hsz
  have hlenB := (enc_hashed_fields cfg hcfg frame fields hh).2.2.2
  have hlB : enc_total cfg fields ≤ (enc_hashed cfg frame fields).buffer.length := by
    rw [hlenB]; omega
  have hlF : enc_total cfg fields ≤ frame.buffer.length := by omega
  have hl3 : 3 ≤ frame.buffer.length := by omega
  simp only [hsz]
  have hlen : (((enc_hashed cfg frame fields).buffer.take (enc_total cfg fields)).set m v).length
      = enc_total cfg fields := by
    rw [List.length_set, List.length_take]; omega
  -- positions other than `m` are those of the encoded frame
  have hget : ∀ j, j < enc_total cfg fields → j ≠ m → ∀ tl : List Nat,
      (((enc_hashed cfg frame fields).buffer.take (enc_total cfg fields)).set m v ++ tl)[j]? =
        (enc_hashed cfg frame fields).buffer[j]? := by
    intro j hj hjm tl
    rw [List.getElem?_append_left (by rw [hlen]; exact hj), List.getElem?_set_ne (Ne.symm hjm),
      List.getElem?_take_of_lt hj]
  obtain ⟨e0, _, _⟩ := enc_hashed_head cfg hcfg frame fields hh hl3
  have hdec := snap_decode_bytes_frame cfg
    { buffer := buf2, maxSize := min frame.maxSize 528, size := 0, status := SNAP_STATUS_IDLE }
    (((enc_hashed cfg frame fields).buffer.take (enc_total cfg fields)).set m v) rfl
    (by rw [hlen]; exact hT3) (by rw [hlen]; simp only; omega) (by rw [hlen]; simp only; omega)
    (by
      have := hget 0 (by omega) (by omega) []
      rw [List.append_nil] at this
      rw [this, e0])
    (by
      rw [hlen]
      have h1 := hget 1 (by omega) (by omega) []
      have h2 := hget 2 (by omega) (by omega) []
      rw [List.append_nil] at h1 h2
      exact holder_fullSize cfg hcfg frame fields hh hl3 _ h1 h2)
  rw [hlen] at hdec
  simp only at hdec
  -- the verdict on the altered frame
  have h12 := And.intro (hget 1 (by omega) (by omega) (buf2.drop (enc_total cfg fields)))
    (hget 2 (by omega) (by omega) (buf2.drop (enc_total cfg fields)))
  have hfield := holder_hash_field cfg hcfg frame fields hh hlF hedm
    { buffer := ((enc_hashed cfg frame fields).buffer.take (enc_total cfg fields)).set m v ++
        buf2.drop (enc_total cfg fields),
      maxSize := min frame.maxSize 528, size := enc_total cfg fields,
      status := SNAP_STATUS_INCOMPLETE } rfl h12
    (fun j hj1 hj2 => hget j hj2 (by omega) _) (.word 0)
  have hcalc := holder_hash_calc cfg hcfg frame fields hh hlF hedm
    { buffer := ((enc_hashed cfg frame fields).buffer.take (enc_total cfg fields)).set m v ++
        buf2.drop (enc_total cfg fields),
      maxSize := min frame.maxSize 528, size := enc_total cfg fields,
      status := SNAP_STATUS_INCOMPLETE } rfl h12
  simp only at hcalc
  rw [slice_set _ _ _ _ m v hlB hTI (by omega)] at hcalc
  have hval := enc_hash_value cfg frame fields hh hl3 hedm
  have hslice := slice_congr (enc_hashed cfg frame fields).buffer (enc_body frame fields).buffer
    (enc_payloadIndex fields + enc_payloadSize fields)
    (fun j hj => enc_hashed_get_body cfg hcfg frame fields hh j hj)
  rw [← hslice] at hval
  have hslen : (((enc_hashed cfg frame fields).buffer.drop 1).take
      (enc_payloadIndex fields + enc_payloadSize fields - 1)).length =
      enc_payloadIndex fields + enc_payloadSize fields - 1 := by
    rw [List.length_take, List.length_drop]; omega
  have hneq := hash_of_set_ne fields.header.edm hedm
    (((enc_hashed cfg frame fields).buffer.drop 1).take
      (enc_payloadIndex fields + enc_payloadSize fields - 1))
    (fun b hbm => by
      obtain ⟨i, hi⟩ := List.getElem?_of_mem hbm
      have hil : i < enc_payloadIndex fields + enc_payloadSize fields - 1 := by
        by_contra hc
        rw [List.getElem?_eq_none (by rw [hslen]; omega)] at hi
        exact absurd hi (by simp)
      rw [List.getElem?_take_of_lt hil, List.getElem?_drop] at hi
      exact enc_hashed_byte_lt cfg hcfg frame fields bytes hdata hsize hn hb hh hlF (1 + i)
        (by omega) (by omega) b hi)
    (m - 1) (by rw [hslen]; omega) v hv
    (by
      rw [List.getElem?_take_of_lt (by omega), List.getElem?_drop]
      have e : 1 + (m - 1) = m := by omega
      rw [e]
      exact hvne)
  have hne0 := snap_getHashSizeFromEdm_builtin_ne cfg fields.header.edm hedm
  have hverdict : dec_verdict cfg
      { buffer := ((enc_hashed cfg frame fields).buffer.take (enc_total cfg fields)).set m v ++
          buf2.drop (enc_total cfg fields),
        maxSize := min frame.maxSize 528, size := enc_total cfg fields,
        status := SNAP_STATUS_INCOMPLETE } = SNAP_STATUS_ERROR_HASH := by
    simp only [dec_verdict, holder_size_hash cfg hcfg frame fields hh hl3 _ h12, ne_eq, hne0,
      not_false_eq_true, if_true, hfield, hcalc, hval]
    rw [if_neg (fun h => hneq h.symm)]
  rw [hverdict] at hdec
  rw [hdec]
  exact ⟨rfl, rfl⟩

/-! ## The concrete scenario -/

set_option maxRecDepth 100000 in
theorem snap_scenario_as_stated_fails :
    ¬ ((snap_encapsulate snap_build_default scenario_frame scenario_fields).2.1.size = 6 ∧
       (snap_decode_bytes snap_build_default scenario_frame
          ((snap_encapsulate snap_build_default scenario_frame scenario_fields).2.1.buffer.take
            (snap_encapsulate snap_build_default scenario_frame scenario_fields).2.1.size)).1 =
        [SNAP_STATUS_IDLE, SNAP_STATUS_INCOMPLETE, SNAP_STATUS_INCOMPLETE,
          SNAP_STATUS_INCOMPLETE, SNAP_STATUS_INCOMPLETE, SNAP_STATUS_VALID]) := by
  decide

set_option maxRecDepth 100000 in
/-- C5 (as amended): with capacity 16 and the descriptor of the scenario,
`snap_encapsulate` returns Valid and produces 7 bytes, `54 40 32 05 AA BB <crc8>` with
`crc8` the CRC-8 of the five bytes after the sync byte, and decoding those bytes one at
a time from a fresh frame yields Incomplete six times and then Valid. -/
theorem snap_scenario :
    snap_init (some scenario_frame) (some (List.replicate 16 0)) 16 = (16, some scenario_frame) ∧
    (snap_encapsulate snap_build_default scenario_frame scenario_fields).1 = SNAP_STATUS_VALID ∧
    (snap_encapsulate snap_build_default scenario_frame scenario_fields).2.1.size = 7 ∧
    (snap_encapsulate snap_build_default scenario_frame scenario_fields).2.1.buffer.take 7 =
      [0x54, 0x40, 0x32, 0x05, 0xAA, 0xBB,
        snap_calculateCrc8 [0x40, 0x32, 0x05, 0xAA, 0xBB] 5] ∧
    snap_decode_bytes snap_build_default scenario_frame
        [0x54, 0x40, 0x32, 0x05, 0xAA, 0xBB,
          snap_calculateCrc8 [0x40, 0x32, 0x05, 0xAA, 0xBB] 5] =
      ([SNAP_STATUS_INCOMPLETE, SNAP_STATUS_INCOMPLETE, SNAP_STATUS_INCOMPLETE,
        SNAP_STATUS_INCOMPLETE, SNAP_STATUS_INCOMPLETE, SNAP_STATUS_INCOMPLETE,
        SNAP_STATUS_VALID],
        { buffer := [0x54, 0x40, 0x32, 0x05, 0xAA, 0xBB,
                     snap_calculateCrc8 [0x40, 0x32, 0x05, 0xAA, 0xBB] 5,
                     0, 0, 0, 0, 0, 0, 0, 0, 0],
          maxSize := 16, size := 7, status := SNAP_STATUS_VALID }) := by
  decide

set_option maxRecDepth 100000 in
theorem snap_roundtrip_addresses_as_stated_fails :
    snap_getField snap_build_default
        (snap_decode_bytes snap_build_default scenario_frame
          ((snap_encapsulate snap_build_default scenario_frame wide_fields).2.1.buffer.take
            (snap_encapsulate snap_build_default scenario_frame wide_fields).2.1.size)).2
        (.word 0) SNAP_FIELD_DEST_ADDRESS = (1, .word 0x34) ∧
    (snap_getField snap_build_default
        (snap_decode_bytes snap_build_default scenario_frame
          ((snap_encapsulate snap_build_default scenario_frame wide_fields).2.1.buffer.take
            (snap_encapsulate snap_build_default scenario_frame wide_fields).2.1.size)).2
        (.word 0) SNAP_FIELD_DEST_ADDRESS).2 ≠ .word wide_fields.destAddress ∧
    snap_getField snap_build_default
        (snap_decode_bytes snap_build_default scenario_frame
          ((snap_encapsulate snap_build_default scenario_frame wide_fields).2.1.buffer.take
            (snap_encapsulate snap_build_default scenario_frame wide_fields).2.1.size)).2
        (.word 0) SNAP_FIELD_SOURCE_ADDRESS = (SNAP_ERROR_FRAME_FORMAT, .word 0) ∧
    (snap_getField snap_build_default
        (snap_decode_bytes snap_build_default scenario_frame
          ((snap_encapsulate snap_build_default scenario_frame wide_fields).2.1.buffer.take
            (snap_encapsulate snap_build_default scenario_frame wide_fields).2.1.size)).2
        (.word 0) SNAP_FIELD_SOURCE_ADDRESS).2 ≠ .word wide_fields.sourceAddress := by
  decide

set_option maxRecDepth 100000 in
theorem snap_payload_layout_as_stated_fails :
    (snap_encapsulate snap_build_default scenario_frame empty_fields).1 = SNAP_STATUS_VALID ∧
    snap_getField snap_build_default
        (snap_encapsulate snap_build_default scenario_frame empty_fields).2.1 (.bytes [])
        SNAP_FIELD_DATA = (SNAP_ERROR_FRAME_FORMAT, .bytes []) ∧
    (snap_getField snap_build_default
        (snap_encapsulate snap_build_default scenario_frame empty_fields).2.1 (.bytes [])
        SNAP_FIELD_DATA).1 ≠
      Int.ofNat (snap_getDataSizeFromNdb (snap_getNdbFromDataSize 0)) := by
  decide

/-! ## The general theorems at the concrete scenario -/

theorem snap_roundtrip_status_witness :
    ∃ fresh, (snap_init (some scenario_frame) (some (List.replicate 16 0))
        scenario_frame.maxSize).2 = some fresh ∧
      (snap_encapsulate snap_build_default scenario_frame scenario_fields).1 =
        SNAP_STATUS_VALID ∧
      (snap_decode_bytes snap_build_default fresh
          ((snap_encapsulate snap_build_default scenario_frame scenario_fields).2.1.buffer.take
            (snap_encapsulate snap_build_default scenario_frame scenario_fields).2.1.size)).1 =
        List.replicate
            ((snap_encapsulate snap_build_default scenario_frame scenario_fields).2.1.size - 1)
            SNAP_STATUS_INCOMPLETE ++ [SNAP_STATUS_VALID] ∧
      (snap_decode_bytes snap_build_default fresh
          ((snap_encapsulate snap_build_default scenario_frame scenario_fields).2.1.buffer.take
            (snap_encapsulate snap_build_default scenario_frame scenario_fields).2.1.size)).2.status =
        SNAP_STATUS_VALID :=
  snap_roundtrip_status snap_build_default (by decide) scenario_frame scenario_fields
    [0xAA, 0xBB] scenario_frame (List.replicate 16 0) rfl rfl (by decide) (by decide)
    (Or.inr (Or.inl rfl)) (by decide) (by decide) (by decide)

theorem snap_roundtrip_addresses_witness :
    ∃ fresh, (snap_init (some scenario_frame) (some (List.replicate 16 0))
        scenario_frame.maxSize).2 = some fresh ∧
      snap_getField snap_build_default (snap_decode_bytes snap_build_default fresh
          ((snap_encapsulate snap_build_default scenario_frame wide_fields).2.1.buffer.take
            (snap_encapsulate snap_build_default scenario_frame wide_fields).2.1.size)).2
          (.word 0) SNAP_FIELD_DEST_ADDRESS = (1, .word 0x34) :=
  (snap_roundtrip_addresses snap_build_default (by decide) scenario_frame wide_fields
    [0xAA, 0xBB] scenario_frame (List.replicate 16 0) (.word 0) rfl rfl (by decide) (by decide)
    (Or.inr (Or.inl rfl)) (by decide) (by decide) (by decide)).imp fun _ h => ⟨h.1, h.2.1⟩

theorem snap_payload_layout_witness :
    ((snap_encapsulate snap_build_default scenario_frame scenario_fields).2.1.buffer.drop 4).take 2
      = [0xAA, 0xBB] ∧
    snap_getField snap_build_default
        (snap_encapsulate snap_build_default scenario_frame scenario_fields).2.1
        (.bytes [1, 2, 3]) SNAP_FIELD_DATA = (2, .bytes [0xAA, 0xBB, 3]) :=
  ⟨(snap_payload_layout snap_build_default (by decide) scenario_frame scenario_fields
      [0xAA, 0xBB] [1, 2, 3] rfl rfl (by decide) (by decide) (by decide) (by decide)
      (by decide)).1,
   (snap_payload_layout snap_build_default (by decide) scenario_frame scenario_fields
      [0xAA, 0xBB] [1, 2, 3] rfl rfl (by decide) (by decide) (by decide) (by decide)
      (by decide)).2.1 (by decide)⟩

set_option maxRecDepth 100000 in
theorem snap_getField_header_roundtrip_witness :
    snap_getField snap_build_default
        (snap_encapsulate snap_build_default scenario_frame scenario_fields).2.1 (.word 0)
        SNAP_FIELD_HEADER =
      (2, .header { dab := 1, sab := 0, pfb := 0, ack := 0, cmd := 0, edm := 3, ndb := 2 }) :=
  (snap_getField_header_roundtrip snap_build_default (by decide) scenario_frame scenario_fields
    (.word 0) (by decide) (by decide) (by decide)).1

set_option maxRecDepth 100000 in
theorem snap_decode_hash_mismatch_witness :
    ∃ fresh, (snap_init (some scenario_frame) (some (List.replicate 16 0))
        scenario_frame.maxSize).2 = some fresh ∧
      (snap_decode_bytes snap_build_default fresh
          (((snap_encapsulate snap_build_default scenario_frame scenario_fields).2.1.buffer.take
            (snap_encapsulate snap_build_default scenario_frame scenario_fields).2.1.size).set
              4 0xAB)).1 =
        List.replicate
            ((snap_encapsulate snap_build_default scenario_frame scenario_fields).2.1.size - 1)
            SNAP_STATUS_INCOMPLETE ++ [SNAP_STATUS_ERROR_HASH] ∧
      (snap_decode_bytes snap_build_default fresh
          (((snap_encapsulate snap_build_default scenario_frame scenario_fields).2.1.buffer.take
            (snap_encapsulate snap_build_default scenario_frame scenario_fields).2.1.size).set
              4 0xAB)).2.status = SNAP_STATUS_ERROR_HASH :=
  snap_decode_hash_mismatch snap_build_default (by decide) scenario_frame scenario_fields
    [0xAA, 0xBB] scenario_frame (List.replicate 16 0) 4 0xAB rfl rfl (by decide) (by decide)
    (by decide) (Or.inr (Or.inl rfl)) (by decide) (by decide) (by decide) (by decide) (by decide)
    (by decide) (by decide)

theorem snap_encapsulate_outcome_witness :
    (snap_encapsulate snap_build_default scenario_frame scenario_fields).1 = SNAP_STATUS_VALID ∧
    (snap_encapsulate snap_build_default scenario_frame scenario_fields).2.1.status =
      SNAP_STATUS_VALID ∧
    (snap_encapsulate snap_build_default scenario_frame scenario_fields).2.1.size =
      enc_total snap_build_default scenario_fields :=
  (snap_encapsulate_outcome snap_build_default (by decide) scenario_frame scenario_fields
    (by decide) (by decide)).2.2 (by decide)

/-! ## Decoder in a terminal state -/

theorem snap_decode_other (cfg : snap_build_t) (f : snap_frame_t) (b : Nat)
    (h1 : f.status ≠ SNAP_STATUS_IDLE) (h2 : f.status ≠ SNAP_STATUS_INCOMPLETE) :
    snap_decode cfg f b = (f.status, f) := by
  simp [snap_decode, h1, h2]

theorem snap_decode_bytes_other (cfg : snap_build_t) (f : snap_frame_t)
    (h1 : f.status ≠ SNAP_STATUS_IDLE) (h2 : f.status ≠ SNAP_STATUS_INCOMPLETE) (bs : List Nat) :
    snap_decode_bytes cfg f bs = (List.replicate bs.length f.status, f) := by
  induction bs with
  | nil => rfl
  | cons b bs ih =>
    simp [snap_decode_bytes, snap_decode_other cfg f b h1 h2, ih, List.replicate_succ]

theorem snap_encapsulate_put_status (value : Nat) (s : Int) (i : Nat) :
    ∀ F : snap_frame_t,
      snap_encapsulate_put value i { F with status := s } =
        { snap_encapsulate_put value i F with status := s } := by
  induction i with
  | zero => intro F; rfl
  | succ i ih =>
    intro F
    simp only [snap_encapsulate_put]
    exact ih { buffer := F.buffer.set F.size ((value >>> (i * 8)) &&& 0xFF), maxSize := F.maxSize,
               size := (F.size + 1) % 65536, status := F.status }

theorem enc_body_reset (f : snap_frame_t) (fields : snap_fields_t) :
    enc_body (snap_reset f) fields = { enc_body f fields with status := SNAP_STATUS_IDLE } := by
  have hb : enc_base (snap_reset f) fields =
      { enc_base f fields with status := SNAP_STATUS_IDLE } := rfl
  simp only [enc_body, hb, snap_encapsulate_put_status]

theorem enc_hashed_reset (cfg : snap_build_t) (f : snap_frame_t) (fields : snap_fields_t) :
    enc_hashed cfg (snap_reset f) fields =
      { enc_hashed cfg f fields with status := SNAP_STATUS_IDLE } := by
  have hc : ∀ F : snap_frame_t, ∀ s : Int,
      snap_calculateHash cfg { F with status := s } 0 = snap_calculateHash cfg F 0 :=
    fun _ _ => rfl
  unfold enc_hashed
  rw [enc_body_reset]
  split_ifs
  · rw [hc, snap_encapsulate_put_status]
  · rfl

/-- What `snap_encapsulate` does is the same on a frame and on that frame reset: the
status and size held before the call are not read. -/
theorem snap_encapsulate_reset (cfg : snap_build_t) (f : snap_frame_t) (fields : snap_fields_t) :
    snap_encapsulate cfg (snap_reset f) fields = snap_encapsulate cfg f fields := by
  rw [snap_encapsulate_eq, snap_encapsulate_eq, enc_hashed_reset]
  rfl

/-- C11: when the status is Valid, ErrorHash or ErrorOverflow, `snap_decode` returns that
same status for every input byte (0x54 included) and leaves the whole frame record,
status, size and buffer included, unchanged, so no sequence of bytes leaves the state;
`snap_reset` and `snap_init` do leave it (to Idle), and `snap_encapsulate` starts afresh,
acting as it does on the reset frame. -/
theorem snap_decode_terminal (cfg : snap_build_t) (f : snap_frame_t)
    (hs : f.status = SNAP_STATUS_VALID ∨ f.status = SNAP_STATUS_ERROR_HASH ∨
      f.status = SNAP_STATUS_ERROR_OVERFLOW) :
    (∀ b, snap_decode cfg f b = (f.status, f)) ∧
    snap_decode cfg f 0x54 = (f.status, f) ∧
    (∀ bs, snap_decode_bytes cfg f bs = (List.replicate bs.length f.status, f)) ∧
    (snap_reset f).status = SNAP_STATUS_IDLE ∧
    (∀ b maxSize, 3 ≤ maxSize →
      (snap_init (some f) (some b) maxSize).2 =
        some { buffer := b, maxSize := min maxSize 528, size := 0,
               status := SNAP_STATUS_IDLE }) ∧
    (∀ fields, snap_encapsulate cfg f fields = snap_encapsulate cfg (snap_reset f) fields) := by
  have h1 : f.status ≠ SNAP_STATUS_IDLE := by
    rcases hs with h | h | h <;> rw [h] <;> decide
  have h2 : f.status ≠ SNAP_STATUS_INCOMPLETE := by
    rcases hs with h | h | h <;> rw [h] <;> decide
  exact ⟨fun b => snap_decode_other cfg f b h1 h2, snap_decode_other cfg f _ h1 h2,
    fun bs => snap_decode_bytes_other cfg f h1 h2 bs, rfl,
    fun b maxSize h => snap_init_ok f b maxSize h,
    fun fields => (snap_encapsulate_reset cfg f fields).symm⟩

theorem snap_decode_terminal_witness :
    snap_decode snap_build_default
        { buffer := [0x54, 0, 0], maxSize := 3, size := 3, status := SNAP_STATUS_VALID } 0x54 =
      (SNAP_STATUS_VALID,
        { buffer := [0x54, 0, 0], maxSize := 3, size := 3, status := SNAP_STATUS_VALID }) :=
  (snap_decode_terminal snap_build_default
    { buffer := [0x54, 0, 0], maxSize := 3, size := 3, status := SNAP_STATUS_VALID }
    (Or.inl rfl)).2.1

/-! ## Size tables -/

/-- C14: for every `n` in 0..512, `snap_getDataSizeFromNdb (snap_getNdbFromDataSize n)` is
at least `n`, belongs to the table {0,...,8,16,32,64,128,256,512}, and is the smallest
table value that is at least `n`. -/
theorem snap_size_table_inverse (n : Nat) (hn : n ≤ 512) :
    n ≤ snap_getDataSizeFromNdb (snap_getNdbFromDataSize n) ∧
    snap_getDataSizeFromNdb (snap_getNdbFromDataSize n) ∈ size_table ∧
    ∀ t ∈ size_table, n ≤ t → snap_getDataSizeFromNdb (snap_getNdbFromDataSize n) ≤ t := by
  have key : ∀ c v, snap_getNdbFromDataSize n = c → snap_getDataSizeFromNdb c = v →
      snap_getDataSizeFromNdb (snap_getNdbFromDataSize n) = v := by
    intro c v h1 h2; rw [h1, h2]
  have hv : (n ≤ 8 ∧ snap_getDataSizeFromNdb (snap_getNdbFromDataSize n) = n) ∨
      (8 < n ∧ n ≤ 16 ∧ snap_getDataSizeFromNdb (snap_getNdbFromDataSize n) = 16) ∨
      (16 < n ∧ n ≤ 32 ∧ snap_getDataSizeFromNdb (snap_getNdbFromDataSize n) = 32) ∨
      (32 < n ∧ n ≤ 64 ∧ snap_getDataSizeFromNdb (snap_getNdbFromDataSize n) = 64) ∨
      (64 < n ∧ n ≤ 128 ∧ snap_getDataSizeFromNdb (snap_getNdbFromDataSize n) = 128) ∨
      (128 < n ∧ n ≤ 256 ∧ snap_getDataSizeFromNdb (snap_getNdbFromDataSize n) = 256) ∨
      (256 < n ∧ n ≤ 512 ∧ snap_getDataSizeFromNdb (snap_getNdbFromDataSize n) = 512) := by
    by_cases h8 : n ≤ 8
    · left
      refine ⟨h8, ?_⟩
      have e : snap_getNdbFromDataSize n = n := by
        simp only [snap_getNdbFromDataSize, h8, if_true]; omega
      rw [e]
      simp only [snap_getDataSizeFromNdb, h8, if_true]
    · right
      by_cases h16 : n ≤ 16
      · left
        exact ⟨by omega, h16, key 9 16 (by simp only [snap_getNdbFromDataSize, h8, h16, if_true, if_false]) (by decide)⟩
      · right
        by_cases h32 : n ≤ 32
        · left
          exact ⟨by omega, h32, key 10 32 (by simp only [snap_getNdbFromDataSize, h8, h16, h32, if_true, if_false]) (by decide)⟩
        · right
          by_cases h64 : n ≤ 64
          · left
            exact ⟨by omega, h64, key 11 64 (by simp only [snap_getNdbFromDataSize, h8, h16, h32, h64, if_true, if_false]) (by decide)⟩
          · right
            by_cases h128 : n ≤ 128
            · left
              exact ⟨by omega, h128, key 12 128 (by simp only [snap_getNdbFromDataSize, h8, h16, h32, h64, h128, if_true, if_false]) (by decide)⟩
            · right
              by_cases h256 : n ≤ 256
              · left
                exact ⟨by omega, h256, key 13 256 (by simp only [snap_getNdbFromDataSize, h8, h16, h32, h64, h128, h256, if_true, if_false]) (by decide)⟩
              · right
                exact ⟨by omega, hn, key 14 512 (by simp only [snap_getNdbFromDataSize, h8, h16, h32, h64, h128, h256, hn, if_true, if_false]) (by decide)⟩
  have hmem : ∀ t, t ∈ size_table ↔ t ≤ 8 ∨ t = 16 ∨ t = 32 ∨ t = 64 ∨ t = 128 ∨ t = 256 ∨ t = 512 := by
    intro t
    simp only [size_table, List.mem_cons, List.mem_singleton, List.not_mem_nil, or_false]
    omega
  refine ⟨?_, ?_, ?_⟩
  · rcases hv with h | h | h | h | h | h | h <;> omega
  · rw [hmem]
    rcases hv with h | h | h | h | h | h | h <;> omega
  · intro t ht hnt
    rw [hmem] at ht
    rcases hv with h | h | h | h | h | h | h <;> omega

theorem snap_size_table_inverse_witness :
    9 ≤ snap_getDataSizeFromNdb (snap_getNdbFromDataSize 9) ∧
    snap_getDataSizeFromNdb (snap_getNdbFromDataSize 9) ∈ size_table ∧
    ∀ t ∈ size_table, 9 ≤ t → snap_getDataSizeFromNdb (snap_getNdbFromDataSize 9) ≤ t :=
  snap_size_table_inverse 9 (by decide)

/-- C15: `snap_getNdbFromDataSize n` is `n` for `n` in 0..8, 9 for 9..16, 10 for 17..32,
11 for 33..64, 12 for 65..128, 13 for 129..256, 14 for 257..512 and 0 above 512; the
result is always in 0..14. -/
theorem snap_getNdbFromDataSize_table (n : Nat) :
    (n ≤ 8 → snap_getNdbFromDataSize n = n) ∧
    (9 ≤ n → n ≤ 16 → snap_getNdbFromDataSize n = 9) ∧
    (17 ≤ n → n ≤ 32 → snap_getNdbFromDataSize n = 10) ∧
    (33 ≤ n → n ≤ 64 → snap_getNdbFromDataSize n = 11) ∧
    (65 ≤ n → n ≤ 128 → snap_getNdbFromDataSize n = 12) ∧
    (129 ≤ n → n ≤ 256 → snap_getNdbFromDataSize n = 13) ∧
    (257 ≤ n → n ≤ 512 → snap_getNdbFromDataSize n = 14) ∧
    (512 < n → snap_getNdbFromDataSize n = 0) ∧
    snap_getNdbFromDataSize n ≤ 14 := by
  unfold snap_getNdbFromDataSize
  refine ⟨?_, ?_, ?_, ?_, ?_, ?_, ?_, ?_, ?_⟩
  · intro h; rw [if_pos h]; omega
  · intro h1 h2
    rw [if_neg (by omega), if_pos h2]
  · intro h1 h2
    rw [if_neg (by omega), if_neg (by omega), if_pos h2]
  · intro h1 h2
    rw [if_neg (by omega), if_neg (by omega), if_neg (by omega), if_pos h2]
  · intro h1 h2
    rw [if_neg (by omega), if_neg (by omega), if_neg (by omega), if_neg (by omega), if_pos h2]
  · intro h1 h2
    rw [if_neg (by omega), if_neg (by omega), if_neg (by omega), if_neg (by omega),
      if_neg (by omega), if_pos h2]
  · intro h1 h2
    rw [if_neg (by omega), if_neg (by omega), if_neg (by omega), if_neg (by omega),
      if_neg (by omega), if_neg (by omega), if_pos h2]
  · intro h1
    rw [if_neg (by omega), if_neg (by omega), if_neg (by omega), if_neg (by omega),
      if_neg (by omega), if_neg (by omega), if_neg (by omega)]
  · split_ifs <;> omega

/-- C16: `snap_getDataSizeFromNdb code` is `code` for `code` in 0..8, `2 ^ (code - 5)`
(16, 32, 64, 128, 256, 512) for `code` in 9..14, and 0 for every other code (15 and
above, so 15..255 on eight bits). -/
theorem snap_getDataSizeFromNdb_table (code : Nat) :
    (code ≤ 8 → snap_getDataSizeFromNdb code = code) ∧
    (9 ≤ code → code ≤ 14 → snap_getDataSizeFromNdb code = 2 ^ (code - 5)) ∧
    snap_getDataSizeFromNdb 9 = 16 ∧ snap_getDataSizeFromNdb 10 = 32 ∧
    snap_getDataSizeFromNdb 11 = 64 ∧ snap_getDataSizeFromNdb 12 = 128 ∧
    snap_getDataSizeFromNdb 13 = 256 ∧ snap_getDataSizeFromNdb 14 = 512 ∧
    (15 ≤ code → snap_getDataSizeFromNdb code = 0) := by
  refine ⟨?_, ?_, by decide, by decide, by decide, by decide, by decide, by decide, ?_⟩
  · intro h
    simp only [snap_getDataSizeFromNdb, h, if_true]
  · intro h1 h2
    have hc : code = 9 ∨ code = 10 ∨ code = 11 ∨ code = 12 ∨ code = 13 ∨ code = 14 := by omega
    rcases hc with h | h | h | h | h | h <;> subst h <;> decide
  · intro h
    simp only [snap_getDataSizeFromNdb]
    rw [if_neg (by omega), if_neg (by omega)]

theorem and_seven (edm : Nat) : edm &&& SNAP_HDB1_EDM_MASK = edm % 8 := by
  have := Nat.and_pow_two_sub_one_eq_mod edm 3
  norm_num at this
  simpa [SNAP_HDB1_EDM_MASK] using this

/-- C17: `snap_getHashSizeFromEdm` is defined for every input and depends only on the
three low bits of `edm`: it returns the entry of {0, 0, 1, 1, 2, 4, 0,
SNAP_SIZE_USER_HASH} at index `edm mod 8` (an index inside the table), so with
`SNAP_SIZE_USER_HASH` in 0..4 the result is always in 0..4. -/
theorem snap_getHashSizeFromEdm_table (cfg : snap_build_t) (edm : Nat) :
    snap_getHashSizeFromEdm cfg edm =
      [0, 0, 1, 1, 2, 4, 0, cfg.SNAP_SIZE_USER_HASH].getD (edm % 8) 0 ∧
    edm % 8 < [0, 0, 1, 1, 2, 4, 0, cfg.SNAP_SIZE_USER_HASH].length ∧
    snap_getHashSizeFromEdm cfg edm = snap_getHashSizeFromEdm cfg (edm % 8) ∧
    (cfg.SNAP_SIZE_USER_HASH ≤ 4 → snap_getHashSizeFromEdm cfg edm ≤ 4) := by
  refine ⟨?_, ?_, ?_, ?_⟩
  · simp only [snap_getHashSizeFromEdm, and_seven]
  · simp only [List.length_cons, List.length_nil]
    omega
  · simp only [snap_getHashSizeFromEdm, and_seven, Nat.mod_mod]
  · intro h
    simp only [snap_getHashSizeFromEdm, and_seven]
    have h8 : edm % 8 < 8 := Nat.mod_lt _ (by norm_num)
    generalize edm % 8 = k at h8
    interval_cases k <;> simp
    exact h

/-! ## The 8-bit checksum -/

theorem checksum_foldl (l : List Nat) (s : Nat) (hs : s < 256) :
    l.foldl (fun checksum b => (checksum + b) % 256) s = (s + l.sum) % 256 := by
  induction l generalizing s with
  | nil => simp only [List.foldl_nil, List.sum_nil, Nat.add_zero]; omega
  | cons b l ih =>
    simp only [List.foldl_cons, List.sum_cons]
    rw [ih _ (Nat.mod_lt _ (by norm_num))]
    omega

/-- C18: `snap_calculateChecksum8` returns the sum of the `size` bytes at `data` modulo
256: for every byte sequence the sum of its bytes modulo 256, and 0 for the empty
sequence. -/
theorem snap_calculateChecksum8_sum (data : List Nat) (size : Nat) :
    snap_calculateChecksum8 data size = (data.take size).sum % 256 ∧
    snap_calculateChecksum8 data data.length = data.sum % 256 ∧
    snap_calculateChecksum8 data 0 = 0 ∧ snap_calculateChecksum8 [] size = 0 := by
  refine ⟨?_, ?_, ?_, ?_⟩
  · simp only [snap_calculateChecksum8]
    rw [checksum_foldl _ 0 (by norm_num), Nat.zero_add]
  · simp only [snap_calculateChecksum8, List.take_length]
    rw [checksum_foldl _ 0 (by norm_num), Nat.zero_add]
  · simp [snap_calculateChecksum8]
  · simp [snap_calculateChecksum8]

/-! ## The decoder in state Incomplete -/

theorem get_bits_le (x m p : Nat) : SNAP_GET_BITS x m p ≤ m := Nat.and_le_right

theorem header_bounds (cfg : snap_build_t) (hcfg : cfg.SNAP_SIZE_USER_HASH ≤ 4) (buf : List Nat) :
    SNAP_HDB2_DAB buf ≤ 3 ∧ SNAP_HDB2_SAB buf ≤ 3 ∧ SNAP_HDB2_PFB buf ≤ 3 ∧
    SNAP_HDB1_EDM buf ≤ 7 ∧ SNAP_SIZE_DATA buf ≤ 512 ∧ SNAP_SIZE_HASH cfg buf ≤ 4 ∧
    SNAP_INDEX_HASH buf =
      3 + SNAP_HDB2_DAB buf + SNAP_HDB2_SAB buf + SNAP_HDB2_PFB buf + SNAP_SIZE_DATA buf ∧
    dec_fullSize cfg buf = SNAP_INDEX_HASH buf + SNAP_SIZE_HASH cfg buf := by
  have h1 : SNAP_HDB2_DAB buf ≤ 3 := get_bits_le _ _ _
  have h2 : SNAP_HDB2_SAB buf ≤ 3 := get_bits_le _ _ _
  have h3 : SNAP_HDB2_PFB buf ≤ 3 := get_bits_le _ _ _
  have h4 : SNAP_HDB1_EDM buf ≤ 7 := get_bits_le _ _ _
  have h5 : SNAP_SIZE_DATA buf ≤ 512 := snap_getDataSizeFromNdb_le _
  have h6 : SNAP_SIZE_HASH cfg buf ≤ 4 := snap_getHashSizeFromEdm_le cfg hcfg _
  have h7 : SNAP_INDEX_HASH buf =
      3 + SNAP_HDB2_DAB buf + SNAP_HDB2_SAB buf + SNAP_HDB2_PFB buf + SNAP_SIZE_DATA buf := rfl
  refine ⟨h1, h2, h3, h4, h5, h6, h7, ?_⟩
  simp only [dec_fullSize]
  omega

theorem dec_verdict_cases (cfg : snap_build_t) (D : snap_frame_t) :
    dec_verdict cfg D = SNAP_STATUS_VALID ∨ dec_verdict cfg D = SNAP_STATUS_ERROR_HASH := by
  unfold dec_verdict
  split_ifs
  · left; rfl
  · right; rfl
  · left; rfl

theorem dec_fullSize_set (cfg : snap_build_t) (buf : List Nat) (k b : Nat) (hk : 3 ≤ k) :
    dec_fullSize cfg (buf.set k b) = dec_fullSize cfg buf :=
  (dec_fullSize_congr cfg _ _ (List.getElem?_set_ne (by omega))
    (List.getElem?_set_ne (by omega))).2.2

theorem dec_past_header_step (cfg : snap_build_t) (g : snap_frame_t) (b : Nat)
    (h : dec_past_header cfg g) :
    (snap_decode cfg g b).1 ≠ SNAP_STATUS_ERROR_OVERFLOW ∧
    dec_past_header cfg (snap_decode cfg g b).2 := by
  rcases h with h | ⟨hs, h3, hlt, hmax⟩
  · have h1 : g.status ≠ SNAP_STATUS_IDLE := by rcases h with h | h <;> rw [h] <;> decide
    have h2 : g.status ≠ SNAP_STATUS_INCOMPLETE := by rcases h with h | h <;> rw [h] <;> decide
    rw [snap_decode_other cfg g b h1 h2]
    refine ⟨?_, Or.inl h⟩
    rcases h with h | h <;> simp only [h] <;> decide
  · obtain ⟨buf, M, k, st⟩ := g
    simp only at hs h3 hlt hmax
    subst hs
    have hset := dec_fullSize_set cfg buf k b h3
    by_cases hk : k + 1 < dec_fullSize cfg buf
    · rw [snap_decode_incomplete_mid cfg buf M k b (by omega) (by rw [hset]; exact hk)
        (by rw [hset]; exact hmax)]
      refine ⟨?_, Or.inr ⟨rfl, ?_, ?_, ?_⟩⟩
      · show SNAP_STATUS_INCOMPLETE ≠ SNAP_STATUS_ERROR_OVERFLOW; decide
      · show 3 ≤ k + 1; omega
      · show k + 1 < dec_fullSize cfg (buf.set k b); rw [hset]; exact hk
      · show dec_fullSize cfg (buf.set k b) ≤ M; rw [hset]; exact hmax
    · rw [snap_decode_incomplete_last cfg buf M k b (by omega) (by rw [hset]; omega) (by omega)]
      have hv := dec_verdict_cases cfg
        { buffer := buf.set k b, maxSize := M, size := k + 1, status := SNAP_STATUS_INCOMPLETE }
      refine ⟨?_, Or.inl hv⟩
      rcases hv with hv | hv <;> simp only [hv] <;> decide

theorem dec_past_header_run (cfg : snap_build_t) (bs : List Nat) :
    ∀ g, dec_past_header cfg g →
      SNAP_STATUS_ERROR_OVERFLOW ∉ (snap_decode_bytes cfg g bs).1 := by
  induction bs with
  | nil => intro g _; simp [snap_decode_bytes]
  | cons b bs ih =>
    intro g hg
    obtain ⟨h1, h2⟩ := dec_past_header_step cfg g b hg
    simp only [snap_decode_bytes, List.mem_cons, not_or]
    exact ⟨fun h => h1 h.symm, ih _ h2⟩

theorem snap_getField_word_be (buf : List Nat) (hb : ∀ x ∈ buf, x < 256) (n : Nat) :
    ∀ (i acc m : Nat), i + n ≤ buf.length → acc < 256 ^ m → m + n ≤ 4 →
      snap_getField_word buf n i acc =
        ((buf.drop i).take n).foldl (fun v b => v * 256 + b) acc := by
  induction n with
  | zero => intro i acc m _ _ _; simp [snap_getField_word]
  | succ n ih =>
    intro i acc m hlen hacc hm
    have hi : i < buf.length := by omega
    have hd : buf.getD i 0 = buf[i] := by
      rw [List.getD_eq_getElem?_getD, List.getElem?_eq_getElem hi]; rfl
    have hd256 : buf[i] < 256 := hb _ (List.getElem_mem hi)
    have hpow : 256 ^ (m + 1) ≤ 256 ^ 4 := Nat.pow_le_pow_right (by norm_num) (by omega)
    have hstep : acc * 256 + buf[i] < 256 ^ (m + 1) := by
      rw [pow_succ]
      have : acc + 1 ≤ 256 ^ m := hacc
      nlinarith
    have hmod : (acc * 256 + buf[i]) % 4294967296 = acc * 256 + buf[i] := by
      apply Nat.mod_eq_of_lt
      norm_num at hpow
      omega
    simp only [snap_getField_word]
    rw [hd, shl8_or _ _ hd256, hmod, ih (i + 1) _ (m + 1) (by omega) hstep (by omega),
      List.drop_eq_getElem_cons hi, List.take_succ_cons, List.foldl_cons]

theorem snap_getField_hash_at (cfg : snap_build_t) (hcfg : cfg.SNAP_SIZE_USER_HASH ≤ 4)
    (F : snap_frame_t) (hne : SNAP_SIZE_HASH cfg F.buffer ≠ 0)
    (hsz : SNAP_INDEX_HASH F.buffer + SNAP_SIZE_HASH cfg F.buffer ≤ F.size)
    (c : snap_content_t) :
    snap_getField cfg F c SNAP_FIELD_HASH =
      (Int.ofNat (SNAP_SIZE_HASH cfg F.buffer),
        .word (snap_getField_word F.buffer (SNAP_SIZE_HASH cfg F.buffer)
          (SNAP_INDEX_HASH F.buffer) 0)) := by
  obtain ⟨m1, m2, m3, _, m5, m6, m7, _⟩ := header_bounds cfg hcfg F.buffer
  have hs3 : ¬ F.size < 3 := by omega
  have hI : SNAP_INDEX_HASH F.buffer % 65536 = SNAP_INDEX_HASH F.buffer := by omega
  have hI2 : (SNAP_INDEX_HASH F.buffer + SNAP_SIZE_HASH cfg F.buffer) % 65536 =
      SNAP_INDEX_HASH F.buffer + SNAP_SIZE_HASH cfg F.buffer := by omega
  have hlt : ¬ F.size < SNAP_INDEX_HASH F.buffer + SNAP_SIZE_HASH cfg F.buffer := by omega
  have hcnt : SNAP_INDEX_HASH F.buffer + SNAP_SIZE_HASH cfg F.buffer -
      SNAP_INDEX_HASH F.buffer = SNAP_SIZE_HASH cfg F.buffer := by omega
  simp [snap_getField, SNAP_MIN_SIZE_FRAME, SNAP_SIZE_SYNC, SNAP_SIZE_HEADER,
    SNAP_SIZE_HDB2, SNAP_SIZE_HDB1, hs3, hne, hI, hI2, hlt, hcnt,
    SNAP_FIELD_HASH, SNAP_FIELD_HEADER, SNAP_FIELD_DEST_ADDRESS, SNAP_FIELD_SOURCE_ADDRESS,
    SNAP_FIELD_DATA, SNAP_FIELD_PROTOCOL_FLAGS]

theorem snap_calculateHash_at (cfg : snap_build_t) (hcfg : cfg.SNAP_SIZE_USER_HASH ≤ 4)
    (F : snap_frame_t) (hne : SNAP_SIZE_HASH cfg F.buffer ≠ 0)
    (hsz : SNAP_INDEX_HASH F.buffer ≤ F.size) (old : Nat) :
    (snap_calculateHash cfg F old).2 =
      hash_selected cfg (SNAP_HDB1_EDM F.buffer)
        ((F.buffer.drop 1).take (SNAP_INDEX_HASH F.buffer - 1)) := by
  obtain ⟨m1, m2, m3, m4, m5, m6, m7, _⟩ := header_bounds cfg hcfg F.buffer
  have hs3 : ¬ F.size < 3 := by omega
  have hI : SNAP_INDEX_HASH F.buffer % 65536 = SNAP_INDEX_HASH F.buffer := by omega
  have hI2 : (SNAP_INDEX_HASH F.buffer + 65535) % 65536 = SNAP_INDEX_HASH F.buffer - 1 := by
    omega
  have hlt : ¬ F.size < SNAP_INDEX_HASH F.buffer := by omega
  have hsh : SNAP_SIZE_HASH cfg F.buffer = snap_getHashSizeFromEdm cfg (SNAP_HDB1_EDM F.buffer) :=
    rfl
  have hcases : SNAP_HDB1_EDM F.buffer = 2 ∨ SNAP_HDB1_EDM F.buffer = 3 ∨
      SNAP_HDB1_EDM F.buffer = 4 ∨ SNAP_HDB1_EDM F.buffer = 5 ∨ SNAP_HDB1_EDM F.buffer = 7 := by
    rw [hsh] at hne
    generalize SNAP_HDB1_EDM F.buffer = e at m4 hne ⊢
    interval_cases e
    · exact absurd rfl hne
    · exact absurd rfl hne
    · simp
    · simp
    · simp
    · simp
    · exact absurd rfl hne
    · simp
  simp only [snap_calculateHash, SNAP_MIN_SIZE_FRAME, SNAP_SIZE_SYNC, SNAP_SIZE_HEADER,
    SNAP_SIZE_HDB2, SNAP_SIZE_HDB1, Nat.reduceAdd, hs3, if_false, hne, hI, hlt, hI2,
    SNAP_INDEX_HDB2, hash_selected, hash_of, snap_calculateChecksum8,
    snap_calculateCrc8, snap_calculateCrc16, snap_calculateCrc32, List.take_length]
  rcases hcases with h | h | h | h | h <;>
    simp [h, SNAP_HDB1_EDM_8BIT_CHECKSUM, SNAP_HDB1_EDM_8BIT_CRC, SNAP_HDB1_EDM_16BIT_CRC,
      SNAP_HDB1_EDM_32BIT_CRC, SNAP_HDB1_EDM_USER_SPECIFIED]

theorem dec_verdict_eval (cfg : snap_build_t) (hcfg : cfg.SNAP_SIZE_USER_HASH ≤ 4)
    (D : snap_frame_t) (hb : ∀ x ∈ D.buffer, x < 256)
    (hsz : SNAP_INDEX_HASH D.buffer + SNAP_SIZE_HASH cfg D.buffer ≤ D.size)
    (hlen : SNAP_INDEX_HASH D.buffer + SNAP_SIZE_HASH cfg D.buffer ≤ D.buffer.length) :
    dec_verdict cfg D =
      if SNAP_SIZE_HASH cfg D.buffer = 0 then SNAP_STATUS_VALID
      else if be_value ((D.buffer.drop (SNAP_INDEX_HASH D.buffer)).take
                (SNAP_SIZE_HASH cfg D.buffer)) =
              hash_selected cfg (SNAP_HDB1_EDM D.buffer)
                ((D.buffer.drop 1).take (SNAP_INDEX_HASH D.buffer - 1))
        then SNAP_STATUS_VALID else SNAP_STATUS_ERROR_HASH := by
  obtain ⟨_, _, _, _, _, m6, _, _⟩ := header_bounds cfg hcfg D.buffer
  by_cases h0 : SNAP_SIZE_HASH cfg D.buffer = 0
  · simp [dec_verdict, h0]
  · have hw := snap_getField_word_be D.buffer hb (SNAP_SIZE_HASH cfg D.buffer)
      (SNAP_INDEX_HASH D.buffer) 0 0 hlen (by norm_num) (by omega)
    simp only [dec_verdict, ne_eq, h0, not_false_eq_true, if_true, if_false,
      snap_getField_hash_at cfg hcfg D h0 hsz,
      snap_calculateHash_at cfg hcfg D h0 (by omega), hw, be_value]

theorem snap_decode_incomplete_overflow (cfg : snap_build_t) (buf : List Nat)
    (maxSize k b : Nat) (hk : 3 ≤ k + 1) (hk2 : k + 1 < 65536)
    (hmax : maxSize < dec_fullSize cfg (buf.set k b)) :
    snap_decode cfg { buffer := buf, maxSize := maxSize, size := k, status := SNAP_STATUS_INCOMPLETE } b
      = (SNAP_STATUS_ERROR_OVERFLOW,
         { buffer := buf.set k b, maxSize := maxSize, size := k + 1,
           status := SNAP_STATUS_ERROR_OVERFLOW }) := by
  have h1 : (k + 1) % 65536 = k + 1 := by omega
  have h2 : k + 1 ≥ 3 := hk
  have h3 : SNAP_STATUS_INCOMPLETE ≠ SNAP_STATUS_IDLE := by decide
  have h4 : maxSize < dec_fullSize cfg (buf.set k b) := hmax
  simp only [dec_fullSize] at h4
  simp only [snap_decode, h3, if_false, if_true, h1, SNAP_MIN_SIZE_FRAME, SNAP_SIZE_SYNC,
    SNAP_SIZE_HEADER, SNAP_SIZE_HDB2, SNAP_SIZE_HDB1, Nat.reduceAdd, h2, h4]

theorem full_frame_size_eq (cfg : snap_build_t) (buf : List Nat) :
    SNAP_INDEX_HASH buf + SNAP_SIZE_HASH cfg buf =
      full_frame_size cfg (buf.getD 1 0) (buf.getD 2 0) := rfl

/-- C12: in state Incomplete with two bytes held, the third byte completes the header;
with F the full frame size announced by the two header bytes (the code's
`SNAP_INDEX_HASH + SNAP_SIZE_HASH` is that F), if F exceeds `maxSize` then `snap_decode`
stores the byte, sets and returns ErrorOverflow with size 3, and if F is at most `maxSize`
then no later call on that frame returns ErrorOverflow, whatever bytes follow. -/
theorem snap_decode_overflow (cfg : snap_build_t) (hcfg : cfg.SNAP_SIZE_USER_HASH ≤ 4)
    (f : snap_frame_t) (b : Nat) (hs : f.status = SNAP_STATUS_INCOMPLETE) (hsz : f.size = 2)
    (hl : 3 ≤ f.buffer.length) :
    dec_fullSize cfg (f.buffer.set 2 b) = full_frame_size cfg (f.buffer.getD 1 0) b ∧
    (f.maxSize < full_frame_size cfg (f.buffer.getD 1 0) b →
      snap_decode cfg f b =
        (SNAP_STATUS_ERROR_OVERFLOW,
          { buffer := f.buffer.set 2 b, maxSize := f.maxSize, size := 3,
            status := SNAP_STATUS_ERROR_OVERFLOW })) ∧
    (full_frame_size cfg (f.buffer.getD 1 0) b ≤ f.maxSize →
      ∀ bs, SNAP_STATUS_ERROR_OVERFLOW ∉ (snap_decode_bytes cfg f (b :: bs)).1) := by
  obtain ⟨buf, M, k, st⟩ := f
  simp only at hs hsz hl ⊢
  subst hs hsz
  obtain ⟨_, _, _, _, _, _, m7, m8⟩ := header_bounds cfg hcfg (buf.set 2 b)
  have g1 : (buf.set 2 b).getD 1 0 = buf.getD 1 0 := by
    simp [List.getD_eq_getElem?_getD, List.getElem?_set_ne]
  have g2 : (buf.set 2 b).getD 2 0 = b := by
    have h2 : 2 < buf.length := by omega
    simp [List.getD_eq_getElem?_getD, List.getElem?_set, h2]
  have hF : dec_fullSize cfg (buf.set 2 b) = full_frame_size cfg (buf.getD 1 0) b := by
    rw [m8, full_frame_size_eq, g1, g2]
  have h3F : 3 ≤ full_frame_size cfg (buf.getD 1 0) b := by
    unfold full_frame_size; omega
  refine ⟨hF, ?_, ?_⟩
  · intro hover
    exact snap_decode_incomplete_overflow cfg buf M 2 b (by omega) (by omega)
      (by rw [hF]; exact hover)
  · intro hfit bs
    by_cases h3 : 3 < full_frame_size cfg (buf.getD 1 0) b
    · have hstep := snap_decode_incomplete_mid cfg buf M 2 b (by omega)
        (by rw [hF]; exact h3) (by rw [hF]; exact hfit)
      simp only [snap_decode_bytes, hstep, List.mem_cons, not_or]
      refine ⟨by decide, dec_past_header_run cfg bs _ (Or.inr ⟨rfl, ?_, ?_, ?_⟩)⟩
      · show 3 ≤ 2 + 1; omega
      · show 2 + 1 < dec_fullSize cfg (buf.set 2 b); rw [hF]; exact h3
      · show dec_fullSize cfg (buf.set 2 b) ≤ M; rw [hF]; exact hfit
    · have hstep := snap_decode_incomplete_last cfg buf M 2 b (by omega)
        (by rw [hF]; omega) (by omega)
      have hv := dec_verdict_cases cfg
        { buffer := buf.set 2 b, maxSize := M, size := 2 + 1, status := SNAP_STATUS_INCOMPLETE }
      simp only [snap_decode_bytes, hstep, List.mem_cons, not_or]
      refine ⟨?_, dec_past_header_run cfg bs _ (Or.inl hv)⟩
      rcases hv with hv | hv <;> rw [hv] <;> decide

theorem snap_decode_overflow_witness :
    snap_decode snap_build_default
        { buffer := [0x54, 0, 0], maxSize := 3, size := 2, status := SNAP_STATUS_INCOMPLETE } 1 =
      (SNAP_STATUS_ERROR_OVERFLOW,
        { buffer := [0x54, 0, 1], maxSize := 3, size := 3,
          status := SNAP_STATUS_ERROR_OVERFLOW }) :=
  (snap_decode_overflow snap_build_default (by decide)
    { buffer := [0x54, 0, 0], maxSize := 3, size := 2, status := SNAP_STATUS_INCOMPLETE } 1
    rfl rfl (by decide)).2.1 (by decide)

/-- C13: in state Incomplete, with F the expected full size read from the header bytes and
F at most `maxSize`, a byte that leaves size below F (or below 3, before F is known) is
stored and the status stays Incomplete; the byte that makes size equal F gives Valid when
the header declares zero hash bytes, and otherwise Valid exactly when the big-endian value
of the hash field equals the selected hash algorithm applied to buffer bytes
1 .. hashIndex-1, and ErrorHash when they differ. -/
theorem snap_decode_completion (cfg : snap_build_t) (hcfg : cfg.SNAP_SIZE_USER_HASH ≤ 4)
    (f : snap_frame_t) (b : Nat) (hs : f.status = SNAP_STATUS_INCOMPLETE)
    (hl : f.size < f.buffer.length) (hbuf : ∀ x ∈ f.buffer, x < 256) (hb : b < 256) :
    (f.size + 1 < 3 →
      snap_decode cfg f b =
        (SNAP_STATUS_INCOMPLETE,
          { buffer := f.buffer.set f.size b, maxSize := f.maxSize, size := f.size + 1,
            status := SNAP_STATUS_INCOMPLETE })) ∧
    (3 ≤ f.size + 1 →
      SNAP_INDEX_HASH (f.buffer.set f.size b) + SNAP_SIZE_HASH cfg (f.buffer.set f.size b)
        ≤ f.maxSize →
      f.size + 1 <
        SNAP_INDEX_HASH (f.buffer.set f.size b) + SNAP_SIZE_HASH cfg (f.buffer.set f.size b) →
      snap_decode cfg f b =
        (SNAP_STATUS_INCOMPLETE,
          { buffer := f.buffer.set f.size b, maxSize := f.maxSize, size := f.size + 1,
            status := SNAP_STATUS_INCOMPLETE })) ∧
    (3 ≤ f.size + 1 →
      SNAP_INDEX_HASH (f.buffer.set f.size b) + SNAP_SIZE_HASH cfg (f.buffer.set f.size b)
        ≤ f.maxSize →
      f.size + 1 =
        SNAP_INDEX_HASH (f.buffer.set f.size b) + SNAP_SIZE_HASH cfg (f.buffer.set f.size b) →
      snap_decode cfg f b =
        ((if SNAP_SIZE_HASH cfg (f.buffer.set f.size b) = 0 then SNAP_STATUS_VALID
          else if be_value (((f.buffer.set f.size b).drop
                    (SNAP_INDEX_HASH (f.buffer.set f.size b))).take
                    (SNAP_SIZE_HASH cfg (f.buffer.set f.size b))) =
                  hash_selected cfg (SNAP_HDB1_EDM (f.buffer.set f.size b))
                    (((f.buffer.set f.size b).drop 1).take
                      (SNAP_INDEX_HASH (f.buffer.set f.size b) - 1))
            then SNAP_STATUS_VALID else SNAP_STATUS_ERROR_HASH),
          { buffer := f.buffer.set f.size b, maxSize := f.maxSize, size := f.size + 1,
            status :=
              if SNAP_SIZE_HASH cfg (f.buffer.set f.size b) = 0 then SNAP_STATUS_VALID
              else if be_value (((f.buffer.set f.size b).drop
                        (SNAP_INDEX_HASH (f.buffer.set f.size b))).take
                        (SNAP_SIZE_HASH cfg (f.buffer.set f.size b))) =
                      hash_selected cfg (SNAP_HDB1_EDM (f.buffer.set f.size b))
                        (((f.buffer.set f.size b).drop 1).take
                          (SNAP_INDEX_HASH (f.buffer.set f.size b) - 1))
                then SNAP_STATUS_VALID else SNAP_STATUS_ERROR_HASH })) := by
  obtain ⟨buf, M, k, st⟩ := f
  simp only at hs hl hbuf ⊢
  subst hs
  obtain ⟨_, _, _, _, _, _, _, m8⟩ := header_bounds cfg hcfg (buf.set k b)
  refine ⟨fun h => snap_decode_incomplete_short cfg buf M k b h, ?_, ?_⟩
  · intro h3 hmax hlt
    exact snap_decode_incomplete_mid cfg buf M k b h3 (by rw [m8]; exact hlt)
      (by rw [m8]; exact hmax)
  · intro h3 hmax heq
    have hbuf2 : ∀ x ∈ buf.set k b, x < 256 := by
      intro x hx
      rcases List.mem_or_eq_of_mem_set hx with h | h
      · exact hbuf x h
      · rw [h]; exact hb
    have hv := dec_verdict_eval cfg hcfg
      { buffer := buf.set k b, maxSize := M, size := k + 1, status := SNAP_STATUS_INCOMPLETE }
      hbuf2 (by show SNAP_INDEX_HASH (buf.set k b) + SNAP_SIZE_HASH cfg (buf.set k b) ≤ k + 1; omega)
      (by
        show SNAP_INDEX_HASH (buf.set k b) + SNAP_SIZE_HASH cfg (buf.set k b) ≤
          (buf.set k b).length
        rw [List.length_set]; omega)
    simp only at hv
    rw [snap_decode_incomplete_last cfg buf M k b h3 (by rw [m8]; exact heq.symm) (by omega), hv]

set_option maxRecDepth 100000 in
theorem snap_decode_completion_witness :
    snap_decode snap_build_default
        { buffer := [0x54, 0, 0x21, 7, 0], maxSize := 5, size := 4,
          status := SNAP_STATUS_INCOMPLETE } 0x28 =
      (SNAP_STATUS_VALID,
        { buffer := [0x54, 0, 0x21, 7, 0x28], maxSize := 5, size := 5,
          status := SNAP_STATUS_VALID }) :=
  ((snap_decode_completion snap_build_default (by decide)
    { buffer := [0x54, 0, 0x21, 7, 0], maxSize := 5, size := 4,
      status := SNAP_STATUS_INCOMPLETE } 0x28
    rfl (by decide) (by decide) (by decide)).2.2 (by decide) (by decide) (by decide)).trans
    (by decide)

/-! ## The CRC functions against the Rocksoft model -/

theorem rocksoft_reflect_lt (b : Nat) : ∀ v, rocksoft_reflect v b < 2 ^ b := by
  induction b with
  | zero => intro v; simp [rocksoft_reflect]
  | succ b ih =>
    intro v
    simp only [rocksoft_reflect]
    have h1 := ih (v / 2)
    have h2 : v % 2 < 2 := Nat.mod_lt _ (by norm_num)
    have h3 : v % 2 * 2 ^ b ≤ 1 * 2 ^ b := Nat.mul_le_mul_right _ (by omega)
    rw [pow_succ]
    omega

theorem testBit_of_lt (x b j : Nat) (hx : x < 2 ^ b) (hj : b ≤ j) : x.testBit j = false :=
  Nat.testBit_lt_two_pow (lt_of_lt_of_le hx (Nat.pow_le_pow_right (by norm_num) hj))

theorem rocksoft_reflect_testBit (b : Nat) :
    ∀ v j, (rocksoft_reflect v b).testBit j = (decide (j < b) && v.testBit (b - 1 - j)) := by
  induction b with
  | zero => intro v j; simp [rocksoft_reflect]
  | succ b ih =>
    intro v j
    by_cases hj : j < b + 1
    · simp only [rocksoft_reflect, hj, decide_True, Bool.true_and]
      rw [Nat.mul_comm, Nat.testBit_mul_pow_two_add _ (rocksoft_reflect_lt b _)]
      by_cases hjb : j < b
      · rw [if_pos hjb, ih, Nat.testBit_div_two]
        simp only [hjb, decide_True, Bool.true_and]
        congr 1
        omega
      · have hjb2 : j = b := by omega
        subst hjb2
        rw [if_neg hjb]
        simp [Nat.testBit_zero]
    · rw [testBit_of_lt _ _ _ (rocksoft_reflect_lt (b + 1) v) (by omega)]
      simp [hj]

theorem rocksoft_reflect_xor (b v w : Nat) :
    rocksoft_reflect (v ^^^ w) b = rocksoft_reflect v b ^^^ rocksoft_reflect w b := by
  apply Nat.eq_of_testBit_eq
  intro j
  simp only [Nat.testBit_xor, rocksoft_reflect_testBit]
  by_cases hj : j < b <;> simp [hj]

theorem rocksoft_reflect_reflect (b v : Nat) (hv : v < 2 ^ b) :
    rocksoft_reflect (rocksoft_reflect v b) b = v := by
  apply Nat.eq_of_testBit_eq
  intro j
  simp only [rocksoft_reflect_testBit]
  by_cases hj : j < b
  · have h1 : b - 1 - j < b := by omega
    have h2 : b - 1 - (b - 1 - j) = j := by omega
    simp [hj, h1, h2]
  · rw [testBit_of_lt v b j hv (by omega)]
    simp [hj]

theorem rocksoft_reflect_mod (b v : Nat) :
    rocksoft_reflect (v % 2 ^ b) b = rocksoft_reflect v b := by
  apply Nat.eq_of_testBit_eq
  intro j
  simp only [rocksoft_reflect_testBit, Nat.testBit_mod_two_pow]
  by_cases hj : j < b
  · have h1 : b - 1 - j < b := by omega
    simp [hj, h1]
  · simp [hj]

/-- A byte reflected on the full width is the byte reflected on eight bits, moved to the
top of the register. -/
theorem rocksoft_reflect_byte (w ch : Nat) (hw : 8 ≤ w) (hch : ch < 256) :
    rocksoft_reflect ch w = rocksoft_reflect ch 8 <<< (w - 8) := by
  apply Nat.eq_of_testBit_eq
  intro j
  simp only [rocksoft_reflect_testBit, Nat.testBit_shiftLeft]
  by_cases hj : j < w
  · by_cases hj2 : w - 8 ≤ j
    · have h1 : j - (w - 8) < 8 := by omega
      have h2 : 8 - 1 - (j - (w - 8)) = w - 1 - j := by omega
      simp [hj, hj2, h1, h2]
    · have h3 : ch.testBit (w - 1 - j) = false :=
        testBit_of_lt ch 8 _ (by norm_num; exact hch) (by omega)
      simp [hj, hj2, h3]
  · have h1 : ¬ j - (w - 8) < 8 := by omega
    simp [hj, h1]

theorem and_two_pow_ne (x k : Nat) : (x &&& 2 ^ k ≠ 0) ↔ x.testBit k = true := by
  rw [Nat.and_two_pow]
  cases h : x.testBit k
  · simp
  · simp

theorem and_one_ne (x : Nat) : (x &&& 1 ≠ 0) ↔ x.testBit 0 = true := by
  have := and_two_pow_ne x 0
  rw [pow_zero] at this
  exact this

/-- Shifting the reflected register left is reflecting the register shifted right. -/
theorem rocksoft_reflect_shift (w y : Nat) (hy : y < 2 ^ w) :
    (rocksoft_reflect y w <<< 1) % 2 ^ w = rocksoft_reflect (y >>> 1) w := by
  apply Nat.eq_of_testBit_eq
  intro j
  simp only [rocksoft_reflect_testBit, Nat.testBit_mod_two_pow, Nat.testBit_shiftLeft,
    Nat.testBit_shiftRight]
  by_cases hj : j < w
  · by_cases hj1 : 1 ≤ j
    · have h1 : j - 1 < w := by omega
      have h2 : w - 1 - (j - 1) = 1 + (w - 1 - j) := by omega
      simp [hj, hj1, h1, h2]
    · have h0 : j = 0 := by omega
      subst h0
      have h3 : 1 + (w - 1) = w := by omega
      simp [hj, h3, Nat.testBit_lt_two_pow hy]
  · simp [hj]

/-- One shift of the model on the reflected register is the reflection of one shift of a
right-shifting register that uses the reflected poly. -/
theorem rocksoft_bit_reflect (cm : rocksoft_t) (hw : 0 < cm.width) (hp : cm.poly < 2 ^ cm.width)
    (y : Nat) (hy : y < 2 ^ cm.width) :
    rocksoft_bit cm (rocksoft_reflect y cm.width) =
      rocksoft_reflect
        (if y &&& 1 ≠ 0 then ((y >>> 1) ^^^ rocksoft_reflect cm.poly cm.width) % 2 ^ cm.width
         else (y >>> 1) % 2 ^ cm.width) cm.width := by
  have htop : (rocksoft_reflect y cm.width &&& 2 ^ (cm.width - 1) ≠ 0) ↔ (y &&& 1 ≠ 0) := by
    rw [and_two_pow_ne, and_one_ne, rocksoft_reflect_testBit]
    have h1 : cm.width - 1 < cm.width := by omega
    have h2 : cm.width - 1 - (cm.width - 1) = 0 := by omega
    simp [h1, h2]
  unfold rocksoft_bit
  rw [Nat.and_pow_two_sub_one_eq_mod]
  by_cases hb : y &&& 1 ≠ 0
  · rw [if_pos (htop.mpr hb), if_pos hb, rocksoft_reflect_mod, rocksoft_reflect_xor,
      rocksoft_reflect_reflect _ _ hp, xor_mod_two_pow, rocksoft_reflect_shift _ _ hy,
      Nat.mod_eq_of_lt hp]
  · rw [if_neg (fun h => hb (htop.mp h)), if_neg hb, rocksoft_reflect_mod,
      rocksoft_reflect_shift _ _ hy]

theorem iterate_reflect (cm : rocksoft_t) (g : Nat → Nat) (hg : ∀ y, g y < 2 ^ cm.width)
    (hstep : ∀ y, y < 2 ^ cm.width →
      rocksoft_bit cm (rocksoft_reflect y cm.width) = rocksoft_reflect (g y) cm.width)
    (n : Nat) : ∀ y, y < 2 ^ cm.width →
      (rocksoft_bit cm)^[n] (rocksoft_reflect y cm.width) =
        rocksoft_reflect (g^[n] y) cm.width := by
  induction n with
  | zero => intro y _; rfl
  | succ n ih =>
    intro y hy
    rw [Function.iterate_succ_apply, Function.iterate_succ_apply, hstep y hy, ih _ (hg y)]

theorem crc8_bit_reflect (y : Nat) (hy : y < 256) :
    rocksoft_bit crc8_maxim_dow (rocksoft_reflect y 8) = rocksoft_reflect (crc8_bit y) 8 := by
  have hpoly : rocksoft_reflect crc8_maxim_dow.poly crc8_maxim_dow.width = 0x8C := by decide
  have h := rocksoft_bit_reflect crc8_maxim_dow (by decide) (by decide) y hy
  rw [hpoly] at h
  exact h

theorem crc8_byte_reflect (s b : Nat) (hs : s < 256) (hb : b < 256) :
    rocksoft_next crc8_maxim_dow (rocksoft_reflect s 8) b = rocksoft_reflect (crc8_byte s b) 8 := by
  have hx : (s ^^^ b) % 256 = s ^^^ b := xor_mod_lt s b 256 ⟨8, by norm_num⟩ hs hb
  have hlt : s ^^^ b < 256 := by rw [← hx]; exact Nat.mod_lt _ (by norm_num)
  have hbyte := rocksoft_reflect_byte 8 b (le_refl _) hb
  unfold rocksoft_next crc8_byte
  have hit : rocksoft_reflect (crc8_bit^[8] (s ^^^ b)) 8 =
      (rocksoft_bit crc8_maxim_dow)^[8] (rocksoft_reflect (s ^^^ b) 8) :=
    (iterate_reflect crc8_maxim_dow crc8_bit crc8_bit_lt crc8_bit_reflect 8 _ hlt).symm
  rw [hx, hit]
  show (rocksoft_bit crc8_maxim_dow)^[8]
      (rocksoft_reflect s 8 ^^^ (rocksoft_reflect b 8 <<< (8 - 8))) = _
  rw [← hbyte, ← rocksoft_reflect_xor]

theorem crc8_foldl_reflect (l : List Nat) (hl : ∀ b ∈ l, b < 256) :
    ∀ s, s < 256 →
      l.foldl (rocksoft_next crc8_maxim_dow) (rocksoft_reflect s 8) =
        rocksoft_reflect (l.foldl crc8_byte s) 8 := by
  induction l with
  | nil => intro s _; rfl
  | cons b l ih =>
    intro s hs
    rw [List.foldl_cons, List.foldl_cons,
      crc8_byte_reflect s b hs (hl b (List.mem_cons_self _ _)),
      ih (fun x hx => hl x (List.mem_cons_of_mem _ hx)) _ (crc8_byte_lt s b)]

theorem crc8_rocksoft (l : List Nat) (hl : ∀ b ∈ l, b < 256) :
    l.foldl crc8_byte 0 = rocksoft_crc crc8_maxim_dow l := by
  have h0 : (0 : Nat) = rocksoft_reflect 0 8 := by decide
  have h := crc8_foldl_reflect l hl 0 (by norm_num)
  have hlt : l.foldl crc8_byte 0 < 2 ^ 8 := foldl_lt _ 256 crc8_byte_lt l 0 (by norm_num)
  unfold rocksoft_crc
  show _ = 0 ^^^ rocksoft_reflect (l.foldl (rocksoft_next crc8_maxim_dow) 0) 8
  rw [Nat.zero_xor]
  conv_rhs => rw [h0, h]
  rw [rocksoft_reflect_reflect 8 _ hlt]

set_option maxRecDepth 100000 in
/-- C19: on every sequence of bytes the bit-serial `snap_calculateCrc8` equals the
Rocksoft-model CRC with width 8, poly 0x31, init 0x00, refin = refot = true, xorot 0x00
(CRC-8/MAXIM-DOW), and on the nine ASCII bytes "123456789" it returns 0xA1. -/
theorem snap_calculateCrc8_rocksoft (data : List Nat) (size : Nat)
    (hdata : ∀ b ∈ data, b < 256) :
    snap_calculateCrc8 data size = rocksoft_crc crc8_maxim_dow (data.take size) ∧
    snap_calculateCrc8 data data.length = rocksoft_crc crc8_maxim_dow data ∧
    snap_calculateCrc8 check_message 9 = 0xA1 := by
  refine ⟨crc8_rocksoft _ (fun b hb => hdata b (List.mem_of_mem_take hb)), ?_, by decide⟩
  unfold snap_calculateCrc8
  rw [List.take_length]
  exact crc8_rocksoft data hdata

set_option maxRecDepth 100000 in
theorem snap_calculateCrc8_rocksoft_witness :
    rocksoft_crc crc8_maxim_dow check_message = 0xA1 :=
  ((snap_calculateCrc8_rocksoft check_message 9 (by decide)).2.1.symm.trans
    (snap_calculateCrc8_rocksoft check_message 9 (by decide)).2.2)

theorem crc16_bit_rocksoft (x : Nat) : rocksoft_bit crc16_xmodem x = crc16_bit x := by
  have h1 : 2 ^ (crc16_xmodem.width - 1) = 0x8000 := by decide
  have h2 : 2 ^ crc16_xmodem.width = 65536 := by decide
  have h3 : crc16_xmodem.poly = 0x1021 := rfl
  unfold rocksoft_bit crc16_bit
  rw [Nat.and_pow_two_sub_one_eq_mod, h1, h2, h3]
  split_ifs <;> rfl

theorem crc16_byte_rocksoft (s b : Nat) (hs : s < 65536) (hb : b < 256) :
    rocksoft_next crc16_xmodem s b = crc16_byte s b := by
  have hsh : b <<< 8 < 65536 := by rw [Nat.shiftLeft_eq]; omega
  have h1 : (b <<< 8) % 65536 = b <<< 8 := Nat.mod_eq_of_lt hsh
  have h2 : (s ^^^ (b <<< 8)) % 65536 = s ^^^ (b <<< 8) :=
    xor_mod_lt s _ 65536 ⟨16, by norm_num⟩ hs hsh
  have hf : rocksoft_bit crc16_xmodem = crc16_bit := funext crc16_bit_rocksoft
  unfold rocksoft_next crc16_byte
  rw [h1, h2, hf]
  rfl

theorem crc16_foldl_rocksoft (l : List Nat) (hl : ∀ b ∈ l, b < 256) :
    ∀ s, s < 65536 → l.foldl (rocksoft_next crc16_xmodem) s = l.foldl crc16_byte s := by
  induction l with
  | nil => intro s _; rfl
  | cons b l ih =>
    intro s hs
    rw [List.foldl_cons, List.foldl_cons,
      crc16_byte_rocksoft s b hs (hl b (List.mem_cons_self _ _)),
      ih (fun x hx => hl x (List.mem_cons_of_mem _ hx)) _ (crc16_byte_lt s b)]

theorem crc16_rocksoft (l : List Nat) (hl : ∀ b ∈ l, b < 256) :
    l.foldl crc16_byte 0 = rocksoft_crc crc16_xmodem l := by
  unfold rocksoft_crc
  show _ = 0 ^^^ l.foldl (rocksoft_next crc16_xmodem) 0
  rw [Nat.zero_xor, crc16_foldl_rocksoft l hl 0 (by norm_num)]

set_option maxRecDepth 100000 in
/-- C20: on every sequence of bytes the bit-serial `snap_calculateCrc16` equals the
Rocksoft-model CRC with width 16, poly 0x1021, init 0x0000, refin = refot = false, xorot
0x0000 (CRC-16/XMODEM), and on the nine ASCII bytes "123456789" it returns 0x31C3. -/
theorem snap_calculateCrc16_rocksoft (data : List Nat) (size : Nat)
    (hdata : ∀ b ∈ data, b < 256) :
    snap_calculateCrc16 data size = rocksoft_crc crc16_xmodem (data.take size) ∧
    snap_calculateCrc16 data data.length = rocksoft_crc crc16_xmodem data ∧
    snap_calculateCrc16 check_message 9 = 0x31C3 := by
  refine ⟨crc16_rocksoft _ (fun b hb => hdata b (List.mem_of_mem_take hb)), ?_, by decide⟩
  unfold snap_calculateCrc16
  rw [List.take_length]
  exact crc16_rocksoft data hdata

set_option maxRecDepth 100000 in
theorem snap_calculateCrc16_rocksoft_witness :
    rocksoft_crc crc16_xmodem check_message = 0x31C3 :=
  ((snap_calculateCrc16_rocksoft check_message 9 (by decide)).2.1.symm.trans
    (snap_calculateCrc16_rocksoft check_message 9 (by decide)).2.2)

/-! ## The 32-bit CRC against the Rocksoft model -/

theorem crc32_bit_reflect (y : Nat) (hy : y < 4294967296) :
    rocksoft_bit crc32_iso_hdlc (rocksoft_reflect y 32) = rocksoft_reflect (crc32_bit y) 32 := by
  have hpoly : rocksoft_reflect crc32_iso_hdlc.poly crc32_iso_hdlc.width = 0xEDB88320 := by
    decide
  have h := rocksoft_bit_reflect crc32_iso_hdlc (by decide) (by decide) y hy
  rw [hpoly] at h
  exact h

theorem crc32_byte_reflect (s b : Nat) (hs : s < 4294967296) (hb : b < 256) :
    rocksoft_next crc32_iso_hdlc (rocksoft_reflect s 32) b =
      rocksoft_reflect (crc32_byte s b) 32 := by
  have hb32 : b < 4294967296 := by omega
  have hx : (s ^^^ b) % 4294967296 = s ^^^ b :=
    xor_mod_lt s b 4294967296 ⟨32, by norm_num⟩ hs hb32
  have hlt : s ^^^ b < 4294967296 := by rw [← hx]; exact Nat.mod_lt _ (by norm_num)
  have hbyte := rocksoft_reflect_byte 32 b (by norm_num) hb
  have hit : rocksoft_reflect (crc32_bit^[8] (s ^^^ b)) 32 =
      (rocksoft_bit crc32_iso_hdlc)^[8] (rocksoft_reflect (s ^^^ b) 32) :=
    (iterate_reflect crc32_iso_hdlc crc32_bit crc32_bit_lt crc32_bit_reflect 8 _ hlt).symm
  unfold rocksoft_next crc32_byte
  rw [hx, hit]
  show (rocksoft_bit crc32_iso_hdlc)^[8]
      (rocksoft_reflect s 32 ^^^ (rocksoft_reflect b 8 <<< (32 - 8))) = _
  rw [← hbyte, ← rocksoft_reflect_xor]

theorem crc32_foldl_reflect (l : List Nat) (hl : ∀ b ∈ l, b < 256) :
    ∀ s, s < 4294967296 →
      l.foldl (rocksoft_next crc32_iso_hdlc) (rocksoft_reflect s 32) =
        rocksoft_reflect (l.foldl crc32_byte s) 32 := by
  induction l with
  | nil => intro s _; rfl
  | cons b l ih =>
    intro s hs
    rw [List.foldl_cons, List.foldl_cons,
      crc32_byte_reflect s b hs (hl b (List.mem_cons_self _ _)),
      ih (fun x hx => hl x (List.mem_cons_of_mem _ hx)) _ (crc32_byte_lt s b)]

/-- The complement on `n` bits, written as a subtraction, is the xor with all ones. -/
theorem ones_xor (n x : Nat) (hx : x < 2 ^ n) : (2 ^ n - 1) ^^^ x = 2 ^ n - 1 - x := by
  apply Nat.eq_of_testBit_eq
  intro i
  have h1 : 2 ^ n - 1 - x = 2 ^ n - (x + 1) := by omega
  rw [h1, Nat.testBit_two_pow_sub_succ hx, Nat.testBit_xor, Nat.testBit_two_pow_sub_one]
  by_cases hi : i < n
  · simp [hi]
  · simp [hi, testBit_of_lt x n i hx (by omega)]

theorem crc32_rocksoft (l : List Nat) (hl : ∀ b ∈ l, b < 256) :
    0xFFFFFFFF - l.foldl crc32_byte 0xFFFFFFFF = rocksoft_crc crc32_iso_hdlc l := by
  have h0 : (0xFFFFFFFF : Nat) = rocksoft_reflect 0xFFFFFFFF 32 := by decide
  have h := crc32_foldl_reflect l hl 0xFFFFFFFF (by norm_num)
  have hlt : l.foldl crc32_byte 0xFFFFFFFF < 2 ^ 32 :=
    foldl_lt _ 4294967296 crc32_byte_lt l _ (by norm_num)
  have hx := ones_xor 32 _ hlt
  unfold rocksoft_crc
  show _ = 0xFFFFFFFF ^^^
    rocksoft_reflect (l.foldl (rocksoft_next crc32_iso_hdlc) 0xFFFFFFFF) 32
  conv_rhs => rw [h0, h]
  rw [rocksoft_reflect_reflect 32 _ hlt, ← h0]
  exact hx.symm

set_option maxRecDepth 100000 in
/-- C21: on every sequence of bytes the bit-serial `snap_calculateCrc32` equals the
Rocksoft-model CRC with width 32, poly 0x04C11DB7, init 0xFFFFFFFF, refin = refot = true,
xorot 0xFFFFFFFF (CRC-32/ISO-HDLC), and on the nine ASCII bytes "123456789" it returns
0xCBF43926. -/
theorem snap_calculateCrc32_rocksoft (data : List Nat) (size : Nat)
    (hdata : ∀ b ∈ data, b < 256) :
    snap_calculateCrc32 data size = rocksoft_crc crc32_iso_hdlc (data.take size) ∧
    snap_calculateCrc32 data data.length = rocksoft_crc crc32_iso_hdlc data ∧
    snap_calculateCrc32 check_message 9 = 0xCBF43926 := by
  refine ⟨crc32_rocksoft _ (fun b hb => hdata b (List.mem_of_mem_take hb)), ?_, by decide⟩
  unfold snap_calculateCrc32
  rw [List.take_length]
  exact crc32_rocksoft data hdata

set_option maxRecDepth 100000 in
theorem snap_calculateCrc32_rocksoft_witness :
    rocksoft_crc crc32_iso_hdlc check_message = 0xCBF43926 :=
  ((snap_calculateCrc32_rocksoft check_message 9 (by decide)).2.1.symm.trans
    (snap_calculateCrc32_rocksoft check_message 9 (by decide)).2.2)

/-! ## Outcomes of snap_calculateHash -/

theorem index_bounds (buf : List Nat) :
    SNAP_HDB2_DAB buf ≤ 3 ∧ SNAP_HDB2_SAB buf ≤ 3 ∧ SNAP_HDB2_PFB buf ≤ 3 ∧
    SNAP_HDB1_EDM buf ≤ 7 ∧ SNAP_SIZE_DATA buf ≤ 512 ∧
    SNAP_INDEX_SAB buf = 3 + SNAP_HDB2_DAB buf ∧
    SNAP_INDEX_PFB buf = 3 + SNAP_HDB2_DAB buf + SNAP_HDB2_SAB buf ∧
    SNAP_INDEX_DATA buf = 3 + SNAP_HDB2_DAB buf + SNAP_HDB2_SAB buf + SNAP_HDB2_PFB buf ∧
    SNAP_INDEX_HASH buf =
      3 + SNAP_HDB2_DAB buf + SNAP_HDB2_SAB buf + SNAP_HDB2_PFB buf + SNAP_SIZE_DATA buf :=
  ⟨get_bits_le _ _ _, get_bits_le _ _ _, get_bits_le _ _ _, get_bits_le _ _ _,
    snap_getDataSizeFromNdb_le _, rfl, rfl, rfl, rfl⟩

theorem hash_size_cases (cfg : snap_build_t) (buf : List Nat)
    (hne : SNAP_SIZE_HASH cfg buf ≠ 0) :
    SNAP_HDB1_EDM buf = 2 ∨ SNAP_HDB1_EDM buf = 3 ∨ SNAP_HDB1_EDM buf = 4 ∨
      SNAP_HDB1_EDM buf = 5 ∨ SNAP_HDB1_EDM buf = 7 := by
  have m4 : SNAP_HDB1_EDM buf ≤ 7 := get_bits_le _ _ _
  have hsh : SNAP_SIZE_HASH cfg buf = snap_getHashSizeFromEdm cfg (SNAP_HDB1_EDM buf) := rfl
  rw [hsh] at hne
  generalize SNAP_HDB1_EDM buf = e at m4 hne ⊢
  interval_cases e
  · exact absurd rfl hne
  · exact absurd rfl hne
  · simp
  · simp
  · simp
  · simp
  · exact absurd rfl hne
  · simp

theorem snap_calculateHash_ok (cfg : snap_build_t) (F : snap_frame_t) (h3 : 3 ≤ F.size)
    (hne : SNAP_SIZE_HASH cfg F.buffer ≠ 0) (hsz : SNAP_INDEX_HASH F.buffer ≤ F.size)
    (old : Nat) :
    snap_calculateHash cfg F old =
      (Int.ofNat (SNAP_SIZE_HASH cfg F.buffer),
        hash_selected cfg (SNAP_HDB1_EDM F.buffer)
          ((F.buffer.drop 1).take (SNAP_INDEX_HASH F.buffer - 1))) := by
  obtain ⟨m1, m2, m3, m4, m5, _, _, _, m7⟩ := index_bounds F.buffer
  have hs3 : ¬ F.size < 3 := by omega
  have hI : SNAP_INDEX_HASH F.buffer % 65536 = SNAP_INDEX_HASH F.buffer := by omega
  have hI2 : (SNAP_INDEX_HASH F.buffer + 65535) % 65536 = SNAP_INDEX_HASH F.buffer - 1 := by
    omega
  have hlt : ¬ F.size < SNAP_INDEX_HASH F.buffer := by omega
  have hsh : SNAP_SIZE_HASH cfg F.buffer = snap_getHashSizeFromEdm cfg (SNAP_HDB1_EDM F.buffer) :=
    rfl
  have hcases := hash_size_cases cfg F.buffer hne
  simp only [snap_calculateHash, SNAP_MIN_SIZE_FRAME, SNAP_SIZE_SYNC, SNAP_SIZE_HEADER,
    SNAP_SIZE_HDB2, SNAP_SIZE_HDB1, Nat.reduceAdd, hs3, if_false, hne, hI, hlt, hI2,
    SNAP_INDEX_HDB2, hash_selected, hash_of, snap_calculateChecksum8,
    snap_calculateCrc8, snap_calculateCrc16, snap_calculateCrc32, List.take_length]
  rw [hsh]
  have t2 : snap_getHashSizeFromEdm cfg 2 = 1 := rfl
  have t3 : snap_getHashSizeFromEdm cfg 3 = 1 := rfl
  have t4 : snap_getHashSizeFromEdm cfg 4 = 2 := rfl
  have t5 : snap_getHashSizeFromEdm cfg 5 = 4 := rfl
  have t7 : snap_getHashSizeFromEdm cfg 7 = cfg.SNAP_SIZE_USER_HASH := rfl
  rcases hcases with h | h | h | h | h <;>
    simp [h, SNAP_HDB1_EDM_8BIT_CHECKSUM, SNAP_HDB1_EDM_8BIT_CRC, SNAP_HDB1_EDM_16BIT_CRC,
      SNAP_HDB1_EDM_32BIT_CRC, SNAP_HDB1_EDM_USER_SPECIFIED, t2, t3, t4, t5, t7]

/-- C22: `snap_calculateHash` returns SNAP_ERROR_UNKNOWN_FORMAT when size < 3; otherwise
SNAP_ERROR_FRAME_FORMAT when the header's method has zero hash bytes (EDM codes 0, 1 and 6,
and code 7 when the user hash size is 0); otherwise SNAP_ERROR_SHORT_FRAME when size is
below the hash field's index; otherwise it stores the selected algorithm's value over
buffer bytes 1 .. hashIndex-1 and returns the hash byte count, which is
`snap_getHashSizeFromEdm` of the EDM code (1, 1, 2, 4 for the codes 2, 3, 4, 5).  On every
error the output variable keeps its value. -/
theorem snap_calculateHash_outcome (cfg : snap_build_t) (frame : snap_frame_t) (hash : Nat) :
    (frame.size < 3 →
      snap_calculateHash cfg frame hash = (SNAP_ERROR_UNKNOWN_FORMAT, hash)) ∧
    (3 ≤ frame.size → snap_getHashSizeFromEdm cfg (SNAP_HDB1_EDM frame.buffer) = 0 →
      snap_calculateHash cfg frame hash = (SNAP_ERROR_FRAME_FORMAT, hash)) ∧
    (SNAP_HDB1_EDM frame.buffer = 0 ∨ SNAP_HDB1_EDM frame.buffer = 1 ∨
        SNAP_HDB1_EDM frame.buffer = 6 ∨
        (SNAP_HDB1_EDM frame.buffer = SNAP_HDB1_EDM_USER_SPECIFIED ∧
          cfg.SNAP_SIZE_USER_HASH = 0) →
      snap_getHashSizeFromEdm cfg (SNAP_HDB1_EDM frame.buffer) = 0) ∧
    (3 ≤ frame.size → snap_getHashSizeFromEdm cfg (SNAP_HDB1_EDM frame.buffer) ≠ 0 →
      frame.size < SNAP_INDEX_HASH frame.buffer →
      snap_calculateHash cfg frame hash = (SNAP_ERROR_SHORT_FRAME, hash)) ∧
    (3 ≤ frame.size → snap_getHashSizeFromEdm cfg (SNAP_HDB1_EDM frame.buffer) ≠ 0 →
      SNAP_INDEX_HASH frame.buffer ≤ frame.size →
      snap_calculateHash cfg frame hash =
        (Int.ofNat (snap_getHashSizeFromEdm cfg (SNAP_HDB1_EDM frame.buffer)),
          hash_selected cfg (SNAP_HDB1_EDM frame.buffer)
            ((frame.buffer.drop 1).take (SNAP_INDEX_HASH frame.buffer - 1)))) ∧
    snap_getHashSizeFromEdm cfg SNAP_HDB1_EDM_8BIT_CHECKSUM = 1 ∧
    snap_getHashSizeFromEdm cfg SNAP_HDB1_EDM_8BIT_CRC = 1 ∧
    snap_getHashSizeFromEdm cfg SNAP_HDB1_EDM_16BIT_CRC = 2 ∧
    snap_getHashSizeFromEdm cfg SNAP_HDB1_EDM_32BIT_CRC = 4 := by
  obtain ⟨m1, m2, m3, m4, m5, _, _, _, m7⟩ := index_bounds frame.buffer
  have hI : SNAP_INDEX_HASH frame.buffer % 65536 = SNAP_INDEX_HASH frame.buffer := by omega
  refine ⟨?_, ?_, ?_, ?_, ?_, rfl, rfl, rfl, rfl⟩
  · intro h
    have : frame.size < SNAP_MIN_SIZE_FRAME := h
    simp only [snap_calculateHash, this, if_true]
  · intro h h0
    have h1 : ¬ frame.size < SNAP_MIN_SIZE_FRAME := by
      show ¬ frame.size < 3; omega
    have h2 : SNAP_SIZE_HASH cfg frame.buffer = 0 := h0
    simp only [snap_calculateHash, h1, if_false, h2, if_true]
  · rintro (h | h | h | ⟨h, hu⟩)
    · rw [h]; rfl
    · rw [h]; rfl
    · rw [h]; rfl
    · rw [h]; exact hu
  · intro h hne hlt
    have h1 : ¬ frame.size < SNAP_MIN_SIZE_FRAME := by
      show ¬ frame.size < 3; omega
    have h2 : ¬ SNAP_SIZE_HASH cfg frame.buffer = 0 := hne
    simp only [snap_calculateHash, h1, if_false, h2, hI, hlt, if_true]
  · intro h hne hle
    exact snap_calculateHash_ok cfg frame h hne hle hash

/-! ## Outcomes of snap_getField -/

theorem snap_getField_short (cfg : snap_build_t) (frame : snap_frame_t) (c : snap_content_t)
    (t : Nat) (h : frame.size < 3) :
    snap_getField cfg frame c t = (SNAP_ERROR_UNKNOWN_FORMAT, c) := by
  have : frame.size < SNAP_MIN_SIZE_FRAME := h
  simp only [snap_getField, this, if_true]

theorem snap_getField_header (cfg : snap_build_t) (frame : snap_frame_t) (c : snap_content_t)
    (h : 3 ≤ frame.size) :
    snap_getField cfg frame c SNAP_FIELD_HEADER =
      (2, .header { dab := SNAP_HDB2_DAB frame.buffer, sab := SNAP_HDB2_SAB frame.buffer,
                    pfb := SNAP_HDB2_PFB frame.buffer, ack := SNAP_HDB2_ACK frame.buffer,
                    cmd := SNAP_HDB1_CMD frame.buffer, edm := SNAP_HDB1_EDM frame.buffer,
                    ndb := SNAP_HDB1_NDB frame.buffer }) := by
  have h1 : ¬ frame.size < SNAP_MIN_SIZE_FRAME := by
    show ¬ frame.size < 3; omega
  simp only [snap_getField, h1, if_false, if_true]
  rfl

theorem snap_getField_other (cfg : snap_build_t) (frame : snap_frame_t) (c : snap_content_t)
    (t : Nat) (h : 3 ≤ frame.size) (ht : 5 < t) :
    snap_getField cfg frame c t = (SNAP_ERROR_FIELD_TYPE, c) := by
  have h1 : ¬ frame.size < SNAP_MIN_SIZE_FRAME := by
    show ¬ frame.size < 3; omega
  have t0 : ¬ t = SNAP_FIELD_HEADER := by show ¬ t = 0; omega
  have t1 : ¬ t = SNAP_FIELD_DEST_ADDRESS := by show ¬ t = 1; omega
  have t2 : ¬ t = SNAP_FIELD_SOURCE_ADDRESS := by show ¬ t = 2; omega
  have t3 : ¬ t = SNAP_FIELD_PROTOCOL_FLAGS := by show ¬ t = 3; omega
  have t4 : ¬ t = SNAP_FIELD_DATA := by show ¬ t = 4; omega
  have t5 : ¬ t = SNAP_FIELD_HASH := by show ¬ t = 5; omega
  simp only [snap_getField, h1, if_false, t0, t1, t2, t3, t4, t5]

/-- What `snap_getField` does for the five field types that have an offset and a length,
once the header is complete. -/
theorem snap_getField_place (cfg : snap_build_t) (hcfg : cfg.SNAP_SIZE_USER_HASH ≤ 4)
    (frame : snap_frame_t) (c : snap_content_t) (t : Nat) (h : 3 ≤ frame.size)
    (ht1 : 1 ≤ t) (ht5 : t ≤ 5) :
    snap_getField cfg frame c t =
      if getField_fieldSize cfg frame.buffer t = 0 then (SNAP_ERROR_FRAME_FORMAT, c)
      else if frame.size <
          getField_fieldIndex frame.buffer t + getField_fieldSize cfg frame.buffer t then
        (SNAP_ERROR_SHORT_FRAME, c)
      else if t = SNAP_FIELD_DATA then
        (Int.ofNat (getField_fieldSize cfg frame.buffer t),
          .bytes (snap_getField_copy frame.buffer (getField_fieldIndex frame.buffer t)
            (getField_fieldSize cfg frame.buffer t) 0
            (match c with
              | .bytes bs => bs
              | _ => [])))
      else
        (Int.ofNat (getField_fieldSize cfg frame.buffer t),
          .word (snap_getField_word frame.buffer (getField_fieldSize cfg frame.buffer t)
            (getField_fieldIndex frame.buffer t) 0)) := by
  obtain ⟨m1, m2, m3, m4, m5, i1, i2, i3, i4⟩ := index_bounds frame.buffer
  have m6 : SNAP_SIZE_HASH cfg frame.buffer ≤ 4 := snap_getHashSizeFromEdm_le cfg hcfg _
  have h1 : ¬ frame.size < SNAP_MIN_SIZE_FRAME := by
    show ¬ frame.size < 3; omega
  have key : ∀ idx len : Nat, idx ≤ 524 → len ≤ 512 → idx + len ≤ 528 →
      (match (some (idx % 65536, len) : Option (Nat × Nat)) with
        | none => (SNAP_ERROR_FIELD_TYPE, c)
        | some (fieldIndex, fieldSize) =>
          if fieldSize = 0 then (SNAP_ERROR_FRAME_FORMAT, c)
          else
            if frame.size < (fieldIndex + fieldSize) % 65536 then (SNAP_ERROR_SHORT_FRAME, c)
            else if t = SNAP_FIELD_DATA then
              (Int.ofNat fieldSize,
                snap_content_t.bytes (snap_getField_copy frame.buffer fieldIndex fieldSize 0
                  (match c with
                    | .bytes bs => bs
                    | _ => [])))
            else
              (Int.ofNat fieldSize,
                snap_content_t.word (snap_getField_word frame.buffer
                  ((fieldIndex + fieldSize) % 65536 - fieldIndex) fieldIndex 0))) =
      if len = 0 then (SNAP_ERROR_FRAME_FORMAT, c)
      else if frame.size < idx + len then (SNAP_ERROR_SHORT_FRAME, c)
      else if t = SNAP_FIELD_DATA then
        (Int.ofNat len,
          .bytes (snap_getField_copy frame.buffer idx len 0
            (match c with
              | .bytes bs => bs
              | _ => [])))
      else (Int.ofNat len, .word (snap_getField_word frame.buffer len idx 0)) := by
    intro idx len hi hl hs
    have e1 : idx % 65536 = idx := by omega
    have e2 : (idx + len) % 65536 = idx + len := by omega
    have e3 : idx + len - idx = len := by omega
    simp only [e1, e2, e3]
  have hc : t = 1 ∨ t = 2 ∨ t = 3 ∨ t = 4 ∨ t = 5 := by omega
  rcases hc with rfl | rfl | rfl | rfl | rfl
  · have := key SNAP_INDEX_DAB (SNAP_HDB2_DAB frame.buffer) (by decide) (by omega)
      (by show 3 + _ ≤ 528; omega)
    simpa [snap_getField, h1, SNAP_FIELD_HEADER, SNAP_FIELD_DEST_ADDRESS,
      SNAP_FIELD_SOURCE_ADDRESS, SNAP_FIELD_PROTOCOL_FLAGS, SNAP_FIELD_DATA, SNAP_FIELD_HASH,
      getField_fieldIndex, getField_fieldSize] using this
  · have := key (SNAP_INDEX_SAB frame.buffer) (SNAP_HDB2_SAB frame.buffer) (by omega)
      (by omega) (by omega)
    simpa [snap_getField, h1, SNAP_FIELD_HEADER, SNAP_FIELD_DEST_ADDRESS,
      SNAP_FIELD_SOURCE_ADDRESS, SNAP_FIELD_PROTOCOL_FLAGS, SNAP_FIELD_DATA, SNAP_FIELD_HASH,
      getField_fieldIndex, getField_fieldSize] using this
  · have := key (SNAP_INDEX_PFB frame.buffer) (SNAP_HDB2_PFB frame.buffer) (by omega)
      (by omega) (by omega)
    simpa [snap_getField, h1, SNAP_FIELD_HEADER, SNAP_FIELD_DEST_ADDRESS,
      SNAP_FIELD_SOURCE_ADDRESS, SNAP_FIELD_PROTOCOL_FLAGS, SNAP_FIELD_DATA, SNAP_FIELD_HASH,
      getField_fieldIndex, getField_fieldSize] using this
  · have := key (SNAP_INDEX_DATA frame.buffer) (SNAP_SIZE_DATA frame.buffer) (by omega)
      (by omega) (by omega)
    simpa [snap_getField, h1, SNAP_FIELD_HEADER, SNAP_FIELD_DEST_ADDRESS,
      SNAP_FIELD_SOURCE_ADDRESS, SNAP_FIELD_PROTOCOL_FLAGS, SNAP_FIELD_DATA, SNAP_FIELD_HASH,
      getField_fieldIndex, getField_fieldSize] using this
  · have := key (SNAP_INDEX_HASH frame.buffer) (SNAP_SIZE_HASH cfg frame.buffer) (by omega)
      (by omega) (by omega)
    simpa [snap_getField, h1, SNAP_FIELD_HEADER, SNAP_FIELD_DEST_ADDRESS,
      SNAP_FIELD_SOURCE_ADDRESS, SNAP_FIELD_PROTOCOL_FLAGS, SNAP_FIELD_DATA, SNAP_FIELD_HASH,
      getField_fieldIndex, getField_fieldSize] using this

theorem getField_place_bounds (cfg : snap_build_t) (hcfg : cfg.SNAP_SIZE_USER_HASH ≤ 4)
    (buf : List Nat) (t : Nat) :
    getField_fieldSize cfg buf t ≤ 512 ∧ 3 ≤ getField_fieldIndex buf t ∧
    (t ≠ SNAP_FIELD_DATA → getField_fieldSize cfg buf t ≤ 4) := by
  obtain ⟨m1, m2, m3, m4, m5, i1, i2, i3, i4⟩ := index_bounds buf
  have m6 : SNAP_SIZE_HASH cfg buf ≤ 4 := snap_getHashSizeFromEdm_le cfg hcfg _
  have d : SNAP_INDEX_DAB = 3 := rfl
  unfold getField_fieldSize getField_fieldIndex
  refine ⟨?_, ?_, ?_⟩
  · split_ifs <;> omega
  · split_ifs <;> omega
  · intro ht
    split_ifs <;> omega

/-- C23: the errors of `snap_getField`, in order of precedence: SNAP_ERROR_UNKNOWN_FORMAT
when size < 3, whatever the field type; then SNAP_ERROR_FIELD_TYPE for every field-type
code above the six defined ones; then, for the address, flags, payload and hash fields,
SNAP_ERROR_FRAME_FORMAT when the field length read from the header is 0 and
SNAP_ERROR_SHORT_FRAME when field offset + field length exceeds size.  In each of these
cases the output variable keeps its value; in every other case the return value is the
field length (2 for the header), which is positive. -/
theorem snap_getField_errors (cfg : snap_build_t) (hcfg : cfg.SNAP_SIZE_USER_HASH ≤ 4)
    (frame : snap_frame_t) (c : snap_content_t) (t : Nat) :
    (frame.size < 3 → snap_getField cfg frame c t = (SNAP_ERROR_UNKNOWN_FORMAT, c)) ∧
    (3 ≤ frame.size → 5 < t → snap_getField cfg frame c t = (SNAP_ERROR_FIELD_TYPE, c)) ∧
    (3 ≤ frame.size → 1 ≤ t → t ≤ 5 → getField_fieldSize cfg frame.buffer t = 0 →
      snap_getField cfg frame c t = (SNAP_ERROR_FRAME_FORMAT, c)) ∧
    (3 ≤ frame.size → 1 ≤ t → t ≤ 5 → getField_fieldSize cfg frame.buffer t ≠ 0 →
      frame.size < getField_fieldIndex frame.buffer t + getField_fieldSize cfg frame.buffer t →
      snap_getField cfg frame c t = (SNAP_ERROR_SHORT_FRAME, c)) ∧
    (3 ≤ frame.size → 1 ≤ t → t ≤ 5 → getField_fieldSize cfg frame.buffer t ≠ 0 →
      getField_fieldIndex frame.buffer t + getField_fieldSize cfg frame.buffer t ≤ frame.size →
      (snap_getField cfg frame c t).1 = Int.ofNat (getField_fieldSize cfg frame.buffer t) ∧
      0 < (snap_getField cfg frame c t).1) ∧
    (3 ≤ frame.size → t = SNAP_FIELD_HEADER → (snap_getField cfg frame c t).1 = 2) ∧
    ((snap_getField cfg frame c t).1 < 0 → (snap_getField cfg frame c t).2 = c) ∧
    ((snap_getField cfg frame c t).1 < 0 ∨ 0 < (snap_getField cfg frame c t).1) := by
  have p1 : frame.size < 3 → snap_getField cfg frame c t = (SNAP_ERROR_UNKNOWN_FORMAT, c) :=
    snap_getField_short cfg frame c t
  have p2 : 3 ≤ frame.size → 5 < t → snap_getField cfg frame c t = (SNAP_ERROR_FIELD_TYPE, c) :=
    snap_getField_other cfg frame c t
  have p3 : 3 ≤ frame.size → 1 ≤ t → t ≤ 5 → getField_fieldSize cfg frame.buffer t = 0 →
      snap_getField cfg frame c t = (SNAP_ERROR_FRAME_FORMAT, c) := by
    intro h h1 h5 h0
    rw [snap_getField_place cfg hcfg frame c t h h1 h5, if_pos h0]
  have p4 : 3 ≤ frame.size → 1 ≤ t → t ≤ 5 → getField_fieldSize cfg frame.buffer t ≠ 0 →
      frame.size < getField_fieldIndex frame.buffer t + getField_fieldSize cfg frame.buffer t →
      snap_getField cfg frame c t = (SNAP_ERROR_SHORT_FRAME, c) := by
    intro h h1 h5 h0 hlt
    rw [snap_getField_place cfg hcfg frame c t h h1 h5, if_neg h0, if_pos hlt]
  have p5 : 3 ≤ frame.size → 1 ≤ t → t ≤ 5 → getField_fieldSize cfg frame.buffer t ≠ 0 →
      getField_fieldIndex frame.buffer t + getField_fieldSize cfg frame.buffer t ≤ frame.size →
      (snap_getField cfg frame c t).1 = Int.ofNat (getField_fieldSize cfg frame.buffer t) ∧
      0 < (snap_getField cfg frame c t).1 := by
    intro h h1 h5 h0 hle
    have hv : (snap_getField cfg frame c t).1 =
        Int.ofNat (getField_fieldSize cfg frame.buffer t) := by
      rw [snap_getField_place cfg hcfg frame c t h h1 h5, if_neg h0, if_neg (by omega)]
      split_ifs <;> rfl
    refine ⟨hv, ?_⟩
    rw [hv]
    exact Int.ofNat_lt.mpr (Nat.pos_of_ne_zero h0)
  have p6 : 3 ≤ frame.size → t = SNAP_FIELD_HEADER → (snap_getField cfg frame c t).1 = 2 := by
    intro h ht
    rw [ht, snap_getField_header cfg frame c h]
  have e1 : SNAP_ERROR_UNKNOWN_FORMAT < 0 := by decide
  have e2 : SNAP_ERROR_FIELD_TYPE < 0 := by decide
  have e3 : SNAP_ERROR_FRAME_FORMAT < 0 := by decide
  have e4 : SNAP_ERROR_SHORT_FRAME < 0 := by decide
  have hall : ((snap_getField cfg frame c t).1 < 0 ∧ (snap_getField cfg frame c t).2 = c) ∨
      0 < (snap_getField cfg frame c t).1 := by
    by_cases h : frame.size < 3
    · left; rw [p1 h]; exact ⟨e1, rfl⟩
    · have h3 : 3 ≤ frame.size := by omega
      by_cases ht0 : t = 0
      · right; rw [p6 h3 ht0]; decide
      · by_cases ht5 : 5 < t
        · left; rw [p2 h3 ht5]; exact ⟨e2, rfl⟩
        · have h1 : 1 ≤ t := by omega
          have h5 : t ≤ 5 := by omega
          by_cases h0 : getField_fieldSize cfg frame.buffer t = 0
          · left; rw [p3 h3 h1 h5 h0]; exact ⟨e3, rfl⟩
          · by_cases hlt : frame.size <
                getField_fieldIndex frame.buffer t + getField_fieldSize cfg frame.buffer t
            · left; rw [p4 h3 h1 h5 h0 hlt]; exact ⟨e4, rfl⟩
            · right; exact (p5 h3 h1 h5 h0 (by omega)).2
  refine ⟨p1, p2, p3, p4, p5, p6, ?_, ?_⟩
  · intro hneg
    rcases hall with h | h
    · exact h.2
    · omega
  · rcases hall with h | h
    · exact Or.inl h.1
    · exact Or.inr h

theorem snap_getField_errors_witness :
    snap_getField snap_build_default
        { buffer := [0x54, 0x40, 0x01, 0x05, 0xAA], maxSize := 5, size := 4,
          status := SNAP_STATUS_INCOMPLETE } (.bytes [0]) SNAP_FIELD_DATA =
      (SNAP_ERROR_SHORT_FRAME, .bytes [0]) :=
  (snap_getField_errors snap_build_default (by decide)
    { buffer := [0x54, 0x40, 0x01, 0x05, 0xAA], maxSize := 5, size := 4,
      status := SNAP_STATUS_INCOMPLETE } (.bytes [0]) SNAP_FIELD_DATA).2.2.2.1
    (by decide) (by decide) (by decide) (by decide) (by decide)

/-! ## Values returned by snap_getField -/

theorem be_value_foldl_lt (l : List Nat) (hl : ∀ x ∈ l, x < 256) :
    ∀ (acc m : Nat), acc < 256 ^ m →
      l.foldl (fun v b => v * 256 + b) acc < 256 ^ (m + l.length) := by
  induction l with
  | nil => intro acc m h; simpa using h
  | cons b l ih =>
    intro acc m h
    have hb : b < 256 := hl b (List.mem_cons_self _ _)
    have hstep : acc * 256 + b < 256 ^ (m + 1) := by
      rw [pow_succ]
      have : acc + 1 ≤ 256 ^ m := h
      nlinarith
    have := ih (fun x hx => hl x (List.mem_cons_of_mem _ hx)) _ (m + 1) hstep
    rw [List.foldl_cons, List.length_cons]
    have e : m + 1 + l.length = m + (l.length + 1) := by omega
    rw [← e]
    exact this

theorem be_value_lt (l : List Nat) (hl : ∀ x ∈ l, x < 256) : be_value l < 256 ^ l.length := by
  have := be_value_foldl_lt l hl 0 0 (by norm_num)
  simpa [be_value] using this

/-- C24: on a frame with a complete header whose `size` bytes lie in the buffer, for the
destination-address, source-address, protocol-flags or hash field, when the field is present
(length L, which is then in 1..4) and complete, `snap_getField` returns L and the unsigned
integer formed from the field's L buffer bytes most-significant byte first, a value below
256^L; for the payload field it returns the payload length and writes the payload bytes,
in order, to the first places of the output array.  The frame is an input only. -/
theorem snap_getField_success (cfg : snap_build_t) (hcfg : cfg.SNAP_SIZE_USER_HASH ≤ 4)
    (frame : snap_frame_t) (h3 : 3 ≤ frame.size) (hlen : frame.size ≤ frame.buffer.length)
    (hb : ∀ x ∈ frame.buffer, x < 256) :
    (∀ t c, t = SNAP_FIELD_DEST_ADDRESS ∨ t = SNAP_FIELD_SOURCE_ADDRESS ∨
        t = SNAP_FIELD_PROTOCOL_FLAGS ∨ t = SNAP_FIELD_HASH →
      getField_fieldSize cfg frame.buffer t ≠ 0 →
      getField_fieldIndex frame.buffer t + getField_fieldSize cfg frame.buffer t ≤ frame.size →
      1 ≤ getField_fieldSize cfg frame.buffer t ∧ getField_fieldSize cfg frame.buffer t ≤ 4 ∧
      snap_getField cfg frame c t =
        (Int.ofNat (getField_fieldSize cfg frame.buffer t),
          .word (be_value ((frame.buffer.drop (getField_fieldIndex frame.buffer t)).take
            (getField_fieldSize cfg frame.buffer t)))) ∧
      be_value ((frame.buffer.drop (getField_fieldIndex frame.buffer t)).take
          (getField_fieldSize cfg frame.buffer t)) <
        256 ^ getField_fieldSize cfg frame.buffer t) ∧
    (∀ out, SNAP_SIZE_DATA frame.buffer ≠ 0 →
      SNAP_INDEX_DATA frame.buffer + SNAP_SIZE_DATA frame.buffer ≤ frame.size →
      SNAP_SIZE_DATA frame.buffer ≤ out.length →
      snap_getField cfg frame (.bytes out) SNAP_FIELD_DATA =
        (Int.ofNat (SNAP_SIZE_DATA frame.buffer),
          .bytes ((frame.buffer.drop (SNAP_INDEX_DATA frame.buffer)).take
              (SNAP_SIZE_DATA frame.buffer) ++ out.drop (SNAP_SIZE_DATA frame.buffer)))) := by
  constructor
  · intro t c ht h0 hle
    have ht1 : 1 ≤ t := by
      rcases ht with h | h | h | h <;> rw [h] <;> decide
    have ht5 : t ≤ 5 := by
      rcases ht with h | h | h | h <;> rw [h] <;> decide
    have htd : t ≠ SNAP_FIELD_DATA := by
      rcases ht with h | h | h | h <;> rw [h] <;> decide
    obtain ⟨_, _, b4⟩ := getField_place_bounds cfg hcfg frame.buffer t
    have hL := b4 htd
    have hw := snap_getField_word_be frame.buffer hb (getField_fieldSize cfg frame.buffer t)
      (getField_fieldIndex frame.buffer t) 0 0 (by omega) (by norm_num) (by omega)
    have hlen2 : ((frame.buffer.drop (getField_fieldIndex frame.buffer t)).take
        (getField_fieldSize cfg frame.buffer t)).length =
        getField_fieldSize cfg frame.buffer t := by
      rw [List.length_take, List.length_drop]; omega
    have hlt := be_value_lt ((frame.buffer.drop (getField_fieldIndex frame.buffer t)).take
        (getField_fieldSize cfg frame.buffer t))
      (fun x hx => hb x (List.mem_of_mem_drop (List.mem_of_mem_take hx)))
    rw [hlen2] at hlt
    refine ⟨Nat.pos_of_ne_zero h0, hL, ?_, hlt⟩
    rw [snap_getField_place cfg hcfg frame c t h3 ht1 ht5, if_neg h0, if_neg (by omega),
      if_neg htd, hw]
    rfl
  · intro out h0 hle hout
    have hs : getField_fieldSize cfg frame.buffer SNAP_FIELD_DATA = SNAP_SIZE_DATA frame.buffer :=
      rfl
    have hi : getField_fieldIndex frame.buffer SNAP_FIELD_DATA = SNAP_INDEX_DATA frame.buffer :=
      rfl
    rw [snap_getField_place cfg hcfg frame (.bytes out) SNAP_FIELD_DATA h3 (by decide)
      (by decide), hs, hi, if_neg h0, if_neg (by omega), if_pos rfl,
      snap_getField_copy_eq _ _ _ _ (by omega) hout]

set_option maxRecDepth 100000 in
theorem snap_getField_success_witness :
    snap_getField snap_build_default
        { buffer := [0x54, 0x40, 0x32, 0x05, 0xAA, 0xBB, 0x00], maxSize := 7, size := 7,
          status := SNAP_STATUS_VALID } (.bytes [0, 0, 0]) SNAP_FIELD_DATA =
      (2, .bytes [0xAA, 0xBB, 0]) :=
  ((snap_getField_success snap_build_default (by decide)
    { buffer := [0x54, 0x40, 0x32, 0x05, 0xAA, 0xBB, 0x00], maxSize := 7, size := 7,
      status := SNAP_STATUS_VALID } (by decide) (by decide) (by decide)).2 [0, 0, 0]
    (by decide) (by decide) (by decide)).trans (by decide)

/-! ## Invariants of a frame over sequences of calls -/

theorem snap_decode_fixed (cfg : snap_build_t) (f : snap_frame_t) (b : Nat) :
    (snap_decode cfg f b).2.maxSize = f.maxSize ∧
    (snap_decode cfg f b).2.buffer.length = f.buffer.length := by
  simp only [snap_decode]
  split_ifs <;> simp

theorem snap_encapsulate_fixed (cfg : snap_build_t) (hcfg : cfg.SNAP_SIZE_USER_HASH ≤ 4)
    (f : snap_frame_t) (fields : snap_fields_t) (hh : snap_header_ok fields.header) :
    (snap_encapsulate cfg f fields).2.1.maxSize = f.maxSize ∧
    (snap_encapsulate cfg f fields).2.1.buffer.length = f.buffer.length := by
  obtain ⟨_, e2, _, e4⟩ := enc_hashed_fields cfg hcfg f fields hh
  rw [snap_encapsulate_eq]
  split_ifs
  · exact ⟨rfl, rfl⟩
  · exact ⟨e2, e4⟩

theorem snap_call_fixed (cfg : snap_build_t) (hcfg : cfg.SNAP_SIZE_USER_HASH ≤ 4)
    (f : snap_frame_t) (c : snap_call_t) (hc : snap_call_ok c) :
    (snap_call cfg f c).maxSize = f.maxSize ∧
    (snap_call cfg f c).buffer.length = f.buffer.length := by
  cases c with
  | reset => exact ⟨rfl, rfl⟩
  | decode b => exact snap_decode_fixed cfg f b
  | encapsulate fields => exact snap_encapsulate_fixed cfg hcfg f fields hc.1

theorem snap_run_fixed (cfg : snap_build_t) (hcfg : cfg.SNAP_SIZE_USER_HASH ≤ 4)
    (calls : List snap_call_t) :
    ∀ f, (∀ c ∈ calls, snap_call_ok c) →
      (snap_run cfg f calls).maxSize = f.maxSize ∧
      (snap_run cfg f calls).buffer.length = f.buffer.length := by
  induction calls with
  | nil => intro f _; exact ⟨rfl, rfl⟩
  | cons c cs ih =>
    intro f hok
    obtain ⟨a1, a2⟩ := snap_call_fixed cfg hcfg f c (hok c (List.mem_cons_self _ _))
    obtain ⟨b1, b2⟩ := ih (snap_call cfg f c) (fun x hx => hok x (List.mem_cons_of_mem _ hx))
    exact ⟨b1.trans a1, b2.trans a2⟩

theorem run_inv_reset (cfg : snap_build_t) (f : snap_frame_t) (h : run_inv cfg f) :
    run_inv cfg (snap_reset f) := by
  obtain ⟨a, _, _, _⟩ := h
  refine ⟨a, Nat.zero_le _, ?_, Or.inl rfl⟩
  intro _ h1
  exact absurd h1 (by show ¬ 1 ≤ 0; omega)

theorem run_inv_encapsulate (cfg : snap_build_t) (hcfg : cfg.SNAP_SIZE_USER_HASH ≤ 4)
    (f : snap_frame_t) (fields : snap_fields_t) (hh : snap_header_ok fields.header)
    (h : run_inv cfg f) : run_inv cfg (snap_encapsulate cfg f fields).2.1 := by
  obtain ⟨a, _, _, _⟩ := h
  obtain ⟨e1, e2, _, e4⟩ := enc_hashed_fields cfg hcfg f fields hh
  have hpi := enc_payloadIndex_eq fields hh
  rw [snap_encapsulate_eq]
  split_ifs with hov
  · refine ⟨a, Nat.zero_le _, ?_, Or.inr (Or.inr (Or.inr (Or.inr ⟨rfl, Nat.zero_le _⟩)))⟩
    intro _ h1
    exact absurd h1 (by show ¬ 1 ≤ 0; omega)
  · refine ⟨?_, ?_, ?_, Or.inr (Or.inr (Or.inl ⟨rfl, ?_⟩))⟩
    · show 3 ≤ (enc_hashed cfg f fields).maxSize
      rw [e2]; exact a
    · show (enc_hashed cfg f fields).size ≤ (enc_hashed cfg f fields).maxSize
      rw [e1, e2]; omega
    · intro hl _
      have hl2 : 3 ≤ f.buffer.length := by
        have : (enc_hashed cfg f fields).buffer.length = f.buffer.length := e4
        have hl3 : 3 ≤ (enc_hashed cfg f fields).buffer.length := hl
        omega
      exact (enc_hashed_head cfg hcfg f fields hh hl2).1
    · show 1 ≤ (enc_hashed cfg f fields).size
      rw [e1]; omega

theorem set_head_keep (buf : List Nat) (k b : Nat) (hk : 1 ≤ k) :
    (buf.set k b)[0]? = buf[0]? := List.getElem?_set_ne (by omega)

theorem run_inv_decode (cfg : snap_build_t) (hcfg : cfg.SNAP_SIZE_USER_HASH ≤ 4)
    (f : snap_frame_t) (b : Nat) (h : run_inv cfg f) :
    run_inv cfg (snap_decode cfg f b).2 := by
  obtain ⟨buf, M, k, st⟩ := f
  obtain ⟨a, hle, hsync, hst⟩ := h
  have nv1 : SNAP_STATUS_VALID ≠ SNAP_STATUS_IDLE := by decide
  have nv2 : SNAP_STATUS_VALID ≠ SNAP_STATUS_INCOMPLETE := by decide
  have nh1 : SNAP_STATUS_ERROR_HASH ≠ SNAP_STATUS_IDLE := by decide
  have nh2 : SNAP_STATUS_ERROR_HASH ≠ SNAP_STATUS_INCOMPLETE := by decide
  have no1 : SNAP_STATUS_ERROR_OVERFLOW ≠ SNAP_STATUS_IDLE := by decide
  have no2 : SNAP_STATUS_ERROR_OVERFLOW ≠ SNAP_STATUS_INCOMPLETE := by decide
  simp only at a hle hsync hst
  rcases hst with hs | ⟨hs, h1, hlt, hF⟩ | ⟨hs, h1⟩ | ⟨hs, hF, h1⟩ | ⟨hs, h3⟩
  · -- Idle
    subst hs
    by_cases hb : b = SNAP_SYNC
    · subst hb
      rw [snap_decode_idle_sync cfg _ rfl]
      refine ⟨a, ?_, ?_, Or.inr (Or.inl ⟨rfl, le_refl _, ?_, ?_⟩)⟩
      · show 1 ≤ M; omega
      · intro hl _
        have hl2 : 0 < buf.length := by
          have : 3 ≤ (buf.set 0 SNAP_SYNC).length := hl
          rw [List.length_set] at this
          omega
        show (buf.set 0 SNAP_SYNC)[0]? = some SNAP_SYNC
        rw [List.getElem?_set_self hl2]
      · show 1 < M; omega
      · intro h3
        exact absurd h3 (by show ¬ 3 ≤ 1; omega)
    · rw [snap_decode_idle_other cfg _ b rfl hb]
      exact ⟨a, hle, hsync, Or.inl rfl⟩
  · -- Incomplete
    subst hs
    have hsync2 : 3 ≤ (buf.set k b).length → (buf.set k b)[0]? = some SNAP_SYNC := by
      intro hl
      rw [List.length_set] at hl
      rw [set_head_keep buf k b h1]
      exact hsync hl h1
    by_cases hk : k + 1 < 3
    · rw [snap_decode_incomplete_short cfg buf M k b hk]
      refine ⟨a, ?_, fun hl _ => hsync2 hl, Or.inr (Or.inl ⟨rfl, ?_, ?_, ?_⟩)⟩
      · show k + 1 ≤ M; omega
      · show 1 ≤ k + 1; omega
      · show k + 1 < M; omega
      · intro h3
        exact absurd h3 (by show ¬ 3 ≤ k + 1; omega)
    · have hk3 : 3 ≤ k + 1 := by omega
      have hFlt : dec_fullSize cfg (buf.set k b) < 65536 := Nat.mod_lt _ (by norm_num)
      obtain ⟨m1, m2, m3, m4, m5, m6, m7, m8⟩ := header_bounds cfg hcfg (buf.set k b)
      have hF3 : 3 ≤ dec_fullSize cfg (buf.set k b) := by omega
      have hFk : 3 ≤ k → k < dec_fullSize cfg (buf.set k b) ∧
          dec_fullSize cfg (buf.set k b) ≤ M := by
        intro h3
        rw [dec_fullSize_set cfg buf k b h3]
        exact hF h3
      by_cases hov : M < dec_fullSize cfg (buf.set k b)
      · have hk2 : k = 2 := by
          by_contra hne
          have := hFk (by omega)
          omega
        rw [snap_decode_incomplete_overflow cfg buf M k b hk3 (by omega) hov]
        refine ⟨a, ?_, fun hl _ => hsync2 hl,
          Or.inr (Or.inr (Or.inr (Or.inr ⟨rfl, ?_⟩)))⟩
        · show k + 1 ≤ M; omega
        · show k + 1 ≤ 3; omega
      · by_cases hmid : k + 1 < dec_fullSize cfg (buf.set k b)
        · rw [snap_decode_incomplete_mid cfg buf M k b hk3 hmid (by omega)]
          refine ⟨a, ?_, fun hl _ => hsync2 hl, Or.inr (Or.inl ⟨rfl, ?_, ?_, ?_⟩)⟩
          · show k + 1 ≤ M; omega
          · show 1 ≤ k + 1; omega
          · show k + 1 < M; omega
          · intro _
            exact ⟨hmid, (show dec_fullSize cfg (buf.set k b) ≤ M by omega)⟩
        · have hfull : dec_fullSize cfg (buf.set k b) = k + 1 := by
            by_cases h3 : 3 ≤ k
            · have := hFk h3
              omega
            · omega
          rw [snap_decode_incomplete_last cfg buf M k b hk3 hfull (by omega)]
          have hv := dec_verdict_cases cfg
            { buffer := buf.set k b, maxSize := M, size := k + 1,
              status := SNAP_STATUS_INCOMPLETE }
          refine ⟨a, ?_, fun hl _ => hsync2 hl, ?_⟩
          · show k + 1 ≤ M; omega
          · rcases hv with hv | hv
            · exact Or.inr (Or.inr (Or.inl ⟨hv, by show 1 ≤ k + 1; omega⟩))
            · refine Or.inr (Or.inr (Or.inr (Or.inl ⟨hv, ?_, ?_⟩)))
              · show dec_fullSize cfg (buf.set k b) ≤ k + 1; omega
              · show 1 ≤ k + 1; omega
  · -- Valid
    subst hs
    rw [snap_decode_other cfg _ b nv1 nv2]
    exact ⟨a, hle, hsync, Or.inr (Or.inr (Or.inl ⟨rfl, h1⟩))⟩
  · -- ErrorHash
    subst hs
    rw [snap_decode_other cfg _ b nh1 nh2]
    exact ⟨a, hle, hsync, Or.inr (Or.inr (Or.inr (Or.inl ⟨rfl, hF, h1⟩)))⟩
  · -- ErrorOverflow
    subst hs
    rw [snap_decode_other cfg _ b no1 no2]
    exact ⟨a, hle, hsync, Or.inr (Or.inr (Or.inr (Or.inr ⟨rfl, h3⟩)))⟩

theorem run_inv_call (cfg : snap_build_t) (hcfg : cfg.SNAP_SIZE_USER_HASH ≤ 4)
    (f : snap_frame_t) (c : snap_call_t) (hc : snap_call_ok c) (h : run_inv cfg f) :
    run_inv cfg (snap_call cfg f c) := by
  cases c with
  | reset => exact run_inv_reset cfg f h
  | decode b => exact run_inv_decode cfg hcfg f b h
  | encapsulate fields => exact run_inv_encapsulate cfg hcfg f fields hc.1 h

theorem run_inv_run (cfg : snap_build_t) (hcfg : cfg.SNAP_SIZE_USER_HASH ≤ 4)
    (calls : List snap_call_t) :
    ∀ f, (∀ c ∈ calls, snap_call_ok c) → run_inv cfg f → run_inv cfg (snap_run cfg f calls) := by
  induction calls with
  | nil => intro f _ h; exact h
  | cons c cs ih =>
    intro f hok h
    exact ih (snap_call cfg f c) (fun x hx => hok x (List.mem_cons_of_mem _ hx))
      (run_inv_call cfg hcfg f c (hok c (List.mem_cons_self _ _)) h)

/-- A successful `snap_init` (positive return value) had `maxSize` at least 3 and leaves
a frame that satisfies the invariant. -/
theorem snap_init_success (cfg : snap_build_t) (g : snap_frame_t) (b : List Nat) (maxSize : Nat)
    (hok : 0 < (snap_init (some g) (some b) maxSize).1) :
    3 ≤ maxSize ∧
    (snap_init (some g) (some b) maxSize).2 =
      some { buffer := b, maxSize := min maxSize 528, size := 0, status := SNAP_STATUS_IDLE } ∧
    run_inv cfg { buffer := b, maxSize := min maxSize 528, size := 0,
                  status := SNAP_STATUS_IDLE } := by
  have h3 : 3 ≤ maxSize := by
    by_contra hlt
    have hlt2 : maxSize < SNAP_MIN_SIZE_FRAME := by
      show maxSize < 3; omega
    simp only [snap_init, hlt2, if_true] at hok
    exact absurd hok (by decide)
  refine ⟨h3, snap_init_ok g b maxSize h3, ?_, Nat.zero_le _, ?_, Or.inl rfl⟩
  · show 3 ≤ min maxSize 528; omega
  · intro _ h1
    exact absurd h1 (by show ¬ 1 ≤ 0; omega)

theorem snap_getField_data_ok (cfg : snap_build_t) (hcfg : cfg.SNAP_SIZE_USER_HASH ≤ 4)
    (frame : snap_frame_t) (h3 : 3 ≤ frame.size) (hlen : frame.size ≤ frame.buffer.length)
    (out : List Nat) (h0 : SNAP_SIZE_DATA frame.buffer ≠ 0)
    (hle : SNAP_INDEX_DATA frame.buffer + SNAP_SIZE_DATA frame.buffer ≤ frame.size)
    (hout : SNAP_SIZE_DATA frame.buffer ≤ out.length) :
    snap_getField cfg frame (.bytes out) SNAP_FIELD_DATA =
      (Int.ofNat (SNAP_SIZE_DATA frame.buffer),
        .bytes ((frame.buffer.drop (SNAP_INDEX_DATA frame.buffer)).take
            (SNAP_SIZE_DATA frame.buffer) ++ out.drop (SNAP_SIZE_DATA frame.buffer))) := by
  have hs : getField_fieldSize cfg frame.buffer SNAP_FIELD_DATA = SNAP_SIZE_DATA frame.buffer :=
    rfl
  have hi : getField_fieldIndex frame.buffer SNAP_FIELD_DATA = SNAP_INDEX_DATA frame.buffer :=
    rfl
  rw [snap_getField_place cfg hcfg frame (.bytes out) SNAP_FIELD_DATA h3 (by decide)
    (by decide), hs, hi, if_neg h0, if_neg (by omega), if_pos rfl,
    snap_getField_copy_eq _ _ _ _ (by omega) hout]

theorem snap_getField_data_small (cfg : snap_build_t) (hcfg : cfg.SNAP_SIZE_USER_HASH ≤ 4)
    (frame : snap_frame_t) (hs : frame.size ≤ 3) (c : snap_content_t) :
    snap_getField cfg frame c SNAP_FIELD_DATA = (SNAP_ERROR_UNKNOWN_FORMAT, c) ∨
    snap_getField cfg frame c SNAP_FIELD_DATA = (SNAP_ERROR_FRAME_FORMAT, c) ∨
    snap_getField cfg frame c SNAP_FIELD_DATA = (SNAP_ERROR_SHORT_FRAME, c) := by
  by_cases h : frame.size < 3
  · exact Or.inl (snap_getField_short cfg frame c _ h)
  · have h3 : 3 ≤ frame.size := by omega
    obtain ⟨_, _, _, _, _, _, _, i3, _⟩ := index_bounds frame.buffer
    have hsz : getField_fieldSize cfg frame.buffer SNAP_FIELD_DATA = SNAP_SIZE_DATA frame.buffer :=
      rfl
    have hi : getField_fieldIndex frame.buffer SNAP_FIELD_DATA = SNAP_INDEX_DATA frame.buffer :=
      rfl
    rw [snap_getField_place cfg hcfg frame c SNAP_FIELD_DATA h3 (by decide) (by decide), hsz, hi]
    by_cases h0 : SNAP_SIZE_DATA frame.buffer = 0
    · right; left; rw [if_pos h0]
    · right; right; rw [if_neg h0, if_pos (by omega)]

set_option maxRecDepth 100000 in
theorem snap_getField_after_error_as_stated_fails :
    ¬ ((snap_run snap_build_default scenario_frame
          [.decode 0x54, .decode 0x00, .decode 0x21, .decode 0x07, .decode 0x29]).status =
        SNAP_STATUS_ERROR_HASH →
      (snap_getField snap_build_default
        (snap_run snap_build_default scenario_frame
          [.decode 0x54, .decode 0x00, .decode 0x21, .decode 0x07, .decode 0x29])
        (.bytes [0]) SNAP_FIELD_DATA).1 < 0) := by
  decide

/-- C25 (as amended): on a frame set up by a successful `snap_init` (with `maxSize` bytes
of buffer) and taken through any sequence of calls, in particular a decode pass: when the
status is ErrorOverflow a request for the payload field yields an error
(SNAP_ERROR_UNKNOWN_FORMAT, SNAP_ERROR_FRAME_FORMAT or SNAP_ERROR_SHORT_FRAME) and leaves the
output as it was; when the status is ErrorHash the accessor, which looks at `size` and not
at `status`, succeeds for a header that declares a payload and copies the received payload
bytes to the output. -/
theorem snap_getField_after_error (cfg : snap_build_t) (hcfg : cfg.SNAP_SIZE_USER_HASH ≤ 4)
    (g : snap_frame_t) (b : List Nat) (maxSize : Nat) (calls : List snap_call_t)
    (hinit : 0 < (snap_init (some g) (some b) maxSize).1) (hlen : maxSize ≤ b.length)
    (hcalls : ∀ c ∈ calls, snap_call_ok c) :
    (snap_init (some g) (some b) maxSize).2 =
      some (init_frame b maxSize) ∧
    ((snap_run cfg (init_frame b maxSize) calls).status = SNAP_STATUS_ERROR_OVERFLOW →
      ∀ c,
        snap_getField cfg (snap_run cfg (init_frame b maxSize) calls) c SNAP_FIELD_DATA =
          (SNAP_ERROR_UNKNOWN_FORMAT, c) ∨
        snap_getField cfg (snap_run cfg (init_frame b maxSize) calls) c SNAP_FIELD_DATA =
          (SNAP_ERROR_FRAME_FORMAT, c) ∨
        snap_getField cfg (snap_run cfg (init_frame b maxSize) calls) c SNAP_FIELD_DATA =
          (SNAP_ERROR_SHORT_FRAME, c)) ∧
    ((snap_run cfg (init_frame b maxSize) calls).status = SNAP_STATUS_ERROR_HASH →
      SNAP_SIZE_DATA (snap_run cfg (init_frame b maxSize) calls).buffer ≠ 0 →
      ∀ out,
        SNAP_SIZE_DATA (snap_run cfg (init_frame b maxSize) calls).buffer ≤ out.length →
        snap_getField cfg (snap_run cfg (init_frame b maxSize) calls) (.bytes out) SNAP_FIELD_DATA =
          (Int.ofNat (SNAP_SIZE_DATA (snap_run cfg (init_frame b maxSize) calls).buffer),
            .bytes (((snap_run cfg (init_frame b maxSize) calls).buffer.drop
                (SNAP_INDEX_DATA (snap_run cfg (init_frame b maxSize) calls).buffer)).take
              (SNAP_SIZE_DATA (snap_run cfg (init_frame b maxSize) calls).buffer) ++
              out.drop (SNAP_SIZE_DATA (snap_run cfg (init_frame b maxSize) calls).buffer)))) := by
  obtain ⟨h3, hi, hinv⟩ := snap_init_success cfg g b maxSize hinit
  obtain ⟨fm, fl⟩ := snap_run_fixed cfg hcfg calls (init_frame b maxSize) hcalls
  have hr := run_inv_run cfg hcfg calls (init_frame b maxSize) hcalls hinv
  generalize snap_run cfg (init_frame b maxSize) calls = f at fm fl hr ⊢
  simp only [init_frame] at fm fl
  obtain ⟨a, hle, _, hst⟩ := hr
  have n1 : SNAP_STATUS_ERROR_OVERFLOW ≠ SNAP_STATUS_IDLE := by decide
  have n2 : SNAP_STATUS_ERROR_OVERFLOW ≠ SNAP_STATUS_INCOMPLETE := by decide
  have n3 : SNAP_STATUS_ERROR_OVERFLOW ≠ SNAP_STATUS_VALID := by decide
  have n4 : SNAP_STATUS_ERROR_OVERFLOW ≠ SNAP_STATUS_ERROR_HASH := by decide
  have k1 : SNAP_STATUS_ERROR_HASH ≠ SNAP_STATUS_IDLE := by decide
  have k2 : SNAP_STATUS_ERROR_HASH ≠ SNAP_STATUS_INCOMPLETE := by decide
  have k3 : SNAP_STATUS_ERROR_HASH ≠ SNAP_STATUS_VALID := by decide
  refine ⟨hi, ?_, ?_⟩
  · intro hs c
    rcases hst with h | ⟨h, _⟩ | ⟨h, _⟩ | ⟨h, _⟩ | ⟨_, hsz⟩
    · exact absurd (hs.symm.trans h) n1
    · exact absurd (hs.symm.trans h) n2
    · exact absurd (hs.symm.trans h) n3
    · exact absurd (hs.symm.trans h) n4
    · exact snap_getField_data_small cfg hcfg f hsz c
  · intro hs h0 out hout
    rcases hst with h | ⟨h, _⟩ | ⟨h, _⟩ | ⟨_, hF, _⟩ | ⟨h, _⟩
    · exact absurd (hs.symm.trans h) k1
    · exact absurd (hs.symm.trans h) k2
    · exact absurd (hs.symm.trans h) k3
    · obtain ⟨_, _, _, _, _, _, m7, m8⟩ := header_bounds cfg hcfg f.buffer
      obtain ⟨_, _, _, _, _, _, _, i3, i4⟩ := index_bounds f.buffer
      exact snap_getField_data_ok cfg hcfg f (by omega) (by omega) out h0 (by omega) hout
    · exact absurd (h.symm.trans hs) n4

set_option maxRecDepth 100000 in
theorem snap_getField_after_error_witness :
    snap_getField snap_build_default
        (snap_run snap_build_default
          (init_frame (List.replicate 16 0) 16)
          [.decode 0x54, .decode 0x00, .decode 0x21, .decode 0x07, .decode 0x29])
        (.bytes [0]) SNAP_FIELD_DATA =
      (1, .bytes [0x07]) :=
  ((snap_getField_after_error snap_build_default (by decide) scenario_frame
    (List.replicate 16 0) 16
    [.decode 0x54, .decode 0x00, .decode 0x21, .decode 0x07, .decode 0x29]
    (by decide) (by decide) (by decide)).2.2 (by decide) (by decide) [0] (by decide)).trans
    (by decide)

/-- C29: in every frame state reached from a successful `snap_init` by any sequence of
`snap_reset`, `snap_decode` and `snap_encapsulate` calls (descriptors with data length at
most 512), `size ≤ maxSize`, and `size < maxSize` whenever the status is Incomplete; with
`maxSize` bytes of buffer behind the frame, the index at which `snap_decode` stores the
next byte is then inside the buffer. -/
theorem snap_size_invariant (cfg : snap_build_t) (hcfg : cfg.SNAP_SIZE_USER_HASH ≤ 4)
    (g : snap_frame_t) (b : List Nat) (maxSize : Nat) (calls : List snap_call_t)
    (hinit : 0 < (snap_init (some g) (some b) maxSize).1)
    (hcalls : ∀ c ∈ calls, snap_call_ok c) :
    (snap_init (some g) (some b) maxSize).2 = some (init_frame b maxSize) ∧
    (snap_run cfg (init_frame b maxSize) calls).size ≤
      (snap_run cfg (init_frame b maxSize) calls).maxSize ∧
    ((snap_run cfg (init_frame b maxSize) calls).status = SNAP_STATUS_INCOMPLETE →
      (snap_run cfg (init_frame b maxSize) calls).size <
        (snap_run cfg (init_frame b maxSize) calls).maxSize) ∧
    (maxSize ≤ b.length →
      (snap_run cfg (init_frame b maxSize) calls).status = SNAP_STATUS_INCOMPLETE →
      (snap_run cfg (init_frame b maxSize) calls).size <
        (snap_run cfg (init_frame b maxSize) calls).buffer.length) := by
  obtain ⟨h3, hi, hinv⟩ := snap_init_success cfg g b maxSize hinit
  obtain ⟨fm, fl⟩ := snap_run_fixed cfg hcfg calls (init_frame b maxSize) hcalls
  have hr := run_inv_run cfg hcfg calls (init_frame b maxSize) hcalls hinv
  generalize snap_run cfg (init_frame b maxSize) calls = f at fm fl hr ⊢
  simp only [init_frame] at fm fl
  obtain ⟨a, hle, _, hst⟩ := hr
  have n1 : SNAP_STATUS_INCOMPLETE ≠ SNAP_STATUS_IDLE := by decide
  have n3 : SNAP_STATUS_INCOMPLETE ≠ SNAP_STATUS_VALID := by decide
  have n4 : SNAP_STATUS_INCOMPLETE ≠ SNAP_STATUS_ERROR_HASH := by decide
  have n5 : SNAP_STATUS_INCOMPLETE ≠ SNAP_STATUS_ERROR_OVERFLOW := by decide
  have hinc : f.status = SNAP_STATUS_INCOMPLETE → f.size < f.maxSize := by
    intro hs
    rcases hst with h | ⟨_, _, hlt, _⟩ | ⟨h, _⟩ | ⟨h, _⟩ | ⟨h, _⟩
    · exact absurd (hs.symm.trans h) n1
    · exact hlt
    · exact absurd (hs.symm.trans h) n3
    · exact absurd (hs.symm.trans h) n4
    · exact absurd (hs.symm.trans h) n5
  refine ⟨hi, hle, hinc, ?_⟩
  intro hlen hs
  have := hinc hs
  omega

set_option maxRecDepth 100000 in
theorem snap_size_invariant_witness :
    (snap_run snap_build_default (init_frame (List.replicate 16 0) 16)
        [.decode 0x54, .decode 0x40, .reset, .encapsulate scenario_fields, .reset,
          .decode 0x54]).size <
      (snap_run snap_build_default (init_frame (List.replicate 16 0) 16)
        [.decode 0x54, .decode 0x40, .reset, .encapsulate scenario_fields, .reset,
          .decode 0x54]).maxSize :=
  (snap_size_invariant snap_build_default (by decide) scenario_frame (List.replicate 16 0) 16
    [.decode 0x54, .decode 0x40, .reset, .encapsulate scenario_fields, .reset, .decode 0x54]
    (by decide) (by decide)).2.2.1 (by decide)

set_option maxRecDepth 100000 in
theorem snap_sync_invariant_as_stated_fails :
    (snap_init (some scenario_frame) (some [0, 0, 0]) 3).2 = some (init_frame [0, 0, 0] 3) ∧
    ¬ ((snap_run snap_build_default (init_frame [0, 0, 0] 3)
          [.encapsulate scenario_fields]).status ≠ SNAP_STATUS_IDLE →
        (snap_run snap_build_default (init_frame [0, 0, 0] 3)
          [.encapsulate scenario_fields]).buffer.getD 0 0 = 0x54) := by
  decide

/-- C30 (as amended): in every frame state reached from a successful `snap_init` over a
buffer of at least 3 bytes with arbitrary contents, by any sequence of `snap_reset`,
`snap_decode` and `snap_encapsulate` calls, the buffer byte at offset 0 equals 0x54
whenever the status is Incomplete, Valid or ErrorHash, and whenever the status is
ErrorOverflow with `size` not 0 (an overflow reported by `snap_decode`).  A
`snap_encapsulate` that reports ErrorOverflow sets `size = 0` and leaves the buffer as it
was. -/
theorem snap_sync_invariant (cfg : snap_build_t) (hcfg : cfg.SNAP_SIZE_USER_HASH ≤ 4)
    (g : snap_frame_t) (b : List Nat) (maxSize : Nat) (calls : List snap_call_t)
    (hinit : 0 < (snap_init (some g) (some b) maxSize).1) (hlen : 3 ≤ b.length)
    (hcalls : ∀ c ∈ calls, snap_call_ok c) :
    (snap_init (some g) (some b) maxSize).2 = some (init_frame b maxSize) ∧
    ((snap_run cfg (init_frame b maxSize) calls).status = SNAP_STATUS_INCOMPLETE ∨
        (snap_run cfg (init_frame b maxSize) calls).status = SNAP_STATUS_VALID ∨
        (snap_run cfg (init_frame b maxSize) calls).status = SNAP_STATUS_ERROR_HASH →
      (snap_run cfg (init_frame b maxSize) calls).buffer.getD 0 0 = 0x54) ∧
    ((snap_run cfg (init_frame b maxSize) calls).status = SNAP_STATUS_ERROR_OVERFLOW →
      (snap_run cfg (init_frame b maxSize) calls).size ≠ 0 →
      (snap_run cfg (init_frame b maxSize) calls).buffer.getD 0 0 = 0x54) ∧
    (∀ (f : snap_frame_t) (fields : snap_fields_t),
      (snap_encapsulate cfg f fields).1 = SNAP_STATUS_ERROR_OVERFLOW →
      (snap_encapsulate cfg f fields).2.1 =
        { buffer := f.buffer, maxSize := f.maxSize, size := 0,
          status := SNAP_STATUS_ERROR_OVERFLOW }) := by
  obtain ⟨h3, hi, hinv⟩ := snap_init_success cfg g b maxSize hinit
  obtain ⟨fm, fl⟩ := snap_run_fixed cfg hcfg calls (init_frame b maxSize) hcalls
  have hr := run_inv_run cfg hcfg calls (init_frame b maxSize) hcalls hinv
  generalize snap_run cfg (init_frame b maxSize) calls = f at fm fl hr ⊢
  simp only [init_frame] at fm fl
  obtain ⟨a, hle, hsync, hst⟩ := hr
  have hb0 : 1 ≤ f.size → f.buffer.getD 0 0 = 0x54 := by
    intro h1
    have := hsync (by omega) h1
    rw [List.getD_eq_getElem?_getD, this]
    rfl
  have n1 : SNAP_STATUS_INCOMPLETE ≠ SNAP_STATUS_IDLE := by decide
  have n2 : SNAP_STATUS_VALID ≠ SNAP_STATUS_IDLE := by decide
  have n3 : SNAP_STATUS_ERROR_HASH ≠ SNAP_STATUS_IDLE := by decide
  have n4 : SNAP_STATUS_INCOMPLETE ≠ SNAP_STATUS_ERROR_OVERFLOW := by decide
  have n5 : SNAP_STATUS_VALID ≠ SNAP_STATUS_ERROR_OVERFLOW := by decide
  have n6 : SNAP_STATUS_ERROR_HASH ≠ SNAP_STATUS_ERROR_OVERFLOW := by decide
  refine ⟨hi, ?_, ?_, ?_⟩
  · intro hs
    apply hb0
    rcases hst with h | ⟨_, h1, _⟩ | ⟨_, h1⟩ | ⟨_, _, h1⟩ | ⟨h, _⟩
    · rcases hs with hs | hs | hs
      · exact absurd (hs.symm.trans h) n1
      · exact absurd (hs.symm.trans h) n2
      · exact absurd (hs.symm.trans h) n3
    · exact h1
    · exact h1
    · exact h1
    · rcases hs with hs | hs | hs
      · exact absurd (hs.symm.trans h) n4
      · exact absurd (hs.symm.trans h) n5
      · exact absurd (hs.symm.trans h) n6
  · intro _ hne
    exact hb0 (by omega)
  · intro f fields hov
    rw [snap_encapsulate_eq] at hov ⊢
    split_ifs at hov ⊢ with hc
    · rfl
    · exact absurd hov n5

set_option maxRecDepth 100000 in
theorem snap_sync_invariant_witness :
    (snap_run snap_build_default (init_frame (List.replicate 16 0) 16)
        [.decode 0x00, .decode 0x54, .decode 0x00, .decode 0x21, .decode 0x07,
          .decode 0x29]).buffer.getD 0 0 = 0x54 :=
  (snap_sync_invariant snap_build_default (by decide) scenario_frame (List.replicate 16 0) 16
    [.decode 0x00, .decode 0x54, .decode 0x00, .decode 0x21, .decode 0x07, .decode 0x29]
    (by decide) (by decide) (by decide)).2.1 (by decide)

/-! ## Padding removal -/

theorem removePadding_after_spec (data : List Nat) (n : Nat) (hn : n ≤ data.length) :
    ∃ r, removePadding_after data n = some r ∧ r ≤ n ∧
      (∀ i, r ≤ i → i < n → data[i]? = some 0) ∧
      (r ≠ 0 → ∃ x, data[r - 1]? = some x ∧ x ≠ 0) := by
  induction n with
  | zero => exact ⟨0, rfl, le_refl _, fun i _ h => absurd h (by omega), fun h => absurd rfl h⟩
  | succ n ih =>
    have hlt : n < data.length := by omega
    have hget : data[n]? = some data[n] := List.getElem?_eq_getElem hlt
    simp only [removePadding_after, hget]
    by_cases hx : data[n] = SNAP_PADDING
    · rw [if_pos hx]
      by_cases h0 : n = 0
      · subst h0
        refine ⟨0, by simp, Nat.zero_le _, ?_, fun h => absurd rfl h⟩
        intro i _ hi
        have : i = 0 := by omega
        subst this
        rw [hget, hx]; rfl
      · obtain ⟨r, hr, hle, hz, hnz⟩ := ih (by omega)
        refine ⟨r, by rw [if_pos h0]; exact hr, by omega, ?_, hnz⟩
        intro i h1 h2
        by_cases hi : i < n
        · exact hz i h1 hi
        · have : i = n := by omega
          subst this
          rw [hget, hx]; rfl
    · rw [if_neg hx]
      refine ⟨n + 1, rfl, le_refl _, fun i h1 h2 => absurd h2 (by omega), ?_⟩
      intro _
      exact ⟨data[n], hget, hx⟩

theorem removePadding_count_spec (data : List Nat) (size : Nat) (hs : size ≤ data.length)
    (fuel : Nat) :
    ∀ p, p < size → size - p ≤ fuel → (∀ i, i < p → data[i]? = some 0) →
      ∃ k, removePadding_count data size fuel p = some k ∧ p ≤ k ∧ k ≤ size ∧
        (∀ i, i < k → data[i]? = some 0) ∧
        (k < size → ∃ x, data[k]? = some x ∧ x ≠ 0) := by
  induction fuel with
  | zero => intro p hp hf _; exact absurd hf (by omega)
  | succ fuel ih =>
    intro p hp hf hz
    have hlt : p < data.length := by omega
    have hget : data[p]? = some data[p] := List.getElem?_eq_getElem hlt
    simp only [removePadding_count, hget]
    by_cases hx : data[p] = SNAP_PADDING
    · rw [if_pos hx]
      have hz2 : ∀ i, i < p + 1 → data[i]? = some 0 := by
        intro i hi
        by_cases hip : i < p
        · exact hz i hip
        · have : i = p := by omega
          subst this
          rw [hget, hx]; rfl
      by_cases hnext : p + 1 < size
      · rw [if_pos hnext]
        obtain ⟨k, hk, h1, h2, h3, h4⟩ := ih (p + 1) hnext (by omega) hz2
        exact ⟨k, hk, by omega, h2, h3, h4⟩
      · rw [if_neg hnext]
        exact ⟨p + 1, rfl, by omega, by omega, hz2, fun h => absurd h (by omega)⟩
    · rw [if_neg hx]
      exact ⟨p, rfl, le_refl _, by omega, hz, fun _ => ⟨data[p], hget, hx⟩⟩

theorem removePadding_shift_spec (p : Nat) (n : Nat) :
    ∀ (i : Nat) (d : List Nat), p + i + n ≤ d.length →
      ∃ d2, removePadding_shift p n i d = some d2 ∧ d2.length = d.length ∧
        ∀ j, d2[j]? = if i ≤ j ∧ j < i + n then d[p + j]? else d[j]? := by
  induction n with
  | zero =>
    intro i d _
    refine ⟨d, rfl, rfl, fun j => ?_⟩
    rw [if_neg (by omega)]
  | succ n ih =>
    intro i d hlen
    have hlt : p + i < d.length := by omega
    have hget : d[p + i]? = some d[p + i] := List.getElem?_eq_getElem hlt
    have hi : i < d.length := by omega
    obtain ⟨d2, h1, h2, h3⟩ := ih (i + 1) (d.set i d[p + i])
      (by rw [List.length_set]; omega)
    refine ⟨d2, ?_, by rw [h2, List.length_set], fun j => ?_⟩
    · simp only [removePadding_shift, hget, if_pos hi]
      exact h1
    · rw [h3 j]
      by_cases hj : i + 1 ≤ j ∧ j < i + 1 + n
      · rw [if_pos hj, if_pos (by omega), List.getElem?_set_ne (by omega)]
      · rw [if_neg hj]
        by_cases hji : j = i
        · subst hji
          rw [if_pos (by omega), List.getElem?_set_self hi, hget]
        · rw [if_neg (by omega), List.getElem?_set_ne (by omega)]

theorem removePadding_trailing (data : List Nat) (size : Nat) (hs : size ≤ data.length)
    (h9 : 9 ≤ size) :
    ∃ r, snap_removePaddingBytes data size true = some (r, data) ∧ r ≤ size ∧
      (∀ i, r ≤ i → i < size → data[i]? = some 0) ∧
      (r ≠ 0 → ∃ x, data[r - 1]? = some x ∧ x ≠ 0) := by
  obtain ⟨r, hr, h1, h2, h3⟩ := removePadding_after_spec data size hs
  refine ⟨r, ?_, h1, h2, h3⟩
  simp only [snap_removePaddingBytes, if_neg (show ¬ size < 9 by omega), if_true, hr]

theorem removePadding_leading (data : List Nat) (size : Nat) (hs : size ≤ data.length)
    (h9 : 9 ≤ size) (h16 : size < 65536) :
    ∃ k d2, snap_removePaddingBytes data size false = some (size - k, d2) ∧ k ≤ size ∧
      (∀ i, i < k → data[i]? = some 0) ∧
      (k < size → ∃ x, data[k]? = some x ∧ x ≠ 0) ∧
      d2.length = data.length ∧
      (∀ j, j < size - k → d2[j]? = data[k + j]?) ∧
      (∀ j, size - k ≤ j → d2[j]? = data[j]?) := by
  obtain ⟨k, hk, _, h2, h3, h4⟩ := removePadding_count_spec data size hs size 0 (by omega)
    (by omega) (fun i hi => absurd hi (by omega))
  have hsz : (size + 65536 - k) % 65536 = size - k := by omega
  obtain ⟨d2, e1, e2, e3⟩ := removePadding_shift_spec k (size - k) 0 data (by omega)
  refine ⟨k, d2, ?_, h2, h3, h4, e2, ?_, ?_⟩
  · simp only [snap_removePaddingBytes, if_neg (show ¬ size < 9 by omega), Bool.false_eq_true,
      if_false, hk, hsz, e1]
  · intro j hj
    rw [e3 j, if_pos (by omega)]
  · intro j hj
    rw [e3 j, if_neg (by omega)]

theorem set_same (d : List Nat) (i : Nat) (hi : i < d.length) : d.set i d[i] = d := by
  apply List.ext_getElem?
  intro j
  by_cases hj : i = j
  · subst hj
    rw [List.getElem?_set_self hi, List.getElem?_eq_getElem hi]
  · rw [List.getElem?_set_ne hj]

theorem removePadding_shift_id (n : Nat) :
    ∀ (i : Nat) (d : List Nat), i + n ≤ d.length → removePadding_shift 0 n i d = some d := by
  induction n with
  | zero => intro i d _; rfl
  | succ n ih =>
    intro i d hlen
    have hi : i < d.length := by omega
    have hget : d[0 + i]? = some d[i] := by
      rw [Nat.zero_add]; exact List.getElem?_eq_getElem hi
    simp only [removePadding_shift, hget, if_pos hi, set_same d i hi]
    exact ih (i + 1) d (by omega)

/-- C26: with the padding after the data, `snap_removePaddingBytes` returns `length`
unchanged for `length ≤ 8`; for `length ≥ 9` it returns the length `r` left once every
trailing 0x00 byte is removed: all bytes from `r` to `length - 1` are 0x00 and, unless
`r = 0` (all bytes 0x00), byte `r - 1` is not 0x00.  The data bytes are not modified, and
the call stays inside indices `0 .. length-1`: it returns on an array of exactly `length`
bytes. -/
theorem snap_removePaddingBytes_after (data : List Nat) (size : Nat)
    (hs : size ≤ data.length) :
    (size ≤ 8 → snap_removePaddingBytes data size true = some (size, data)) ∧
    (9 ≤ size →
      ∃ r, snap_removePaddingBytes data size true = some (r, data) ∧ r ≤ size ∧
        (∀ i, r ≤ i → i < size → data[i]? = some 0) ∧
        (r ≠ 0 → ∃ x, data[r - 1]? = some x ∧ x ≠ 0)) ∧
    (∃ r, snap_removePaddingBytes (data.take size) size true = some (r, data.take size)) := by
  have hlen : (data.take size).length = size := by rw [List.length_take]; omega
  refine ⟨?_, fun h9 => removePadding_trailing data size hs h9, ?_⟩
  · intro h8
    simp only [snap_removePaddingBytes, if_pos (show size < 9 by omega)]
  · by_cases h9 : 9 ≤ size
    · obtain ⟨r, hr, _⟩ := removePadding_trailing (data.take size) size (by omega) h9
      exact ⟨r, hr⟩
    · exact ⟨size, by simp only [snap_removePaddingBytes, if_pos (show size < 9 by omega)]⟩

theorem snap_removePaddingBytes_after_witness :
    ∃ r, snap_removePaddingBytes [1, 2, 3, 0, 5, 0, 0, 0, 0, 0] 10 true =
        some (r, [1, 2, 3, 0, 5, 0, 0, 0, 0, 0]) ∧ r ≤ 10 ∧
      (∀ i, r ≤ i → i < 10 → [1, 2, 3, 0, 5, 0, 0, 0, 0, 0][i]? = some 0) ∧
      (r ≠ 0 → ∃ x, [1, 2, 3, 0, 5, 0, 0, 0, 0, 0][r - 1]? = some x ∧ x ≠ 0) :=
  (snap_removePaddingBytes_after [1, 2, 3, 0, 5, 0, 0, 0, 0, 0] 10 (by decide)).2.1 (by decide)

/-- C27: with the padding before the data, `snap_removePaddingBytes` returns `length`
and leaves the data unchanged for `length ≤ 8`; for `length ≥ 9` (a `uint16_t`), with `k`
the number of leading 0x00 bytes (bytes `0 .. k-1` are 0x00 and, unless `k = length`, byte
`k` is not), it returns `length - k` and afterwards bytes `0 .. length-k-1` hold the
original bytes `k .. length-1`, every other byte being as before.  The call stays inside
indices `0 .. length-1`: it returns on an array of exactly `length` bytes. -/
theorem snap_removePaddingBytes_before (data : List Nat) (size : Nat)
    (hs : size ≤ data.length) (h16 : size < 65536) :
    (size ≤ 8 → snap_removePaddingBytes data size false = some (size, data)) ∧
    (9 ≤ size →
      ∃ k d2, snap_removePaddingBytes data size false = some (size - k, d2) ∧ k ≤ size ∧
        (∀ i, i < k → data[i]? = some 0) ∧
        (k < size → ∃ x, data[k]? = some x ∧ x ≠ 0) ∧
        d2.length = data.length ∧
        (∀ j, j < size - k → d2[j]? = data[k + j]?) ∧
        (∀ j, size - k ≤ j → d2[j]? = data[j]?)) ∧
    (∃ r d2, snap_removePaddingBytes (data.take size) size false = some (r, d2)) := by
  have hlen : (data.take size).length = size := by rw [List.length_take]; omega
  refine ⟨?_, fun h9 => removePadding_leading data size hs h9 h16, ?_⟩
  · intro h8
    simp only [snap_removePaddingBytes, if_pos (show size < 9 by omega)]
  · by_cases h9 : 9 ≤ size
    · obtain ⟨k, d2, hr, _⟩ := removePadding_leading (data.take size) size (by omega) h9 h16
      exact ⟨size - k, d2, hr⟩
    · exact ⟨size, data.take size,
        by simp only [snap_removePaddingBytes, if_pos (show size < 9 by omega)]⟩

theorem snap_removePaddingBytes_before_witness :
    ∃ k d2, snap_removePaddingBytes [0, 0, 0, 0, 5, 0, 0, 0, 9, 0] 10 false =
        some (10 - k, d2) ∧ k ≤ 10 ∧
      (∀ i, i < k → [0, 0, 0, 0, 5, 0, 0, 0, 9, 0][i]? = some 0) ∧
      (k < 10 → ∃ x, [0, 0, 0, 0, 5, 0, 0, 0, 9, 0][k]? = some x ∧ x ≠ 0) ∧
      d2.length = [0, 0, 0, 0, 5, 0, 0, 0, 9, 0].length ∧
      (∀ j, j < 10 - k → d2[j]? = [0, 0, 0, 0, 5, 0, 0, 0, 9, 0][k + j]?) ∧
      (∀ j, 10 - k ≤ j → d2[j]? = [0, 0, 0, 0, 5, 0, 0, 0, 9, 0][j]?) :=
  (snap_removePaddingBytes_before [0, 0, 0, 0, 5, 0, 0, 0, 9, 0] 10 (by decide)
    (by decide)).2.1 (by decide)

/-- C28: for an array of `length ≥ 9` bytes (a `uint16_t`) and either placement flag,
`snap_removePaddingBytes` applied to the data and length it has just produced, with the
same flag, returns that same length and leaves the data as they are. -/
theorem snap_removePaddingBytes_idempotent (data : List Nat) (size : Nat)
    (paddingAfter : Bool) (hs : size ≤ data.length) (h9 : 9 ≤ size) (h16 : size < 65536) :
    ∃ r d2, snap_removePaddingBytes data size paddingAfter = some (r, d2) ∧
      snap_removePaddingBytes d2 r paddingAfter = some (r, d2) ∧ r ≤ size := by
  cases paddingAfter with
  | true =>
    obtain ⟨r, hr, hle, _, hnz⟩ := removePadding_trailing data size hs h9
    refine ⟨r, data, hr, ?_, hle⟩
    by_cases hr9 : r < 9
    · simp only [snap_removePaddingBytes, if_pos hr9]
    · obtain ⟨x, hx, hx0⟩ := hnz (by omega)
      obtain ⟨m, rfl⟩ : ∃ m, r = m + 1 := ⟨r - 1, by omega⟩
      have hx2 : data[m]? = some x := hx
      have hpad : ¬ x = SNAP_PADDING := hx0
      simp only [snap_removePaddingBytes, if_neg hr9, if_true, removePadding_after, hx2,
        if_neg hpad]
  | false =>
    obtain ⟨k, d2, hr, hle, _, hnz, hlen, hcopy, _⟩ := removePadding_leading data size hs h9 h16
    refine ⟨size - k, d2, hr, ?_, by omega⟩
    by_cases hr9 : size - k < 9
    · simp only [snap_removePaddingBytes, if_pos hr9]
    · obtain ⟨x, hx, hx0⟩ := hnz (by omega)
      have h0 : d2[0]? = some x := by
        rw [hcopy 0 (by omega)]; exact hx
      have hpad : ¬ x = SNAP_PADDING := hx0
      obtain ⟨m, hm⟩ : ∃ m, size - k = m + 1 := ⟨size - k - 1, by omega⟩
      have hcount : removePadding_count d2 (size - k) (size - k) 0 = some 0 := by
        rw [hm]
        simp only [removePadding_count, h0, if_neg hpad]
      have hsz : (size - k + 65536 - 0) % 65536 = size - k := by omega
      have hshift := removePadding_shift_id (size - k) 0 d2 (by omega)
      simp only [snap_removePaddingBytes, if_neg hr9, Bool.false_eq_true, if_false, hcount,
        hsz, hshift]

theorem snap_removePaddingBytes_idempotent_witness :
    ∃ r d2, snap_removePaddingBytes [0, 0, 0, 0, 0, 0, 1, 2, 3, 4, 5, 6, 7, 8, 9, 10] 16 false =
        some (r, d2) ∧
      snap_removePaddingBytes d2 r false = some (r, d2) ∧ r ≤ 16 :=
  snap_removePaddingBytes_idempotent [0, 0, 0, 0, 0, 0, 1, 2, 3, 4, 5, 6, 7, 8, 9, 10] 16 false
    (by decide) (by decide) (by decide)

/-! ## The largest frame -/

theorem full_frame_size_le (cfg : snap_build_t) (hcfg : cfg.SNAP_SIZE_USER_HASH ≤ 4)
    (hdb2 hdb1 : Nat) : 3 ≤ full_frame_size cfg hdb2 hdb1 ∧ full_frame_size cfg hdb2 hdb1 ≤ 528 := by
  have h1 := get_bits_le hdb2 SNAP_HDB2_DAB_MASK SNAP_HDB2_DAB_POS
  have h2 := get_bits_le hdb2 SNAP_HDB2_SAB_MASK SNAP_HDB2_SAB_POS
  have h3 := get_bits_le hdb2 SNAP_HDB2_PFB_MASK SNAP_HDB2_PFB_POS
  have h4 := snap_getDataSizeFromNdb_le (SNAP_GET_BITS hdb1 SNAP_HDB1_NDB_MASK SNAP_HDB1_NDB_POS)
  have h5 := snap_getHashSizeFromEdm_le cfg hcfg
    (SNAP_GET_BITS hdb1 SNAP_HDB1_EDM_MASK SNAP_HDB1_EDM_POS)
  have m1 : SNAP_HDB2_DAB_MASK = 3 := rfl
  have m2 : SNAP_HDB2_SAB_MASK = 3 := rfl
  have m3 : SNAP_HDB2_PFB_MASK = 3 := rfl
  rw [m1] at h1
  rw [m2] at h2
  rw [m3] at h3
  unfold full_frame_size
  rw [m1, m2, m3]
  omega

theorem snap_decode_roomy (cfg : snap_build_t) (hcfg : cfg.SNAP_SIZE_USER_HASH ≤ 4)
    (f : snap_frame_t) (b : Nat) (hs : f.status ≠ SNAP_STATUS_ERROR_OVERFLOW)
    (hm : 528 ≤ f.maxSize) :
    (snap_decode cfg f b).1 ≠ SNAP_STATUS_ERROR_OVERFLOW ∧
    (snap_decode cfg f b).2.status ≠ SNAP_STATUS_ERROR_OVERFLOW ∧
    528 ≤ (snap_decode cfg f b).2.maxSize := by
  have n0 : SNAP_STATUS_IDLE ≠ SNAP_STATUS_ERROR_OVERFLOW := by decide
  have n1 : SNAP_STATUS_INCOMPLETE ≠ SNAP_STATUS_ERROR_OVERFLOW := by decide
  have n2 : SNAP_STATUS_VALID ≠ SNAP_STATUS_ERROR_OVERFLOW := by decide
  have n3 : SNAP_STATUS_ERROR_HASH ≠ SNAP_STATUS_ERROR_OVERFLOW := by decide
  have hfix := (snap_decode_fixed cfg f b).1
  have hroom : ∀ buf : List Nat,
      ¬ f.maxSize < (SNAP_INDEX_HASH buf + SNAP_SIZE_HASH cfg buf) % 65536 := by
    intro buf
    obtain ⟨_, _, _, _, _, _, _, m8⟩ := header_bounds cfg hcfg buf
    have := full_frame_size_le cfg hcfg (buf.getD 1 0) (buf.getD 2 0)
    rw [← full_frame_size_eq] at this
    have e : (SNAP_INDEX_HASH buf + SNAP_SIZE_HASH cfg buf) % 65536 =
        SNAP_INDEX_HASH buf + SNAP_SIZE_HASH cfg buf := by omega
    rw [e]
    omega
  refine ⟨?_, ?_, by rw [hfix]; exact hm⟩
  · simp only [snap_decode]
    split_ifs
    all_goals (first | exact hs | exact n0 | exact n1 | exact n2 | exact n3 | exact absurd (by assumption) (hroom _))
  · simp only [snap_decode]
    split_ifs
    all_goals (first | exact hs | exact n0 | exact n1 | exact n2 | exact n3 | exact absurd (by assumption) (hroom _))

theorem snap_decode_bytes_roomy (cfg : snap_build_t) (hcfg : cfg.SNAP_SIZE_USER_HASH ≤ 4)
    (bs : List Nat) :
    ∀ f : snap_frame_t, f.status ≠ SNAP_STATUS_ERROR_OVERFLOW → 528 ≤ f.maxSize →
      SNAP_STATUS_ERROR_OVERFLOW ∉ (snap_decode_bytes cfg f bs).1 := by
  induction bs with
  | nil => intro f _ _; simp [snap_decode_bytes]
  | cons b bs ih =>
    intro f hs hm
    obtain ⟨h1, h2, h3⟩ := snap_decode_roomy cfg hcfg f b hs hm
    simp only [snap_decode_bytes, List.mem_cons, not_or]
    exact ⟨fun h => h1 h.symm, ih _ h2 h3⟩

/-- C32: with the user hash size in 0..4, the full frame size derived from any two header
bytes, `3 + DAB + SAB + PFB + snap_getDataSizeFromNdb(NDB) + snap_getHashSizeFromEdm(EDM)`,
is at most 528 (and at least 3); hence on a frame that `snap_init` has set up with capacity
528 (or more, which `snap_init` limits to 528) `snap_decode` never returns ErrorOverflow,
whatever bytes it is fed. -/
theorem snap_max_frame_size (cfg : snap_build_t) (hcfg : cfg.SNAP_SIZE_USER_HASH ≤ 4) :
    (∀ hdb2 hdb1, 3 ≤ full_frame_size cfg hdb2 hdb1 ∧ full_frame_size cfg hdb2 hdb1 ≤ 528) ∧
    (∀ buffer, dec_fullSize cfg buffer = full_frame_size cfg (buffer.getD 1 0) (buffer.getD 2 0)) ∧
    (∀ (g : snap_frame_t) (b : List Nat) (maxSize : Nat), 528 ≤ maxSize →
      (snap_init (some g) (some b) maxSize).2 = some (init_frame b maxSize) ∧
      (init_frame b maxSize).maxSize = 528 ∧
      ∀ bs, SNAP_STATUS_ERROR_OVERFLOW ∉ (snap_decode_bytes cfg (init_frame b maxSize) bs).1) := by
  refine ⟨full_frame_size_le cfg hcfg, ?_, ?_⟩
  · intro buffer
    obtain ⟨_, _, _, _, _, _, _, m8⟩ := header_bounds cfg hcfg buffer
    rw [m8, full_frame_size_eq]
  · intro g b maxSize hm
    have n0 : SNAP_STATUS_IDLE ≠ SNAP_STATUS_ERROR_OVERFLOW := by decide
    have h528 : (init_frame b maxSize).maxSize = 528 := by
      show min maxSize 528 = 528
      omega
    refine ⟨snap_init_ok g b maxSize (by omega), h528, fun bs => ?_⟩
    exact snap_decode_bytes_roomy cfg hcfg bs _ n0 (by rw [h528])

theorem snap_max_frame_size_witness :
    SNAP_STATUS_ERROR_OVERFLOW ∉
      (snap_decode_bytes snap_build_default (init_frame (List.replicate 528 0) 528)
        [0x54, 0xFF, 0x5E, 0x01]).1 :=
  ((snap_max_frame_size snap_build_default (by decide)).2.2 scenario_frame
    (List.replicate 528 0) 528 (by decide)).2.2 [0x54, 0xFF, 0x5E, 0x01]

/-! ## Sync and header bytes on the wire -/

theorem hdb2_sum : ∀ dab < 4, ∀ sab < 4, ∀ pfb < 4, ∀ ack < 4,
    ((dab <<< 6) ||| (sab <<< 4) ||| (pfb <<< 2) ||| (ack <<< 0)) % 256 =
      dab * 64 + sab * 16 + pfb * 4 + ack := by
  decide

theorem hdb1_sum : ∀ cmd < 2, ∀ edm < 8, ∀ ndb < 16,
    ((cmd <<< 7) ||| (edm <<< 4) ||| (ndb <<< 0)) % 256 = cmd * 128 + edm * 16 + ndb := by
  decide

set_option maxRecDepth 100000 in
theorem hdb_repack : ∀ x < 256,
    enc_hdb2 { dab := SNAP_GET_BITS x SNAP_HDB2_DAB_MASK SNAP_HDB2_DAB_POS,
               sab := SNAP_GET_BITS x SNAP_HDB2_SAB_MASK SNAP_HDB2_SAB_POS,
               pfb := SNAP_GET_BITS x SNAP_HDB2_PFB_MASK SNAP_HDB2_PFB_POS,
               ack := SNAP_GET_BITS x SNAP_HDB2_ACK_MASK SNAP_HDB2_ACK_POS,
               cmd := 0, edm := 0, ndb := 0 } = x ∧
    enc_hdb1 { dab := 0, sab := 0, pfb := 0, ack := 0,
               cmd := SNAP_GET_BITS x SNAP_HDB1_CMD_MASK SNAP_HDB1_CMD_POS,
               edm := SNAP_GET_BITS x SNAP_HDB1_EDM_MASK SNAP_HDB1_EDM_POS,
               ndb := SNAP_GET_BITS x SNAP_HDB1_NDB_MASK SNAP_HDB1_NDB_POS } = x := by
  decide

/-- C33: on success `snap_encapsulate` writes `buffer[0] = 0x54`,
`buffer[1] = dab*64 + sab*16 + pfb*4 + ack` and `buffer[2] = cmd*128 + edm*16 + ndb` with
`ndb = snap_getNdbFromDataSize(dataSize)` (the data size being 0 for a `NULL` data
pointer); the accessors SNAP_HDB2_DAB/SAB/PFB/ACK and SNAP_HDB1_CMD/EDM/NDB recover each
field from those two bytes, and packing the unpacked fields of any two header bytes gives
back the same two bytes. -/
theorem snap_wire_header (cfg : snap_build_t) (hcfg : cfg.SNAP_SIZE_USER_HASH ≤ 4)
    (frame : snap_frame_t) (fields : snap_fields_t) (hh : snap_header_ok fields.header)
    (hfit : enc_total cfg fields ≤ frame.maxSize) (hl : 3 ≤ frame.buffer.length) :
    (snap_encapsulate cfg frame fields).1 = SNAP_STATUS_VALID ∧
    (snap_encapsulate cfg frame fields).2.1.buffer[0]? = some 0x54 ∧
    (snap_encapsulate cfg frame fields).2.1.buffer[1]? =
      some (fields.header.dab * 64 + fields.header.sab * 16 + fields.header.pfb * 4 +
        fields.header.ack) ∧
    (snap_encapsulate cfg frame fields).2.1.buffer[2]? =
      some (fields.header.cmd * 128 + fields.header.edm * 16 +
        snap_getNdbFromDataSize (enc_dataSize fields)) ∧
    (snap_encapsulate cfg frame fields).2.2.header.ndb =
      snap_getNdbFromDataSize (enc_dataSize fields) ∧
    (SNAP_HDB2_DAB (snap_encapsulate cfg frame fields).2.1.buffer = fields.header.dab ∧
     SNAP_HDB2_SAB (snap_encapsulate cfg frame fields).2.1.buffer = fields.header.sab ∧
     SNAP_HDB2_PFB (snap_encapsulate cfg frame fields).2.1.buffer = fields.header.pfb ∧
     SNAP_HDB2_ACK (snap_encapsulate cfg frame fields).2.1.buffer = fields.header.ack ∧
     SNAP_HDB1_CMD (snap_encapsulate cfg frame fields).2.1.buffer = fields.header.cmd ∧
     SNAP_HDB1_EDM (snap_encapsulate cfg frame fields).2.1.buffer = fields.header.edm ∧
     SNAP_HDB1_NDB (snap_encapsulate cfg frame fields).2.1.buffer =
       snap_getNdbFromDataSize (enc_dataSize fields)) ∧
    (∀ x y, x < 256 → y < 256 →
      enc_hdb2 { dab := SNAP_GET_BITS x SNAP_HDB2_DAB_MASK SNAP_HDB2_DAB_POS,
                 sab := SNAP_GET_BITS x SNAP_HDB2_SAB_MASK SNAP_HDB2_SAB_POS,
                 pfb := SNAP_GET_BITS x SNAP_HDB2_PFB_MASK SNAP_HDB2_PFB_POS,
                 ack := SNAP_GET_BITS x SNAP_HDB2_ACK_MASK SNAP_HDB2_ACK_POS,
                 cmd := SNAP_GET_BITS y SNAP_HDB1_CMD_MASK SNAP_HDB1_CMD_POS,
                 edm := SNAP_GET_BITS y SNAP_HDB1_EDM_MASK SNAP_HDB1_EDM_POS,
                 ndb := SNAP_GET_BITS y SNAP_HDB1_NDB_MASK SNAP_HDB1_NDB_POS } = x ∧
      enc_hdb1 { dab := SNAP_GET_BITS x SNAP_HDB2_DAB_MASK SNAP_HDB2_DAB_POS,
                 sab := SNAP_GET_BITS x SNAP_HDB2_SAB_MASK SNAP_HDB2_SAB_POS,
                 pfb := SNAP_GET_BITS x SNAP_HDB2_PFB_MASK SNAP_HDB2_PFB_POS,
                 ack := SNAP_GET_BITS x SNAP_HDB2_ACK_MASK SNAP_HDB2_ACK_POS,
                 cmd := SNAP_GET_BITS y SNAP_HDB1_CMD_MASK SNAP_HDB1_CMD_POS,
                 edm := SNAP_GET_BITS y SNAP_HDB1_EDM_MASK SNAP_HDB1_EDM_POS,
                 ndb := SNAP_GET_BITS y SNAP_HDB1_NDB_MASK SNAP_HDB1_NDB_POS } = y) := by
  obtain ⟨e0, e1, e2⟩ := enc_hashed_head cfg hcfg frame fields hh hl
  have hok := enc_fields_header_ok fields hh
  have hhdr := enc_fields_header fields
  obtain ⟨a1, a2, a3, a4, a5, a6, a7⟩ := hh
  have hndb : snap_getNdbFromDataSize (enc_dataSize fields) < 16 := by
    have := snap_getNdbFromDataSize_le (enc_dataSize fields)
    omega
  have p2 : enc_hdb2 (enc_fields fields).header =
      fields.header.dab * 64 + fields.header.sab * 16 + fields.header.pfb * 4 +
        fields.header.ack := by
    rw [hhdr]
    exact hdb2_sum _ a1 _ a2 _ a3 _ a4
  have p1 : enc_hdb1 (enc_fields fields).header =
      fields.header.cmd * 128 + fields.header.edm * 16 +
        snap_getNdbFromDataSize (enc_dataSize fields) := by
    rw [hhdr]
    exact hdb1_sum _ a5 _ a6 _ hndb
  have hm := header_macros (enc_hashed cfg frame fields).buffer (enc_fields fields).header hok
    e1 e2
  rw [hhdr] at hm
  rw [snap_encapsulate_fit cfg frame fields ⟨a1, a2, a3, a4, a5, a6, a7⟩ hfit]
  refine ⟨rfl, e0, ?_, ?_, ?_, hm, ?_⟩
  · show (enc_hashed cfg frame fields).buffer[1]? = _
    rw [e1, p2]
  · show (enc_hashed cfg frame fields).buffer[2]? = _
    rw [e2, p1]
  · show (enc_fields fields).header.ndb = _
    rw [hhdr]
  · intro x y hx hy
    exact ⟨(hdb_repack x hx).1, (hdb_repack y hy).2⟩

set_option maxRecDepth 100000 in
theorem snap_wire_header_witness :
    (snap_encapsulate snap_build_default scenario_frame scenario_fields).2.1.buffer[1]? =
      some (scenario_fields.header.dab * 64 + scenario_fields.header.sab * 16 +
        scenario_fields.header.pfb * 4 + scenario_fields.header.ack) :=
  (snap_wire_header snap_build_default (by decide) scenario_frame scenario_fields (by decide)
    (by decide) (by decide)).2.2.1

/-! ## Address and flag bytes on the wire -/

theorem byte_of_mod (v n i : Nat) (hi : i < n) :
    ((v % 256 ^ n) >>> (i * 8)) &&& 0xFF = (v >>> (i * 8)) &&& 0xFF := by
  rw [be_byte, be_byte]
  have hp : 256 ^ n = 256 ^ i * 256 ^ (n - i) := by
    rw [← pow_add]; congr 1; omega
  have hd : 256 ∣ 256 ^ (n - i) := dvd_pow_self 256 (by omega)
  rw [hp, Nat.mod_mul_right_div_self, Nat.mod_mod_of_dvd _ hd]

theorem snap_encapsulate_put_mod (v n : Nat) (i : Nat) :
    ∀ f : snap_frame_t, i ≤ n →
      snap_encapsulate_put (v % 256 ^ n) i f = snap_encapsulate_put v i f := by
  induction i with
  | zero => intro f _; rfl
  | succ i ih =>
    intro f hi
    simp only [snap_encapsulate_put]
    rw [byte_of_mod v n i (by omega)]
    exact ih _ (by omega)

theorem snap_encapsulate_put_congr (v w n : Nat) (h : v % 256 ^ n = w % 256 ^ n)
    (f : snap_frame_t) : snap_encapsulate_put v n f = snap_encapsulate_put w n f := by
  rw [← snap_encapsulate_put_mod v n n f (le_refl _), h,
    snap_encapsulate_put_mod w n n f (le_refl _)]

theorem enc_hashed_addr_congr (cfg : snap_build_t) (frame : snap_frame_t)
    (fields : snap_fields_t) (d s p : Nat)
    (hd : d % 256 ^ fields.header.dab = fields.destAddress % 256 ^ fields.header.dab)
    (hs : s % 256 ^ fields.header.sab = fields.sourceAddress % 256 ^ fields.header.sab)
    (hp : p % 256 ^ fields.header.pfb = fields.protocolFlags % 256 ^ fields.header.pfb) :
    enc_hashed cfg frame
        { fields with destAddress := d, sourceAddress := s, protocolFlags := p } =
      enc_hashed cfg frame fields := by
  have hbase : enc_base frame
      { fields with destAddress := d, sourceAddress := s, protocolFlags := p } =
      enc_base frame fields := rfl
  have hbody : enc_body frame
      { fields with destAddress := d, sourceAddress := s, protocolFlags := p } =
      enc_body frame fields := by
    simp only [enc_body, hbase]
    rw [snap_encapsulate_put_congr d fields.destAddress fields.header.dab hd,
      snap_encapsulate_put_congr s fields.sourceAddress fields.header.sab hs,
      snap_encapsulate_put_congr p fields.protocolFlags fields.header.pfb hp]
    rfl
  simp only [enc_hashed, hbody]

/-- C34: on success `snap_encapsulate` writes, from offset 3 on, `dab` bytes for
`destAddress`, then `sab` bytes for `sourceAddress`, then `pfb` bytes for `protocolFlags`,
each the low-order bytes of the value with the most significant first (byte `k` of a field
of `c` bytes is `value / 256^(c-1-k) mod 256`); the frame is the same for any values that
agree modulo `256^count` (so a value with count 0 is ignored), and `snap_getField` on the
frame returns the count and `value mod 256^count` for each count in 1..3. -/
theorem snap_address_bytes (cfg : snap_build_t) (hcfg : cfg.SNAP_SIZE_USER_HASH ≤ 4)
    (frame : snap_frame_t) (fields : snap_fields_t) (hh : snap_header_ok fields.header)
    (hfit : enc_total cfg fields ≤ frame.maxSize) (hl : frame.maxSize ≤ frame.buffer.length) :
    (snap_encapsulate cfg frame fields).1 = SNAP_STATUS_VALID ∧
    (∀ k, k < fields.header.dab →
      (snap_encapsulate cfg frame fields).2.1.buffer[3 + k]? =
        some (fields.destAddress / 256 ^ (fields.header.dab - 1 - k) % 256)) ∧
    (∀ k, k < fields.header.sab →
      (snap_encapsulate cfg frame fields).2.1.buffer[3 + fields.header.dab + k]? =
        some (fields.sourceAddress / 256 ^ (fields.header.sab - 1 - k) % 256)) ∧
    (∀ k, k < fields.header.pfb →
      (snap_encapsulate cfg frame fields).2.1.buffer[3 + fields.header.dab +
          fields.header.sab + k]? =
        some (fields.protocolFlags / 256 ^ (fields.header.pfb - 1 - k) % 256)) ∧
    (∀ d s p, d % 256 ^ fields.header.dab = fields.destAddress % 256 ^ fields.header.dab →
      s % 256 ^ fields.header.sab = fields.sourceAddress % 256 ^ fields.header.sab →
      p % 256 ^ fields.header.pfb = fields.protocolFlags % 256 ^ fields.header.pfb →
      (snap_encapsulate cfg frame
          { fields with destAddress := d, sourceAddress := s, protocolFlags := p }).2.1 =
        (snap_encapsulate cfg frame fields).2.1) ∧
    (∀ c, 1 ≤ fields.header.dab →
      snap_getField cfg (snap_encapsulate cfg frame fields).2.1 c SNAP_FIELD_DEST_ADDRESS =
        (Int.ofNat fields.header.dab,
          .word (fields.destAddress % 256 ^ fields.header.dab))) ∧
    (∀ c, 1 ≤ fields.header.sab →
      snap_getField cfg (snap_encapsulate cfg frame fields).2.1 c SNAP_FIELD_SOURCE_ADDRESS =
        (Int.ofNat fields.header.sab,
          .word (fields.sourceAddress % 256 ^ fields.header.sab))) ∧
    (∀ c, 1 ≤ fields.header.pfb →
      snap_getField cfg (snap_encapsulate cfg frame fields).2.1 c SNAP_FIELD_PROTOCOL_FLAGS =
        (Int.ofNat fields.header.pfb,
          .word (fields.protocolFlags % 256 ^ fields.header.pfb))) := by
  have hlen : enc_total cfg fields ≤ frame.buffer.length := by omega
  obtain ⟨b1, b2, b3⟩ := enc_hashed_addr cfg hcfg frame fields hh hlen
  obtain ⟨s1, _, _, _⟩ := enc_hashed_fields cfg hcfg frame fields hh
  have hsz : (enc_hashed cfg frame fields).size = enc_total cfg fields := by
    rw [s1, enc_total_eq cfg fields hh]
  have hfit2 : ∀ d s p, enc_total cfg
      { fields with destAddress := d, sourceAddress := s, protocolFlags := p } ≤
      frame.maxSize := fun _ _ _ => hfit
  rw [snap_encapsulate_fit cfg frame fields hh hfit]
  refine ⟨rfl, ?_, ?_, ?_, ?_, ?_, ?_, ?_⟩
  · intro k hk
    show (enc_hashed cfg frame fields).buffer[3 + k]? = _
    rw [b1 k hk, be_byte]
  · intro k hk
    show (enc_hashed cfg frame fields).buffer[3 + fields.header.dab + k]? = _
    rw [b2 k hk, be_byte]
  · intro k hk
    show (enc_hashed cfg frame fields).buffer[3 + fields.header.dab + fields.header.sab + k]? = _
    rw [b3 k hk, be_byte]
  · intro d s p hd hs hp
    have e := snap_encapsulate_fit cfg frame
      { fields with destAddress := d, sourceAddress := s, protocolFlags := p } hh (hfit2 d s p)
    rw [e]
    show ({ enc_hashed cfg frame
        { fields with destAddress := d, sourceAddress := s, protocolFlags := p } with
        status := SNAP_STATUS_VALID } : snap_frame_t) = _
    rw [enc_hashed_addr_congr cfg frame fields d s p hd hs hp]
  · intro c h1
    have := (holder_addr cfg hcfg frame fields hh hlen
      { enc_hashed cfg frame fields with status := SNAP_STATUS_VALID } hsz
      (fun _ _ => rfl) c).1
    rw [if_neg (by omega)] at this
    exact this
  · intro c h1
    have := (holder_addr cfg hcfg frame fields hh hlen
      { enc_hashed cfg frame fields with status := SNAP_STATUS_VALID } hsz
      (fun _ _ => rfl) c).2.1
    rw [if_neg (by omega)] at this
    exact this
  · intro c h1
    have := (holder_addr cfg hcfg frame fields hh hlen
      { enc_hashed cfg frame fields with status := SNAP_STATUS_VALID } hsz
      (fun _ _ => rfl) c).2.2
    rw [if_neg (by omega)] at this
    exact this

set_option maxRecDepth 100000 in
theorem snap_address_bytes_witness :
    snap_getField snap_build_default
        (snap_encapsulate snap_build_default scenario_frame wide_fields).2.1 (.word 0)
        SNAP_FIELD_DEST_ADDRESS =
      (1, .word 0x34) :=
  ((snap_address_bytes snap_build_default (by decide) scenario_frame wide_fields (by decide)
    (by decide) (by decide)).2.2.2.2.2.1 (.word 0) (by decide)).trans (by decide)

/-! ## Data longer than the largest size class -/

theorem enc_dataSize_of_data (fields : snap_fields_t) (hdata : fields.data ≠ .null) :
    enc_dataSize fields = fields.dataSize := by
  unfold enc_dataSize
  cases h : fields.data with
  | null => exact absurd h hdata
  | array bytes => rfl
  | inBuffer offset => rfl

theorem snap_data_holds_ne (data : snap_data_t) (buffer : List Nat) (n : Nat)
    (h : snap_data_holds data buffer n) : data ≠ .null := by
  intro e
  rw [e] at h
  exact h

theorem snap_encapsulate_copy_other (data : snap_data_t) (dataIndex : Nat) (i : Nat) :
    ∀ (buf : List Nat) (j : Nat), j < dataIndex ∨ i < j →
      (snap_encapsulate_copy data dataIndex i buf)[j]? = buf[j]? := by
  induction i with
  | zero =>
    intro buf j hj
    unfold snap_encapsulate_copy
    split_ifs with h
    · rw [List.getElem?_set_ne (by omega)]
    · rfl
  | succ i ih =>
    intro buf j hj
    unfold snap_encapsulate_copy
    split_ifs with h
    · rw [ih _ j (by omega), List.getElem?_set_ne (by omega)]
    · rfl

theorem enc_oversized_arith (fields : snap_fields_t) (hh : snap_header_ok fields.header)
    (hdata : fields.data ≠ .null) (hbig : 512 < fields.dataSize)
    (h16 : fields.dataSize < 65536) :
    enc_dataSize fields = fields.dataSize ∧
    snap_getNdbFromDataSize fields.dataSize = 0 ∧
    enc_payloadSize fields = 0 ∧
    enc_payloadIndex fields = 3 + fields.header.dab + fields.header.sab + fields.header.pfb ∧
    enc_paddingSize fields = 65536 - fields.dataSize := by
  have hds := enc_dataSize_of_data fields hdata
  have hndb : snap_getNdbFromDataSize fields.dataSize = 0 := by
    unfold snap_getNdbFromDataSize
    rw [if_neg (by omega), if_neg (by omega), if_neg (by omega), if_neg (by omega),
      if_neg (by omega), if_neg (by omega), if_neg (by omega)]
  have hps : enc_payloadSize fields = 0 := by
    rw [enc_payloadSize_eq, hds, hndb]; rfl
  refine ⟨hds, hndb, hps, enc_payloadIndex_eq fields hh, ?_⟩
  unfold enc_paddingSize
  rw [hps, hds]
  omega

/-- Bytes of the buffer that the copy loop and the padding loop leave alone when the data
are longer than 512 bytes. -/
theorem enc_payloadBuffer_oversized_other (frame : snap_frame_t) (fields : snap_fields_t)
    (hh : snap_header_ok fields.header) (hdata : fields.data ≠ .null)
    (hbig : 512 < fields.dataSize) (h16 : fields.dataSize < 65536) (j : Nat)
    (hj : 3 + fields.header.dab + fields.header.sab + fields.header.pfb +
      (if fields.paddingAfter then fields.dataSize else 65536 - fields.dataSize) ≤ j) :
    (enc_payloadBuffer frame fields)[j]? = frame.buffer[j]? := by
  obtain ⟨hds, _, hps, hpi, hpad⟩ := enc_oversized_arith fields hh hdata hbig h16
  obtain ⟨a1, a2, a3, _⟩ := hh
  unfold enc_payloadBuffer enc_dataIndex enc_paddingIndex
  rw [hpad, hds, hpi]
  by_cases hpa : fields.paddingAfter = true
  · rw [if_pos hpa] at hj
    simp only [hpa, if_true]
    rw [snap_encapsulate_pad_get, if_neg (by omega),
      snap_encapsulate_copy_other _ _ _ _ _ (by omega)]
  · rw [if_neg hpa] at hj
    simp only [hpa, Bool.false_eq_true, if_false]
    rw [snap_encapsulate_pad_get, if_neg (by omega),
      snap_encapsulate_copy_other _ _ _ _ _ (by omega)]

/-- The data bytes that the copy loop stores when the data are longer than 512 bytes and
follow the payload index (`paddingAfter` true). -/
theorem enc_payloadBuffer_oversized_data (frame : snap_frame_t) (fields : snap_fields_t)
    (bytes : List Nat) (hh : snap_header_ok fields.header) (hdata : fields.data = .array bytes)
    (hlen : fields.dataSize ≤ bytes.length)
    (hbig : 512 < fields.dataSize) (h16 : fields.dataSize < 65536)
    (hpa : fields.paddingAfter = true)
    (hw : 3 + fields.header.dab + fields.header.sab + fields.header.pfb + fields.dataSize ≤
      65536)
    (hroom : 3 + fields.header.dab + fields.header.sab + fields.header.pfb + fields.dataSize ≤
      frame.buffer.length) (k : Nat) (hk : k < fields.dataSize) :
    (enc_payloadBuffer frame fields)[3 + fields.header.dab + fields.header.sab +
      fields.header.pfb + k]? = bytes[k]? := by
  have hne : fields.data ≠ .null := by rw [hdata]; intro h; cases h
  obtain ⟨hds, _, hps, hpi, hpad⟩ := enc_oversized_arith fields hh hne hbig h16
  obtain ⟨a1, a2, a3, _⟩ := hh
  unfold enc_payloadBuffer enc_dataIndex enc_paddingIndex
  rw [hpad, hds, hpi, hdata]
  simp only [hpa, if_true]
  rw [snap_encapsulate_pad_get, if_neg (by omega),
    snap_encapsulate_copy_get _ _ (by omega), if_pos ⟨by omega, by omega, by omega⟩]
  have e : 3 + fields.header.dab + fields.header.sab + fields.header.pfb + k -
      (3 + fields.header.dab + fields.header.sab + fields.header.pfb) = k := by omega
  rw [e, List.getD_eq_getElem?_getD, List.getElem?_eq_getElem (by omega)]
  rfl

/-- The zero bytes that the padding loop stores when the data are longer than 512 bytes and
`paddingAfter` is false. -/
theorem enc_payloadBuffer_oversized_zero (frame : snap_frame_t) (fields : snap_fields_t)
    (hh : snap_header_ok fields.header) (hdata : fields.data ≠ .null)
    (hbig : 512 < fields.dataSize) (h16 : fields.dataSize < 65536)
    (hpa : fields.paddingAfter = false)
    (hroom : 3 + fields.header.dab + fields.header.sab + fields.header.pfb +
      (65536 - fields.dataSize) ≤ frame.buffer.length) (k : Nat)
    (hk : k < 65536 - fields.dataSize) :
    (enc_payloadBuffer frame fields)[3 + fields.header.dab + fields.header.sab +
      fields.header.pfb + k]? = some 0 := by
  obtain ⟨hds, _, hps, hpi, hpad⟩ := enc_oversized_arith fields hh hdata hbig h16
  obtain ⟨a1, a2, a3, _⟩ := hh
  unfold enc_payloadBuffer enc_dataIndex enc_paddingIndex
  rw [hpad, hds, hpi]
  simp only [hpa, Bool.false_eq_true, if_false]
  rw [snap_encapsulate_pad_get,
    if_pos ⟨by omega, by omega, by rw [snap_encapsulate_copy_length]; omega⟩]
  rfl

/-- C39: for a descriptor with a non-null data pointer and `512 < dataSize < 65536`,
`snap_encapsulate` computes size class 0 and payload length 0, so the sum its overflow
check compares with `maxSize` is `3 + dab + sab + pfb + hash bytes`.  Whenever that sum is
at most `maxSize`, on a buffer that holds every byte the call stores (`maxSize` bytes, and
from the payload index the `dataSize` data bytes when `paddingAfter` is true, the
`65536 - dataSize` padding bytes when it is false), the call returns Valid (not
ErrorOverflow) with `size` equal to that sum, the descriptor keeps its `dataSize`, and the
header written declares NDB = 0.  The bytes supplied are stored all the same: past the hash
bytes the buffer holds the data bytes (`paddingAfter` true) or zero bytes (`paddingAfter`
false), and everything beyond them is unchanged. -/
theorem snap_encapsulate_oversized (cfg : snap_build_t) (hcfg : cfg.SNAP_SIZE_USER_HASH ≤ 4)
    (frame : snap_frame_t) (fields : snap_fields_t) (hh : snap_header_ok fields.header)
    (hdata : snap_data_holds fields.data frame.buffer fields.dataSize)
    (hbig : 512 < fields.dataSize) (h16 : fields.dataSize < 65536)
    (hfit : 3 + fields.header.dab + fields.header.sab + fields.header.pfb +
      snap_getHashSizeFromEdm cfg fields.header.edm ≤ frame.maxSize)
    (hl : frame.maxSize ≤ frame.buffer.length)
    (hroom : 3 + fields.header.dab + fields.header.sab + fields.header.pfb +
      (if fields.paddingAfter then fields.dataSize else 65536 - fields.dataSize) ≤
        frame.buffer.length) :
    snap_getNdbFromDataSize fields.dataSize = 0 ∧
    enc_payloadSize fields = 0 ∧
    enc_total cfg fields =
      3 + fields.header.dab + fields.header.sab + fields.header.pfb +
        snap_getHashSizeFromEdm cfg fields.header.edm ∧
    (snap_encapsulate cfg frame fields).1 = SNAP_STATUS_VALID ∧
    (snap_encapsulate cfg frame fields).1 ≠ SNAP_STATUS_ERROR_OVERFLOW ∧
    (snap_encapsulate cfg frame fields).2.1.size =
      3 + fields.header.dab + fields.header.sab + fields.header.pfb +
        snap_getHashSizeFromEdm cfg fields.header.edm ∧
    SNAP_HDB1_NDB (snap_encapsulate cfg frame fields).2.1.buffer = 0 ∧
    (snap_encapsulate cfg frame fields).2.2.header.ndb = 0 ∧
    (snap_encapsulate cfg frame fields).2.2.dataSize = fields.dataSize ∧
    (snap_encapsulate cfg frame fields).2.1.size ≤ frame.buffer.length ∧
    (snap_encapsulate cfg frame fields).2.1.buffer.length = frame.buffer.length ∧
    (∀ j, 3 + fields.header.dab + fields.header.sab + fields.header.pfb +
          snap_getHashSizeFromEdm cfg fields.header.edm ≤ j →
        3 + fields.header.dab + fields.header.sab + fields.header.pfb +
          (if fields.paddingAfter then fields.dataSize else 65536 - fields.dataSize) ≤ j →
        (snap_encapsulate cfg frame fields).2.1.buffer[j]? = frame.buffer[j]?) ∧
    (∀ bytes, fields.data = .array bytes → fields.paddingAfter = true →
        3 + fields.header.dab + fields.header.sab + fields.header.pfb + fields.dataSize ≤
          65536 →
        ∀ k, snap_getHashSizeFromEdm cfg fields.header.edm ≤ k → k < fields.dataSize →
          (snap_encapsulate cfg frame fields).2.1.buffer[3 + fields.header.dab +
            fields.header.sab + fields.header.pfb + k]? = bytes[k]?) ∧
    (fields.paddingAfter = false →
        ∀ k, snap_getHashSizeFromEdm cfg fields.header.edm ≤ k → k < 65536 - fields.dataSize →
          (snap_encapsulate cfg frame fields).2.1.buffer[3 + fields.header.dab +
            fields.header.sab + fields.header.pfb + k]? = some 0) := by
  have hne := snap_data_holds_ne _ _ _ hdata
  obtain ⟨hds, hndb, hps, hpi, _⟩ := enc_oversized_arith fields hh hne hbig h16
  have htot : enc_total cfg fields =
      3 + fields.header.dab + fields.header.sab + fields.header.pfb +
        snap_getHashSizeFromEdm cfg fields.header.edm := by
    unfold enc_total
    rw [hds, hndb]
    have : snap_getDataSizeFromNdb 0 = 0 := rfl
    rw [this]
    omega
  obtain ⟨s1, _, _, s4⟩ := enc_hashed_fields cfg hcfg frame fields hh
  have hl3 : 3 ≤ frame.buffer.length := by omega
  have hm := enc_hashed_macros cfg hcfg frame fields hh hl3
  have hhdr := enc_fields_header fields
  have n1 : SNAP_STATUS_VALID ≠ SNAP_STATUS_ERROR_OVERFLOW := by decide
  have hget : ∀ j, 3 + fields.header.dab + fields.header.sab + fields.header.pfb +
      snap_getHashSizeFromEdm cfg fields.header.edm ≤ j →
      (enc_hashed cfg frame fields).buffer[j]? = (enc_payloadBuffer frame fields)[j]? := by
    intro j hj
    rw [enc_hashed_get cfg hcfg frame fields hh, if_neg (by rw [hps, hpi]; omega),
      enc_body_get_high frame fields hh j (by omega)]
  rw [snap_encapsulate_fit cfg frame fields hh (by rw [htot]; exact hfit)]
  have hsz : (enc_hashed cfg frame fields).size =
      3 + fields.header.dab + fields.header.sab + fields.header.pfb +
        snap_getHashSizeFromEdm cfg fields.header.edm := by
    rw [s1, enc_total_eq cfg fields hh, htot]
  refine ⟨hndb, hps, htot, rfl, n1, hsz, ?_, ?_, hds, ?_, s4, ?_, ?_, ?_⟩
  · show SNAP_HDB1_NDB (enc_hashed cfg frame fields).buffer = 0
    rw [hm.2.2.2.2.2.2, hds, hndb]
  · show (enc_fields fields).header.ndb = 0
    rw [hhdr]
    show snap_getNdbFromDataSize (enc_dataSize fields) = 0
    rw [hds, hndb]
  · show (enc_hashed cfg frame fields).size ≤ _
    omega
  · intro j hj1 hj2
    show (enc_hashed cfg frame fields).buffer[j]? = _
    rw [hget j hj1]
    exact enc_payloadBuffer_oversized_other frame fields hh hne hbig h16 j hj2
  · intro bytes hb hpa hw k hk1 hk2
    have hlen : fields.dataSize ≤ bytes.length := by
      have := hdata
      rw [hb] at this
      exact this
    rw [if_pos hpa] at hroom
    show (enc_hashed cfg frame fields).buffer[_]? = _
    rw [hget _ (by omega)]
    exact enc_payloadBuffer_oversized_data frame fields bytes hh hb hlen hbig h16 hpa hw hroom
      k hk2
  · intro hpa k hk1 hk2
    rw [if_neg (by rw [hpa]; decide)] at hroom
    show (enc_hashed cfg frame fields).buffer[_]? = _
    rw [hget _ (by omega)]
    exact enc_payloadBuffer_oversized_zero frame fields hh hne hbig h16 hpa hroom k hk2

set_option maxRecDepth 100000 in
theorem snap_encapsulate_oversized_witness :
    (snap_encapsulate snap_build_default (init_frame (List.replicate 528 0) 528)
      { scenario_fields with data := .array (List.replicate 520 0xAA), dataSize := 520 }).1 =
      SNAP_STATUS_VALID :=
  (snap_encapsulate_oversized snap_build_default (by decide)
    (init_frame (List.replicate 528 0) 528)
    { scenario_fields with data := .array (List.replicate 520 0xAA), dataSize := 520 }
    (by decide) (by decide) (by decide) (by decide) (by decide) (by decide)
    (by decide)).2.2.2.1

/-! ## Data that lie in the frame buffer -/

theorem snap_encapsulate_copy_alias_get (off dataIndex : Nat) (hd : 1 ≤ dataIndex) (i : Nat) :
    ∀ buf : List Nat, (off ≤ dataIndex ∨ i < off) → ∀ j,
      (snap_encapsulate_copy (.inBuffer off) dataIndex i buf)[j]? =
        if dataIndex ≤ j ∧ j ≤ i ∧ j < buf.length then
          some (buf.getD (off + (j - dataIndex)) 0)
        else buf[j]? := by
  induction i with
  | zero =>
    intro buf _ j
    have h1 : ¬ (0 ≥ dataIndex) := by omega
    have h2 : ¬ (dataIndex ≤ j ∧ j ≤ 0 ∧ j < buf.length) := by omega
    simp only [snap_encapsulate_copy, h1, h2, if_false]
  | succ i ih =>
    intro buf hsafe j
    simp only [snap_encapsulate_copy]
    by_cases h : i + 1 ≥ dataIndex
    · have hsafe2 : off ≤ dataIndex ∨ i < off := by omega
      rw [if_pos h, ih _ hsafe2 j, List.length_set]
      by_cases h1 : dataIndex ≤ j ∧ j ≤ i ∧ j < buf.length
      · have h2 : dataIndex ≤ j ∧ j ≤ i + 1 ∧ j < buf.length := by omega
        rw [if_pos h1, if_pos h2]
        have hne : i + 1 ≠ off + (j - dataIndex) := by omega
        rw [List.getD_eq_getElem?_getD, List.getElem?_set_ne hne, ← List.getD_eq_getElem?_getD]
      · rw [if_neg h1]
        by_cases h3 : i + 1 = j
        · subst h3
          by_cases h4 : i + 1 < buf.length
          · have h2 : dataIndex ≤ i + 1 ∧ i + 1 ≤ i + 1 ∧ i + 1 < buf.length := by omega
            rw [if_pos h2, List.getElem?_set_self h4]
            rfl
          · have h2 : ¬ (dataIndex ≤ i + 1 ∧ i + 1 ≤ i + 1 ∧ i + 1 < buf.length) := by omega
            rw [if_neg h2, List.getElem?_eq_none (by rw [List.length_set]; omega),
              List.getElem?_eq_none (by omega)]
        · have h2 : ¬ (dataIndex ≤ j ∧ j ≤ i + 1 ∧ j < buf.length) := by omega
          rw [if_neg h2, List.getElem?_set_ne h3]
    · have h2 : ¬ (dataIndex ≤ j ∧ j ≤ i + 1 ∧ j < buf.length) := by omega
      rw [if_neg h, if_neg h2]

/-- The copy loop reading its source in the buffer gives what it gives on a separate copy
of the source bytes, when the source does not start above the destination inside it. -/
theorem snap_encapsulate_copy_alias (off dataIndex n : Nat) (hd : 1 ≤ dataIndex)
    (buf : List Nat) (i : Nat) (hi : i < dataIndex + n) (hsafe : off ≤ dataIndex ∨ i < off) :
    snap_encapsulate_copy (.inBuffer off) dataIndex i buf =
      snap_encapsulate_copy (.array ((buf.drop off).take n)) dataIndex i buf := by
  apply List.ext_getElem?
  intro j
  rw [snap_encapsulate_copy_alias_get off dataIndex hd i buf hsafe j,
    snap_encapsulate_copy_get _ dataIndex hd i buf j]
  by_cases h1 : dataIndex ≤ j ∧ j ≤ i ∧ j < buf.length
  · rw [if_pos h1, if_pos h1]
    have hk : j - dataIndex < n := by omega
    rw [List.getD_eq_getElem?_getD, List.getD_eq_getElem?_getD, List.getElem?_take_of_lt hk,
      List.getElem?_drop]
  · rw [if_neg h1, if_neg h1]

theorem enc_hashed_alias (cfg : snap_build_t) (frame : snap_frame_t) (fields : snap_fields_t)
    (hh : snap_header_ok fields.header) (hn : fields.dataSize ≤ 512) (off : Nat)
    (hsafe : off ≤ enc_dataIndex { fields with data := .inBuffer off } ∨
      enc_dataIndex { fields with data := .inBuffer off } + fields.dataSize ≤ off) :
    enc_hashed cfg frame { fields with data := .inBuffer off } =
      enc_hashed cfg frame
        { fields with data := .array ((frame.buffer.drop off).take fields.dataSize) } := by
  have hlenb : ((frame.buffer.drop off).take fields.dataSize).length ≤ 512 := by
    rw [List.length_take]; omega
  have hpi := enc_payloadIndex_eq { fields with data := .inBuffer off } hh
  have hps : fields.dataSize ≤ enc_payloadSize { fields with data := .inBuffer off } := by
    rw [enc_payloadSize_eq]
    exact snap_getDataSize_ge fields.dataSize hn
  have hps2 : enc_payloadSize { fields with data := .inBuffer off } ≤ 512 :=
    snap_getDataSizeFromNdb_le _
  have hpad : enc_paddingSize { fields with data := .inBuffer off } =
      enc_payloadSize { fields with data := .inBuffer off } - fields.dataSize := by
    show (enc_payloadSize { fields with data := .inBuffer off } + 65536 - fields.dataSize) %
      65536 = _
    omega
  obtain ⟨a1, a2, a3, _⟩ := hh
  have hpi2 : enc_payloadIndex { fields with data := .inBuffer off } =
      3 + fields.header.dab + fields.header.sab + fields.header.pfb := hpi
  have hdi : 3 ≤ enc_dataIndex { fields with data := .inBuffer off } ∧
      enc_dataIndex { fields with data := .inBuffer off } ≤ 12 + 512 := by
    unfold enc_dataIndex
    rw [hpad, hpi2]
    split_ifs <;> omega
  have hstart : (enc_dataIndex { fields with data := .inBuffer off } + fields.dataSize +
      65535) % 65536 =
      enc_dataIndex { fields with data := .inBuffer off } + fields.dataSize - 1 := by
    omega
  have hcopy : snap_encapsulate_copy (.inBuffer off)
      (enc_dataIndex { fields with data := .inBuffer off })
      ((enc_dataIndex { fields with data := .inBuffer off } + fields.dataSize + 65535) % 65536)
      frame.buffer =
      snap_encapsulate_copy (.array ((frame.buffer.drop off).take fields.dataSize))
        (enc_dataIndex { fields with data := .inBuffer off })
        ((enc_dataIndex { fields with data := .inBuffer off } + fields.dataSize + 65535) % 65536)
        frame.buffer := by
    rw [hstart]
    exact snap_encapsulate_copy_alias off _ fields.dataSize (by omega) frame.buffer _
      (by omega) (by omega)
  have hpb : enc_payloadBuffer frame { fields with data := .inBuffer off } =
      enc_payloadBuffer frame
        { fields with data := .array ((frame.buffer.drop off).take fields.dataSize) } := by
    show snap_encapsulate_pad _ _ (snap_encapsulate_copy (.inBuffer off)
      (enc_dataIndex { fields with data := .inBuffer off })
      ((enc_dataIndex { fields with data := .inBuffer off } + fields.dataSize + 65535) % 65536)
      frame.buffer) = _
    rw [hcopy]
    rfl
  have hbase : enc_base frame { fields with data := .inBuffer off } =
      enc_base frame
        { fields with data := .array ((frame.buffer.drop off).take fields.dataSize) } := by
    simp only [enc_base, hpb]
    rfl
  have hbody : enc_body frame { fields with data := .inBuffer off } =
      enc_body frame
        { fields with data := .array ((frame.buffer.drop off).take fields.dataSize) } := by
    simp only [enc_body, hbase]
    rfl
  simp only [enc_hashed, hbody]

/-- The encoder on data that lie in the frame buffer, at an offset that is not above the
data slot inside it: the outcome is the one on a separate copy of the source bytes. -/
theorem snap_encapsulate_alias (cfg : snap_build_t) (hcfg : cfg.SNAP_SIZE_USER_HASH ≤ 4)
    (frame : snap_frame_t) (fields : snap_fields_t) (hh : snap_header_ok fields.header)
    (hn : fields.dataSize ≤ 512) (off : Nat) (hsrc : off + fields.dataSize ≤ frame.buffer.length)
    (hsafe : off ≤ enc_dataIndex { fields with data := .inBuffer off } ∨
      enc_dataIndex { fields with data := .inBuffer off } + fields.dataSize ≤ off)
    (hfit : enc_total cfg { fields with data := .inBuffer off } ≤ frame.maxSize)
    (hl : frame.maxSize ≤ frame.buffer.length) :
    (snap_encapsulate cfg frame { fields with data := .inBuffer off }).1 = SNAP_STATUS_VALID ∧
    (snap_encapsulate cfg frame { fields with data := .inBuffer off }).2.1 =
      (snap_encapsulate cfg frame
        { fields with data := .array ((frame.buffer.drop off).take fields.dataSize) }).2.1 ∧
    (((snap_encapsulate cfg frame { fields with data := .inBuffer off }).2.1.buffer.drop
        (3 + fields.header.dab + fields.header.sab + fields.header.pfb)).take
        (snap_getDataSizeFromNdb (snap_getNdbFromDataSize fields.dataSize)) =
      (if fields.paddingAfter then
        (frame.buffer.drop off).take fields.dataSize ++ List.replicate
          (snap_getDataSizeFromNdb (snap_getNdbFromDataSize fields.dataSize) - fields.dataSize)
          0x00
       else List.replicate
          (snap_getDataSizeFromNdb (snap_getNdbFromDataSize fields.dataSize) - fields.dataSize)
          0x00 ++ (frame.buffer.drop off).take fields.dataSize)) := by
  have hblen : ((frame.buffer.drop off).take fields.dataSize).length = fields.dataSize := by
    rw [List.length_take, List.length_drop]; omega
  have hfitB : enc_total cfg
      { fields with data := .array ((frame.buffer.drop off).take fields.dataSize) } ≤
      frame.maxSize := hfit
  have eA := snap_encapsulate_fit cfg frame { fields with data := .inBuffer off } hh hfit
  have eB := snap_encapsulate_fit cfg frame
    { fields with data := .array ((frame.buffer.drop off).take fields.dataSize) } hh hfitB
  have hal := enc_hashed_alias cfg frame fields hh hn off hsafe
  have hpl := enc_payload_list cfg hcfg frame
    { fields with data := .array ((frame.buffer.drop off).take fields.dataSize) }
    ((frame.buffer.drop off).take fields.dataSize) rfl hblen.symm (by rw [hblen]; exact hn) hh
    (by omega)
  have hpi := enc_payloadIndex_eq
    { fields with data := .array ((frame.buffer.drop off).take fields.dataSize) } hh
  have hps := enc_payloadSize_eq
    { fields with data := .array ((frame.buffer.drop off).take fields.dataSize) }
  have hpi2 : enc_payloadIndex
      { fields with data := .array ((frame.buffer.drop off).take fields.dataSize) } =
      3 + fields.header.dab + fields.header.sab + fields.header.pfb := hpi
  have hps2 : enc_payloadSize
      { fields with data := .array ((frame.buffer.drop off).take fields.dataSize) } =
      snap_getDataSizeFromNdb (snap_getNdbFromDataSize fields.dataSize) := hps
  rw [hpi2, hps2, hblen] at hpl
  rw [eA, eB]
  refine ⟨rfl, ?_, ?_⟩
  · show ({ enc_hashed cfg frame { fields with data := .inBuffer off } with
        status := SNAP_STATUS_VALID } : snap_frame_t) = _
    rw [hal]
  · show ((enc_hashed cfg frame { fields with data := .inBuffer off }).buffer.drop _).take _ = _
    rw [hal]
    exact hpl

/-- C31: when the descriptor's data array is the frame buffer itself (the `n ≤ 512` data
bytes are `buffer[0 .. n-1]`) and the frame fits, `snap_encapsulate` produces the frame it
produces when given a separate copy of those bytes; the payload holds the original
`buffer[0 .. n-1]` and the padding, in the order `paddingAfter` selects. -/
theorem snap_encapsulate_self_copy (cfg : snap_build_t) (hcfg : cfg.SNAP_SIZE_USER_HASH ≤ 4)
    (frame : snap_frame_t) (fields : snap_fields_t) (hh : snap_header_ok fields.header)
    (hn : fields.dataSize ≤ 512)
    (hfit : enc_total cfg { fields with data := .inBuffer 0 } ≤ frame.maxSize)
    (hl : frame.maxSize ≤ frame.buffer.length) :
    (snap_encapsulate cfg frame { fields with data := .inBuffer 0 }).1 = SNAP_STATUS_VALID ∧
    (snap_encapsulate cfg frame { fields with data := .inBuffer 0 }).2.1 =
      (snap_encapsulate cfg frame
        { fields with data := .array (frame.buffer.take fields.dataSize) }).2.1 ∧
    (((snap_encapsulate cfg frame { fields with data := .inBuffer 0 }).2.1.buffer.drop
        (3 + fields.header.dab + fields.header.sab + fields.header.pfb)).take
        (snap_getDataSizeFromNdb (snap_getNdbFromDataSize fields.dataSize)) =
      (if fields.paddingAfter then
        frame.buffer.take fields.dataSize ++ List.replicate
          (snap_getDataSizeFromNdb (snap_getNdbFromDataSize fields.dataSize) - fields.dataSize)
          0x00
       else List.replicate
          (snap_getDataSizeFromNdb (snap_getNdbFromDataSize fields.dataSize) - fields.dataSize)
          0x00 ++ frame.buffer.take fields.dataSize)) := by
  have hge := snap_getDataSize_ge fields.dataSize hn
  have htot : enc_total cfg { fields with data := .inBuffer 0 } =
      3 + fields.header.dab + fields.header.sab + fields.header.pfb +
        snap_getDataSizeFromNdb (snap_getNdbFromDataSize fields.dataSize) +
        snap_getHashSizeFromEdm cfg fields.header.edm := rfl
  exact snap_encapsulate_alias cfg hcfg frame fields hh hn 0 (by omega)
    (Or.inl (Nat.zero_le _)) hfit hl

set_option maxRecDepth 100000 in
theorem snap_encapsulate_self_copy_witness :
    (snap_encapsulate snap_build_default
        { buffer := [0xAA, 0xBB, 3, 4, 5, 6, 7, 8], maxSize := 8, size := 0,
          status := SNAP_STATUS_IDLE }
        { scenario_fields with data := .inBuffer 0 }).2.1.buffer =
      [0x54, 0x40, 0x32, 0x05, 0xAA, 0xBB, 0x88, 8] :=
  (congrArg snap_frame_t.buffer
    (snap_encapsulate_self_copy snap_build_default (by decide)
      { buffer := [0xAA, 0xBB, 3, 4, 5, 6, 7, 8], maxSize := 8, size := 0,
        status := SNAP_STATUS_IDLE }
      scenario_fields (by decide) (by decide) (by decide) (by decide)).2.1).trans (by decide)

set_option maxRecDepth 100000 in
/-- C35: `snap_encapsulate` documents a safe copy when data and frame buffer are the same
array, and the specification has the data slot hold the original source bytes also when the
source lies in the frame buffer above the slot and overlaps it.  The function's only copy
loop runs right-to-left and does not do that: on the buffer `00 00 00 00 AA BB 00 00` as
`snap_init` leaves it, with the two data bytes at offset 4 and the data slot at offset 3,
the call returns Valid with size 6 and the data slot holds `BB BB`, whereas given a separate
copy of the same two bytes it holds `AA BB`. -/
theorem snap_encapsulate_copy_overlap :
    (snap_init (some overlap_frame) (some overlap_frame.buffer) 8).2 = some overlap_frame ∧
    enc_dataIndex overlap_fields = 3 ∧
    (overlap_frame.buffer.drop 4).take 2 = [0xAA, 0xBB] ∧
    (snap_encapsulate snap_build_default overlap_frame overlap_fields).1 = SNAP_STATUS_VALID ∧
    (snap_encapsulate snap_build_default overlap_frame overlap_fields).2.1.size = 6 ∧
    (snap_encapsulate snap_build_default overlap_frame overlap_fields).2.1.buffer =
      [0x54, 0x00, 0x32, 0xBB, 0xBB, 0xA2, 0, 0] ∧
    ((snap_encapsulate snap_build_default overlap_frame overlap_fields).2.1.buffer.drop 3).take
      2 = [0xBB, 0xBB] ∧
    ((snap_encapsulate snap_build_default overlap_frame overlap_fields).2.1.buffer.drop 3).take
      2 ≠ (overlap_frame.buffer.drop 4).take 2 ∧
    (snap_encapsulate snap_build_default overlap_frame
      { overlap_fields with data := .array [0xAA, 0xBB] }).2.1.buffer =
      [0x54, 0x00, 0x32, 0xAA, 0xBB, 0x8A, 0, 0] := by
  decide

/-- Where the right-to-left copy loop of `snap_encapsulate` is safe: when the data source
lies inside the frame buffer at an offset not greater than the offset of the payload's data
slot, or at least `n` bytes beyond it (the regions do not overlap), and the frame fits, the
outcome is the one obtained when the source does not alias the buffer, and the data slot
holds the original `n` source bytes. -/
theorem snap_encapsulate_copy_direction (cfg : snap_build_t)
    (hcfg : cfg.SNAP_SIZE_USER_HASH ≤ 4) (frame : snap_frame_t) (fields : snap_fields_t)
    (hh : snap_header_ok fields.header) (hn : fields.dataSize ≤ 512) (off : Nat)
    (hsrc : off + fields.dataSize ≤ frame.buffer.length)
    (hsafe : off ≤ enc_dataIndex { fields with data := .inBuffer off } ∨
      enc_dataIndex { fields with data := .inBuffer off } + fields.dataSize ≤ off)
    (hfit : enc_total cfg { fields with data := .inBuffer off } ≤ frame.maxSize)
    (hl : frame.maxSize ≤ frame.buffer.length) :
    enc_dataIndex { fields with data := .inBuffer off } =
      (if fields.paddingAfter then 3 + fields.header.dab + fields.header.sab + fields.header.pfb
       else 3 + fields.header.dab + fields.header.sab + fields.header.pfb +
         (snap_getDataSizeFromNdb (snap_getNdbFromDataSize fields.dataSize) -
           fields.dataSize)) ∧
    (snap_encapsulate cfg frame { fields with data := .inBuffer off }).2.1 =
      (snap_encapsulate cfg frame
        { fields with data := .array ((frame.buffer.drop off).take fields.dataSize) }).2.1 ∧
    (((snap_encapsulate cfg frame { fields with data := .inBuffer off }).2.1.buffer.drop
        (enc_dataIndex { fields with data := .inBuffer off })).take fields.dataSize =
      (frame.buffer.drop off).take fields.dataSize) := by
  obtain ⟨_, h2, h3⟩ := snap_encapsulate_alias cfg hcfg frame fields hh hn off hsrc hsafe hfit hl
  have hge := snap_getDataSize_ge fields.dataSize hn
  have hple := snap_getDataSizeFromNdb_le (snap_getNdbFromDataSize fields.dataSize)
  have hpi : enc_payloadIndex { fields with data := .inBuffer off } =
      3 + fields.header.dab + fields.header.sab + fields.header.pfb :=
    enc_payloadIndex_eq { fields with data := .inBuffer off } hh
  have hps : enc_payloadSize { fields with data := .inBuffer off } =
      snap_getDataSizeFromNdb (snap_getNdbFromDataSize fields.dataSize) :=
    enc_payloadSize_eq { fields with data := .inBuffer off }
  have hpad : enc_paddingSize { fields with data := .inBuffer off } =
      snap_getDataSizeFromNdb (snap_getNdbFromDataSize fields.dataSize) - fields.dataSize := by
    show (enc_payloadSize { fields with data := .inBuffer off } + 65536 - fields.dataSize) %
      65536 = _
    rw [hps]; omega
  obtain ⟨a1, a2, a3, _⟩ := hh
  have hdi : enc_dataIndex { fields with data := .inBuffer off } =
      (if fields.paddingAfter then 3 + fields.header.dab + fields.header.sab + fields.header.pfb
       else 3 + fields.header.dab + fields.header.sab + fields.header.pfb +
         (snap_getDataSizeFromNdb (snap_getNdbFromDataSize fields.dataSize) -
           fields.dataSize)) := by
    unfold enc_dataIndex
    rw [hpad, hpi]
    show (if fields.paddingAfter = true then _ else _) = _
    split_ifs
    · rfl
    · omega
  have hblen : ((frame.buffer.drop off).take fields.dataSize).length = fields.dataSize := by
    rw [List.length_take, List.length_drop]; omega
  refine ⟨hdi, h2, ?_⟩
  rw [hdi]
  generalize (snap_encapsulate cfg frame { fields with data := .inBuffer off }).2.1.buffer = B
    at h3 ⊢
  generalize hP : snap_getDataSizeFromNdb (snap_getNdbFromDataSize fields.dataSize) = P
    at h3 hge hple ⊢
  generalize hS : (frame.buffer.drop off).take fields.dataSize = S at h3 hblen ⊢
  generalize 3 + fields.header.dab + fields.header.sab + fields.header.pfb = I at h3 ⊢
  apply List.ext_getElem?
  intro k
  by_cases hk : k < fields.dataSize
  · have key : ((B.drop I).take P)[if fields.paddingAfter = true then k
        else P - fields.dataSize + k]? = S[k]? := by
      rw [h3]
      split_ifs with hpa
      · rw [List.getElem?_append_left (by omega)]
      · rw [List.getElem?_append_right (by rw [List.length_replicate]; omega),
          List.length_replicate]
        congr 1
        omega
    split_ifs at key ⊢ with hpa
    · rw [List.getElem?_take_of_lt (by omega), List.getElem?_drop] at key
      rw [List.getElem?_take_of_lt hk, List.getElem?_drop]
      exact key
    · rw [List.getElem?_take_of_lt (by omega), List.getElem?_drop] at key
      rw [List.getElem?_take_of_lt hk, List.getElem?_drop, ← key]
      congr 1
      omega
  · rw [List.getElem?_eq_none (by rw [List.length_take]; omega),
      List.getElem?_eq_none (by omega)]

set_option maxRecDepth 100000 in
theorem snap_encapsulate_copy_direction_witness :
    ((snap_encapsulate snap_build_default
          { buffer := [0, 0, 0, 0, 0, 0, 0xAA, 0xBB], maxSize := 8, size := 0,
            status := SNAP_STATUS_IDLE }
          { data := .inBuffer 6, destAddress := 0, sourceAddress := 0, protocolFlags := 0,
            header := { dab := 0, sab := 0, pfb := 0, ack := 0, cmd := 0, edm := 3, ndb := 0 },
            dataSize := 2, paddingAfter := true }).2.1.buffer.drop 3).take 2 =
      [0xAA, 0xBB] :=
  (snap_encapsulate_copy_direction snap_build_default (by decide)
    { buffer := [0, 0, 0, 0, 0, 0, 0xAA, 0xBB], maxSize := 8, size := 0,
      status := SNAP_STATUS_IDLE }
    { data := .null, destAddress := 0, sourceAddress := 0, protocolFlags := 0,
      header := { dab := 0, sab := 0, pfb := 0, ack := 0, cmd := 0, edm := 3, ndb := 0 },
      dataSize := 2, paddingAfter := true }
    (by decide) (by decide) 6 (by decide) (by decide) (by decide) (by decide)).2.2

/-! ## Functions of the bytes held: congruence -/

theorem edm_congr (b1 b2 : List Nat) (h1 : b1[1]? = b2[1]?) (h2 : b1[2]? = b2[2]?) :
    SNAP_HDB1_EDM b1 = SNAP_HDB1_EDM b2 := by
  obtain ⟨_, e⟩ := header_macros_congr b1 b2 h1 h2
  unfold SNAP_HDB1_EDM
  rw [e]

theorem snap_calculateHash_congr (cfg : snap_build_t) (F1 F2 : snap_frame_t)
    (hsz : F1.size = F2.size) (hag : ∀ j, j < F1.size → F1.buffer[j]? = F2.buffer[j]?)
    (old : Nat) : snap_calculateHash cfg F1 old = snap_calculateHash cfg F2 old := by
  by_cases h3 : F1.size < 3
  · have a1 : F1.size < SNAP_MIN_SIZE_FRAME := h3
    have a2 : F2.size < SNAP_MIN_SIZE_FRAME := by rw [← hsz]; exact h3
    simp only [snap_calculateHash, a1, a2, if_true]
  · have a1 : ¬ F1.size < SNAP_MIN_SIZE_FRAME := h3
    have a2 : ¬ F2.size < SNAP_MIN_SIZE_FRAME := by rw [← hsz]; exact h3
    have g1 := hag 1 (by omega)
    have g2 := hag 2 (by omega)
    obtain ⟨eI, eS, _⟩ := dec_fullSize_congr cfg F1.buffer F2.buffer g1 g2
    have eE := edm_congr F1.buffer F2.buffer g1 g2
    obtain ⟨_, _, _, _, _, _, _, _, m7⟩ := index_bounds F1.buffer
    obtain ⟨_, _, _, _, _, _, _, _, _⟩ := index_bounds F2.buffer
    by_cases h0 : SNAP_SIZE_HASH cfg F1.buffer = 0
    · have h0b : SNAP_SIZE_HASH cfg F2.buffer = 0 := by rw [← eS]; exact h0
      simp only [snap_calculateHash, a1, a2, if_false, h0, h0b, if_true]
    · have h0b : ¬ SNAP_SIZE_HASH cfg F2.buffer = 0 := by rw [← eS]; exact h0
      by_cases hlt : F1.size < SNAP_INDEX_HASH F1.buffer
      · have hI1 : SNAP_INDEX_HASH F1.buffer % 65536 = SNAP_INDEX_HASH F1.buffer := by omega
        have hI2 : SNAP_INDEX_HASH F2.buffer % 65536 = SNAP_INDEX_HASH F2.buffer := by omega
        have hlt2 : F2.size < SNAP_INDEX_HASH F2.buffer := by rw [← hsz, ← eI]; exact hlt
        simp only [snap_calculateHash, a1, a2, if_false, h0, h0b, hI1, hI2, hlt, hlt2, if_true]
      · rw [snap_calculateHash_ok cfg F1 (by omega) h0 (by omega) old,
          snap_calculateHash_ok cfg F2 (by omega) h0b (by rw [← hsz, ← eI]; omega) old,
          ← eS, ← eE, ← eI,
          slice_congr F1.buffer F2.buffer (SNAP_INDEX_HASH F1.buffer)
            (fun j hj => hag j (by omega))]

theorem dec_verdict_congr (cfg : snap_build_t) (hcfg : cfg.SNAP_SIZE_USER_HASH ≤ 4)
    (D1 D2 : snap_frame_t) (hsz : D1.size = D2.size)
    (hag : ∀ j, j < D1.size → D1.buffer[j]? = D2.buffer[j]?) (h3 : 3 ≤ D1.size)
    (hF : dec_fullSize cfg D1.buffer ≤ D1.size) :
    dec_verdict cfg D1 = dec_verdict cfg D2 := by
  have g1 := hag 1 (by omega)
  have g2 := hag 2 (by omega)
  obtain ⟨eI, eS, _⟩ := dec_fullSize_congr cfg D1.buffer D2.buffer g1 g2
  obtain ⟨_, _, _, _, _, _, _, m8⟩ := header_bounds cfg hcfg D1.buffer
  rw [m8] at hF
  have hcalc := snap_calculateHash_congr cfg D1 D2 hsz hag 0
  by_cases h0 : SNAP_SIZE_HASH cfg D1.buffer = 0
  · have h0b : SNAP_SIZE_HASH cfg D2.buffer = 0 := by rw [← eS]; exact h0
    simp [dec_verdict, h0, h0b]
  · have h0b : ¬ SNAP_SIZE_HASH cfg D2.buffer = 0 := by rw [← eS]; exact h0
    have f1 := snap_getField_hash_at cfg hcfg D1 h0 hF (.word 0)
    have f2 := snap_getField_hash_at cfg hcfg D2 h0b (by rw [← eI, ← eS, ← hsz]; exact hF)
      (.word 0)
    have hw := snap_getField_word_congr D1.buffer D2.buffer (SNAP_SIZE_HASH cfg D1.buffer)
      (SNAP_INDEX_HASH D1.buffer) 0 (fun k hk => hag _ (by omega))
    rw [← eI, ← eS, ← hw] at f2
    simp only [dec_verdict, ne_eq, h0, h0b, not_false_eq_true, if_true, f1, f2, hcalc]

/-! ## The decoder and stale buffer contents -/

theorem set_agree (b1 b2 : List Nat) (k x : Nat) (h1 : k < b1.length) (h2 : k < b2.length)
    (hag : ∀ j, j < k → b1[j]? = b2[j]?) :
    ∀ j, j < k + 1 → (b1.set k x)[j]? = (b2.set k x)[j]? := by
  intro j hj
  by_cases hjk : k = j
  · subst hjk
    rw [List.getElem?_set_self h1, List.getElem?_set_self h2]
  · rw [List.getElem?_set_ne hjk, List.getElem?_set_ne hjk]
    exact hag j (by omega)

theorem dec_same_step (cfg : snap_build_t) (hcfg : cfg.SNAP_SIZE_USER_HASH ≤ 4)
    (f1 f2 : snap_frame_t) (b : Nat) (hsame : dec_same f1 f2) (hinv : run_inv cfg f1)
    (hl1 : f1.maxSize ≤ f1.buffer.length) (hl2 : f2.maxSize ≤ f2.buffer.length) :
    (snap_decode cfg f1 b).1 = (snap_decode cfg f2 b).1 ∧
    dec_same (snap_decode cfg f1 b).2 (snap_decode cfg f2 b).2 := by
  obtain ⟨b1, M, k, st⟩ := f1
  obtain ⟨b2, M2, k2, st2⟩ := f2
  obtain ⟨hM, hk, hst, hag⟩ := hsame
  simp only at hM hk hst hag hl1 hl2
  subst hM hk hst
  obtain ⟨a, hle, _, hshape⟩ := hinv
  simp only at a hle hshape
  have nv1 : SNAP_STATUS_VALID ≠ SNAP_STATUS_IDLE := by decide
  have nv2 : SNAP_STATUS_VALID ≠ SNAP_STATUS_INCOMPLETE := by decide
  have nh1 : SNAP_STATUS_ERROR_HASH ≠ SNAP_STATUS_IDLE := by decide
  have nh2 : SNAP_STATUS_ERROR_HASH ≠ SNAP_STATUS_INCOMPLETE := by decide
  have no1 : SNAP_STATUS_ERROR_OVERFLOW ≠ SNAP_STATUS_IDLE := by decide
  have no2 : SNAP_STATUS_ERROR_OVERFLOW ≠ SNAP_STATUS_INCOMPLETE := by decide
  rcases hshape with hs | ⟨hs, h1, hlt, hF⟩ | ⟨hs, _⟩ | ⟨hs, _⟩ | ⟨hs, _⟩
  · subst hs
    by_cases hb : b = SNAP_SYNC
    · subst hb
      rw [snap_decode_idle_sync cfg _ rfl, snap_decode_idle_sync cfg _ rfl]
      refine ⟨rfl, rfl, rfl, rfl, ?_⟩
      intro j hj
      have hj0 : j = 0 := by
        have : j < 1 := hj
        omega
      subst hj0
      show (b1.set 0 SNAP_SYNC)[0]? = (b2.set 0 SNAP_SYNC)[0]?
      rw [List.getElem?_set_self (by omega), List.getElem?_set_self (by omega)]
    · rw [snap_decode_idle_other cfg _ b rfl hb, snap_decode_idle_other cfg _ b rfl hb]
      exact ⟨rfl, rfl, rfl, rfl, hag⟩
  · subst hs
    have hag2 := set_agree b1 b2 k b (by omega) (by omega) hag
    by_cases hk3 : k + 1 < 3
    · rw [snap_decode_incomplete_short cfg b1 M k b hk3,
        snap_decode_incomplete_short cfg b2 M k b hk3]
      exact ⟨rfl, rfl, rfl, rfl, hag2⟩
    · have hk3b : 3 ≤ k + 1 := by omega
      obtain ⟨_, _, eF⟩ := dec_fullSize_congr cfg (b1.set k b) (b2.set k b)
        (hag2 1 (by omega)) (hag2 2 (by omega))
      have hFlt : dec_fullSize cfg (b1.set k b) < 65536 := Nat.mod_lt _ (by norm_num)
      obtain ⟨_, _, _, _, _, _, m7, m8⟩ := header_bounds cfg hcfg (b1.set k b)
      have hFk : 3 ≤ k → k < dec_fullSize cfg (b1.set k b) ∧
          dec_fullSize cfg (b1.set k b) ≤ M := by
        intro h3
        rw [dec_fullSize_set cfg b1 k b h3]
        exact hF h3
      by_cases hov : M < dec_fullSize cfg (b1.set k b)
      · rw [snap_decode_incomplete_overflow cfg b1 M k b hk3b (by omega) hov,
          snap_decode_incomplete_overflow cfg b2 M k b hk3b (by omega) (by rw [← eF]; exact hov)]
        exact ⟨rfl, rfl, rfl, rfl, hag2⟩
      · by_cases hmid : k + 1 < dec_fullSize cfg (b1.set k b)
        · rw [snap_decode_incomplete_mid cfg b1 M k b hk3b hmid (by omega),
            snap_decode_incomplete_mid cfg b2 M k b hk3b (by rw [← eF]; exact hmid)
              (by rw [← eF]; omega)]
          exact ⟨rfl, rfl, rfl, rfl, hag2⟩
        · have hfull : dec_fullSize cfg (b1.set k b) = k + 1 := by
            by_cases h3 : 3 ≤ k
            · have := hFk h3
              omega
            · omega
          have hv := dec_verdict_congr cfg hcfg
            { buffer := b1.set k b, maxSize := M, size := k + 1,
              status := SNAP_STATUS_INCOMPLETE }
            { buffer := b2.set k b, maxSize := M, size := k + 1,
              status := SNAP_STATUS_INCOMPLETE }
            rfl hag2 hk3b (by show dec_fullSize cfg (b1.set k b) ≤ k + 1; omega)
          rw [snap_decode_incomplete_last cfg b1 M k b hk3b hfull (by omega),
            snap_decode_incomplete_last cfg b2 M k b hk3b (by rw [← eF]; exact hfull)
              (by omega), hv]
          exact ⟨rfl, rfl, rfl, rfl, hag2⟩
  · subst hs
    rw [snap_decode_other cfg _ b nv1 nv2, snap_decode_other cfg _ b nv1 nv2]
    exact ⟨rfl, rfl, rfl, rfl, hag⟩
  · subst hs
    rw [snap_decode_other cfg _ b nh1 nh2, snap_decode_other cfg _ b nh1 nh2]
    exact ⟨rfl, rfl, rfl, rfl, hag⟩
  · subst hs
    rw [snap_decode_other cfg _ b no1 no2, snap_decode_other cfg _ b no1 no2]
    exact ⟨rfl, rfl, rfl, rfl, hag⟩

theorem dec_same_run (cfg : snap_build_t) (hcfg : cfg.SNAP_SIZE_USER_HASH ≤ 4)
    (bs : List Nat) :
    ∀ f1 f2 : snap_frame_t, dec_same f1 f2 → run_inv cfg f1 →
      f1.maxSize ≤ f1.buffer.length → f2.maxSize ≤ f2.buffer.length →
      (snap_decode_bytes cfg f1 bs).1 = (snap_decode_bytes cfg f2 bs).1 ∧
      dec_same (snap_decode_bytes cfg f1 bs).2 (snap_decode_bytes cfg f2 bs).2 := by
  induction bs with
  | nil => intro f1 f2 h _ _ _; exact ⟨rfl, h⟩
  | cons b bs ih =>
    intro f1 f2 hsame hinv hl1 hl2
    obtain ⟨e1, hs2⟩ := dec_same_step cfg hcfg f1 f2 b hsame hinv hl1 hl2
    obtain ⟨m1, n1⟩ := snap_decode_fixed cfg f1 b
    obtain ⟨m2, n2⟩ := snap_decode_fixed cfg f2 b
    obtain ⟨e2, hs3⟩ := ih _ _ hs2 (run_inv_decode cfg hcfg f1 b hinv)
      (by rw [m1, n1]; exact hl1) (by rw [m2, n2]; exact hl2)
    simp only [snap_decode_bytes]
    exact ⟨by rw [e1, e2], hs3⟩

/-- C37: for two Idle frames with `size = 0` and the same `maxSize` (at least 3, with that
many bytes of buffer each) whose buffers hold arbitrary, different stale contents, feeding
the same byte sequence to `snap_decode` gives the same returned status after every byte,
the same final status and size, and the first `size` buffer bytes of the two frames
agree. -/
theorem snap_decode_stale (cfg : snap_build_t) (hcfg : cfg.SNAP_SIZE_USER_HASH ≤ 4)
    (f1 f2 : snap_frame_t) (hs1 : f1.status = SNAP_STATUS_IDLE)
    (hs2 : f2.status = SNAP_STATUS_IDLE) (hz1 : f1.size = 0) (hz2 : f2.size = 0)
    (hm : f1.maxSize = f2.maxSize) (h3 : 3 ≤ f1.maxSize)
    (hl1 : f1.maxSize ≤ f1.buffer.length) (hl2 : f2.maxSize ≤ f2.buffer.length)
    (bs : List Nat) :
    (snap_decode_bytes cfg f1 bs).1 = (snap_decode_bytes cfg f2 bs).1 ∧
    (snap_decode_bytes cfg f1 bs).2.status = (snap_decode_bytes cfg f2 bs).2.status ∧
    (snap_decode_bytes cfg f1 bs).2.size = (snap_decode_bytes cfg f2 bs).2.size ∧
    (snap_decode_bytes cfg f1 bs).2.buffer.take (snap_decode_bytes cfg f1 bs).2.size =
      (snap_decode_bytes cfg f2 bs).2.buffer.take (snap_decode_bytes cfg f2 bs).2.size := by
  have hsame : dec_same f1 f2 := by
    refine ⟨hm, by rw [hz1, hz2], by rw [hs1, hs2], ?_⟩
    intro j hj
    rw [hz1] at hj
    exact absurd hj (by omega)
  have hinv : run_inv cfg f1 := by
    refine ⟨h3, by rw [hz1]; exact Nat.zero_le _, ?_, Or.inl hs1⟩
    intro _ h1
    rw [hz1] at h1
    exact absurd h1 (by omega)
  obtain ⟨e1, _, e3, e4, hag⟩ := dec_same_run cfg hcfg bs f1 f2 hsame hinv hl1 hl2
  refine ⟨e1, e4, e3, ?_⟩
  rw [← e3]
  apply List.ext_getElem?
  intro j
  by_cases hj : j < (snap_decode_bytes cfg f1 bs).2.size
  · rw [List.getElem?_take_of_lt hj, List.getElem?_take_of_lt hj]
    exact hag j hj
  · rw [List.getElem?_eq_none (by rw [List.length_take]; omega),
      List.getElem?_eq_none (by rw [List.length_take]; omega)]

set_option maxRecDepth 100000 in
theorem snap_decode_stale_witness :
    (snap_decode_bytes snap_build_default scenario_frame [0x54, 0x00, 0x21, 0x07, 0x28]).1 =
      (snap_decode_bytes snap_build_default
        { buffer := [9, 8, 7, 6, 5, 4, 3, 2, 1, 0, 9, 8, 7, 6, 5, 4], maxSize := 16, size := 0,
          status := SNAP_STATUS_IDLE } [0x54, 0x00, 0x21, 0x07, 0x28]).1 :=
  (snap_decode_stale snap_build_default (by decide) scenario_frame
    { buffer := [9, 8, 7, 6, 5, 4, 3, 2, 1, 0, 9, 8, 7, 6, 5, 4], maxSize := 16, size := 0,
      status := SNAP_STATUS_IDLE }
    rfl rfl rfl rfl rfl (by decide) (by decide) (by decide) [0x54, 0x00, 0x21, 0x07, 0x28]).1

/-! ## What snap_encapsulate writes -/

theorem enc_payloadBuffer_indep (b1 b2 : List Nat) (M1 M2 s1 s2 : Nat) (t1 t2 : Int)
    (fields : snap_fields_t) (bytes : List Nat)
    (hdata : fields.data = .array bytes) (hsize : fields.dataSize = bytes.length)
    (hn : bytes.length ≤ 512) (hh : snap_header_ok fields.header) (j : Nat)
    (hj1 : enc_payloadIndex fields ≤ j) (hj2 : j < enc_payloadIndex fields + enc_payloadSize fields)
    (hl1 : j < b1.length) (hl2 : j < b2.length) :
    (enc_payloadBuffer { buffer := b1, maxSize := M1, size := s1, status := t1 } fields)[j]? =
      (enc_payloadBuffer { buffer := b2, maxSize := M2, size := s2, status := t2 } fields)[j]? := by
  obtain ⟨hds, hge, hp, hps, hdi, hpad⟩ := enc_array_arith fields bytes hdata hsize hn hh
  rw [enc_payloadBuffer_get _ fields bytes hdata hsize hn hh,
    enc_payloadBuffer_get _ fields bytes hdata hsize hn hh]
  have c1 : (j < ({ buffer := b1, maxSize := M1, size := s1, status := t1 } :
      snap_frame_t).buffer.length) = True := eq_true hl1
  have c2 : (j < ({ buffer := b2, maxSize := M2, size := s2, status := t2 } :
      snap_frame_t).buffer.length) = True := eq_true hl2
  simp only [c1, c2, and_true]
  by_cases hpa : fields.paddingAfter = true
  · rw [if_pos hpa] at hdi hpad
    by_cases hd : j < enc_payloadIndex fields + bytes.length
    · rw [if_neg (by omega), if_pos (by omega), if_neg (by omega), if_pos (by omega)]
    · rw [if_pos (by omega), if_pos (by omega)]
  · rw [if_neg hpa] at hdi hpad
    by_cases hd : j < enc_payloadIndex fields + (enc_payloadSize fields - bytes.length)
    · rw [if_pos (by omega), if_pos (by omega)]
    · rw [if_neg (by omega), if_pos (by omega), if_neg (by omega), if_pos (by omega)]

theorem enc_body_indep (b1 b2 : List Nat) (M1 M2 s1 s2 : Nat) (t1 t2 : Int)
    (fields : snap_fields_t) (bytes : List Nat)
    (hdata : fields.data = .array bytes) (hsize : fields.dataSize = bytes.length)
    (hn : bytes.length ≤ 512) (hh : snap_header_ok fields.header) (j : Nat)
    (hj2 : j < enc_payloadIndex fields + enc_payloadSize fields)
    (hl1 : enc_payloadIndex fields + enc_payloadSize fields ≤ b1.length)
    (hl2 : enc_payloadIndex fields + enc_payloadSize fields ≤ b2.length) :
    (enc_body { buffer := b1, maxSize := M1, size := s1, status := t1 } fields).buffer[j]? =
      (enc_body { buffer := b2, maxSize := M2, size := s2, status := t2 } fields).buffer[j]? := by
  have hpi := enc_payloadIndex_eq fields hh
  have h31 : 3 ≤ b1.length := by omega
  have h32 : 3 ≤ b2.length := by omega
  by_cases hlow : j < 3
  · rw [enc_body_get_low _ fields hh j hlow, enc_body_get_low _ fields hh j hlow,
      enc_base_get _ fields h31, enc_base_get _ fields h32]
    have : j = 0 ∨ j = 1 ∨ j = 2 := by omega
    rcases this with h | h | h <;> subst h <;> simp
  · by_cases hhigh : 3 + fields.header.dab + fields.header.sab + fields.header.pfb ≤ j
    · rw [enc_body_get_high _ fields hh j hhigh, enc_body_get_high _ fields hh j hhigh]
      exact enc_payloadBuffer_indep b1 b2 M1 M2 s1 s2 t1 t2 fields bytes hdata hsize hn hh j
        (by omega) hj2 (by omega) (by omega)
    · rw [enc_body_get _ fields hh, enc_body_get _ fields hh]
      have c1 : (j < ({ buffer := b1, maxSize := M1, size := s1, status := t1 } :
          snap_frame_t).buffer.length) = True := eq_true (by show j < b1.length; omega)
      have c2 : (j < ({ buffer := b2, maxSize := M2, size := s2, status := t2 } :
          snap_frame_t).buffer.length) = True := eq_true (by show j < b2.length; omega)
      simp only [c1, c2, and_true]
      split_ifs
      · rfl
      · rfl
      · rfl
      · exfalso; omega

theorem enc_hashed_indep (cfg : snap_build_t) (hcfg : cfg.SNAP_SIZE_USER_HASH ≤ 4)
    (b1 b2 : List Nat) (M1 M2 s1 s2 : Nat) (t1 t2 : Int)
    (fields : snap_fields_t) (bytes : List Nat)
    (hdata : fields.data = .array bytes) (hsize : fields.dataSize = bytes.length)
    (hn : bytes.length ≤ 512) (hh : snap_header_ok fields.header) (j : Nat)
    (hj : j < enc_total cfg fields)
    (hl1 : enc_total cfg fields ≤ b1.length) (hl2 : enc_total cfg fields ≤ b2.length) :
    (enc_hashed cfg { buffer := b1, maxSize := M1, size := s1, status := t1 } fields).buffer[j]? =
      (enc_hashed cfg { buffer := b2, maxSize := M2, size := s2, status := t2 }
        fields).buffer[j]? := by
  have htot := enc_total_eq cfg fields hh
  obtain ⟨z1, _, _, _⟩ :=
    enc_body_fields { buffer := b1, maxSize := M1, size := s1, status := t1 } fields hh
  obtain ⟨z2, _, _, _⟩ :=
    enc_body_fields { buffer := b2, maxSize := M2, size := s2, status := t2 } fields hh
  by_cases hb : j < enc_payloadIndex fields + enc_payloadSize fields
  · rw [enc_hashed_get_body cfg hcfg _ fields hh j hb, enc_hashed_get_body cfg hcfg _ fields hh j hb]
    exact enc_body_indep b1 b2 M1 M2 s1 s2 t1 t2 fields bytes hdata hsize hn hh j hb
      (by omega) (by omega)
  · have hcalc := snap_calculateHash_congr cfg
      (enc_body { buffer := b1, maxSize := M1, size := s1, status := t1 } fields)
      (enc_body { buffer := b2, maxSize := M2, size := s2, status := t2 } fields)
      (by rw [z1, z2])
      (fun i hi => enc_body_indep b1 b2 M1 M2 s1 s2 t1 t2 fields bytes hdata hsize hn hh i
        (by rw [z1] at hi; exact hi) (by omega) (by omega)) 0
    rw [enc_hashed_get cfg hcfg _ fields hh, enc_hashed_get cfg hcfg _ fields hh,
      if_pos ⟨by omega, by omega, by show j < b1.length; omega⟩,
      if_pos ⟨by omega, by omega, by show j < b2.length; omega⟩, hcalc]

theorem enc_hashed_beyond (cfg : snap_build_t) (hcfg : cfg.SNAP_SIZE_USER_HASH ≤ 4)
    (frame : snap_frame_t) (fields : snap_fields_t) (bytes : List Nat)
    (hdata : fields.data = .array bytes) (hsize : fields.dataSize = bytes.length)
    (hn : bytes.length ≤ 512) (hh : snap_header_ok fields.header) (j : Nat)
    (hj : enc_total cfg fields ≤ j) :
    (enc_hashed cfg frame fields).buffer[j]? = frame.buffer[j]? := by
  have htot := enc_total_eq cfg fields hh
  have hpi := enc_payloadIndex_eq fields hh
  obtain ⟨hds, hge, hp, hps, hdi, hpad⟩ := enc_array_arith fields bytes hdata hsize hn hh
  rw [enc_hashed_get cfg hcfg frame fields hh, if_neg (by omega),
    enc_body_get_high frame fields hh j (by omega),
    enc_payloadBuffer_get frame fields bytes hdata hsize hn hh]
  by_cases hpa : fields.paddingAfter = true
  · rw [if_pos hpa] at hdi hpad
    rw [if_neg (by omega), if_neg (by omega)]
  · rw [if_neg hpa] at hdi hpad
    rw [if_neg (by omega), if_neg (by omega)]

/-- C38: for a descriptor with non-aliased data of length `n ≤ 512` and a frame that fits
(`enc_total ≤ maxSize`, with `maxSize` bytes backing the buffer), `snap_encapsulate` returns
Valid with `size = enc_total ≤ maxSize`, which is within the buffer, whose length is unchanged;
every buffer byte at an index `≥ size` keeps its previous value; and every byte at an index
below `size` is written: it is the same whatever frame record of the same capacity the call
started from, so nothing of the previous buffer contents survives below `size`. -/
theorem snap_encapsulate_footprint (cfg : snap_build_t) (hcfg : cfg.SNAP_SIZE_USER_HASH ≤ 4)
    (frame : snap_frame_t) (fields : snap_fields_t) (bytes : List Nat)
    (hdata : fields.data = .array bytes) (hsize : fields.dataSize = bytes.length)
    (hn : bytes.length ≤ 512) (hh : snap_header_ok fields.header)
    (hfit : enc_total cfg fields ≤ frame.maxSize)
    (hl : frame.maxSize ≤ frame.buffer.length) :
    (snap_encapsulate cfg frame fields).1 = SNAP_STATUS_VALID ∧
    (snap_encapsulate cfg frame fields).2.1.size = enc_total cfg fields ∧
    (snap_encapsulate cfg frame fields).2.1.size ≤ frame.maxSize ∧
    (snap_encapsulate cfg frame fields).2.1.size ≤ frame.buffer.length ∧
    (snap_encapsulate cfg frame fields).2.1.buffer.length = frame.buffer.length ∧
    (∀ j, (snap_encapsulate cfg frame fields).2.1.size ≤ j →
      (snap_encapsulate cfg frame fields).2.1.buffer[j]? = frame.buffer[j]?) ∧
    (∀ j, j < (snap_encapsulate cfg frame fields).2.1.size →
      ∃ v, (snap_encapsulate cfg frame fields).2.1.buffer[j]? = some v) ∧
    (∀ other : snap_frame_t, other.maxSize = frame.maxSize →
      other.maxSize ≤ other.buffer.length →
      ∀ j, j < (snap_encapsulate cfg frame fields).2.1.size →
        (snap_encapsulate cfg other fields).2.1.buffer[j]? =
          (snap_encapsulate cfg frame fields).2.1.buffer[j]?) := by
  obtain ⟨s1, _, _, s4⟩ := enc_hashed_fields cfg hcfg frame fields hh
  have htot := enc_total_eq cfg fields hh
  have e := snap_encapsulate_fit cfg frame fields hh hfit
  rw [e]
  have hs : (enc_hashed cfg frame fields).size = enc_total cfg fields := by rw [s1, htot]
  refine ⟨rfl, hs, ?_, ?_, s4, ?_, ?_, ?_⟩
  · show (enc_hashed cfg frame fields).size ≤ _
    omega
  · show (enc_hashed cfg frame fields).size ≤ _
    omega
  · intro j hj
    exact enc_hashed_beyond cfg hcfg frame fields bytes hdata hsize hn hh j
      (by rw [← hs]; exact hj)
  · intro j hj
    have hj2 : j < (enc_hashed cfg frame fields).size := hj
    have hlt : j < (enc_hashed cfg frame fields).buffer.length := by omega
    exact ⟨_, List.getElem?_eq_getElem hlt⟩
  · intro other ho hol j hj
    have hj2 : j < (enc_hashed cfg frame fields).size := hj
    have e2 := snap_encapsulate_fit cfg other fields hh (by omega)
    rw [e2]
    exact enc_hashed_indep cfg hcfg other.buffer frame.buffer other.maxSize frame.maxSize
      other.size frame.size other.status frame.status fields bytes hdata hsize hn hh j
      (by omega) (by omega) (by omega)

theorem snap_encapsulate_footprint_witness :
    (snap_encapsulate snap_build_default scenario_frame scenario_fields).2.1.size = 7 ∧
    (snap_encapsulate snap_build_default scenario_frame scenario_fields).2.1.buffer.length =
      16 :=
  ⟨(snap_encapsulate_footprint snap_build_default (by decide) scenario_frame scenario_fields
      [0xAA, 0xBB] rfl rfl (by decide) (by decide) (by decide) (by decide)).2.1,
    (snap_encapsulate_footprint snap_build_default (by decide) scenario_frame scenario_fields
      [0xAA, 0xBB] rfl rfl (by decide) (by decide) (by decide) (by decide)).2.2.2.2.1⟩

/-! ## Padding round trip -/

theorem snap_getDataSize_small (n : Nat) (hn : n ≤ 8) :
    snap_getDataSizeFromNdb (snap_getNdbFromDataSize n) = n := by
  interval_cases n <;> rfl

theorem snap_getDataSize_large (n : Nat) (hn : 9 ≤ n) (h : n ≤ 512) :
    9 ≤ snap_getDataSizeFromNdb (snap_getNdbFromDataSize n) := by
  have := snap_getDataSize_ge n h
  omega

theorem enc_getField_data (cfg : snap_build_t) (hcfg : cfg.SNAP_SIZE_USER_HASH ≤ 4)
    (frame : snap_frame_t) (fields : snap_fields_t) (bytes : List Nat) (out : List Nat)
    (hdata : fields.data = .array bytes) (hsize : fields.dataSize = bytes.length)
    (h1 : 1 ≤ bytes.length) (hn : bytes.length ≤ 512) (hh : snap_header_ok fields.header)
    (hl : enc_total cfg fields ≤ frame.buffer.length)
    (hout : enc_payloadSize fields ≤ out.length) :
    snap_getField cfg { enc_hashed cfg frame fields with status := SNAP_STATUS_VALID }
        (.bytes out) SNAP_FIELD_DATA =
      (Int.ofNat (enc_payloadSize fields),
        .bytes ((if fields.paddingAfter then
            bytes ++ List.replicate (enc_payloadSize fields - bytes.length) 0
           else List.replicate (enc_payloadSize fields - bytes.length) 0 ++ bytes) ++
          out.drop (enc_payloadSize fields))) := by
  obtain ⟨hds, hge, hp, hps, hdi, hpad⟩ := enc_array_arith fields bytes hdata hsize hn hh
  obtain ⟨s1, s2, s3⟩ := enc_fields_header_sizes cfg fields hh
  have hpi := enc_payloadIndex_eq fields hh
  have hl3 : 3 ≤ frame.buffer.length := by rw [← s3] at hl; omega
  have hlist := enc_payload_list cfg hcfg frame fields bytes hdata hsize hn hh hl
  rw [hpi] at hlist
  obtain ⟨_, e1, e2⟩ := enc_hashed_head cfg hcfg frame fields hh hl3
  have hsz := (enc_hashed_fields cfg hcfg frame fields hh).1
  have hlenB := (enc_hashed_fields cfg hcfg frame fields hh).2.2.2
  have hndb : snap_getDataSizeFromNdb (enc_fields fields).header.ndb =
      enc_payloadSize fields := by
    rw [enc_payloadSize_eq, enc_fields_header]
  have hev := snap_getField_data_eval cfg
    { enc_hashed cfg frame fields with status := SNAP_STATUS_VALID } _
    (enc_fields_header_ok fields hh) e1 e2 (by simp only; rw [hsz, s3, ← s3]; omega) (.bytes out)
  have hd1 : (enc_fields fields).header.dab = fields.header.dab := rfl
  have hd2 : (enc_fields fields).header.sab = fields.header.sab := rfl
  have hd3 : (enc_fields fields).header.pfb = fields.header.pfb := rfl
  simp only [hndb, hd1, hd2, hd3] at hev
  simp only [SNAP_PADDING] at hlist
  have hnz : enc_payloadSize fields ≠ 0 := by omega
  have hnot : ¬ (enc_hashed cfg frame fields).size <
      3 + fields.header.dab + fields.header.sab + fields.header.pfb +
        enc_payloadSize fields := by
    rw [hsz, hpi]; omega
  have hfitb : 3 + fields.header.dab + fields.header.sab + fields.header.pfb +
      enc_payloadSize fields ≤ (enc_hashed cfg frame fields).buffer.length := by
    rw [hlenB]; rw [← s3, hpi] at hl; omega
  rw [hev, if_neg hnz, if_neg hnot]
  rw [snap_getField_copy_eq _ _ _ _ hfitb hout, hlist]

theorem removePadding_undo_after (bytes rest : List Nat) (m : Nat)
    (h9 : 9 ≤ bytes.length + m) (h1 : 1 ≤ bytes.length)
    (hlast : bytes[bytes.length - 1]? ≠ some 0) :
    snap_removePaddingBytes (bytes ++ List.replicate m 0 ++ rest) (bytes.length + m) true =
      some (bytes.length, bytes ++ List.replicate m 0 ++ rest) := by
  obtain ⟨r, hr, hle, hz, hnz⟩ := removePadding_trailing (bytes ++ List.replicate m 0 ++ rest)
    (bytes.length + m) (by simp) h9
  have hget1 : ∀ i, i < bytes.length →
      (bytes ++ List.replicate m 0 ++ rest)[i]? = bytes[i]? := by
    intro i hi
    rw [List.append_assoc, List.getElem?_append_left hi]
  have hget2 : ∀ i, bytes.length ≤ i → i < bytes.length + m →
      (bytes ++ List.replicate m 0 ++ rest)[i]? = some 0 := by
    intro i hi hi2
    rw [List.append_assoc, List.getElem?_append_right hi,
      List.getElem?_append_left (by simp; omega), List.getElem?_replicate]
    rw [if_pos (by omega)]
  have hge : bytes.length ≤ r := by
    by_contra hc
    have := hz (bytes.length - 1) (by omega) (by omega)
    rw [hget1 _ (by omega)] at this
    exact hlast this
  have hle2 : r ≤ bytes.length := by
    by_contra hc
    obtain ⟨x, hx, hx0⟩ := hnz (by omega)
    rw [hget2 _ (by omega) (by omega)] at hx
    exact hx0 (Option.some.inj hx).symm
  have : r = bytes.length := by omega
  rw [hr, this]

theorem removePadding_undo_before (bytes rest : List Nat) (m : Nat)
    (h9 : 9 ≤ bytes.length + m) (h16 : bytes.length + m < 65536) (h1 : 1 ≤ bytes.length)
    (hfirst : bytes[0]? ≠ some 0) :
    ∃ d, snap_removePaddingBytes (List.replicate m 0 ++ bytes ++ rest) (bytes.length + m)
        false = some (bytes.length, d) ∧
      d.take bytes.length = bytes ∧
      d.length = (List.replicate m 0 ++ bytes ++ rest).length := by
  obtain ⟨k, d2, hr, hle, hz, hnz, hlen, hmv, _⟩ :=
    removePadding_leading (List.replicate m 0 ++ bytes ++ rest) (bytes.length + m)
      (by simp; omega) h9 h16
  have hget1 : ∀ i, i < m → (List.replicate m 0 ++ bytes ++ rest)[i]? = some 0 := by
    intro i hi
    rw [List.append_assoc, List.getElem?_append_left (by simp; omega),
      List.getElem?_replicate, if_pos hi]
  have hget2 : ∀ i, i < bytes.length →
      (List.replicate m 0 ++ bytes ++ rest)[m + i]? = bytes[i]? := by
    intro i hi
    rw [List.append_assoc, List.getElem?_append_right (by simp),
      List.getElem?_append_left (by simp; omega)]
    simp
  have hle2 : k ≤ m := by
    by_contra hc
    have := hz m (by omega)
    have e := hget2 0 h1
    rw [Nat.add_zero] at e
    rw [e] at this
    exact hfirst this
  have hge : m ≤ k := by
    by_contra hc
    obtain ⟨x, hx, hx0⟩ := hnz (by omega)
    rw [hget1 _ (by omega)] at hx
    exact hx0 (Option.some.inj hx).symm
  have hk : k = m := by omega
  subst hk
  refine ⟨d2, ?_, ?_, hlen⟩
  · rw [hr]
    have : bytes.length + k - k = bytes.length := by omega
    rw [this]
  · apply List.ext_getElem?
    intro j
    by_cases hj : j < bytes.length
    · rw [List.getElem?_take_of_lt hj, hmv j (by omega), hget2 j hj]
    · rw [List.getElem?_eq_none (by rw [List.length_take]; omega),
        List.getElem?_eq_none (by omega)]

set_option maxRecDepth 100000 in
theorem snap_padding_roundtrip_as_stated_fails :
    (snap_encapsulate snap_build_default scenario_frame empty_fields).1 = SNAP_STATUS_VALID ∧
    snap_getField snap_build_default
        (snap_encapsulate snap_build_default scenario_frame empty_fields).2.1
        (.bytes (List.replicate 16 0)) SNAP_FIELD_DATA =
      (SNAP_ERROR_FRAME_FORMAT, .bytes (List.replicate 16 0)) ∧
    SNAP_ERROR_FRAME_FORMAT < 0 ∧
    (SNAP_ERROR_FRAME_FORMAT % 65536).toNat = 65531 ∧
    snap_removePaddingBytes (List.replicate 16 0) 65531 empty_fields.paddingAfter = none := by
  refine ⟨by decide, by decide, by decide, by decide, ?_⟩
  rfl

/-- C40 (as amended): for data of length `n` with `1 ≤ n ≤ 512` in an array of its own, a
frame that fits and an output array that holds the payload, when `n ≤ 8`, or the last data
byte is not 0x00 (`paddingAfter` true), or the first data byte is not 0x00 (`paddingAfter`
false): `snap_getField` with `SNAP_FIELD_DATA` on the frame built by `snap_encapsulate`
returns the payload length `p` and the payload bytes, and `snap_removePaddingBytes` with the
same flag on those bytes and that length returns `n` and leaves the `n` data bytes in
places `0 .. n-1`. -/
theorem snap_padding_roundtrip (cfg : snap_build_t) (hcfg : cfg.SNAP_SIZE_USER_HASH ≤ 4)
    (frame : snap_frame_t) (fields : snap_fields_t) (bytes : List Nat) (out : List Nat)
    (hdata : fields.data = .array bytes) (hsize : fields.dataSize = bytes.length)
    (h1 : 1 ≤ bytes.length) (hn : bytes.length ≤ 512) (hh : snap_header_ok fields.header)
    (hfit : enc_total cfg fields ≤ frame.maxSize) (hl : frame.maxSize ≤ frame.buffer.length)
    (hout : enc_payloadSize fields ≤ out.length)
    (hcase : bytes.length ≤ 8 ∨
      (if fields.paddingAfter then bytes[bytes.length - 1]? ≠ some 0
       else bytes[0]? ≠ some 0)) :
    enc_payloadSize fields = snap_getDataSizeFromNdb (snap_getNdbFromDataSize bytes.length) ∧
    ∃ B d,
      snap_getField cfg (snap_encapsulate cfg frame fields).2.1 (.bytes out) SNAP_FIELD_DATA =
        (Int.ofNat (enc_payloadSize fields), .bytes B) ∧
      (Int.ofNat (enc_payloadSize fields) % 65536).toNat = enc_payloadSize fields ∧
      snap_removePaddingBytes B (enc_payloadSize fields) fields.paddingAfter =
        some (bytes.length, d) ∧
      d.take bytes.length = bytes ∧
      d.length = out.length := by
  obtain ⟨hds, hge, hp, hps, hdi, hpad⟩ := enc_array_arith fields bytes hdata hsize hn hh
  have hpe : enc_payloadSize fields =
      snap_getDataSizeFromNdb (snap_getNdbFromDataSize bytes.length) := by
    rw [enc_payloadSize_eq, hds]
  have g := enc_getField_data cfg hcfg frame fields bytes out hdata hsize h1 hn hh
    (by omega) hout
  have e := snap_encapsulate_fit cfg frame fields hh hfit
  have hconv : (Int.ofNat (enc_payloadSize fields) % 65536).toNat = enc_payloadSize fields := by
    show ((enc_payloadSize fields : Int) % 65536).toNat = enc_payloadSize fields
    omega
  have hsum : bytes.length + (enc_payloadSize fields - bytes.length) =
      enc_payloadSize fields := by omega
  refine ⟨hpe, ?_⟩
  rw [e]
  by_cases hpa : fields.paddingAfter = true
  · rw [if_pos hpa] at g
    refine ⟨_, bytes ++ List.replicate (enc_payloadSize fields - bytes.length) 0 ++
      out.drop (enc_payloadSize fields), g, hconv, ?_, ?_, ?_⟩
    · rw [hpa]
      by_cases h8 : bytes.length ≤ 8
      · have hsm : enc_payloadSize fields = bytes.length := by
          rw [hpe]; exact snap_getDataSize_small _ h8
        unfold snap_removePaddingBytes
        rw [if_pos (by omega), hsm]
      · have hc : bytes[bytes.length - 1]? ≠ some 0 := by
          rcases hcase with c | c
          · exact absurd c h8
          · rw [if_pos hpa] at c; exact c
        have u := removePadding_undo_after bytes (out.drop (enc_payloadSize fields))
          (enc_payloadSize fields - bytes.length) (by omega) h1 hc
        rw [hsum] at u
        exact u
    · rw [List.append_assoc, List.take_left]
    · simp only [List.length_append, List.length_replicate, List.length_drop]
      omega
  · have hpf : fields.paddingAfter = false := by
      cases hq : fields.paddingAfter
      · rfl
      · exact absurd hq hpa
    rw [if_neg hpa] at g
    by_cases h8 : bytes.length ≤ 8
    · have hsm : enc_payloadSize fields = bytes.length := by
        rw [hpe]; exact snap_getDataSize_small _ h8
      refine ⟨_, List.replicate (enc_payloadSize fields - bytes.length) 0 ++ bytes ++
        out.drop (enc_payloadSize fields), g, hconv, ?_, ?_, ?_⟩
      · unfold snap_removePaddingBytes
        rw [if_pos (by omega), hsm]
      · have h0 : enc_payloadSize fields - bytes.length = 0 := by omega
        rw [h0, List.replicate_zero, List.nil_append, List.take_left]
      · simp only [List.length_append, List.length_replicate, List.length_drop]
        omega
    · have hc : bytes[0]? ≠ some 0 := by
        rcases hcase with c | c
        · exact absurd c h8
        · rw [if_neg hpa] at c; exact c
      obtain ⟨d, u1, u2, u3⟩ := removePadding_undo_before bytes
        (out.drop (enc_payloadSize fields)) (enc_payloadSize fields - bytes.length)
        (by omega) (by omega) h1 hc
      rw [hsum] at u1
      refine ⟨_, d, g, hconv, ?_, u2, ?_⟩
      · rw [hpf]; exact u1
      · rw [u3]
        simp only [List.length_append, List.length_replicate, List.length_drop]
        omega

set_option maxRecDepth 100000 in
theorem snap_padding_roundtrip_witness :
    ∃ B d,
      snap_getField snap_build_default
          (snap_encapsulate snap_build_default (init_frame (List.replicate 32 0) 32)
            { scenario_fields with
              data := .array [1, 2, 3, 4, 5, 6, 7, 8, 9], dataSize := 9,
              paddingAfter := false }).2.1
          (.bytes (List.replicate 16 0xFF)) SNAP_FIELD_DATA = (16, .bytes B) ∧
      snap_removePaddingBytes B 16 false = some (9, d) ∧
      d.take 9 = [1, 2, 3, 4, 5, 6, 7, 8, 9] :=
  match (snap_padding_roundtrip snap_build_default (by decide)
      (init_frame (List.replicate 32 0) 32)
      { scenario_fields with
        data := .array [1, 2, 3, 4, 5, 6, 7, 8, 9], dataSize := 9, paddingAfter := false }
      [1, 2, 3, 4, 5, 6, 7, 8, 9] (List.replicate 16 0xFF) rfl rfl (by decide) (by decide)
      (by decide) (by decide) (by decide) (by decide) (Or.inr (by decide))).2 with
  | ⟨B, d, a1, _, a3, a4, _⟩ => ⟨B, d, a1, a3, a4⟩

/-! ## Table-driven CRC variants -/

set_option maxRecDepth 1000000 in
theorem tableCrc8_entry : ∀ b, b < 256 → tableCrc8.getD b 0 = crc8_bit^[8] b := by
  decide!

set_option maxRecDepth 1000000 in
theorem tableCrc16_entry : ∀ b, b < 256 → tableCrc16.getD b 0 = crc16_bit^[8] (b * 256) := by
  decide!

set_option maxRecDepth 1000000 in
theorem tableCrc32_entry : ∀ b, b < 256 → tableCrc32.getD b 0 = crc32_bit^[8] b := by
  decide!

set_option maxRecDepth 1000000 in
theorem tableCrc_length :
    tableCrc8.length = 256 ∧ tableCrc16.length = 256 ∧ tableCrc32.length = 256 :=
  ⟨by decide!, by decide!, by decide!⟩

theorem iterate_xor (f : Nat → Nat) (hf : ∀ x y, f (x ^^^ y) = f x ^^^ f y) (n : Nat) :
    ∀ x y, f^[n] (x ^^^ y) = f^[n] x ^^^ f^[n] y := by
  induction n with
  | zero => intro x y; rfl
  | succ n ih =>
    intro x y
    rw [Function.iterate_succ_apply, Function.iterate_succ_apply, Function.iterate_succ_apply,
      hf, ih]

theorem foldl_agree (f g : Nat → Nat → Nat) (M : Nat) (hg : ∀ s b, g s b < M)
    (h : ∀ s b, s < M → b < 256 → f s b = g s b) (l : List Nat) (hl : ∀ b ∈ l, b < 256) :
    ∀ s0, s0 < M → l.foldl f s0 = l.foldl g s0 := by
  induction l with
  | nil => intro s0 _; rfl
  | cons b l ih =>
    intro s0 h0
    rw [List.foldl_cons, List.foldl_cons, h s0 b h0 (hl b (List.mem_cons_self _ _))]
    exact ih (fun c hc => hl c (List.mem_cons_of_mem _ hc)) _ (hg _ _)

theorem crc8_table_step (crc b : Nat) (hc : crc < 256) (hb : b < 256) :
    crc8_table_byte crc b = crc8_byte crc b := by
  have hx : (crc ^^^ b) % 256 = crc ^^^ b := xor_mod_lt crc b 256 ⟨8, by norm_num⟩ hc hb
  have hlt : crc ^^^ b < 256 := by rw [← hx]; exact Nat.mod_lt _ (by norm_num)
  unfold crc8_table_byte crc8_byte
  rw [hx, Nat.xor_comm b crc, tableCrc8_entry _ hlt]

theorem crc32_bit_testBit (x i : Nat) :
    (crc32_bit x).testBit i =
      (decide (i < 32) && (x.testBit (i + 1) ^^ (x.testBit 0 && (0xEDB88320 : Nat).testBit i))) := by
  have h32 : (4294967296 : Nat) = 2 ^ 32 := by norm_num
  unfold crc32_bit
  by_cases h : x &&& 1 ≠ 0
  · rw [if_pos h, h32, Nat.testBit_mod_two_pow, Nat.testBit_xor, Nat.testBit_shiftRight,
      (and_one_ne x).mp h, Nat.add_comm 1 i, Bool.true_and]
  · have h0 : x.testBit 0 = false := by
      cases hb : x.testBit 0
      · rfl
      · exact absurd ((and_one_ne x).mpr hb) h
    rw [if_neg h, h32, Nat.testBit_mod_two_pow, Nat.testBit_shiftRight, h0, Nat.add_comm 1 i,
      Bool.false_and, Bool.xor_false]

theorem crc32_bit_xor (x y : Nat) : crc32_bit (x ^^^ y) = crc32_bit x ^^^ crc32_bit y := by
  apply Nat.eq_of_testBit_eq
  intro i
  rw [Nat.testBit_xor, crc32_bit_testBit, crc32_bit_testBit, crc32_bit_testBit,
    Nat.testBit_xor, Nat.testBit_xor]
  generalize decide (i < 32) = p
  generalize x.testBit (i + 1) = a
  generalize y.testBit (i + 1) = b
  generalize x.testBit 0 = c
  generalize y.testBit 0 = d
  generalize Nat.testBit 0xEDB88320 i = r
  cases p <;> cases a <;> cases b <;> cases c <;> cases d <;> cases r <;> rfl

theorem crc16_bit_testBit (x i : Nat) :
    (crc16_bit x).testBit i =
      (decide (i < 16) &&
        ((decide (i ≥ 1) && x.testBit (i - 1)) ^^ (x.testBit 15 && (0x1021 : Nat).testBit i))) := by
  have h16 : (65536 : Nat) = 2 ^ 16 := by norm_num
  have hb := and_two_pow_ne x 15
  have e15 : (2 : Nat) ^ 15 = 0x8000 := by norm_num
  rw [e15] at hb
  unfold crc16_bit
  by_cases h : x &&& 0x8000 ≠ 0
  · rw [if_pos h, h16, Nat.testBit_mod_two_pow, Nat.testBit_xor, Nat.testBit_shiftLeft,
      hb.mp h, Bool.true_and]
  · have h0 : x.testBit 15 = false := by
      cases hq : x.testBit 15
      · rfl
      · exact absurd (hb.mpr hq) h
    rw [if_neg h, h16, Nat.testBit_mod_two_pow, Nat.testBit_shiftLeft, h0,
      Bool.false_and, Bool.xor_false]

theorem crc16_bit_xor (x y : Nat) : crc16_bit (x ^^^ y) = crc16_bit x ^^^ crc16_bit y := by
  apply Nat.eq_of_testBit_eq
  intro i
  rw [Nat.testBit_xor, crc16_bit_testBit, crc16_bit_testBit, crc16_bit_testBit,
    Nat.testBit_xor, Nat.testBit_xor]
  generalize decide (i < 16) = p
  generalize decide (i ≥ 1) = q
  generalize x.testBit (i - 1) = a
  generalize y.testBit (i - 1) = b
  generalize x.testBit 15 = c
  generalize y.testBit 15 = d
  generalize Nat.testBit 0x1021 i = r
  cases p <;> cases q <;> cases a <;> cases b <;> cases c <;> cases d <;> cases r <;> rfl

theorem crc32_bit_double (m : Nat) (hm : m < 2147483648) : crc32_bit (2 * m) = m := by
  unfold crc32_bit
  rw [Nat.and_one_is_mod, if_neg (by omega), Nat.shiftRight_eq_div_pow]
  omega

theorem crc32_iterate_shift (k : Nat) :
    ∀ h, h * 2 ^ k < 4294967296 → crc32_bit^[k] (h * 2 ^ k) = h := by
  induction k with
  | zero => intro h _; simp
  | succ k ih =>
    intro h hlt
    have e : h * 2 ^ (k + 1) = 2 * (h * 2 ^ k) := by rw [pow_succ]; ring
    rw [e] at hlt
    rw [Function.iterate_succ_apply, e, crc32_bit_double _ (by omega)]
    exact ih h (by omega)

theorem crc16_bit_small (m : Nat) (hm : m < 32768) : crc16_bit m = 2 * m := by
  unfold crc16_bit
  rw [if_neg (by rw [and_top16 m (by omega)]; omega), Nat.shiftLeft_eq]
  omega

theorem crc16_iterate_shift (k : Nat) :
    ∀ m, m * 2 ^ k < 65536 → crc16_bit^[k] m = m * 2 ^ k := by
  induction k with
  | zero => intro m _; simp
  | succ k ih =>
    intro m hlt
    have e : m * 2 ^ (k + 1) = (2 * m) * 2 ^ k := by rw [pow_succ]; ring
    have hpos : 0 < 2 ^ k := Nat.pow_pos (by norm_num)
    have hm : m < 32768 := by
      by_contra hc
      have : 32768 * 1 ≤ m * 2 ^ k := Nat.mul_le_mul (by omega) hpos
      rw [e] at hlt
      have : 2 * (m * 2 ^ k) < 65536 := by rw [← Nat.mul_assoc]; exact hlt
      omega
    rw [Function.iterate_succ_apply, crc16_bit_small m hm, e]
    exact ih (2 * m) (by rw [← e]; exact hlt)

theorem xor_low_split (crc b : Nat) (hb : b < 256) :
    crc ^^^ b = ((crc >>> 8) <<< 8) ^^^ ((crc ^^^ b) % 256) := by
  have e8 : (256 : Nat) = 2 ^ 8 := by norm_num
  apply Nat.eq_of_testBit_eq
  intro i
  rw [e8, Nat.testBit_xor, Nat.testBit_xor, Nat.testBit_shiftLeft, Nat.testBit_shiftRight,
    Nat.testBit_mod_two_pow, Nat.testBit_xor]
  by_cases hi : i < 8
  · have : ¬ i ≥ 8 := by omega
    simp [hi, this]
  · have hge : i ≥ 8 := by omega
    have hbi : b.testBit i = false := testBit_of_lt b 8 i (by norm_num; exact hb) hge
    have : 8 + (i - 8) = i := by omega
    simp [hi, hge, hbi, this]

theorem xor_high_split (crc b : Nat) :
    crc ^^^ (b <<< 8) = (((crc >>> 8) ^^^ b) <<< 8) ^^^ (crc % 256) := by
  have e8 : (256 : Nat) = 2 ^ 8 := by norm_num
  apply Nat.eq_of_testBit_eq
  intro i
  rw [e8, Nat.testBit_xor, Nat.testBit_xor, Nat.testBit_shiftLeft, Nat.testBit_shiftLeft,
    Nat.testBit_xor, Nat.testBit_shiftRight, Nat.testBit_mod_two_pow]
  by_cases hi : i < 8
  · have : ¬ i ≥ 8 := by omega
    simp [hi, this]
  · have hge : i ≥ 8 := by omega
    have : 8 + (i - 8) = i := by omega
    simp [hi, hge, this]

theorem crc32_table_step (crc b : Nat) (hc : crc < 4294967296) (hb : b < 256) :
    crc32_table_byte crc b = crc32_byte crc b := by
  have hx : (crc ^^^ b) % 4294967296 = crc ^^^ b :=
    xor_mod_lt crc b 4294967296 ⟨32, by norm_num⟩ hc (by omega)
  have hlow : (crc ^^^ b) % 256 < 256 := Nat.mod_lt _ (by norm_num)
  have hhigh : crc32_bit^[8] ((crc >>> 8) <<< 8) = crc >>> 8 := by
    have := crc32_iterate_shift 8 (crc >>> 8) (by
      rw [Nat.shiftRight_eq_div_pow]
      norm_num
      omega)
    rw [Nat.shiftLeft_eq]
    exact this
  unfold crc32_table_byte crc32_byte
  rw [hx, and_255, tableCrc32_entry _ hlow]
  conv_rhs => rw [xor_low_split crc b hb, iterate_xor crc32_bit crc32_bit_xor 8, hhigh]

theorem crc16_table_step (crc b : Nat) (hc : crc < 65536) (hb : b < 256) :
    crc16_table_byte crc b = crc16_byte crc b := by
  have hsh : b <<< 8 < 65536 := by rw [Nat.shiftLeft_eq]; omega
  have h1 : (b <<< 8) % 65536 = b <<< 8 := Nat.mod_eq_of_lt hsh
  have h2 : (crc ^^^ (b <<< 8)) % 65536 = crc ^^^ (b <<< 8) :=
    xor_mod_lt crc _ 65536 ⟨16, by norm_num⟩ hc hsh
  have hhi : crc >>> 8 < 256 := by rw [Nat.shiftRight_eq_div_pow]; norm_num; omega
  have hv : (crc >>> 8) ^^^ b < 256 := by
    have := Nat.xor_lt_two_pow (n := 8) (by norm_num; exact hhi) (by norm_num; exact hb)
    norm_num at this
    exact this
  have hlow : crc16_bit^[8] (crc % 256) = (crc <<< 8) % 65536 := by
    rw [crc16_iterate_shift 8 (crc % 256) (by norm_num; omega), Nat.shiftLeft_eq]
    norm_num
    omega
  unfold crc16_table_byte crc16_byte
  rw [h1, h2, tableCrc16_entry _ hv]
  conv_rhs => rw [xor_high_split crc b, iterate_xor crc16_bit crc16_bit_xor 8, hlow,
    Nat.shiftLeft_eq]
  norm_num
  exact Nat.xor_comm _ _

theorem table_getElem (t : List Nat) (ht : t.length = 256) (b : Nat) (hb : b < 256) :
    t[b]? = some (t.getD b 0) := by
  rw [List.getD_eq_getElem?_getD, List.getElem?_eq_getElem (by omega)]
  rfl

/-- C36: for every byte sequence (bytes below 256) and every `size`, the table-driven
variants of `snap_calculateCrc8`, `snap_calculateCrc16` and `snap_calculateCrc32` return the
same value as the bit-serial variants; each table has 256 entries and entry `b` equals the
bit-serial update of a zero register by the single byte `b`. -/
theorem snap_calculateCrc_table (data : List Nat) (size : Nat)
    (hdata : ∀ b ∈ data, b < 256) :
    snap_calculateCrc8_table data size = snap_calculateCrc8 data size ∧
    snap_calculateCrc16_table data size = snap_calculateCrc16 data size ∧
    snap_calculateCrc32_table data size = snap_calculateCrc32 data size ∧
    (tableCrc8.length = 256 ∧ tableCrc16.length = 256 ∧ tableCrc32.length = 256) ∧
    (∀ b, b < 256 → tableCrc8[b]? = some (crc8_byte 0 b)) ∧
    (∀ b, b < 256 → tableCrc16[b]? = some (crc16_byte 0 b)) ∧
    (∀ b, b < 256 → tableCrc32[b]? = some (crc32_byte 0 b)) := by
  have ht : ∀ b ∈ data.take size, b < 256 := fun b hb => hdata b (List.mem_of_mem_take hb)
  obtain ⟨l8, l16, l32⟩ := tableCrc_length
  refine ⟨?_, ?_, ?_, tableCrc_length, ?_, ?_, ?_⟩
  · exact foldl_agree crc8_table_byte crc8_byte 256 crc8_byte_lt crc8_table_step _ ht 0
      (by norm_num)
  · exact foldl_agree crc16_table_byte crc16_byte 65536 crc16_byte_lt crc16_table_step _ ht 0
      (by norm_num)
  · unfold snap_calculateCrc32_table snap_calculateCrc32
    rw [foldl_agree crc32_table_byte crc32_byte 4294967296 crc32_byte_lt crc32_table_step _ ht
      0xFFFFFFFF (by norm_num)]
  · intro b hb
    have e := crc8_table_step 0 b (by norm_num) hb
    unfold crc8_table_byte at e
    rw [Nat.xor_zero] at e
    rw [table_getElem _ l8 b hb, e]
  · intro b hb
    have e := crc16_table_step 0 b (by norm_num) hb
    unfold crc16_table_byte at e
    have z1 : (0 <<< 8) % 65536 = 0 := by decide
    have z2 : (0 : Nat) >>> 8 = 0 := by decide
    rw [z1, z2, Nat.zero_xor, Nat.zero_xor] at e
    rw [table_getElem _ l16 b hb, e]
  · intro b hb
    have e := crc32_table_step 0 b (by norm_num) hb
    unfold crc32_table_byte at e
    have z2 : (0 : Nat) >>> 8 = 0 := by decide
    rw [z2, Nat.zero_xor, Nat.zero_xor, and_255, Nat.mod_eq_of_lt hb] at e
    rw [table_getElem _ l32 b hb, e]

set_option maxRecDepth 100000 in
theorem snap_calculateCrc_table_witness :
    snap_calculateCrc8_table check_message 9 = snap_calculateCrc8 check_message 9 ∧
    snap_calculateCrc16_table check_message 9 = snap_calculateCrc16 check_message 9 ∧
    snap_calculateCrc32_table check_message 9 = snap_calculateCrc32 check_message 9 :=
  ⟨(snap_calculateCrc_table check_message 9 (by decide)).1,
    (snap_calculateCrc_table check_message 9 (by decide)).2.1,
    (snap_calculateCrc_table check_message 9 (by decide)).2.2.1⟩

end Snap
